import Mathlib

/-!
# Luggage weight calculator: fee / limit resolution

A shallow embedding of the calculation path of `src/tabMenu.js`
(`updateAddedObjects`, `calculateTotalWeight`, `getWeightLimits`, `displayResults`) and of
`updateAnalytics`, together with the properties of these functions.

Modelling conventions

* A JavaScript number is the rational (`ℚ`) that the binary64 value denotes; `NaN`, the
  infinities and the sign of zero are outside the model. The result of every `+`, `-`, `*`
  and `/` on numbers is rounded to binary64 (`binary64`, round to nearest, ties to even);
  `Math.ceil` is `Int.ceil`, `Math.abs` is `|·|`, comparisons are those of `ℚ`: these are
  exact on binary64 values. `toFixed(1)` works on the exact value of its argument.
* `Number`-to-string conversion inside template literals is a host function and is
  taken as the parameter `numToString`.
* A Firestore document is a record whose fields are either absent (`none`) or carry a
  value of the type the application writes there: numbers for limits and fees, strings
  for currencies, a boolean for `WeightSystem`.  Fields addressed through a computed
  name (`airlineData[...]`) are looked up by that name, literally.
* The page markup is not among the sources.  An element the code tests for (`if (!el)`)
  is a presence flag or an `Option`; an element the code dereferences without a test
  raises a `TypeError` when absent, modelled by `Except`.
* What a function does to the outside world is recorded as a list of `Effect`s, in
  program order.  Firestore reads succeed (no network failure).
* A timestamp string is the instant it denotes, in milliseconds; `Array.prototype.sort` is
  a stable sort.
-/

namespace Luggage

/-! ## JavaScript truthiness on the value types that occur -/

/-- JavaScript `x || 0` for a numeric field: an absent field and the number `0` are falsy. -/
def orZero : Option ℚ → ℚ
  | some q => if q = 0 then 0 else q
  | none => 0

/-- JavaScript `x || '$'` for a string field: an absent field and the empty string are falsy. -/
def orDollar : Option String → String
  | some s => if s = "" then "$" else s
  | none => "$"

/-- JavaScript `!x` for a string-or-null value: `null` and the empty string are falsy. -/
def strFalsy : Option String → Bool
  | some s => s = ""
  | none => true

/-- JavaScript `!x` for a boolean field that may be absent (`undefined` is falsy). -/
def boolFalsy : Option Bool → Bool
  | some b => !b
  | none => true

/-! ## Number arithmetic

Values beyond the finite range of binary64 (overflow to `Infinity`) are outside the model. -/

/-- Rounding of an exact value to the nearest integer, a tie going to the even one. -/
def roundHalfEven (q : ℚ) : ℤ :=
  let f := Int.floor q
  if q - f < 1 / 2 then f
  else if 1 / 2 < q - f then f + 1
  else if f % 2 = 0 then f else f + 1

/-- Rounding of an exact value to binary64 (round to nearest, ties to even): 53 significant
bits, the exponent not below -1022, so that the spacing never falls under `2 ^ (-1074)`. -/
def binary64 (x : ℚ) : ℚ :=
  if x = 0 then 0
  else
    let e : ℤ := max (Int.log 2 |x|) (-1022)
    let ulp : ℚ := 2 ^ (e - 52)
    roundHalfEven (x / ulp) * ulp

/-! ## Data -/

/-- A `.counter-group` element: its `data-*` attributes and the parsed counter text. -/
structure CounterGroup where
  objectId : String
  name : String
  /-- Value of `parseFloat(group.dataset.weight)`. -/
  weight : ℚ
  /-- Value of `parseInt(group.querySelector('.counter-value').textContent)`. -/
  count : ℤ

/-- An entry of the global `addedObjects` array. -/
structure AddedObject where
  id : String
  name : String
  weight : ℚ
  count : ℤ
deriving DecidableEq

/-- Data of a document of the `airlines` collection. -/
structure AirlineData where
  /-- Numeric fields, by field name (`DomEconomyLimit`, `WeightSystemIntFirstFee`, ...). -/
  num : String → Option ℚ
  currency : Option String
  InternationalCurrency : Option String
  /-- The id of the home country, `'none'` or absent; not read by the calculation. -/
  DomCountry : Option String := none
  /-- Whether the airline flies domestic routes; not read by the calculation. -/
  DomesticFlights : Option Bool := none

/-- Data of a document of the `countries` collection. -/
structure CountryData where
  WeightSystem : Option Bool

/-- The two Firestore collections read by the calculation. -/
structure Db where
  airlines : String → Option AirlineData
  countries : String → Option CountryData

/-- A custom dropdown: the `.selected` child with its `data-value` attribute and text. -/
structure Dropdown where
  value : Option String
  textContent : String

/-- The part of the page the calculation reads and writes. -/
structure Document where
  airlineDropdown : Option Dropdown
  classDropdown : Option Dropdown
  originDropdown : Option Dropdown
  destinationDropdown : Option Dropdown
  /-- Presence of `#calculate-results`. -/
  resultsContainer : Bool
  /-- Presence of `#calculation-result-box`. -/
  calculationResultBox : Bool
  /-- Presence of `#limit-result-box`. -/
  limitResultBox : Bool

/-- The global state variables of the session. -/
structure Globals where
  addedObjects : List AddedObject
  selectedAirline : Option String
  selectedClass : Option String
  selectedFlightType : Option String
  selectedTripType : Option String

/-- The arguments of a call `displayResults(totalWeight, weightLimit, ...)`. -/
structure DisplayArgs where
  totalWeight : ℚ
  weightLimit : ℚ
  limitPassed : Bool
  airline : String
  classType : String
  origin : String
  destination : String
  isDomestic : Bool
  hasPieceSystem : Bool
  airlineData : AirlineData

/-- The arguments of a call `logCalculationResult(totalWeight, limitPassed, ...)`. -/
structure LogArgs where
  totalWeight : ℚ
  limitPassed : Bool
  flightType : Option String
  tripType : Option String
  classType : String
  airline : String

/-- What `displayResults` leaves on the page; `none` is an element that was not written. -/
structure Rendered where
  /-- The `textContent` of `#calculation-result-box`. -/
  message : Option String
  /-- The `textContent` of `#limit-result-box`. -/
  feeMessage : Option String
  /-- The `style.display` of `#calculate-results`. -/
  display : Option String
  /-- The messages that the call wrote with `console.error`, in order. -/
  consoleErrors : List String := []
deriving DecidableEq

/-- Observable steps of the calculation, in program order. -/
inductive Effect where
  | showErrorBox (message : String)
  | hideErrorBox
  | consoleError (message : String)
  | getDoc (collection : String) (id : String)
  | displayResults (args : DisplayArgs)
  | logCalculationResult (args : LogArgs)

/-! ## `updateAddedObjects` -/

/-- The `forEach` body of `updateAddedObjects`: push the group when its count is positive. -/
def pushGroup (acc : List AddedObject) (group : CounterGroup) : List AddedObject :=
  if group.count > 0 then
    acc ++ [{ id := group.objectId, name := group.name, weight := group.weight,
              count := group.count }]
  else acc

/-- The function `updateAddedObjects`: rebuild `addedObjects` from the counters on the page. -/
def updateAddedObjects (counterGroups : List CounterGroup) (g : Globals) : Globals :=
  { g with addedObjects := counterGroups.foldl pushGroup [] }

/-! ## `calculateTotalWeight` and `getWeightLimits` -/

/-- The local `totalWeight` of `calculateTotalWeight`:
`addedObjects.reduce((sum, obj) => sum + (obj.weight * obj.count), 0)`, the product and the
sum of every step rounded to binary64. -/
def totalWeight (addedObjects : List AddedObject) : ℚ :=
  addedObjects.foldl (fun sum obj => binary64 (sum + binary64 (obj.weight * obj.count))) 0

/-- The local `flightTypePrefix`: `isDomestic ? 'Dom' : 'Int'`. -/
def flightTypePrefix (isDomestic : Bool) : String :=
  if isDomestic then "Dom" else "Int"

/-- The local `hasPieceSystem` of `getWeightLimits`. -/
def hasPieceSystem (originData destinationData : CountryData) : Bool :=
  let originWeightSystem := originData.WeightSystem
  let destinationWeightSystem := destinationData.WeightSystem
  let originUsesPiece := boolFalsy originWeightSystem
  let destinationUsesPiece := boolFalsy destinationWeightSystem
  originUsesPiece || destinationUsesPiece

/-- The local `weightLimit` of `getWeightLimits` after the class dispatch. -/
def weightLimit (airlineData : AirlineData) (classType : String) (isDomestic : Bool) : ℚ :=
  if classType = "economy" then
    orZero (airlineData.num (flightTypePrefix isDomestic ++ "EconomyLimit"))
  else if classType = "business" then
    orZero (airlineData.num (flightTypePrefix isDomestic ++ "BusinessLimit"))
  else if classType = "first" then
    orZero (airlineData.num (flightTypePrefix isDomestic ++ "FirstLimit"))
  else 0

/-- The message of the "not offered" error box. -/
def notOfferedMessage (airlineName classType : String) (isDomestic : Bool) : String :=
  let flightTypeText := if isDomestic then "domestic" else "international"
  airlineName ++ " does not offer " ++ classType ++ " class for " ++ flightTypeText ++
    " flights. Please select a different class or flight type."

/-! ## `displayResults` -/

/-- The digits of `n` tenths with the decimal point inserted (steps 11.b and 11.c of
`Number.prototype.toFixed` for one fraction digit). -/
def fixedDigits (n : ℕ) : String :=
  let m := toString n
  let m := if m.length ≤ 1 then "0" ++ m else m
  let k := m.length
  m.take (k - 1) ++ "." ++ m.drop (k - 1)

/-- The host function `Number.prototype.toFixed(1)` on an exact value: the nearest tenth,
the larger one on a tie, written with one decimal. -/
def toFixed1 (numToString : ℚ → String) (x : ℚ) : String :=
  let s := if x < 0 then "-" else ""
  let x := if x < 0 then -x else x
  if x ≥ 10 ^ 21 then s ++ numToString x
  else s ++ fixedDigits (Int.floor (x * 10 + 1 / 2)).toNat

/-- The local `message` of `displayResults` (text of the first result box). -/
def weightMessage (numToString : ℚ → String) (totalWeight weightLimit : ℚ)
    (limitPassed : Bool) : String :=
  let weightDifference := toFixed1 numToString |binary64 (totalWeight - weightLimit)|
  if limitPassed then
    "Your total weight is " ++ toFixed1 numToString totalWeight ++
      " kilograms. You exceed the airline policy by " ++ weightDifference ++ " kilograms."
  else
    "Your total weight is " ++ toFixed1 numToString totalWeight ++
      " kilograms. You are " ++ weightDifference ++
      " kilograms away from passing the airline policy."

/-- The local `pieceSystemFee` of `displayResults`; the prefix is fixed to `'Int'`. -/
def pieceSystemFee (airlineData : AirlineData) (classType : String) : ℚ :=
  let flightTypePrefix := "Int"
  if classType = "economy" then
    orZero (airlineData.num ("PieceSystem" ++ flightTypePrefix ++ "EconomyFee"))
  else if classType = "business" then
    orZero (airlineData.num ("PieceSystem" ++ flightTypePrefix ++ "BusinessFee"))
  else if classType = "first" then
    orZero (airlineData.num ("PieceSystem" ++ flightTypePrefix ++ "FirstFee"))
  else 0

/-- The local `weightSystemFee` of `displayResults`. -/
def weightSystemFee (airlineData : AirlineData) (classType : String) (isDomestic : Bool) : ℚ :=
  if classType = "economy" then
    orZero (airlineData.num ("WeightSystem" ++ flightTypePrefix isDomestic ++ "EconomyFee"))
  else if classType = "business" then
    orZero (airlineData.num ("WeightSystem" ++ flightTypePrefix isDomestic ++ "BusinessFee"))
  else if classType = "first" then
    orZero (airlineData.num ("WeightSystem" ++ flightTypePrefix isDomestic ++ "FirstFee"))
  else 0

/-- The local `currency` of the piece-system branch. -/
def pieceCurrency (airlineData : AirlineData) : String :=
  orDollar airlineData.InternationalCurrency

/-- The local `currency` of the weight-system branch. -/
def weightCurrency (airlineData : AirlineData) (isDomestic : Bool) : String :=
  if isDomestic then orDollar airlineData.currency
  else orDollar airlineData.InternationalCurrency

/-- The local `totalFee` of the weight-system branch:
`Math.ceil(totalWeight - weightLimit) * weightSystemFee`, the difference and the product
rounded to binary64. -/
def totalFee (totalWeight weightLimit weightSystemFee : ℚ) : ℚ :=
  let exceededWeight := binary64 (totalWeight - weightLimit)
  let roundedExceededWeight : ℤ := Int.ceil exceededWeight
  binary64 (roundedExceededWeight * weightSystemFee)

/-- The local `feeMessage` of `displayResults` (text of the second result box). -/
def feeMessage (numToString : ℚ → String) (a : DisplayArgs) : String :=
  if !a.limitPassed then
    "You do not pay a fine since you did not exceed any policies. Good job!"
  else if a.hasPieceSystem then
    let pieceSystemFee := pieceSystemFee a.airlineData a.classType
    let currency := pieceCurrency a.airlineData
    "According to the airline policy, you have to pay " ++ numToString pieceSystemFee ++
      currency ++ " for a piece of extra luggage for your excess weight."
  else
    let weightSystemFee := weightSystemFee a.airlineData a.classType a.isDomestic
    let currency := weightCurrency a.airlineData a.isDomestic
    let totalFee := totalFee a.totalWeight a.weightLimit weightSystemFee
    "According to the airline policy, you have to pay " ++ numToString weightSystemFee ++
      currency ++ " per kilogram. Which amounts to a total of " ++ numToString totalFee ++
      currency ++ "."

/-- The function `displayResults`.  `Except.error` is the `TypeError` raised when one of
the three dropdown name lookups hits a missing element; without `#calculate-results` the
function writes `console.error('Results container not found')` and returns. -/
def displayResults (numToString : ℚ → String) (document : Document) (a : DisplayArgs) :
    Except String Rendered :=
  if !document.resultsContainer then
    .ok { message := none, feeMessage := none, display := none,
          consoleErrors := ["Results container not found"] }
  else
    match document.airlineDropdown, document.originDropdown, document.destinationDropdown with
    | some _, some _, some _ =>
      .ok { message :=
              if document.calculationResultBox then
                some (weightMessage numToString a.totalWeight a.weightLimit a.limitPassed)
              else none
            feeMessage :=
              if document.limitResultBox then some (feeMessage numToString a) else none
            display := some "flex" }
    | _, _, _ => .error "TypeError"

/-- The part of `getWeightLimits` after the three documents were found. -/
def resolveLimits (numToString : ℚ → String) (document : Document) (g : Globals)
    (airlineData : AirlineData) (originData destinationData : CountryData)
    (airline classType origin destination : String) (totalWeight : ℚ) : List Effect :=
  let isDomestic : Bool := g.selectedFlightType = some "domestic"
  let hasPieceSystem := hasPieceSystem originData destinationData
  let weightLimit := weightLimit airlineData classType isDomestic
  if weightLimit = 0 then
    match document.airlineDropdown with
    | some d => [Effect.showErrorBox (notOfferedMessage d.textContent classType isDomestic)]
    | none => [Effect.consoleError "Error getting weight limits:"]
  else
    let limitPassed : Bool := totalWeight > weightLimit
    let args : DisplayArgs :=
      { totalWeight := totalWeight, weightLimit := weightLimit, limitPassed := limitPassed,
        airline := airline, classType := classType, origin := origin,
        destination := destination, isDomestic := isDomestic,
        hasPieceSystem := hasPieceSystem, airlineData := airlineData }
    match displayResults numToString document args with
    | .ok rendered =>
      Effect.displayResults args ::
        (rendered.consoleErrors.map Effect.consoleError ++
          [Effect.logCalculationResult
            { totalWeight := totalWeight, limitPassed := limitPassed,
              flightType := g.selectedFlightType, tripType := g.selectedTripType,
              classType := classType, airline := airline }])
    | .error _ => [Effect.displayResults args, Effect.consoleError "Error getting weight limits:"]

/-- The function `getWeightLimits`. -/
def getWeightLimits (numToString : ℚ → String) (document : Document) (db : Db) (g : Globals)
    (airline classType origin destination : String) (totalWeight : ℚ) : List Effect :=
  Effect.getDoc "airlines" airline ::
  match db.airlines airline with
  | none => [Effect.consoleError "Airline document not found"]
  | some airlineData =>
    Effect.getDoc "countries" origin ::
    match db.countries origin with
    | none => [Effect.consoleError "Origin country document not found"]
    | some originData =>
      Effect.getDoc "countries" destination ::
      match db.countries destination with
      | none => [Effect.consoleError "Destination country document not found"]
      | some destinationData =>
        resolveLimits numToString document g airlineData originData destinationData
          airline classType origin destination totalWeight

/-- The function `calculateTotalWeight`: the new globals and the effects of the call. -/
def calculateTotalWeight (numToString : ℚ → String) (document : Document) (db : Db)
    (g : Globals) : Globals × List Effect :=
  if g.addedObjects.length = 0 then
    (g, [Effect.showErrorBox "Please add at least one item before calculating."])
  else
    let totalWeight := totalWeight g.addedObjects
    match document.airlineDropdown, document.classDropdown, document.originDropdown,
        document.destinationDropdown with
    | some airlineDropdown, some classDropdown, some originDropdown,
        some destinationDropdown =>
      let g : Globals :=
        { g with selectedAirline := airlineDropdown.value, selectedClass := classDropdown.value }
      let selectedOrigin := originDropdown.value
      let selectedDestination := destinationDropdown.value
      if strFalsy g.selectedAirline || strFalsy g.selectedClass || strFalsy selectedOrigin ||
          strFalsy selectedDestination || strFalsy g.selectedFlightType ||
          strFalsy g.selectedTripType then
        (g, [Effect.showErrorBox
          "Please fill in information regarding flight and luggage before attempting to calculate."])
      else
        (g, Effect.hideErrorBox ::
          getWeightLimits numToString document db g (g.selectedAirline.getD "")
            (g.selectedClass.getD "") (selectedOrigin.getD "") (selectedDestination.getD "")
            totalWeight)
    | _, _, _, _ => (g, [Effect.consoleError "Required dropdowns not found"])

/-! ## Auxiliary definitions used to state the properties -/

/-- A page that carries every element the calculation addresses. -/
def fullPage (airline cls origin destination : Dropdown) : Document :=
  { airlineDropdown := some airline, classDropdown := some cls, originDropdown := some origin,
    destinationDropdown := some destination, resultsContainer := true,
    calculationResultBox := true, limitResultBox := true }

/-- The `addedObjects` entry pushed for a counter group. -/
def toAddedObject (group : CounterGroup) : AddedObject :=
  { id := group.objectId, name := group.name, weight := group.weight, count := group.count }

/-- A sample host rendering of numbers: integers in decimal, other values as a fraction. -/
def sampleNumToString (q : ℚ) : String :=
  if q.den = 1 then toString q.num else toString q.num ++ "/" ++ toString q.den

/-- A sample page: every element present, a complete selection in the four dropdowns. -/
def samplePage : Document :=
  fullPage ⟨some "thy", "THY"⟩ ⟨some "economy", "Economy"⟩ ⟨some "tr", "Turkey"⟩
    ⟨some "tr", "Turkey"⟩

/-- A sample database: every airline id has an economy domestic limit of 23 and a fee of 5
per kilogram beyond it, every country id is on the weight system. -/
def sampleDb : Db :=
  { airlines := fun _ =>
      some { num := fun k =>
               if k = "DomEconomyLimit" then some 23
               else if k = "WeightSystemDomEconomyFee" then some 5 else none,
             currency := some "TL", InternationalCurrency := some "EUR" },
    countries := fun _ => some ⟨some true⟩ }

/-- Sample globals: a domestic outbound trip, nothing added yet. -/
def sampleGlobals : Globals :=
  { addedObjects := [], selectedAirline := none, selectedClass := none,
    selectedFlightType := some "domestic", selectedTripType := some "outbound" }

/-- The local `exceededWeight` of the weight-system branch of `displayResults`:
`totalWeight - weightLimit`, rounded to binary64. -/
def exceededWeight (totalWeight weightLimit : ℚ) : ℚ :=
  binary64 (totalWeight - weightLimit)

/-- The local `roundedExceededWeight` of the weight-system branch:
`Math.ceil(exceededWeight)`. -/
def roundedExceededWeight (totalWeight weightLimit : ℚ) : ℤ :=
  Int.ceil (exceededWeight totalWeight weightLimit)

/-- The terminal states of a resolution. -/
inductive TerminalState where
  | notOffered
  | noViolation
  | violation
deriving DecidableEq

/-- The terminal state that a list of effects of `getWeightLimits` shows: three reads
followed by the error box, or by a display and a log, the display possibly reporting the
missing results container on the console; `none` for anything else. -/
def terminalState : List Effect → Option TerminalState
  | [.getDoc _ _, .getDoc _ _, .getDoc _ _, .showErrorBox _] => some .notOffered
  | [.getDoc _ _, .getDoc _ _, .getDoc _ _, .displayResults a, .logCalculationResult _] =>
    if a.limitPassed then some .violation else some .noViolation
  | [.getDoc _ _, .getDoc _ _, .getDoc _ _, .displayResults a,
      .consoleError "Results container not found", .logCalculationResult _] =>
    if a.limitPassed then some .violation else some .noViolation
  | _ => none

/-! ## The aggregation in exact arithmetic -/

/-- The sum of `weight * count` over a list of added objects in exact arithmetic, the
aggregation as the specification words it; `totalWeight` is what the code computes. -/
def exactTotal (addedObjects : List AddedObject) : ℚ :=
  (addedObjects.map (fun obj => obj.weight * (obj.count : ℚ))).sum

/-- No step of the `reduce` started at `sum` rounds: each product and each partial sum is
itself a binary64 value. -/
def exactSteps (sum : ℚ) : List AddedObject → Bool
  | [] => true
  | obj :: rest =>
    decide (binary64 (obj.weight * obj.count) = obj.weight * obj.count) &&
    decide (binary64 (sum + obj.weight * obj.count) = sum + obj.weight * obj.count) &&
    exactSteps (sum + obj.weight * obj.count) rest

/-! ## `updateAnalytics` -/

/-- An entry of the `itemsUsed` array of a calculation log. -/
structure ItemUsed where
  name : String
  count : ℤ
  weight : ℚ

/-- A document of the `calculationLogs` collection of a user, as written by
`logCalculationResult`. -/
structure CalculationLog where
  totalWeight : ℚ
  limitPassed : Bool
  flightType : Option String
  tripType : Option String
  classType : String
  airline : String
  origin : String
  destination : String
  system : String
  /-- The instant that `new Date(calculatedAt)` denotes, in milliseconds; `none` when the
  field is absent or empty. -/
  calculatedAt : Option ℤ
  itemsUsed : List ItemUsed := []

/-- The three analytics elements of the page: `#analytics-results`, `#average-weight-box`
and `#return-weight-box`. -/
structure AnalyticsView where
  analyticsResultsDisplay : String
  analyticsResultsClassName : String
  averageWeightBoxDisplay : String
  averageWeightBoxText : String
  returnWeightBoxDisplay : String
  returnWeightBoxText : String

/-- The value of `new Date(calculatedAt)` for a log that carries the field. -/
def timeOf (calculation : CalculationLog) : ℤ :=
  calculation.calculatedAt.getD 0

/-- The order that the comparator `(a, b) => new Date(b.calculatedAt) - new
Date(a.calculatedAt)` asks for: `a` may stand before `b` when `a` is not older than `b`. -/
def newestFirst (a b : CalculationLog) : Prop :=
  timeOf b ≤ timeOf a

instance : DecidableRel newestFirst :=
  fun a b => inferInstanceAs (Decidable (timeOf b ≤ timeOf a))

instance : IsTotal CalculationLog newestFirst :=
  ⟨fun a b => le_total (timeOf b) (timeOf a)⟩

instance : IsTrans CalculationLog newestFirst :=
  ⟨fun _ _ _ hab hbc => le_trans hbc hab⟩

/-- A string-or-null value inside a template literal. -/
def strOrNull : Option String → String
  | some s => s
  | none => "null"

/-- The number whose digits `x.toFixed(1)` writes: the nearest tenth, the larger one on a
tie; the number itself from `1e21` on, where `toFixed` writes all its digits. -/
def fixed1Value (x : ℚ) : ℚ :=
  let s : ℚ := if x < 0 then -1 else 1
  let x := if x < 0 then -x else x
  if x ≥ 10 ^ 21 then s * x
  else s * (((Int.floor (x * 10 + 1 / 2)).toNat : ℚ) / 10)

/-- The value of `parseFloat(x.toFixed(1))`: the binary64 value nearest to the number whose
digits `toFixed(1)` writes. -/
def parseFixed1 (x : ℚ) : ℚ :=
  binary64 (fixed1Value x)

/-- The average that `updateAnalytics` takes of a list of flights, newest first: the
`reduce` over `flights.slice(0, flightCount)` divided by
`flightCount = Math.min(flights.length, 10)`, every sum and the quotient rounded to
binary64. -/
def recentAverage (flights : List CalculationLog) : ℚ :=
  let flightCount := min flights.length 10
  let recentFlights := flights.take flightCount
  let totalWeight :=
    recentFlights.foldl (fun sum flight => binary64 (sum + flight.totalWeight)) 0
  binary64 (totalWeight / flightCount)

/-- The text of the first analytics row. -/
def averageWeightText (numToString : ℚ → String) (currentTripType : Option String)
    (relevantFlights : List CalculationLog) : String :=
  let flightCount := min relevantFlights.length 10
  let averageWeight := toFixed1 numToString (recentAverage relevantFlights)
  "According to your last " ++ numToString flightCount ++ " " ++ strOrNull currentTripType ++
    " flights, your average luggage weight is " ++ averageWeight ++ " kilograms."

/-- The text of the second analytics row. -/
def returnWeightText (numToString : ℚ → String)
    (outboundFlights inboundFlights : List CalculationLog) : String :=
  let outboundAvg := parseFixed1 (recentAverage outboundFlights)
  let inboundAvg := parseFixed1 (recentAverage inboundFlights)
  let difference := toFixed1 numToString |binary64 (inboundAvg - outboundAvg)|
  if inboundAvg > outboundAvg then
    "On average, you return with " ++ difference ++ " kilograms of extra weight from trips."
  else if outboundAvg > inboundAvg then
    "On average, you return with " ++ difference ++ " less kilograms from trips."
  else "On average, your outbound and inbound luggage weights are equal."

/-- The array `calculations` of `updateAnalytics`: the logs that carry `calculatedAt`,
sorted newest first (the sort is stable). -/
def sortedCalculations (calculationSnapshot : List CalculationLog) : List CalculationLog :=
  (calculationSnapshot.filter (fun data => data.calculatedAt.isSome)).insertionSort
    newestFirst

/-- The part of `updateAnalytics` that writes to the three elements, once the outbound and
inbound flights are known. -/
def showAnalytics (numToString : ℚ → String) (selectedTripType : Option String)
    (outboundFlights inboundFlights : List CalculationLog) (v : AnalyticsView) :
    AnalyticsView :=
  let currentTripType := selectedTripType
  let relevantFlights :=
    if currentTripType = some "outbound" then outboundFlights else inboundFlights
  let showFirstRow : Bool := relevantFlights.length ≥ 3
  let showSecondRow : Bool := outboundFlights.length ≥ 1 && inboundFlights.length ≥ 1
  if showFirstRow || showSecondRow then
    let v := { v with analyticsResultsDisplay := "flex" }
    let v :=
      if showFirstRow && showSecondRow then
        { v with analyticsResultsClassName := "double-row",
                 averageWeightBoxDisplay := "flex", returnWeightBoxDisplay := "flex" }
      else if showFirstRow then
        { v with analyticsResultsClassName := "single-row",
                 averageWeightBoxDisplay := "flex", returnWeightBoxDisplay := "none" }
      else
        { v with analyticsResultsClassName := "single-row",
                 averageWeightBoxDisplay := "none", returnWeightBoxDisplay := "flex" }
    let v :=
      if showFirstRow then
        { v with averageWeightBoxText :=
            averageWeightText numToString currentTripType relevantFlights }
      else v
    let v :=
      if showSecondRow then
        { v with returnWeightBoxText :=
            returnWeightText numToString outboundFlights inboundFlights }
      else v
    v
  else { v with analyticsResultsDisplay := "none" }

/-- The function `updateAnalytics`. `view` is `none` when one of the three elements is
missing; the result is the state of the elements after the call. -/
def updateAnalytics (numToString : ℚ → String) (loggedIn : Bool)
    (calculationSnapshot : List CalculationLog) (selectedTripType : Option String)
    (view : Option AnalyticsView) : Option AnalyticsView :=
  if !loggedIn then view
  else if calculationSnapshot.isEmpty then view
  else
    let calculations := sortedCalculations calculationSnapshot
    let outboundFlights :=
      calculations.filter (fun calculation => calculation.tripType = some "outbound")
    let inboundFlights :=
      calculations.filter (fun calculation => calculation.tripType = some "inbound")
    match view with
    | none => none
    | some v => some (showAnalytics numToString selectedTripType outboundFlights inboundFlights v)

/-- The logs of trip direction `d` that carry `calculatedAt`, in snapshot order. -/
def directionLogs (d : String) (calculationSnapshot : List CalculationLog) :
    List CalculationLog :=
  calculationSnapshot.filter (fun c => decide (c.tripType = some d) && c.calculatedAt.isSome)

/-- The arithmetic mean of the total weights of a list of logs. -/
def meanTotalWeight (logs : List CalculationLog) : ℚ :=
  (logs.map (fun c => c.totalWeight)).sum / logs.length

/-- No addition of the `reduce` of `updateAnalytics` started at `sum` rounds: each partial
sum is itself a binary64 value. -/
def exactSums (sum : ℚ) : List CalculationLog → Bool
  | [] => true
  | flight :: rest =>
    decide (binary64 (sum + flight.totalWeight) = sum + flight.totalWeight) &&
    exactSums (sum + flight.totalWeight) rest

/-- A sample log: only weight, trip direction and instant vary. -/
def sampleLog (totalWeight : ℚ) (tripType : String) (calculatedAt : ℤ) : CalculationLog :=
  { totalWeight := totalWeight, limitPassed := false, flightType := some "international",
    tripType := some tripType, classType := "economy", airline := "thy", origin := "Turkey",
    destination := "Germany", system := "weight", calculatedAt := some calculatedAt }

/-- Sample analytics elements, all hidden and empty. -/
def sampleView : AnalyticsView :=
  { analyticsResultsDisplay := "none", analyticsResultsClassName := "",
    averageWeightBoxDisplay := "none", averageWeightBoxText := "",
    returnWeightBoxDisplay := "none", returnWeightBoxText := "" }

/-- The arguments of the `displayResults` call among the effects of a resolution, if any. -/
def displayCall : List Effect → Option DisplayArgs
  | [] => none
  | Effect.displayResults args :: _ => some args
  | _ :: rest => displayCall rest

/-! ## `logCalculationResult` and `trackItemUsage` -/

/-- The system type that `logCalculationResult` derives from the two country lookups: a
missing record leaves the default `true`, a found record supplies its `WeightSystem` field. -/
def loggedSystemType (originDoc destinationDoc : Option CountryData) : String :=
  let originWeightSystem : Option Bool :=
    match originDoc with
    | some data => data.WeightSystem
    | none => some true
  let destinationWeightSystem : Option Bool :=
    match destinationDoc with
    | some data => data.WeightSystem
    | none => some true
  if boolFalsy originWeightSystem || boolFalsy destinationWeightSystem then "piece"
  else "weight"

/-- The document that `logCalculationResult` writes with `setDoc`; `none` when nothing is
written (no user logged in, or a dropdown or its value is missing, which ends in the
`catch`). `countryName` is the host string replacement that turns an id into a display name,
`now` the instant of the call. -/
def logCalculationResult (countryName : String → String) (document : Document) (db : Db)
    (g : Globals) (currentUser : Option String) (now : ℤ) (a : LogArgs) :
    Option CalculationLog :=
  match currentUser with
  | none => none
  | some _ =>
    match document.originDropdown, document.destinationDropdown with
    | some originDropdown, some destinationDropdown =>
      match originDropdown.value, destinationDropdown.value with
      | some selectedOrigin, some selectedDestination =>
        let systemType :=
          loggedSystemType (db.countries selectedOrigin) (db.countries selectedDestination)
        let originCountryName := countryName selectedOrigin
        let destinationCountryName := countryName selectedDestination
        some { totalWeight := a.totalWeight, limitPassed := a.limitPassed,
               flightType := a.flightType, tripType := a.tripType,
               classType := a.classType, airline := a.airline,
               origin := originCountryName, destination := destinationCountryName,
               system := systemType, calculatedAt := some now,
               itemsUsed := g.addedObjects.map
                 (fun obj => { name := obj.name, count := obj.count, weight := obj.weight }) }
      | _, _ => none
    | _, _ => none

/-! ## Counter arrows -/

/-- The two kinds of `.counter-arrow` that `createCounterGroup` writes. -/
inductive Arrow where
  | up
  | down
deriving DecidableEq

/-- The counter update of the click listener of `addCounterEventListeners`. -/
def clickArrow (arrow : Arrow) (group : CounterGroup) : CounterGroup :=
  let currentValue := group.count
  if arrow = Arrow.up then { group with count := currentValue + 1 }
  else if arrow = Arrow.down ∧ currentValue > 0 then { group with count := currentValue - 1 }
  else group

/-- The counter groups of the page after the arrow of the group at position `i` has
updated its own counter. -/
def clickAt (arrow : Arrow) : ℕ → List CounterGroup → List CounterGroup
  | _, [] => []
  | 0, group :: rest => clickArrow arrow group :: rest
  | i + 1, group :: rest => group :: clickAt arrow i rest

/-- A click on the arrow of the group at position `i`: the counter update followed by
`updateAddedObjects()`. -/
def clickCounterArrow (arrow : Arrow) (i : ℕ) (page : List CounterGroup × Globals) :
    List CounterGroup × Globals :=
  let counterGroups := clickAt arrow i page.1
  (counterGroups, updateAddedObjects counterGroups page.2)

/-- The page after a sequence of clicks. -/
def clickAll (clicks : List (Arrow × ℕ)) (page : List CounterGroup × Globals) :
    List CounterGroup × Globals :=
  clicks.foldl (fun page click => clickCounterArrow click.1 click.2 page) page

/-- A document of the `ItemsUsed` collection of a user: the fields `Times Used`,
`First Time Used` and `Last Time Used`. -/
structure ItemUsage where
  timesUsed : Option ℤ
  firstTimeUsed : Option String
  lastTimeUsed : Option String
deriving DecidableEq

/-- JavaScript `x || 0` for an integer field. -/
def intOrZero : Option ℤ → ℤ
  | some n => if n = 0 then 0 else n
  | none => 0

/-- The function `trackItemUsage`: the `ItemsUsed` collection of the current user after the
call; `now` is the time stamp taken in the call. -/
def trackItemUsage (currentUser : Option String) (now : String)
    (itemsUsed : String → Option ItemUsage) (itemName : String) (count : ℤ) :
    String → Option ItemUsage :=
  match currentUser with
  | none => itemsUsed
  | some _ =>
    match itemsUsed itemName with
    | some currentData =>
      let currentCount := intOrZero currentData.timesUsed
      fun name =>
        if name = itemName then
          some { currentData with timesUsed := some (currentCount + count),
                                  lastTimeUsed := some now }
        else itemsUsed name
    | none =>
      fun name =>
        if name = itemName then
          some { timesUsed := some count, firstTimeUsed := some now, lastTimeUsed := some now }
        else itemsUsed name

/-- The loop of `logCalculationResult` over `addedObjects` that calls `trackItemUsage` for
every object with a positive count; `clock k` is the time stamp of the call for the object
at position `k`. -/
def trackAddedObjects (currentUser : Option String) (clock : ℕ → String) :
    ℕ → List AddedObject → (String → Option ItemUsage) → String → Option ItemUsage
  | _, [], itemsUsed => itemsUsed
  | k, obj :: rest, itemsUsed =>
    if obj.count > 0 then
      trackAddedObjects currentUser clock (k + 1) rest
        (trackItemUsage currentUser (clock k) itemsUsed obj.name obj.count)
    else trackAddedObjects currentUser clock (k + 1) rest itemsUsed

/-- The sum of the positive counts of the added objects with a given name. -/
def countOfName (name : String) (addedObjects : List AddedObject) : ℤ :=
  ((addedObjects.filter (fun obj => decide (obj.name = name) && decide (0 < obj.count))).map
    (fun obj => obj.count)).sum

/-- The value of `Times Used` that `trackItemUsage` starts from for a name: the field of the
record, or 0 when there is no record or no field. -/
def timesOf (itemsUsed : String → Option ItemUsage) (name : String) : ℤ :=
  match itemsUsed name with
  | some currentData => intOrZero currentData.timesUsed
  | none => 0

/-! ## The history view: `updatePolicyViolations` -/

/-- Data of a document of a `calculationLogs` collection as read back by `getDocs`: every
field is the value of the type that `logCalculationResult` writes, or absent (`none`). -/
structure LogData where
  totalWeight : Option ℚ
  limitPassed : Option Bool
  flightType : Option String
  tripType : Option String
  classType : Option String
  airline : Option String
  origin : Option String
  destination : Option String
  system : Option String
  /-- The instant that `new Date(calculatedAt)` denotes, in milliseconds. -/
  calculatedAt : Option ℤ

/-- The data that `getDocs` returns for a document written by `logCalculationResult`. -/
def loggedData (log : CalculationLog) : LogData :=
  { totalWeight := some log.totalWeight, limitPassed := some log.limitPassed,
    flightType := log.flightType, tripType := log.tripType, classType := some log.classType,
    airline := some log.airline, origin := some log.origin,
    destination := some log.destination, system := some log.system,
    calculatedAt := log.calculatedAt }

/-- JavaScript `x || fallback` for a string field. -/
def orText (fallback : String) : Option String → String
  | some s => if s = "" then fallback else s
  | none => fallback

/-- An element of the array `violations` of `updatePolicyViolations`. -/
structure Violation where
  airline : String
  classType : String
  flightType : String
  system : String
  totalWeight : ℚ
  weightLimit : ℚ
  fee : ℚ
  currency : String
  calculatedAt : ℤ
  origin : String
  destination : String
  hasPieceSystem : Bool

/-- The object that `updatePolicyViolations` pushes for a log that passed the filter and
whose airline record was found; `now` is the value of `new Date()` for a log without
`calculatedAt`. -/
def recomputeViolation (airlineData : AirlineData) (now : ℤ) (data : LogData)
    (airline : String) (totalWeight : ℚ) : Violation :=
  let hasPieceSystem : Bool := data.system = some "piece"
  let isDomestic : Bool := data.flightType = some "domestic"
  let flightTypePrefix := if isDomestic then "Dom" else "Int"
  let weightLimit : ℚ :=
    if data.classType = some "economy" then
      orZero (airlineData.num (flightTypePrefix ++ "EconomyLimit"))
    else if data.classType = some "business" then
      orZero (airlineData.num (flightTypePrefix ++ "BusinessLimit"))
    else if data.classType = some "first" then
      orZero (airlineData.num (flightTypePrefix ++ "FirstLimit"))
    else 0
  let fee : ℚ :=
    if hasPieceSystem then
      if data.classType = some "economy" then
        orZero (airlineData.num "PieceSystemIntEconomyFee")
      else if data.classType = some "business" then
        orZero (airlineData.num "PieceSystemIntBusinessFee")
      else if data.classType = some "first" then
        orZero (airlineData.num "PieceSystemIntFirstFee")
      else 0
    else
      if data.classType = some "economy" then
        orZero (airlineData.num ("WeightSystem" ++ flightTypePrefix ++ "EconomyFee"))
      else if data.classType = some "business" then
        orZero (airlineData.num ("WeightSystem" ++ flightTypePrefix ++ "BusinessFee"))
      else if data.classType = some "first" then
        orZero (airlineData.num ("WeightSystem" ++ flightTypePrefix ++ "FirstFee"))
      else 0
  let currency : String :=
    if hasPieceSystem then orDollar airlineData.InternationalCurrency
    else if isDomestic then orDollar airlineData.currency
    else orDollar airlineData.InternationalCurrency
  { airline := airline, classType := orText "Unknown" data.classType,
    flightType := orText "Unknown" data.flightType, system := orText "weight" data.system,
    totalWeight := totalWeight, weightLimit := weightLimit, fee := fee, currency := currency,
    calculatedAt := data.calculatedAt.getD now, origin := orText "Unknown" data.origin,
    destination := orText "Unknown" data.destination, hasPieceSystem := hasPieceSystem }

/-- The body of the loop of `updatePolicyViolations` over the logs of the user: the violation
pushed for one log, if any. -/
def violationEntry (db : Db) (now : ℤ) (data : LogData) : Option Violation :=
  match data.totalWeight, data.airline with
  | some totalWeight, some airline =>
    if data.limitPassed = some true ∧ totalWeight ≠ 0 ∧ airline ≠ "" then
      match db.airlines airline with
      | none => none
      | some airlineData => some (recomputeViolation airlineData now data airline totalWeight)
    else none
  | _, _ => none

/-- The order of `violations.sort((a, b) => b.calculatedAt - a.calculatedAt)`. -/
def newestViolationFirst (a b : Violation) : Prop :=
  b.calculatedAt ≤ a.calculatedAt

instance : DecidableRel newestViolationFirst :=
  fun a b => inferInstanceAs (Decidable (b.calculatedAt ≤ a.calculatedAt))

/-- The array `recentViolations` of `updatePolicyViolations`: the violations of the logs of
the user, most recent first, at most 15. -/
def recentViolations (db : Db) (now : ℤ) (calculationLogs : List LogData) : List Violation :=
  let violations := calculationLogs.filterMap (violationEntry db now)
  (violations.insertionSort newestViolationFirst).take 15

/-- The local `totalFee` of the weight-system branch of a violation box:
`Math.ceil(violation.totalWeight - violation.weightLimit) * violation.fee`, the difference
and the product rounded to binary64. -/
def violationTotalFee (violation : Violation) : ℚ :=
  let exceededWeight := binary64 (violation.totalWeight - violation.weightLimit)
  let roundedExceededWeight : ℤ := Int.ceil exceededWeight
  binary64 (roundedExceededWeight * violation.fee)

/-- The texts `feeDisplay` and `Total Fee: ...` of a violation box; the second is `none` when
no total fee line is written. -/
def violationFeeDisplay (numToString : ℚ → String) (violation : Violation) :
    String × Option String :=
  if violation.system = "piece" then
    ("Fee: " ++ numToString violation.fee ++ violation.currency ++ " per piece", none)
  else
    let totalFee := violationTotalFee violation
    ("Fee: " ++ numToString violation.fee ++ violation.currency ++ " per kilogram",
     some ("Total Fee: " ++ numToString totalFee ++ violation.currency))

/-! ## The weight histogram: `updateWeightRangesAnalytics` -/

/-- The template literal that names a range: the index, a hyphen, the index plus one. -/
def rangeKey (i : ℤ) : String :=
  toString i ++ "-" ++ toString (i + 1)

/-- The object `weightRanges` after its initialisation: the keys `0-1`, ..., `49-50` and `50+`,
each with 0; `none` is a key the object does not have. -/
def initialWeightRanges : String → Option ℕ :=
  let weightRanges : String → Option ℕ :=
    (List.range 50).foldl
      (fun weightRanges (i : ℕ) => fun key =>
        if key = rangeKey (i : ℤ) then some 0 else weightRanges key)
      (fun _ => none)
  fun key => if key = "50+" then some 0 else weightRanges key

/-- The statement `weightRanges[key]++` on a key that the object has. -/
def incrementRange (weightRanges : String → Option ℕ) (rangeKey : String) :
    String → Option ℕ :=
  fun key => if key = rangeKey then (weightRanges rangeKey).map (fun n => n + 1)
    else weightRanges key

/-- The body of the `forEach` of `updateWeightRangesAnalytics` over the logs of a user. A
`totalWeight` that is absent is not of type `number`. -/
def countLog (weightRanges : String → Option ℕ) (logData : LogData) : String → Option ℕ :=
  match logData.totalWeight with
  | some totalWeight =>
    if totalWeight ≥ 0 then
      if totalWeight ≥ 50 then incrementRange weightRanges "50+"
      else
        let rangeIndex := Int.floor totalWeight
        let rangeKey := rangeKey rangeIndex
        if (weightRanges rangeKey).isSome then incrementRange weightRanges rangeKey
        else weightRanges
    else weightRanges
  | none => weightRanges

/-- The object `weightRanges` after the loop over all users and their logs. -/
def weightRangesOf (allUsers : List (List LogData)) : String → Option ℕ :=
  allUsers.foldl (fun weightRanges calculationLogs => calculationLogs.foldl countLog weightRanges)
    initialWeightRanges

/-- The rows written by `updateWeightRangesAnalytics`: the label and the count of each of the
50 ranges, then of the range `50+`. -/
def weightRangeRows (weightRanges : String → Option ℕ) : List (String × Option ℕ) :=
  (List.range 50).map
      (fun (i : ℕ) =>
        (toString i ++ "-" ++ toString (i + 1) ++ " kg", weightRanges (rangeKey (i : ℤ)))) ++
    [("50+ kg", weightRanges "50+")]

/-- The function `updateWeightRangesAnalytics` on a page that has the element: `none` is the
placeholder written when there is no user at all. -/
def updateWeightRangesAnalytics (allUsers : List (List LogData)) :
    Option (List (String × Option ℕ)) :=
  if allUsers.isEmpty then none else some (weightRangeRows (weightRangesOf allUsers))

/-- The 51 keys of `weightRanges`, in the order of the rows. -/
def bucketKeys : List String :=
  (List.range 50).map (fun (i : ℕ) => rangeKey (i : ℤ)) ++ ["50+"]

/-- The log carries a number `w` with `0 ≤ w < 50` and `floor w = i`. -/
def inBucket (i : ℤ) (logData : LogData) : Bool :=
  match logData.totalWeight with
  | some w => decide (0 ≤ w) && decide (w < 50) && decide (Int.floor w = i)
  | none => false

/-- The log carries a number `w` with `50 ≤ w`. -/
def inOverflow (logData : LogData) : Bool :=
  match logData.totalWeight with
  | some w => decide (50 ≤ w)
  | none => false

/-- The log carries a number `w` with `0 ≤ w`. -/
def isWeighed (logData : LogData) : Bool :=
  match logData.totalWeight with
  | some w => decide (0 ≤ w)
  | none => false

/-- The key of the range that `countLog` addresses for a log, if any. -/
def bucketKeyOf (logData : LogData) : Option String :=
  match logData.totalWeight with
  | some w => if 0 ≤ w then some (if 50 ≤ w then "50+" else rangeKey (Int.floor w)) else none
  | none => none

/-- A log read back with the given `totalWeight`; the other fields are those of a sample
international economy calculation. -/
def weightLog (totalWeight : Option ℚ) : LogData :=
  { totalWeight := totalWeight, limitPassed := some false, flightType := some "international",
    tripType := some "outbound", classType := some "economy", airline := some "thy",
    origin := some "Turkey", destination := some "Germany", system := some "weight",
    calculatedAt := some 0 }

/-! ## The violation ranking: `updatePolicyViolationsAnalytics` -/

/-- A value of the map `policyViolations`. -/
structure PolicyViolation where
  count : ℕ
  airline : String
  classType : String
  flightType : String
  totalWeight : ℚ
  weightLimit : ℚ
  system : String

/-- A JavaScript `Map` from strings to violations: its keys in insertion order and its
lookup (`none` for a key the map does not have). -/
structure ViolationMap where
  keys : List String
  get : String → Option PolicyViolation

/-- The template literal that builds the key of the map from three fields. -/
def policyKey (airline classType flightType : String) : String :=
  airline ++ "-" ++ classType ++ "-" ++ flightType

/-- The weight limit that `updatePolicyViolationsAnalytics` assigns from the airline record,
in the loop over the logs and again in the loop over the sorted violations: the field of the
class and flight type, or the value held before when the record is missing or the class is
none of the three. -/
def currentWeightLimit (db : Db) (airline classType flightType : String) (weightLimit : ℚ) :
    ℚ :=
  match db.airlines airline with
  | some airlineData =>
    let flightTypePrefix := if flightType = "domestic" then "Dom" else "Int"
    if classType = "economy" then
      orZero (airlineData.num (flightTypePrefix ++ "EconomyLimit"))
    else if classType = "business" then
      orZero (airlineData.num (flightTypePrefix ++ "BusinessLimit"))
    else if classType = "first" then
      orZero (airlineData.num (flightTypePrefix ++ "FirstLimit"))
    else weightLimit
  | none => weightLimit

/-- The body of the loop of `updatePolicyViolationsAnalytics` over the logs of a user. -/
def recordPolicyViolation (db : Db) (policyViolations : ViolationMap) (logData : LogData) :
    ViolationMap :=
  match logData.airline, logData.classType, logData.flightType with
  | some airline, some classType, some flightType =>
    if logData.limitPassed = some true ∧ airline ≠ "" ∧ classType ≠ "" ∧ flightType ≠ "" then
      let policyKey := policyKey airline classType flightType
      let policyViolations : ViolationMap :=
        if (policyViolations.get policyKey).isSome then policyViolations
        else
          { keys := policyViolations.keys ++ [policyKey],
            get := fun key =>
              if key = policyKey then
                some { count := 0, airline := airline, classType := classType,
                       flightType := flightType, totalWeight := orZero logData.totalWeight,
                       weightLimit := 0, system := orText "weight" logData.system }
              else policyViolations.get key }
      match policyViolations.get policyKey with
      | some violation =>
        let violation : PolicyViolation :=
          { violation with
            count := violation.count + 1,
            totalWeight := orZero logData.totalWeight,
            system := orText "weight" logData.system,
            weightLimit :=
              currentWeightLimit db airline classType flightType violation.weightLimit }
        { policyViolations with
          get := fun key => if key = policyKey then some violation else policyViolations.get key }
      | none => policyViolations
    else policyViolations
  | _, _, _ => policyViolations

/-- The map `policyViolations` after the loop over all users and their logs. -/
def policyViolationsOf (db : Db) (allUsers : List (List LogData)) : ViolationMap :=
  allUsers.foldl
    (fun policyViolations calculationLogs =>
      calculationLogs.foldl (recordPolicyViolation db) policyViolations)
    { keys := [], get := fun _ => none }

/-- The order of `.sort((a, b) => b.count - a.count)`. -/
def mostViolatedFirst (a b : PolicyViolation) : Prop :=
  b.count ≤ a.count

instance : DecidableRel mostViolatedFirst :=
  fun a b => inferInstanceAs (Decidable (b.count ≤ a.count))

instance : IsTotal PolicyViolation mostViolatedFirst :=
  ⟨fun a b => le_total b.count a.count⟩

instance : IsTrans PolicyViolation mostViolatedFirst :=
  ⟨fun _ _ _ hab hbc => le_trans hbc hab⟩

/-- The body of the loop over the sorted violations: a violation whose limit is still 0 gets
the limit of its airline record. -/
def refreshWeightLimit (db : Db) (violation : PolicyViolation) : PolicyViolation :=
  if violation.weightLimit = 0 then
    { violation with
      weightLimit :=
        currentWeightLimit db violation.airline violation.classType violation.flightType
          violation.weightLimit }
  else violation

/-- The array `sortedViolations` of `updatePolicyViolationsAnalytics` when the rows are
written: the values of the map in insertion order, sorted by count, limits refreshed. -/
def sortedViolations (db : Db) (allUsers : List (List LogData)) : List PolicyViolation :=
  let policyViolations := policyViolationsOf db allUsers
  let sortedViolations :=
    (policyViolations.keys.filterMap policyViolations.get).insertionSort mostViolatedFirst
  sortedViolations.map (refreshWeightLimit db)

/-- The texts of the limit and of the count of a row of the ranking. -/
def violationRowTexts (numToString : ℚ → String) (violation : PolicyViolation) :
    String × String :=
  ("Weight Limit: " ++ numToString violation.weightLimit ++ " kg",
   "Violated " ++ numToString violation.count ++ " time" ++
     (if violation.count ≠ 1 then "s" else "") ++ " across all users")

/-- The log passes the filter of `updatePolicyViolationsAnalytics`: `limitPassed` is `true`
and the three fields are truthy. -/
def isCounted (logData : LogData) : Bool :=
  decide (logData.limitPassed = some true) && !strFalsy logData.airline &&
    !strFalsy logData.classType && !strFalsy logData.flightType

/-- The fields `airline`, `classType` and `flightType` of a log that carries them. -/
def tripleOf (logData : LogData) : String × String × String :=
  (logData.airline.getD "", logData.classType.getD "", logData.flightType.getD "")

/-- The fields `airline`, `classType` and `flightType` of a violation. -/
def violationTriple (violation : PolicyViolation) : String × String × String :=
  (violation.airline, violation.classType, violation.flightType)

/-- The key under which a log that passes the filter is counted. -/
def keyOfLog (logData : LogData) : String :=
  policyKey (logData.airline.getD "") (logData.classType.getD "")
    (logData.flightType.getD "")

/-- The value that the map holds for a key after a counted log with this key was processed:
`old` is the value held before, if any. -/
def recordedViolation (db : Db) (old : Option PolicyViolation) (logData : LogData) :
    PolicyViolation :=
  { count := (match old with | some v => v.count | none => 0) + 1,
    airline := match old with | some v => v.airline | none => logData.airline.getD "",
    classType := match old with | some v => v.classType | none => logData.classType.getD "",
    flightType := match old with | some v => v.flightType | none => logData.flightType.getD "",
    totalWeight := orZero logData.totalWeight,
    weightLimit :=
      currentWeightLimit db (logData.airline.getD "") (logData.classType.getD "")
        (logData.flightType.getD "") (match old with | some v => v.weightLimit | none => 0),
    system := orText "weight" logData.system }

/-- The number of times a key is held as counted in a map. -/
def countOfKey (policyViolations : ViolationMap) (key : String) : ℕ :=
  match policyViolations.get key with
  | some violation => violation.count
  | none => 0

/-- A log of a violation with the given airline, class and flight type. -/
def violationLog (airline classType flightType : String) (totalWeight : ℚ) : LogData :=
  { totalWeight := some totalWeight, limitPassed := some true, flightType := some flightType,
    tripType := some "outbound", classType := some classType, airline := some airline,
    origin := some "Turkey", destination := some "Germany", system := some "weight",
    calculatedAt := some 0 }

/-! ## Flight-type options: the handlers of the selection form -/

/-- The part of the page and of the globals that the flight-type handlers read and write:
the `data-value` of the selected option of three dropdowns, the `data-value`s of the items
of the two country menus, the two flight-type radios, the locks of the country dropdowns and
the globals `selectedFlightType` and `currentAirlineDomCountry`. -/
structure FlightForm where
  airlineValue : Option String
  originValue : Option String
  destinationValue : Option String
  originMenu : List String
  destinationMenu : List String
  /-- Presence of both `#domestic` and `#international`. -/
  radiosPresent : Bool
  domesticDisabled : Bool
  internationalDisabled : Bool
  domesticChecked : Bool
  internationalChecked : Bool
  originLocked : Bool
  destinationLocked : Bool
  selectedFlightType : Option String
  currentAirlineDomCountry : Option String

/-- JavaScript `x || null` for a string field. -/
def orNull : Option String → Option String
  | some s => if s = "" then none else some s
  | none => none

/-- The function `handleAirlineSelection`, without the class dropdown. -/
def handleAirlineSelection (db : Db) (airlineId : String) (s : FlightForm) : FlightForm :=
  match db.airlines airlineId with
  | none => s
  | some airlineData =>
    let supportsDomestic : Bool := airlineData.DomesticFlights = some true
    let s := { s with currentAirlineDomCountry := orNull airlineData.DomCountry }
    if s.radiosPresent then
      if supportsDomestic then
        { s with domesticDisabled := false, internationalDisabled := false }
      else
        { s with domesticDisabled := true, internationalDisabled := false,
                 domesticChecked := false, internationalChecked := false,
                 selectedFlightType := none }
    else s

/-- The function `resetFlightTypeOptions`, without the class dropdown. -/
def resetFlightTypeOptions (s : FlightForm) : FlightForm :=
  let s :=
    if s.radiosPresent then
      { s with domesticDisabled := false, internationalDisabled := false,
               domesticChecked := false, internationalChecked := false,
               selectedFlightType := none }
    else s
  { s with currentAirlineDomCountry := none, originLocked := false,
           destinationLocked := false }

/-- The function `updateFlightTypeOptions`. -/
def updateFlightTypeOptions (db : Db) (s : FlightForm) : FlightForm :=
  match s.airlineValue with
  | none => resetFlightTypeOptions s
  | some selectedAirlineValue =>
    if selectedAirlineValue = "" then resetFlightTypeOptions s
    else
      match db.airlines selectedAirlineValue with
      | none => s
      | some airlineData =>
        let supportsDomestic : Bool := airlineData.DomesticFlights = some true
        let hasPieceSystem : Bool :=
          match s.originValue, s.destinationValue with
          | some selectedOrigin, some selectedDestination =>
            if selectedOrigin ≠ "" ∧ selectedDestination ≠ "" then
              match db.countries selectedOrigin, db.countries selectedDestination with
              | some originData, some destinationData =>
                let originUsesPiece := boolFalsy originData.WeightSystem
                let destinationUsesPiece := boolFalsy destinationData.WeightSystem
                originUsesPiece || destinationUsesPiece
              | _, _ => false
            else false
          | _, _ => false
        if s.radiosPresent then
          let shouldDisableDomestic := !supportsDomestic || hasPieceSystem
          if shouldDisableDomestic then
            { s with domesticDisabled := true, internationalDisabled := false,
                     domesticChecked := false, internationalChecked := false,
                     selectedFlightType := none }
          else { s with domesticDisabled := false, internationalDisabled := false }
        else s

/-- The function `setCountryDropdown` on the `data-value` of the selected option: the first
menu item whose value is one of the four spellings of the country id, if any. -/
def setCountryDropdown (menuItems : List String) (selected : Option String)
    (countryId : String) : Option String :=
  if menuItems.length = 0 then selected
  else
    let possibleIds :=
      [countryId, countryId.toLower, countryId.toUpper, countryId.toLower.capitalize]
    match menuItems.find? (fun item => possibleIds.contains item) with
    | some item => some item
    | none => selected

/-- The function `handleDomesticFlightSelection`. -/
def handleDomesticFlightSelection (s : FlightForm) : FlightForm :=
  match s.currentAirlineDomCountry with
  | some country =>
    if country ≠ "" ∧ country ≠ "none" ∧ s.selectedFlightType = some "domestic" then
      { s with originValue := setCountryDropdown s.originMenu s.originValue country,
               destinationValue :=
                 setCountryDropdown s.destinationMenu s.destinationValue country,
               originLocked := true, destinationLocked := true }
    else { s with originLocked := false, destinationLocked := false }
  | none => { s with originLocked := false, destinationLocked := false }

/-- The two flight-type radios. -/
inductive FlightRadio where
  | domestic
  | international
deriving DecidableEq

/-- The `id` of a flight-type radio. -/
def FlightRadio.id : FlightRadio → String
  | .domestic => "domestic"
  | .international => "international"

/-- A click on a flight-type radio: a disabled radio receives no click; otherwise the browser
checks the radio and unchecks the other one, then the listener of `initFlightTypeRadio` runs. -/
def clickFlightTypeRadio (radio : FlightRadio) (s : FlightForm) : FlightForm :=
  if !s.radiosPresent then s
  else
    let disabled :=
      match radio with
      | .domestic => s.domesticDisabled
      | .international => s.internationalDisabled
    if disabled then s
    else
      let s : FlightForm :=
        match radio with
        | .domestic => { s with domesticChecked := true, internationalChecked := false }
        | .international => { s with domesticChecked := false, internationalChecked := true }
      let s : FlightForm :=
        if s.selectedFlightType = some radio.id then
          match radio with
          | .domestic => { s with domesticChecked := false, selectedFlightType := none }
          | .international => { s with internationalChecked := false, selectedFlightType := none }
        else { s with selectedFlightType := some radio.id }
      handleDomesticFlightSelection s

/-- The actions of the user on the selection form. -/
inductive FormEvent where
  | selectAirline (value : String)
  | selectOrigin (value : String)
  | selectDestination (value : String)
  | clickRadio (radio : FlightRadio)

/-- The handler that an action runs: the option listener of `initAllDropdowns` followed by
`handleDropdownSelection`, or the radio listener. The asynchronous calls are run to
completion in the order of the source; a locked country dropdown does not open. -/
def handleEvent (db : Db) (s : FlightForm) : FormEvent → FlightForm
  | .selectAirline value =>
    let s := { s with airlineValue := some value }
    if value ≠ "" then updateFlightTypeOptions db (handleAirlineSelection db value s)
    else resetFlightTypeOptions s
  | .selectOrigin value =>
    if s.originLocked then s
    else updateFlightTypeOptions db { s with originValue := some value }
  | .selectDestination value =>
    if s.destinationLocked then s
    else updateFlightTypeOptions db { s with destinationValue := some value }
  | .clickRadio radio => clickFlightTypeRadio radio s

/-- The form when the page is loaded: nothing selected, both radios enabled and unchecked. -/
def initialForm (originMenu destinationMenu : List String) : FlightForm :=
  { airlineValue := none, originValue := none, destinationValue := none,
    originMenu := originMenu, destinationMenu := destinationMenu, radiosPresent := true,
    domesticDisabled := false, internationalDisabled := false, domesticChecked := false,
    internationalChecked := false, originLocked := false, destinationLocked := false,
    selectedFlightType := none, currentAirlineDomCountry := none }

/-- The form after a sequence of actions of the user. -/
def runEvents (db : Db) (events : List FormEvent) (s : FlightForm) : FlightForm :=
  events.foldl (handleEvent db) s

/-- The piece system is active for the selection of the form: an airline with a record and
two countries with records are selected, and one of the countries is not on the weight
system. -/
def pieceSystemActive (db : Db) (s : FlightForm) : Prop :=
  ∃ airline airlineData origin destination originData destinationData,
    s.airlineValue = some airline ∧ airline ≠ "" ∧ db.airlines airline = some airlineData ∧
    s.originValue = some origin ∧ origin ≠ "" ∧ db.countries origin = some originData ∧
    s.destinationValue = some destination ∧ destination ≠ "" ∧
    db.countries destination = some destinationData ∧
    hasPieceSystem originData destinationData = true

/-- A sample database for the form: the airline `thy` flies domestic routes and has no home
country assigned; the country `us` is on the piece system, every other one on the weight
system. -/
def formDb : Db :=
  { airlines := fun airline =>
      if airline = "thy" then
        some { num := fun _ => none, currency := some "TL", InternationalCurrency := some "EUR",
               DomesticFlights := some true }
      else none,
    countries := fun country =>
      if country = "us" then some ⟨some false⟩ else some ⟨some true⟩ }

/-- The automatic assignment of the home country `countryId` selects no country on the piece
system: every item of the menu under one of the four spellings that `setCountryDropdown`
tries has no record or a record on the weight system. -/
def assignsWeightSystem (db : Db) (menuItems : List String) (countryId : String) : Prop :=
  ∀ item ∈ menuItems,
    item ∈ [countryId, countryId.toLower, countryId.toUpper, countryId.toLower.capitalize] →
    ∀ data, db.countries item = some data → data.WeightSystem = some true

/-- The invariant of the selection form for the menus `originMenu` and `destinationMenu`: both
radios are present, the menus are the given ones, the home country held in
`currentAirlineDomCountry`, unless it is `none`, is one whose automatic assignment selects no
country on the piece system, and while the piece system is active the domestic radio is
disabled and the selected flight type is not `domestic`. -/
def formInvariant (db : Db) (originMenu destinationMenu : List String) (s : FlightForm) :
    Prop :=
  s.radiosPresent = true ∧ s.originMenu = originMenu ∧ s.destinationMenu = destinationMenu ∧
  (∀ country, s.currentAirlineDomCountry = some country → country ≠ "none" →
    assignsWeightSystem db originMenu country) ∧
  (pieceSystemActive db s →
    s.domesticDisabled = true ∧ s.selectedFlightType ≠ some "domestic")

/-- A sample database for the form with a home country: the airline `thy` flies domestic
routes and has the given home country; the country `us` is on the piece system, every other
one on the weight system. -/
def homeDb (homeCountry : String) : Db :=
  { airlines := fun airline =>
      if airline = "thy" then
        some { num := fun _ => none, currency := some "TL", InternationalCurrency := some "EUR",
               DomCountry := some homeCountry, DomesticFlights := some true }
      else none,
    countries := fun country =>
      if country = "us" then some ⟨some false⟩ else some ⟨some true⟩ }

/-! ## Auxiliary lemmas -/

theorem capitalize_economy : "economy".capitalize = "Economy" := by decide

theorem capitalize_business : "business".capitalize = "Business" := by decide

theorem capitalize_first : "first".capitalize = "First" := by decide

theorem economy_fee_field (s : String) : s ++ "Economy" ++ "Fee" = s ++ "EconomyFee" := by
  rw [String.append_assoc]; rfl

theorem business_fee_field (s : String) : s ++ "Business" ++ "Fee" = s ++ "BusinessFee" := by
  rw [String.append_assoc]; rfl

theorem first_fee_field (s : String) : s ++ "First" ++ "Fee" = s ++ "FirstFee" := by
  rw [String.append_assoc]; rfl

theorem economy_limit_field (s : String) :
    s ++ "Economy" ++ "Limit" = s ++ "EconomyLimit" := by
  rw [String.append_assoc]; rfl

theorem business_limit_field (s : String) :
    s ++ "Business" ++ "Limit" = s ++ "BusinessLimit" := by
  rw [String.append_assoc]; rfl

theorem first_limit_field (s : String) : s ++ "First" ++ "Limit" = s ++ "FirstLimit" := by
  rw [String.append_assoc]; rfl

theorem orZero_eq_zero_iff (v : Option ℚ) : orZero v = 0 ↔ v = none ∨ v = some 0 := by
  cases v with
  | none => simp [orZero]
  | some q => by_cases h : q = 0 <;> simp [orZero, h]

theorem orZero_some_of_ne (q : ℚ) (h : q ≠ 0) : orZero (some q) = q := by
  simp [orZero, h]

theorem hasPieceSystem_eq_false_iff (o d : CountryData) :
    hasPieceSystem o d = false ↔ o.WeightSystem = some true ∧ d.WeightSystem = some true := by
  rcases o with ⟨_ | _ | _⟩ <;> rcases d with ⟨_ | _ | _⟩ <;> simp [hasPieceSystem, boolFalsy]

theorem hasPieceSystem_eq_true_iff (o d : CountryData) :
    hasPieceSystem o d = true ↔
      (o.WeightSystem = some false ∨ o.WeightSystem = none) ∨
      (d.WeightSystem = some false ∨ d.WeightSystem = none) := by
  rcases o with ⟨_ | _ | _⟩ <;> rcases d with ⟨_ | _ | _⟩ <;> simp [hasPieceSystem, boolFalsy]

theorem foldl_pushGroup (counterGroups : List CounterGroup) (acc : List AddedObject) :
    counterGroups.foldl pushGroup acc =
      acc ++ (counterGroups.filter (fun c => decide (0 < c.count))).map toAddedObject := by
  induction counterGroups generalizing acc with
  | nil => simp
  | cons c cs ih =>
    rw [List.foldl_cons, ih]
    by_cases h : 0 < c.count
    · simp [pushGroup, h, toAddedObject]
    · simp [pushGroup, h]

theorem updateAddedObjects_addedObjects (counterGroups : List CounterGroup) (g : Globals) :
    (updateAddedObjects counterGroups g).addedObjects =
      (counterGroups.filter (fun c => decide (0 < c.count))).map toAddedObject := by
  simp [updateAddedObjects, foldl_pushGroup]

theorem strFalsy_eq_true_iff (x : Option String) :
    strFalsy x = true ↔ x = none ∨ x = some "" := by
  cases x <;> simp [strFalsy]

theorem toFixed1_zero (numToString : ℚ → String) : toFixed1 numToString 0 = "0.0" := by
  have h : Int.floor ((0 : ℚ) * 10 + 1 / 2) = 0 := by
    rw [Int.floor_eq_iff]; norm_num
  simp only [toFixed1, h]
  norm_num
  decide

theorem toFixed1_twenty_three (numToString : ℚ → String) :
    toFixed1 numToString 23 = "23.0" := by
  have h : Int.floor ((23 : ℚ) * 10 + 1 / 2) = 230 := by
    rw [Int.floor_eq_iff]; norm_num
  simp only [toFixed1, h]
  norm_num
  decide

theorem displayResults_fullPage (numToString : ℚ → String) (pa pc po pd : Dropdown)
    (a : DisplayArgs) :
    displayResults numToString (fullPage pa pc po pd) a =
      .ok { message := some (weightMessage numToString a.totalWeight a.weightLimit a.limitPassed)
            feeMessage := some (feeMessage numToString a)
            display := some "flex" } := by
  simp [displayResults, fullPage]

theorem getWeightLimits_found (numToString : ℚ → String) (document : Document) (db : Db)
    (g : Globals) (airline classType origin destination : String) (totalWeight : ℚ)
    (airlineData : AirlineData) (originData destinationData : CountryData)
    (hA : db.airlines airline = some airlineData)
    (hO : db.countries origin = some originData)
    (hD : db.countries destination = some destinationData) :
    getWeightLimits numToString document db g airline classType origin destination totalWeight =
      Effect.getDoc "airlines" airline :: Effect.getDoc "countries" origin ::
        Effect.getDoc "countries" destination ::
        resolveLimits numToString document g airlineData originData destinationData
          airline classType origin destination totalWeight := by
  simp [getWeightLimits, hA, hO, hD]

theorem totalFee_eq_units_mul (totalWeight weightLimit fee : ℚ) :
    totalFee totalWeight weightLimit fee =
      binary64 ((roundedExceededWeight totalWeight weightLimit : ℚ) * fee) := rfl

theorem toFixed1_of_floor (numToString : ℚ → String) (x : ℚ) (n : ℕ) (h0 : 0 ≤ x)
    (hlt : x < 10 ^ 21) (hn : Int.floor (x * 10 + 1 / 2) = (n : ℤ)) :
    toFixed1 numToString x = fixedDigits n := by
  have hneg : ¬ x < 0 := not_lt.mpr h0
  have hbig : ¬ x ≥ 10 ^ 21 := not_le.mpr hlt
  simp only [toFixed1, if_neg hneg, if_neg hbig, hn, Int.toNat_ofNat]
  simp

theorem toFixed1_nearest_tenth (numToString : ℚ → String) (x : ℚ) (h0 : 0 ≤ x)
    (hlt : x < 10 ^ 21) :
    ∃ n : ℕ, toFixed1 numToString x = fixedDigits n ∧ |(n : ℚ) / 10 - x| ≤ 1 / 20 := by
  have hfl : 0 ≤ Int.floor (x * 10 + 1 / 2) := Int.floor_nonneg.2 (by linarith)
  obtain ⟨n, hn⟩ := Int.eq_ofNat_of_zero_le hfl
  refine ⟨n, toFixed1_of_floor numToString x n h0 hlt hn, ?_⟩
  have h1 : ((n : ℤ) : ℚ) ≤ x * 10 + 1 / 2 := by rw [← hn]; exact Int.floor_le _
  have h2 : x * 10 + 1 / 2 < ((n : ℤ) : ℚ) + 1 := by rw [← hn]; exact Int.lt_floor_add_one _
  have h1' : (n : ℚ) ≤ x * 10 + 1 / 2 := by exact_mod_cast h1
  have h2' : x * 10 + 1 / 2 < (n : ℚ) + 1 := by exact_mod_cast h2
  rw [abs_le]
  constructor <;> linarith

theorem roundHalfEven_of_lt (q : ℚ) (n : ℤ) (h₁ : (n : ℚ) - 1 / 2 < q)
    (h₂ : q < (n : ℚ) + 1 / 2) : roundHalfEven q = n := by
  have hf₁ : ((Int.floor q : ℤ) : ℚ) ≤ q := Int.floor_le q
  have hf₂ : q < ((Int.floor q : ℤ) : ℚ) + 1 := Int.lt_floor_add_one q
  unfold roundHalfEven
  by_cases hlt : q - ((Int.floor q : ℤ) : ℚ) < 1 / 2
  · simp only [if_pos hlt]
    have h3 : ((n : ℤ) : ℚ) < ((Int.floor q : ℤ) : ℚ) + 1 := by linarith
    have h4 : ((Int.floor q : ℤ) : ℚ) < (n : ℚ) + 1 := by linarith
    have h3' : n < Int.floor q + 1 := by exact_mod_cast h3
    have h4' : Int.floor q < n + 1 := by exact_mod_cast h4
    omega
  · have hgt : 1 / 2 < q - ((Int.floor q : ℤ) : ℚ) := by
      rcases lt_or_eq_of_le (not_lt.mp hlt) with h | h
      · exact h
      · exfalso
        have h5 : ((Int.floor q : ℤ) : ℚ) < (n : ℚ) := by linarith
        have h6 : (n : ℚ) < ((Int.floor q : ℤ) : ℚ) + 1 := by linarith
        have h5' : Int.floor q < n := by exact_mod_cast h5
        have h6' : n < Int.floor q + 1 := by exact_mod_cast h6
        omega
    simp only [if_neg hlt, if_pos hgt]
    have h3 : ((Int.floor q : ℤ) : ℚ) < (n : ℚ) := by linarith
    have h4 : (n : ℚ) < ((Int.floor q : ℤ) : ℚ) + 2 := by linarith
    have h3' : Int.floor q < n := by exact_mod_cast h3
    have h4' : n < Int.floor q + 2 := by exact_mod_cast h4
    omega

theorem roundHalfEven_of_tie (q : ℚ) (n : ℤ) (heven : n % 2 = 0)
    (hq : q = (n : ℚ) + 1 / 2 ∨ q = (n : ℚ) - 1 / 2) : roundHalfEven q = n := by
  unfold roundHalfEven
  rcases hq with hq | hq
  · have hfl : Int.floor q = n := by
      rw [Int.floor_eq_iff, hq]
      constructor <;> linarith
    have h1 : ¬ q - ((n : ℤ) : ℚ) < 1 / 2 := by rw [hq]; norm_num
    have h2 : ¬ 1 / 2 < q - ((n : ℤ) : ℚ) := by rw [hq]; norm_num
    simp only [hfl, if_neg h1, if_neg h2, if_pos heven]
  · have hfl : Int.floor q = n - 1 := by
      rw [Int.floor_eq_iff, hq]
      push_cast
      constructor <;> linarith
    have h1 : ¬ q - ((n - 1 : ℤ) : ℚ) < 1 / 2 := by rw [hq]; push_cast; norm_num
    have h2 : ¬ 1 / 2 < q - ((n - 1 : ℤ) : ℚ) := by rw [hq]; push_cast; norm_num
    have hodd : ¬ (n - 1) % 2 = 0 := by omega
    simp only [hfl, if_neg h1, if_neg h2, if_neg hodd]
    omega

theorem binary64_of_round (x : ℚ) (e n : ℤ) (hx : 0 < x) (he : -1022 ≤ e)
    (hlo : (2 : ℚ) ^ e ≤ x) (hhi : x < (2 : ℚ) ^ (e + 1))
    (hn : roundHalfEven (x / 2 ^ (e - 52)) = n) :
    binary64 x = (n : ℚ) * 2 ^ (e - 52) := by
  have hlog : Int.log 2 |x| = e := by
    rw [abs_of_pos hx]
    apply le_antisymm
    · have h := (Int.lt_zpow_iff_log_lt (b := 2) (by norm_num) hx).1
        (show x < ((2 : ℕ) : ℚ) ^ (e + 1) by exact_mod_cast hhi)
      omega
    · exact (Int.zpow_le_iff_le_log (b := 2) (by norm_num) hx).1
        (show ((2 : ℕ) : ℚ) ^ e ≤ x by exact_mod_cast hlo)
  have hne : x ≠ 0 := ne_of_gt hx
  simp only [binary64, if_neg hne, hlog, max_eq_left he, hn]

theorem binary64_zero : binary64 0 = 0 := by simp [binary64]

theorem binary64_eval_lt (x : ℚ) (e n : ℤ) (hx : 0 < x) (he : -1022 ≤ e)
    (hlo : (2 : ℚ) ^ e ≤ x) (hhi : x < (2 : ℚ) ^ (e + 1))
    (h₁ : (n : ℚ) - 1 / 2 < x / 2 ^ (e - 52)) (h₂ : x / 2 ^ (e - 52) < (n : ℚ) + 1 / 2) :
    binary64 x = (n : ℚ) * 2 ^ (e - 52) :=
  binary64_of_round x e n hx he hlo hhi (roundHalfEven_of_lt _ n h₁ h₂)

theorem binary64_eval_tie (x : ℚ) (e n : ℤ) (hx : 0 < x) (he : -1022 ≤ e)
    (hlo : (2 : ℚ) ^ e ≤ x) (hhi : x < (2 : ℚ) ^ (e + 1)) (heven : n % 2 = 0)
    (hq : x / 2 ^ (e - 52) = (n : ℚ) + 1 / 2 ∨ x / 2 ^ (e - 52) = (n : ℚ) - 1 / 2) :
    binary64 x = (n : ℚ) * 2 ^ (e - 52) :=
  binary64_of_round x e n hx he hlo hhi (roundHalfEven_of_tie _ n heven hq)

theorem roundHalfEven_spec (q : ℚ) :
    (((roundHalfEven q : ℤ) : ℚ) - 1 / 2 < q ∧ q < ((roundHalfEven q : ℤ) : ℚ) + 1 / 2) ∨
    (roundHalfEven q % 2 = 0 ∧
      (q = ((roundHalfEven q : ℤ) : ℚ) + 1 / 2 ∨ q = ((roundHalfEven q : ℤ) : ℚ) - 1 / 2)) := by
  have hf₁ : ((Int.floor q : ℤ) : ℚ) ≤ q := Int.floor_le q
  have hf₂ : q < ((Int.floor q : ℤ) : ℚ) + 1 := Int.lt_floor_add_one q
  unfold roundHalfEven
  by_cases hlt : q - ((Int.floor q : ℤ) : ℚ) < 1 / 2
  · simp only [if_pos hlt]
    left
    constructor <;> linarith
  · by_cases hgt : 1 / 2 < q - ((Int.floor q : ℤ) : ℚ)
    · simp only [if_neg hlt, if_pos hgt]
      left
      push_cast
      constructor <;> linarith
    · have heq : q - ((Int.floor q : ℤ) : ℚ) = 1 / 2 :=
        le_antisymm (not_lt.mp hgt) (not_lt.mp hlt)
      by_cases hev : Int.floor q % 2 = 0
      · simp only [if_neg hlt, if_neg hgt, if_pos hev]
        right
        exact ⟨hev, Or.inl (by linarith)⟩
      · simp only [if_neg hlt, if_neg hgt, if_neg hev]
        right
        refine ⟨by omega, Or.inr ?_⟩
        push_cast
        linarith

theorem roundHalfEven_le_add_half (q : ℚ) : q ≤ ((roundHalfEven q : ℤ) : ℚ) + 1 / 2 := by
  rcases roundHalfEven_spec q with ⟨_, h⟩ | ⟨_, h | h⟩ <;> linarith

theorem roundHalfEven_sub_half_le (q : ℚ) : ((roundHalfEven q : ℤ) : ℚ) - 1 / 2 ≤ q := by
  rcases roundHalfEven_spec q with ⟨h, _⟩ | ⟨_, h | h⟩ <;> linarith

theorem roundHalfEven_neg (q : ℚ) : roundHalfEven (-q) = -roundHalfEven q := by
  rcases roundHalfEven_spec q with ⟨h₁, h₂⟩ | ⟨hev, h⟩
  · apply roundHalfEven_of_lt
    · push_cast; linarith
    · push_cast; linarith
  · apply roundHalfEven_of_tie _ _ (by omega)
    rcases h with h | h
    · right; push_cast; linarith
    · left; push_cast; linarith

theorem roundHalfEven_mono {p q : ℚ} (h : p ≤ q) : roundHalfEven p ≤ roundHalfEven q := by
  by_contra hlt
  have hlt' : roundHalfEven q + 1 ≤ roundHalfEven p := by omega
  have hc : ((roundHalfEven q : ℤ) : ℚ) + 1 ≤ ((roundHalfEven p : ℤ) : ℚ) := by exact_mod_cast hlt'
  have h1 := roundHalfEven_sub_half_le p
  have h2 := roundHalfEven_le_add_half q
  have hpq : p = q := le_antisymm h (by linarith)
  rw [hpq] at hlt
  exact hlt le_rfl

theorem roundHalfEven_intCast (n : ℤ) : roundHalfEven (n : ℚ) = n := by
  apply roundHalfEven_of_lt <;> linarith

theorem binary64_neg (x : ℚ) : binary64 (-x) = -binary64 x := by
  by_cases hx : x = 0
  · simp [hx, binary64]
  · have hnx : -x ≠ 0 := neg_ne_zero.mpr hx
    simp only [binary64, if_neg hx, if_neg hnx, abs_neg, neg_div, roundHalfEven_neg]
    push_cast
    ring

theorem ulp_pos (e : ℤ) : (0 : ℚ) < 2 ^ e := by positivity

theorem binary64_nonneg {x : ℚ} (hx : 0 ≤ x) : 0 ≤ binary64 x := by
  by_cases h0 : x = 0
  · simp [h0, binary64]
  · simp only [binary64, if_neg h0]
    apply mul_nonneg _ (le_of_lt (ulp_pos _))
    have h : roundHalfEven 0 ≤ roundHalfEven (x / 2 ^ (max (Int.log 2 |x|) (-1022) - 52)) :=
      roundHalfEven_mono (div_nonneg hx (le_of_lt (ulp_pos _)))
    have h0 : roundHalfEven 0 = 0 := by simpa using roundHalfEven_intCast 0
    rw [h0] at h
    exact_mod_cast h

theorem binary64_abs (x : ℚ) : binary64 |x| = |binary64 x| := by
  rcases le_total 0 x with h | h
  · rw [abs_of_nonneg h, abs_of_nonneg (binary64_nonneg h)]
  · have h' : 0 ≤ -x := by linarith
    have hb : binary64 x ≤ 0 := by
      have := binary64_nonneg h'
      rw [binary64_neg] at this
      linarith
    rw [abs_of_nonpos h, abs_of_nonpos hb, binary64_neg]

theorem two_zpow_split (e k : ℤ) : (2 : ℚ) ^ e = 2 ^ k * 2 ^ (e - k) := by
  rw [← zpow_add₀ (by norm_num : (2 : ℚ) ≠ 0)]
  congr 1
  ring

theorem binary64_pos_eq {x : ℚ} (hx : 0 < x) :
    binary64 x =
      (roundHalfEven (x / 2 ^ (max (Int.log 2 x) (-1022) - 52)) : ℚ) *
        2 ^ (max (Int.log 2 x) (-1022) - 52) := by
  simp only [binary64, if_neg (ne_of_gt hx), abs_of_pos hx]

theorem lt_two_zpow_exponent {x : ℚ} (_hx : 0 < x) :
    x < 2 ^ (max (Int.log 2 x) (-1022) + 1) := by
  have h1 : x < ((2 : ℕ) : ℚ) ^ (Int.log 2 x + 1) := Int.lt_zpow_succ_log_self (by norm_num) x
  have h2 : ((2 : ℕ) : ℚ) ^ (Int.log 2 x + 1) ≤ ((2 : ℕ) : ℚ) ^ (max (Int.log 2 x) (-1022) + 1) :=
    zpow_le_zpow_right₀ (by norm_num) (by have := le_max_left (Int.log 2 x) (-1022); omega)
  have h3 := lt_of_lt_of_le h1 h2
  exact_mod_cast h3

theorem binary64_le_two_zpow {x : ℚ} (hx : 0 < x) :
    binary64 x ≤ 2 ^ (max (Int.log 2 x) (-1022) + 1) := by
  rw [binary64_pos_eq hx, two_zpow_split (max (Int.log 2 x) (-1022) + 1) 53]
  have he : max (Int.log 2 x) (-1022) + 1 - 53 = max (Int.log 2 x) (-1022) - 52 := by ring
  rw [he]
  apply mul_le_mul_of_nonneg_right _ (le_of_lt (ulp_pos _))
  have hq : x / 2 ^ (max (Int.log 2 x) (-1022) - 52) ≤ (((2 : ℤ) ^ 53 : ℤ) : ℚ) := by
    rw [div_le_iff₀ (ulp_pos _)]
    have h := lt_two_zpow_exponent hx
    rw [two_zpow_split (max (Int.log 2 x) (-1022) + 1) 53, he] at h
    push_cast
    have h53 : (2 : ℚ) ^ (53 : ℤ) = 2 ^ (53 : ℕ) := by norm_num
    rw [h53] at h
    exact le_of_lt h
  have hr := roundHalfEven_mono hq
  rw [roundHalfEven_intCast] at hr
  have hr' : ((roundHalfEven (x / 2 ^ (max (Int.log 2 x) (-1022) - 52)) : ℤ) : ℚ) ≤
      (((2 : ℤ) ^ 53 : ℤ) : ℚ) := by exact_mod_cast hr
  have h53 : (2 : ℚ) ^ (53 : ℤ) = (((2 : ℤ) ^ 53 : ℤ) : ℚ) := by norm_num
  rw [h53]
  exact hr'

theorem two_zpow_le_binary64 {x : ℚ} (hx : 0 < x) (hlog : -1022 ≤ Int.log 2 x) :
    2 ^ Int.log 2 x ≤ binary64 x := by
  rw [binary64_pos_eq hx, max_eq_left hlog]
  nth_rewrite 1 [two_zpow_split (Int.log 2 x) 52]
  apply mul_le_mul_of_nonneg_right _ (le_of_lt (ulp_pos _))
  have hq : (((2 : ℤ) ^ 52 : ℤ) : ℚ) ≤ x / 2 ^ (Int.log 2 x - 52) := by
    rw [le_div_iff₀ (ulp_pos _)]
    have h : ((2 : ℕ) : ℚ) ^ Int.log 2 x ≤ x := Int.zpow_log_le_self (by norm_num) hx
    have h' : (2 : ℚ) ^ Int.log 2 x ≤ x := by exact_mod_cast h
    rw [two_zpow_split (Int.log 2 x) 52] at h'
    have h52 : (2 : ℚ) ^ (52 : ℤ) = 2 ^ (52 : ℕ) := by norm_num
    rw [h52] at h'
    push_cast
    exact h'
  have hr := roundHalfEven_mono hq
  rw [roundHalfEven_intCast] at hr
  have hr' : (((2 : ℤ) ^ 52 : ℤ) : ℚ) ≤
      ((roundHalfEven (x / 2 ^ (Int.log 2 x - 52)) : ℤ) : ℚ) := by exact_mod_cast hr
  have h52 : (2 : ℚ) ^ (52 : ℤ) = (((2 : ℤ) ^ 52 : ℤ) : ℚ) := by norm_num
  rw [h52]
  exact hr'

theorem binary64_mono_of_pos {x y : ℚ} (hx : 0 < x) (h : x ≤ y) : binary64 x ≤ binary64 y := by
  have hy : 0 < y := lt_of_lt_of_le hx h
  have hlog : Int.log 2 x ≤ Int.log 2 y := Int.log_mono_right hx h
  have hle : max (Int.log 2 x) (-1022) ≤ max (Int.log 2 y) (-1022) := max_le_max hlog le_rfl
  rcases eq_or_lt_of_le hle with heq | hlt
  · rw [binary64_pos_eq hx, binary64_pos_eq hy, heq]
    apply mul_le_mul_of_nonneg_right _ (le_of_lt (ulp_pos _))
    have := roundHalfEven_mono (div_le_div_of_nonneg_right h (le_of_lt
      (ulp_pos (max (Int.log 2 y) (-1022) - 52))))
    exact_mod_cast this
  · have hy1 : -1022 ≤ Int.log 2 y := by
      by_contra hc
      have h1 : max (Int.log 2 y) (-1022) = -1022 := max_eq_right (by omega)
      have h2 := le_max_right (Int.log 2 x) (-1022)
      omega
    have hy2 : max (Int.log 2 y) (-1022) = Int.log 2 y := max_eq_left hy1
    rw [hy2] at hlt
    calc binary64 x ≤ 2 ^ (max (Int.log 2 x) (-1022) + 1) := binary64_le_two_zpow hx
      _ ≤ 2 ^ Int.log 2 y := zpow_le_zpow_right₀ (by norm_num) (by omega)
      _ ≤ binary64 y := two_zpow_le_binary64 hy hy1

theorem binary64_mono {x y : ℚ} (h : x ≤ y) : binary64 x ≤ binary64 y := by
  rcases lt_or_le 0 x with hx | hx
  · exact binary64_mono_of_pos hx h
  · rcases lt_or_le y 0 with hy | hy
    · have h1 : binary64 (-y) ≤ binary64 (-x) :=
        binary64_mono_of_pos (by linarith) (by linarith)
      rw [binary64_neg, binary64_neg] at h1
      linarith
    · have h1 : binary64 x ≤ 0 := by
        have := binary64_nonneg (show 0 ≤ -x by linarith)
        rw [binary64_neg] at this
        linarith
      exact le_trans h1 (binary64_nonneg hy)

theorem binary64_multiple (x : ℚ) : ∃ k : ℤ, binary64 x = (k : ℚ) * 2 ^ (-1074 : ℤ) := by
  by_cases hx : x = 0
  · exact ⟨0, by simp [hx, binary64]⟩
  · simp only [binary64, if_neg hx]
    obtain ⟨e, he⟩ : ∃ e : ℤ, e = max (Int.log 2 |x|) (-1022) := ⟨_, rfl⟩
    rw [← he]
    have hge : -1022 ≤ e := by rw [he]; exact le_max_right _ _
    obtain ⟨m, hm⟩ : ∃ m : ℕ, (m : ℤ) = e - 52 + 1074 := ⟨(e - 52 + 1074).toNat, by omega⟩
    refine ⟨roundHalfEven (x / 2 ^ (e - 52)) * 2 ^ m, ?_⟩
    have hsplit : (2 : ℚ) ^ (e - 52) = 2 ^ (m : ℤ) * 2 ^ (-1074 : ℤ) := by
      rw [← zpow_add₀ (by norm_num : (2 : ℚ) ≠ 0)]
      congr 1
      omega
    rw [hsplit, zpow_natCast]
    push_cast
    ring

theorem binary64_min_subnormal : binary64 (2 ^ (-1074 : ℤ)) = 2 ^ (-1074 : ℤ) := by
  have hpos : (0 : ℚ) < 2 ^ (-1074 : ℤ) := ulp_pos _
  have hlog : Int.log 2 ((2 : ℚ) ^ (-1074 : ℤ)) = -1074 := by
    have h := Int.log_zpow (R := ℚ) (b := 2) (by norm_num) (-1074)
    exact_mod_cast h
  rw [binary64_pos_eq hpos, hlog]
  have hmax : max (-1074 : ℤ) (-1022) - 52 = -1074 := by decide
  rw [hmax, div_self (ne_of_gt hpos)]
  have h1 : roundHalfEven 1 = 1 := by simpa using roundHalfEven_intCast 1
  rw [h1]
  simp

theorem binary64_sub_pos {t l : ℚ} (ht : binary64 t = t) (hl : binary64 l = l) (h : l < t) :
    0 < binary64 (t - l) := by
  obtain ⟨kt, hkt⟩ := binary64_multiple t
  obtain ⟨kl, hkl⟩ := binary64_multiple l
  rw [ht] at hkt
  rw [hl] at hkl
  have hu : (0 : ℚ) < 2 ^ (-1074 : ℤ) := ulp_pos _
  have hk : kl < kt := by
    have h1 : (kl : ℚ) * 2 ^ (-1074 : ℤ) < (kt : ℚ) * 2 ^ (-1074 : ℤ) := by
      rw [← hkt, ← hkl]; exact h
    have h2 : (kl : ℚ) < (kt : ℚ) := lt_of_mul_lt_mul_right h1 (le_of_lt hu)
    exact_mod_cast h2
  have hk1 : (1 : ℚ) ≤ (kt : ℚ) - (kl : ℚ) := by
    have : kl + 1 ≤ kt := by omega
    have h3 : ((kl + 1 : ℤ) : ℚ) ≤ (kt : ℚ) := by exact_mod_cast this
    push_cast at h3
    linarith
  have hge : (2 : ℚ) ^ (-1074 : ℤ) ≤ t - l := by
    rw [hkt, hkl, ← sub_mul]
    calc (2 : ℚ) ^ (-1074 : ℤ) = 1 * 2 ^ (-1074 : ℤ) := by ring
      _ ≤ ((kt : ℚ) - (kl : ℚ)) * 2 ^ (-1074 : ℤ) :=
        mul_le_mul_of_nonneg_right hk1 (le_of_lt hu)
  have := binary64_mono hge
  rw [binary64_min_subnormal] at this
  linarith

theorem binary64_of_intCast_mul {v : ℚ} (m : ℤ)
    (h : v = (m : ℚ) * 2 ^ (max (Int.log 2 |v|) (-1022) - 52)) : binary64 v = v := by
  by_cases hv : v = 0
  · simp [hv, binary64]
  · simp only [binary64, if_neg hv]
    have hq : v / 2 ^ (max (Int.log 2 |v|) (-1022) - 52) = (m : ℚ) := by
      rw [div_eq_iff (ne_of_gt (ulp_pos _))]
      exact h
    rw [hq, roundHalfEven_intCast]
    exact h.symm

theorem binary64_idem_of_pos {x : ℚ} (hx : 0 < x) : binary64 (binary64 x) = binary64 x := by
  obtain ⟨e, he⟩ : ∃ e : ℤ, e = max (Int.log 2 x) (-1022) := ⟨_, rfl⟩
  obtain ⟨n, hn⟩ : ∃ n : ℤ, n = roundHalfEven (x / 2 ^ (e - 52)) := ⟨_, rfl⟩
  have hge : -1022 ≤ e := by rw [he]; exact le_max_right _ _
  have hv : binary64 x = (n : ℚ) * 2 ^ (e - 52) := by rw [binary64_pos_eq hx, ← he, ← hn]
  have hle : binary64 x ≤ 2 ^ (e + 1) := by rw [he]; exact binary64_le_two_zpow hx
  have h0 : 0 ≤ binary64 x := binary64_nonneg (le_of_lt hx)
  rcases eq_or_lt_of_le h0 with hz | hpos
  · rw [← hz, binary64_zero]
  · obtain ⟨v, hvdef⟩ : ∃ v : ℚ, v = binary64 x := ⟨_, rfl⟩
    rw [← hvdef] at hv hle hpos ⊢
    by_cases hlog : Int.log 2 v ≤ e
    · have hmax : max (Int.log 2 |v|) (-1022) ≤ e := by
        rw [abs_of_pos hpos]; exact max_le hlog hge
      obtain ⟨d, hd⟩ : ∃ d : ℕ, (d : ℤ) = e - max (Int.log 2 |v|) (-1022) :=
        ⟨(e - max (Int.log 2 |v|) (-1022)).toNat, by omega⟩
      apply binary64_of_intCast_mul (n * 2 ^ d)
      have hsplit : (2 : ℚ) ^ (e - 52) =
          2 ^ (d : ℤ) * 2 ^ (max (Int.log 2 |v|) (-1022) - 52) := by
        rw [← zpow_add₀ (by norm_num : (2 : ℚ) ≠ 0)]
        congr 1
        omega
      rw [hsplit, zpow_natCast] at hv
      push_cast
      rw [mul_assoc]
      exact hv
    · have hlog' : e + 1 ≤ Int.log 2 v := by omega
      have h1 : ((2 : ℕ) : ℚ) ^ Int.log 2 v ≤ v := Int.zpow_log_le_self (by norm_num) hpos
      have h1' : (2 : ℚ) ^ Int.log 2 v ≤ v := by exact_mod_cast h1
      have h2 : (2 : ℚ) ^ (e + 1) ≤ 2 ^ Int.log 2 v := zpow_le_zpow_right₀ (by norm_num) hlog'
      have hveq : v = 2 ^ (e + 1) := le_antisymm hle (le_trans h2 h1')
      have hlogeq : Int.log 2 v = e + 1 := by
        rw [hveq]
        have h := Int.log_zpow (R := ℚ) (b := 2) (by norm_num) (e + 1)
        exact_mod_cast h
      apply binary64_of_intCast_mul (2 ^ 52)
      rw [abs_of_pos hpos, hlogeq, max_eq_left (by omega)]
      nth_rewrite 1 [hveq]
      rw [two_zpow_split (e + 1) 52]
      push_cast
      norm_num

theorem binary64_idem (x : ℚ) : binary64 (binary64 x) = binary64 x := by
  rcases lt_trichotomy x 0 with h | h | h
  · have h1 := binary64_idem_of_pos (show 0 < -x by linarith)
    rw [binary64_neg, binary64_neg] at h1
    linarith
  · rw [h, binary64_zero, binary64_zero]
  · exact binary64_idem_of_pos h

theorem binary64_intCast (n : ℤ) (h : |n| < 2 ^ 53) : binary64 (n : ℚ) = n := by
  by_cases hn : n = 0
  · simp [hn, binary64]
  · have hpos : (0 : ℚ) < |(n : ℚ)| := abs_pos.mpr (by exact_mod_cast hn)
    have h1 : (1 : ℚ) ≤ |(n : ℚ)| := by
      have : (1 : ℤ) ≤ |n| := Int.one_le_abs hn
      exact_mod_cast this
    have hlo : 0 ≤ Int.log 2 |(n : ℚ)| :=
      (Int.zpow_le_iff_le_log (b := 2) (by norm_num) hpos).1 (by simpa using h1)
    have hhi : Int.log 2 |(n : ℚ)| < 53 := by
      have h2 : |(n : ℚ)| < ((2 : ℕ) : ℚ) ^ (53 : ℤ) := by
        have : ((|n| : ℤ) : ℚ) < (((2 : ℤ) ^ 53 : ℤ) : ℚ) := by exact_mod_cast h
        push_cast at this
        norm_num
        exact this
      exact (Int.lt_zpow_iff_log_lt (b := 2) (by norm_num) hpos).1 h2
    obtain ⟨d, hd⟩ : ∃ d : ℕ, (d : ℤ) = 52 - Int.log 2 |(n : ℚ)| :=
      ⟨(52 - Int.log 2 |(n : ℚ)|).toNat, by omega⟩
    apply binary64_of_intCast_mul (n * 2 ^ d)
    rw [max_eq_left (by omega)]
    have he : Int.log 2 |(n : ℚ)| - 52 = -(d : ℤ) := by omega
    rw [he, zpow_neg, zpow_natCast]
    push_cast
    field_simp

theorem binary64_natCast (n : ℕ) (h : n < 2 ^ 53) : binary64 (n : ℚ) = n := by
  have := binary64_intCast (n : ℤ) (by rw [abs_of_nonneg (by positivity)]; exact_mod_cast h)
  exact_mod_cast this

theorem binary64_ofNat (n : ℕ) [n.AtLeastTwo] (h : n < 2 ^ 53) :
    binary64 (OfNat.ofNat n : ℚ) = OfNat.ofNat n := by
  have := binary64_natCast n h
  simpa using this

theorem binary64_tenth : binary64 (1 / 10) = 3602879701896397 / 36028797018963968 := by
  rw [binary64_eval_lt (1 / 10) (-4) 7205759403792794 (by norm_num) (by norm_num)
    (by norm_num) (by norm_num) (by norm_num) (by norm_num)]
  norm_num

theorem binary64_fifth : binary64 (1 / 5) = 3602879701896397 / 18014398509481984 := by
  rw [binary64_eval_lt (1 / 5) (-3) 7205759403792794 (by norm_num) (by norm_num)
    (by norm_num) (by norm_num) (by norm_num) (by norm_num)]
  norm_num

theorem binary64_three_tenths :
    binary64 (3 / 10) = 5404319552844595 / 18014398509481984 := by
  rw [binary64_eval_lt (3 / 10) (-2) 5404319552844595 (by norm_num) (by norm_num)
    (by norm_num) (by norm_num) (by norm_num) (by norm_num)]
  norm_num

theorem binary64_tenth_exact :
    binary64 (3602879701896397 / 36028797018963968) =
      3602879701896397 / 36028797018963968 := by
  rw [binary64_eval_lt (3602879701896397 / 36028797018963968) (-4) 7205759403792794
    (by norm_num) (by norm_num) (by norm_num) (by norm_num) (by norm_num) (by norm_num)]
  norm_num

theorem binary64_fifth_exact :
    binary64 (3602879701896397 / 18014398509481984) =
      3602879701896397 / 18014398509481984 := by
  rw [binary64_eval_lt (3602879701896397 / 18014398509481984) (-3) 7205759403792794
    (by norm_num) (by norm_num) (by norm_num) (by norm_num) (by norm_num) (by norm_num)]
  norm_num

theorem binary64_three_tenths_exact :
    binary64 (5404319552844595 / 18014398509481984) =
      5404319552844595 / 18014398509481984 := by
  rw [binary64_eval_lt (5404319552844595 / 18014398509481984) (-2) 5404319552844595
    (by norm_num) (by norm_num) (by norm_num) (by norm_num) (by norm_num) (by norm_num)]
  norm_num

theorem binary64_half_exact : binary64 (1 / 2) = 1 / 2 := by
  rw [binary64_eval_lt (1 / 2) (-1) 4503599627370496 (by norm_num) (by norm_num)
    (by norm_num) (by norm_num) (by norm_num) (by norm_num)]
  norm_num

theorem binary64_six_tenths_up_exact :
    binary64 (1351079888211149 / 2251799813685248) =
      1351079888211149 / 2251799813685248 := by
  rw [binary64_eval_lt (1351079888211149 / 2251799813685248) (-1) 5404319552844596
    (by norm_num) (by norm_num) (by norm_num) (by norm_num) (by norm_num) (by norm_num)]
  norm_num

theorem binary64_tenth_add_fifth :
    binary64 (3602879701896397 / 36028797018963968 + 3602879701896397 / 18014398509481984) =
      1351079888211149 / 4503599627370496 := by
  rw [binary64_eval_tie
    (3602879701896397 / 36028797018963968 + 3602879701896397 / 18014398509481984) (-2)
    5404319552844596 (by norm_num) (by norm_num) (by norm_num) (by norm_num) (by norm_num)
    (Or.inr (by norm_num))]
  norm_num

theorem binary64_sum_add_three_tenths :
    binary64 (1351079888211149 / 4503599627370496 + 5404319552844595 / 18014398509481984) =
      1351079888211149 / 2251799813685248 := by
  rw [binary64_eval_tie
    (1351079888211149 / 4503599627370496 + 5404319552844595 / 18014398509481984) (-1)
    5404319552844596 (by norm_num) (by norm_num) (by norm_num) (by norm_num) (by norm_num)
    (Or.inr (by norm_num))]
  norm_num

theorem binary64_three_tenths_add_fifth :
    binary64 (5404319552844595 / 18014398509481984 + 3602879701896397 / 18014398509481984) =
      1 / 2 := by
  rw [binary64_eval_lt
    (5404319552844595 / 18014398509481984 + 3602879701896397 / 18014398509481984) (-1)
    4503599627370496 (by norm_num) (by norm_num) (by norm_num) (by norm_num) (by norm_num)
    (by norm_num)]
  norm_num

theorem binary64_half_add_tenth :
    binary64 (1 / 2 + 3602879701896397 / 36028797018963968) =
      5404319552844595 / 9007199254740992 := by
  rw [binary64_eval_lt (1 / 2 + 3602879701896397 / 36028797018963968) (-1)
    5404319552844595 (by norm_num) (by norm_num) (by norm_num) (by norm_num) (by norm_num)
    (by norm_num)]
  norm_num

theorem binary64_tenth_mul_six :
    binary64 (3602879701896397 / 36028797018963968 * 6) =
      1351079888211149 / 2251799813685248 := by
  rw [binary64_eval_tie (3602879701896397 / 36028797018963968 * 6) (-1)
    5404319552844596 (by norm_num) (by norm_num) (by norm_num) (by norm_num) (by norm_num)
    (Or.inr (by norm_num))]
  norm_num

theorem binary64_tenth_mul_five :
    binary64 (3602879701896397 / 36028797018963968 * 5) = 1 / 2 := by
  rw [binary64_eval_lt (3602879701896397 / 36028797018963968 * 5) (-1)
    4503599627370496 (by norm_num) (by norm_num) (by norm_num) (by norm_num) (by norm_num)
    (by norm_num)]
  norm_num

theorem foldl_binary64_of_exactSteps (l : List AddedObject) (sum : ℚ)
    (h : exactSteps sum l = true) :
    l.foldl (fun sum obj => binary64 (sum + binary64 (obj.weight * obj.count))) sum =
      sum + (l.map (fun o => o.weight * (o.count : ℚ))).sum := by
  induction l generalizing sum with
  | nil => simp
  | cons o os ih =>
    simp only [exactSteps, Bool.and_eq_true, decide_eq_true_eq] at h
    obtain ⟨⟨h₁, h₂⟩, h₃⟩ := h
    rw [List.foldl_cons, h₁, h₂, ih _ h₃]
    simp [add_assoc]

theorem totalWeight_of_exactSteps (l : List AddedObject)
    (h : exactSteps 0 l = true) : totalWeight l = exactTotal l := by
  rw [totalWeight, foldl_binary64_of_exactSteps l 0 h, exactTotal, zero_add]

theorem exactTotal_perm (l₁ l₂ : List AddedObject) (h : l₁.Perm l₂) :
    exactTotal l₁ = exactTotal l₂ :=
  (h.map _).sum_eq

theorem foldl_binary64_nonneg (l : List AddedObject) (sum : ℚ) (hsum : 0 ≤ sum)
    (h : ∀ obj ∈ l, 0 ≤ obj.weight * (obj.count : ℚ)) :
    0 ≤ l.foldl (fun sum obj => binary64 (sum + binary64 (obj.weight * obj.count))) sum := by
  induction l generalizing sum with
  | nil => exact hsum
  | cons o os ih =>
    rw [List.foldl_cons]
    apply ih
    · exact binary64_nonneg
        (add_nonneg hsum (binary64_nonneg (h o (List.mem_cons_self _ _))))
    · exact fun obj hobj => h obj (List.mem_cons_of_mem _ hobj)

theorem totalWeight_nonneg (l : List AddedObject)
    (h : ∀ obj ∈ l, 0 ≤ obj.weight * (obj.count : ℚ)) : 0 ≤ totalWeight l :=
  foldl_binary64_nonneg l 0 le_rfl h

theorem foldl_binary64_idem (l : List AddedObject) (sum : ℚ) (hsum : binary64 sum = sum) :
    binary64 (l.foldl (fun sum obj => binary64 (sum + binary64 (obj.weight * obj.count))) sum) =
      l.foldl (fun sum obj => binary64 (sum + binary64 (obj.weight * obj.count))) sum := by
  induction l generalizing sum with
  | nil => exact hsum
  | cons o os ih =>
    rw [List.foldl_cons]
    exact ih _ (binary64_idem _)

theorem binary64_totalWeight (l : List AddedObject) :
    binary64 (totalWeight l) = totalWeight l :=
  foldl_binary64_idem l 0 binary64_zero

theorem binary64_one : binary64 1 = 1 := by
  rw [binary64_eval_lt 1 0 4503599627370496 (by norm_num) (by norm_num)
    (by norm_num) (by norm_num) (by norm_num) (by norm_num)]
  norm_num

theorem binary64_five_quarters : binary64 (5 / 4) = 5 / 4 := by
  rw [binary64_eval_lt (5 / 4) 0 5629499534213120 (by norm_num) (by norm_num)
    (by norm_num) (by norm_num) (by norm_num) (by norm_num)]
  norm_num

theorem binary64_nine_quarters : binary64 (9 / 4) = 9 / 4 := by
  rw [binary64_eval_lt (9 / 4) 1 5066549580791808 (by norm_num) (by norm_num)
    (by norm_num) (by norm_num) (by norm_num) (by norm_num)]
  norm_num

theorem sortedCalculations_perm (calculationSnapshot : List CalculationLog) :
    (sortedCalculations calculationSnapshot).Perm
      (calculationSnapshot.filter (fun data => data.calculatedAt.isSome)) :=
  List.perm_insertionSort _ _

theorem sortedCalculations_sorted (calculationSnapshot : List CalculationLog) :
    List.Pairwise newestFirst (sortedCalculations calculationSnapshot) :=
  List.sorted_insertionSort _ _

theorem directionFlights_perm (d : String) (calculationSnapshot : List CalculationLog) :
    ((sortedCalculations calculationSnapshot).filter
      (fun c => decide (c.tripType = some d))).Perm
      (directionLogs d calculationSnapshot) := by
  have h := (sortedCalculations_perm calculationSnapshot).filter
    (fun c => decide (c.tripType = some d))
  rw [List.filter_filter] at h
  exact h

theorem directionFlights_sorted (d : String) (calculationSnapshot : List CalculationLog) :
    List.Pairwise newestFirst
      ((sortedCalculations calculationSnapshot).filter
        (fun c => decide (c.tripType = some d))) :=
  (sortedCalculations_sorted calculationSnapshot).filter _

theorem recentAverage_take (flights : List CalculationLog) :
    recentAverage flights = recentAverage (flights.take (min flights.length 10)) := by
  simp [recentAverage, List.length_take, List.take_take]

theorem foldl_flight_weight_of_exactSums (flights : List CalculationLog) (sum : ℚ)
    (h : exactSums sum flights = true) :
    flights.foldl (fun sum flight => binary64 (sum + flight.totalWeight)) sum =
      sum + (flights.map (fun c => c.totalWeight)).sum := by
  induction flights generalizing sum with
  | nil => simp
  | cons x xs ih =>
    simp only [exactSums, Bool.and_eq_true, decide_eq_true_eq] at h
    obtain ⟨h₁, h₂⟩ := h
    rw [List.foldl_cons, h₁, ih _ h₂]
    simp [add_assoc]

theorem recentAverage_of_exact (window : List CalculationLog) (hlen : window.length ≤ 10)
    (h : exactSums 0 window = true)
    (hdiv : binary64 (meanTotalWeight window) = meanTotalWeight window) :
    recentAverage window = meanTotalWeight window := by
  have hmin : min window.length 10 = window.length := min_eq_left hlen
  have htake : List.take window.length window = window := List.take_length window
  rw [← hdiv]
  simp only [recentAverage, hmin, htake, foldl_flight_weight_of_exactSums window 0 h,
    zero_add, meanTotalWeight]

theorem recent_window (flights : List CalculationLog)
    (hsorted : List.Pairwise newestFirst flights) :
    (flights.take (min flights.length 10)).length = min flights.length 10 ∧
    ∀ x ∈ flights.take (min flights.length 10), ∀ y ∈ flights.drop (min flights.length 10),
      timeOf y ≤ timeOf x := by
  refine ⟨by simp [List.length_take], ?_⟩
  have h := hsorted
  rw [← List.take_append_drop (min flights.length 10) flights, List.pairwise_append] at h
  exact h.2.2

theorem updateAnalytics_shown (numToString : ℚ → String)
    (calculationSnapshot : List CalculationLog) (selectedTripType : Option String)
    (v : AnalyticsView) (hne : calculationSnapshot ≠ []) :
    updateAnalytics numToString true calculationSnapshot selectedTripType (some v) =
      some (showAnalytics numToString selectedTripType
        ((sortedCalculations calculationSnapshot).filter
          (fun c => decide (c.tripType = some "outbound")))
        ((sortedCalculations calculationSnapshot).filter
          (fun c => decide (c.tripType = some "inbound"))) v) := by
  have hemp : calculationSnapshot.isEmpty = false := by
    cases calculationSnapshot with
    | nil => exact absurd rfl hne
    | cons _ _ => rfl
  simp [updateAnalytics, hemp]

theorem showAnalytics_average_shown (numToString : ℚ → String)
    (selectedTripType : Option String) (outboundFlights inboundFlights : List CalculationLog)
    (v : AnalyticsView) :
    ((showAnalytics numToString selectedTripType outboundFlights inboundFlights
          v).analyticsResultsDisplay = "flex" ∧
      (showAnalytics numToString selectedTripType outboundFlights inboundFlights
          v).averageWeightBoxDisplay = "flex") ↔
      3 ≤ (if selectedTripType = some "outbound" then outboundFlights
        else inboundFlights).length := by
  unfold showAnalytics
  by_cases h3 : 3 ≤ (if selectedTripType = some "outbound" then outboundFlights
      else inboundFlights).length <;>
    by_cases hO : 1 ≤ outboundFlights.length <;>
    by_cases hI : 1 ≤ inboundFlights.length <;>
    simp [h3, hO, hI]

theorem showAnalytics_average_text (numToString : ℚ → String)
    (selectedTripType : Option String) (outboundFlights inboundFlights : List CalculationLog)
    (v : AnalyticsView)
    (h3 : 3 ≤ (if selectedTripType = some "outbound" then outboundFlights
      else inboundFlights).length) :
    (showAnalytics numToString selectedTripType outboundFlights inboundFlights
        v).averageWeightBoxText =
      averageWeightText numToString selectedTripType
        (if selectedTripType = some "outbound" then outboundFlights else inboundFlights) := by
  unfold showAnalytics
  by_cases hO : 1 ≤ outboundFlights.length <;>
    by_cases hI : 1 ≤ inboundFlights.length <;>
    simp [h3, hO, hI]

theorem showAnalytics_return_shown (numToString : ℚ → String)
    (selectedTripType : Option String) (outboundFlights inboundFlights : List CalculationLog)
    (v : AnalyticsView) (hO : 1 ≤ outboundFlights.length) (hI : 1 ≤ inboundFlights.length) :
    (showAnalytics numToString selectedTripType outboundFlights inboundFlights
        v).analyticsResultsDisplay = "flex" ∧
    (showAnalytics numToString selectedTripType outboundFlights inboundFlights
        v).returnWeightBoxDisplay = "flex" ∧
    (showAnalytics numToString selectedTripType outboundFlights inboundFlights
        v).returnWeightBoxText =
      returnWeightText numToString outboundFlights inboundFlights := by
  unfold showAnalytics
  by_cases h3 : 3 ≤ (if selectedTripType = some "outbound" then outboundFlights
      else inboundFlights).length <;>
    simp [h3, hO, hI]

theorem fixed1Value_of_floor (x : ℚ) (n : ℕ) (h0 : 0 ≤ x) (hlt : x < 10 ^ 21)
    (hn : Int.floor (x * 10 + 1 / 2) = (n : ℤ)) : fixed1Value x = (n : ℚ) / 10 := by
  have hneg : ¬ x < 0 := not_lt.mpr h0
  have hbig : ¬ x ≥ 10 ^ 21 := not_le.mpr hlt
  simp only [fixed1Value, if_neg hneg, if_neg hbig, hn, Int.toNat_ofNat, one_mul]

theorem fixed1Value_of_nonneg (x : ℚ) (h0 : 0 ≤ x) :
    fixed1Value x =
      if x ≥ 10 ^ 21 then x else ((Int.floor (x * 10 + 1 / 2) : ℤ) : ℚ) / 10 := by
  have hneg : ¬ x < 0 := not_lt.mpr h0
  have hfl : 0 ≤ Int.floor (x * 10 + 1 / 2) := Int.floor_nonneg.2 (by linarith)
  have hcast : ((Int.floor (x * 10 + 1 / 2)).toNat : ℚ) =
      ((Int.floor (x * 10 + 1 / 2) : ℤ) : ℚ) := by
    have h := Int.toNat_of_nonneg hfl
    exact_mod_cast congrArg (fun z : ℤ => (z : ℚ)) h
  simp only [fixed1Value, if_neg hneg, one_mul, hcast]

theorem fixed1Value_of_neg (x : ℚ) (hx : x < 0) : fixed1Value x = -fixed1Value (-x) := by
  have h0 : 0 ≤ -x := by linarith
  have hneg : ¬ -x < 0 := not_lt.mpr h0
  simp only [fixed1Value, if_pos hx, if_neg hneg, one_mul, neg_mul]
  split <;> simp

theorem fixed1Value_nonneg (x : ℚ) (h0 : 0 ≤ x) : 0 ≤ fixed1Value x := by
  rw [fixed1Value_of_nonneg x h0]
  split
  · exact h0
  · have hfl : 0 ≤ Int.floor (x * 10 + 1 / 2) := Int.floor_nonneg.2 (by linarith)
    have : (0 : ℚ) ≤ ((Int.floor (x * 10 + 1 / 2) : ℤ) : ℚ) := by exact_mod_cast hfl
    positivity

theorem fixed1Value_mono_of_nonneg (x y : ℚ) (h0 : 0 ≤ x) (hxy : x ≤ y) :
    fixed1Value x ≤ fixed1Value y := by
  rw [fixed1Value_of_nonneg x h0, fixed1Value_of_nonneg y (le_trans h0 hxy)]
  by_cases hx : x ≥ 10 ^ 21
  · have hy : y ≥ 10 ^ 21 := le_trans hx hxy
    rw [if_pos hx, if_pos hy]
    exact hxy
  · rw [if_neg hx]
    by_cases hy : y ≥ 10 ^ 21
    · rw [if_pos hy]
      have hxlt : x < 10 ^ 21 := not_le.mp hx
      have h1 : ((Int.floor (x * 10 + 1 / 2) : ℤ) : ℚ) ≤ x * 10 + 1 / 2 := Int.floor_le _
      have h2 : Int.floor (x * 10 + 1 / 2) ≤ 10 ^ 22 := by
        have h3 : ((Int.floor (x * 10 + 1 / 2) : ℤ) : ℚ) < ((10 ^ 22 + 1 : ℤ) : ℚ) := by
          push_cast
          linarith
        have h4 : Int.floor (x * 10 + 1 / 2) < 10 ^ 22 + 1 := by exact_mod_cast h3
        omega
      have h5 : ((Int.floor (x * 10 + 1 / 2) : ℤ) : ℚ) ≤ 10 ^ 22 := by exact_mod_cast h2
      have hy' : (10 : ℚ) ^ 21 ≤ y := hy
      linarith
    · rw [if_neg hy]
      have hm : Int.floor (x * 10 + 1 / 2) ≤ Int.floor (y * 10 + 1 / 2) :=
        Int.floor_mono (by linarith)
      have hm' : ((Int.floor (x * 10 + 1 / 2) : ℤ) : ℚ) ≤
          ((Int.floor (y * 10 + 1 / 2) : ℤ) : ℚ) := by exact_mod_cast hm
      linarith

theorem fixed1Value_mono (x y : ℚ) (hxy : x ≤ y) : fixed1Value x ≤ fixed1Value y := by
  by_cases hx : x < 0
  · by_cases hy : y < 0
    · rw [fixed1Value_of_neg x hx, fixed1Value_of_neg y hy]
      have := fixed1Value_mono_of_nonneg (-y) (-x) (by linarith) (by linarith)
      linarith
    · rw [fixed1Value_of_neg x hx]
      have h1 := fixed1Value_nonneg (-x) (by linarith)
      have h2 := fixed1Value_nonneg y (not_lt.mp hy)
      linarith
  · exact fixed1Value_mono_of_nonneg x y (not_lt.mp hx) hxy

theorem parseFixed1_mono (x y : ℚ) (hxy : x ≤ y) : parseFixed1 x ≤ parseFixed1 y :=
  binary64_mono (fixed1Value_mono x y hxy)

theorem weightSystemFee_of_absent (airlineData : AirlineData) (classType : String)
    (isDomestic : Bool)
    (h : airlineData.num ("WeightSystem" ++ flightTypePrefix isDomestic ++
      classType.capitalize ++ "Fee") = none) :
    weightSystemFee airlineData classType isDomestic = 0 := by
  unfold weightSystemFee
  split_ifs with h₁ h₂ h₃
  · subst h₁
    rw [capitalize_economy, economy_fee_field] at h
    rw [h]; rfl
  · subst h₂
    rw [capitalize_business, business_fee_field] at h
    rw [h]; rfl
  · subst h₃
    rw [capitalize_first, first_fee_field] at h
    rw [h]; rfl
  · rfl

theorem pieceSystemFee_of_absent (airlineData : AirlineData) (classType : String)
    (h : airlineData.num ("PieceSystemInt" ++ classType.capitalize ++ "Fee") = none) :
    pieceSystemFee airlineData classType = 0 := by
  unfold pieceSystemFee
  simp only []
  split_ifs with h₁ h₂ h₃
  · subst h₁
    rw [capitalize_economy, economy_fee_field] at h
    have hname : "PieceSystem" ++ "Int" ++ "EconomyFee" = "PieceSystemInt" ++ "EconomyFee" := by
      decide
    rw [hname, h]; rfl
  · subst h₂
    rw [capitalize_business, business_fee_field] at h
    have hname : "PieceSystem" ++ "Int" ++ "BusinessFee" = "PieceSystemInt" ++ "BusinessFee" := by
      decide
    rw [hname, h]; rfl
  · subst h₃
    rw [capitalize_first, first_fee_field] at h
    have hname : "PieceSystem" ++ "Int" ++ "FirstFee" = "PieceSystemInt" ++ "FirstFee" := by
      decide
    rw [hname, h]; rfl
  · rfl

theorem clickArrow_nonneg (arrow : Arrow) (group : CounterGroup) (h : 0 ≤ group.count) :
    0 ≤ (clickArrow arrow group).count := by
  by_cases h₁ : arrow = Arrow.up
  · simp only [clickArrow, if_pos h₁]
    omega
  · by_cases h₂ : arrow = Arrow.down ∧ group.count > 0
    · simp only [clickArrow, if_neg h₁, if_pos h₂]
      have := h₂.2
      omega
    · simp only [clickArrow, if_neg h₁, if_neg h₂]
      exact h

theorem clickAt_nonneg (arrow : Arrow) (i : ℕ) (counterGroups : List CounterGroup)
    (h : ∀ c ∈ counterGroups, 0 ≤ c.count) : ∀ c ∈ clickAt arrow i counterGroups, 0 ≤ c.count := by
  induction counterGroups generalizing i with
  | nil => intro c hc; simp [clickAt] at hc
  | cons group rest ih =>
    cases i with
    | zero =>
      intro c hc
      simp only [clickAt, List.mem_cons] at hc
      rcases hc with rfl | hc
      · exact clickArrow_nonneg arrow group (h group (List.mem_cons_self _ _))
      · exact h c (List.mem_cons_of_mem _ hc)
    | succ i =>
      intro c hc
      simp only [clickAt, List.mem_cons] at hc
      rcases hc with rfl | hc
      · exact h c (List.mem_cons_self _ _)
      · exact ih i (fun c hc => h c (List.mem_cons_of_mem _ hc)) c hc

theorem clickAll_nonneg (clicks : List (Arrow × ℕ)) (page : List CounterGroup × Globals)
    (h : ∀ c ∈ page.1, 0 ≤ c.count) : ∀ c ∈ (clickAll clicks page).1, 0 ≤ c.count := by
  induction clicks generalizing page with
  | nil => exact h
  | cons click rest ih =>
    simp only [clickAll, List.foldl_cons]
    exact ih _ (clickAt_nonneg click.1 click.2 page.1 h)

theorem clickAll_addedObjects (clicks : List (Arrow × ℕ))
    (page : List CounterGroup × Globals)
    (h : page.2.addedObjects =
      (page.1.filter (fun c => decide (0 < c.count))).map toAddedObject) :
    (clickAll clicks page).2.addedObjects =
      ((clickAll clicks page).1.filter (fun c => decide (0 < c.count))).map toAddedObject := by
  induction clicks generalizing page with
  | nil => exact h
  | cons click rest ih =>
    simp only [clickAll, List.foldl_cons]
    exact ih _ (updateAddedObjects_addedObjects _ _)

theorem sum_positive_counts (counterGroups : List CounterGroup)
    (h : ∀ c ∈ counterGroups, 0 ≤ c.count) :
    ((counterGroups.filter (fun c => decide (0 < c.count))).map
        (fun c => c.weight * (c.count : ℚ))).sum =
      (counterGroups.map (fun c => c.weight * (c.count : ℚ))).sum := by
  induction counterGroups with
  | nil => rfl
  | cons c cs ih =>
    have hcs := ih (fun x hx => h x (List.mem_cons_of_mem _ hx))
    by_cases hpos : 0 < c.count
    · simp [List.filter, hpos, hcs]
    · have hzero : c.count = 0 := by
        have := h c (List.mem_cons_self _ _)
        omega
      simp [List.filter, hzero, hcs]

theorem intOrZero_some (n : ℤ) : intOrZero (some n) = n := by
  by_cases h : n = 0 <;> simp [intOrZero, h]

theorem trackItemUsage_other (user : String) (now : String)
    (itemsUsed : String → Option ItemUsage) (itemName other : String) (count : ℤ)
    (h : other ≠ itemName) :
    trackItemUsage (some user) now itemsUsed itemName count other = itemsUsed other := by
  unfold trackItemUsage
  cases itemsUsed itemName <;> simp [h]

theorem trackItemUsage_existing (user : String) (now : String)
    (itemsUsed : String → Option ItemUsage) (itemName : String) (count : ℤ)
    (currentData : ItemUsage) (h : itemsUsed itemName = some currentData) :
    trackItemUsage (some user) now itemsUsed itemName count itemName =
      some { timesUsed := some (intOrZero currentData.timesUsed + count),
             firstTimeUsed := currentData.firstTimeUsed, lastTimeUsed := some now } := by
  simp [trackItemUsage, h]

theorem trackItemUsage_new (user : String) (now : String)
    (itemsUsed : String → Option ItemUsage) (itemName : String) (count : ℤ)
    (h : itemsUsed itemName = none) :
    trackItemUsage (some user) now itemsUsed itemName count itemName =
      some { timesUsed := some count, firstTimeUsed := some now, lastTimeUsed := some now } := by
  simp [trackItemUsage, h]

theorem timesOf_trackItemUsage_self (user : String) (now : String)
    (itemsUsed : String → Option ItemUsage) (itemName : String) (count : ℤ) :
    timesOf (trackItemUsage (some user) now itemsUsed itemName count) itemName =
      timesOf itemsUsed itemName + count := by
  cases h : itemsUsed itemName with
  | none => simp [timesOf, trackItemUsage_new user now itemsUsed itemName count h, h,
      intOrZero_some]
  | some cur => simp [timesOf, trackItemUsage_existing user now itemsUsed itemName count cur h,
      h, intOrZero_some]

theorem timesOf_trackItemUsage_other (user : String) (now : String)
    (itemsUsed : String → Option ItemUsage) (itemName other : String) (count : ℤ)
    (h : other ≠ itemName) :
    timesOf (trackItemUsage (some user) now itemsUsed itemName count) other =
      timesOf itemsUsed other := by
  simp [timesOf, trackItemUsage_other user now itemsUsed itemName other count h]

theorem countOfName_cons (name : String) (obj : AddedObject) (rest : List AddedObject) :
    countOfName name (obj :: rest) =
      (if obj.name = name ∧ 0 < obj.count then obj.count else 0) + countOfName name rest := by
  by_cases h : obj.name = name ∧ 0 < obj.count
  · simp [countOfName, List.filter, h.1, h.2]
  · rw [if_neg h]
    have hf : (decide (obj.name = name) && decide (0 < obj.count)) = false := by
      simpa using h
    simp [countOfName, List.filter, hf]

theorem timesOf_trackAddedObjects (user : String) (clock : ℕ → String) (name : String)
    (addedObjects : List AddedObject) (k : ℕ) (itemsUsed : String → Option ItemUsage) :
    timesOf (trackAddedObjects (some user) clock k addedObjects itemsUsed) name =
      timesOf itemsUsed name + countOfName name addedObjects := by
  induction addedObjects generalizing k itemsUsed with
  | nil => simp [trackAddedObjects, countOfName]
  | cons obj rest ih =>
    rw [countOfName_cons]
    by_cases hpos : obj.count > 0
    · simp only [trackAddedObjects, if_pos hpos]
      rw [ih]
      by_cases hname : obj.name = name
      · subst hname
        rw [timesOf_trackItemUsage_self, if_pos ⟨rfl, hpos⟩]
        ring
      · rw [timesOf_trackItemUsage_other user _ itemsUsed obj.name name obj.count
          (fun h => hname h.symm), if_neg (fun h => hname h.1)]
        ring
    · simp only [trackAddedObjects, if_neg hpos]
      rw [ih, if_neg (fun h => hpos h.2)]
      ring

theorem trackAddedObjects_unchanged (user : String) (clock : ℕ → String) (name : String)
    (addedObjects : List AddedObject) (k : ℕ) (itemsUsed : String → Option ItemUsage)
    (h : ∀ obj ∈ addedObjects, 0 < obj.count → obj.name ≠ name) :
    trackAddedObjects (some user) clock k addedObjects itemsUsed name = itemsUsed name := by
  induction addedObjects generalizing k itemsUsed with
  | nil => rfl
  | cons obj rest ih =>
    have hrest : ∀ o ∈ rest, 0 < o.count → o.name ≠ name :=
      fun o ho => h o (List.mem_cons_of_mem _ ho)
    by_cases hpos : obj.count > 0
    · simp only [trackAddedObjects, if_pos hpos]
      rw [ih _ _ hrest]
      exact trackItemUsage_other user _ itemsUsed obj.name name obj.count
        (fun hn => h obj (List.mem_cons_self _ _) hpos hn.symm)
    · simp only [trackAddedObjects, if_neg hpos]
      exact ih _ _ hrest

theorem trackItemUsage_keeps_record (user : String) (now : String)
    (itemsUsed : String → Option ItemUsage) (itemName name : String) (count : ℤ)
    (cur : ItemUsage) (n : ℤ) (h : itemsUsed name = some cur) (hn : cur.timesUsed = some n) :
    ∃ rec m, trackItemUsage (some user) now itemsUsed itemName count name = some rec ∧
      rec.timesUsed = some m ∧ rec.firstTimeUsed = cur.firstTimeUsed := by
  by_cases hname : name = itemName
  · subst hname
    exact ⟨_, _, trackItemUsage_existing user now itemsUsed name count cur h, rfl, rfl⟩
  · exact ⟨cur, n, by rw [trackItemUsage_other user now itemsUsed itemName name count hname, h],
      hn, rfl⟩

theorem trackAddedObjects_keeps_record (user : String) (clock : ℕ → String) (name : String)
    (addedObjects : List AddedObject) (k : ℕ) (itemsUsed : String → Option ItemUsage)
    (cur : ItemUsage) (n : ℤ) (h : itemsUsed name = some cur) (hn : cur.timesUsed = some n) :
    ∃ rec m, trackAddedObjects (some user) clock k addedObjects itemsUsed name = some rec ∧
      rec.timesUsed = some m ∧ rec.firstTimeUsed = cur.firstTimeUsed := by
  induction addedObjects generalizing k itemsUsed cur n with
  | nil => exact ⟨cur, n, h, hn, rfl⟩
  | cons obj rest ih =>
    by_cases hpos : obj.count > 0
    · simp only [trackAddedObjects, if_pos hpos]
      obtain ⟨rec, m, h₁, h₂, h₃⟩ :=
        trackItemUsage_keeps_record user (clock k) itemsUsed obj.name name obj.count cur n h hn
      obtain ⟨rec', m', h₁', h₂', h₃'⟩ := ih (k + 1) _ rec m h₁ h₂
      exact ⟨rec', m', h₁', h₂', h₃'.trans h₃⟩
    · simp only [trackAddedObjects, if_neg hpos]
      exact ih (k + 1) itemsUsed cur n h hn

theorem trackAddedObjects_has_record (user : String) (clock : ℕ → String) (name : String)
    (addedObjects : List AddedObject) (k : ℕ) (itemsUsed : String → Option ItemUsage)
    (h : ∃ obj ∈ addedObjects, 0 < obj.count ∧ obj.name = name) :
    ∃ rec m, trackAddedObjects (some user) clock k addedObjects itemsUsed name = some rec ∧
      rec.timesUsed = some m ∧
      ∀ cur, itemsUsed name = some cur → rec.firstTimeUsed = cur.firstTimeUsed := by
  induction addedObjects generalizing k itemsUsed with
  | nil =>
    obtain ⟨obj, hobj, -⟩ := h
    simp at hobj
  | cons obj rest ih =>
    by_cases hpos : obj.count > 0
    · simp only [trackAddedObjects, if_pos hpos]
      by_cases hname : obj.name = name
      · subst hname
        cases hcur : itemsUsed obj.name with
        | none =>
          obtain ⟨rec, m, h₁, h₂, -⟩ := trackAddedObjects_keeps_record user clock obj.name rest
            (k + 1) _ _ obj.count
            (trackItemUsage_new user (clock k) itemsUsed obj.name obj.count hcur) rfl
          exact ⟨rec, m, h₁, h₂, fun cur hc => by simp at hc⟩
        | some cur =>
          obtain ⟨rec, m, h₁, h₂, h₃⟩ := trackAddedObjects_keeps_record user clock obj.name
            rest (k + 1) _ _ _
            (trackItemUsage_existing user (clock k) itemsUsed obj.name obj.count cur hcur) rfl
          refine ⟨rec, m, h₁, h₂, fun cur' hc => ?_⟩
          have : cur' = cur := by simpa using hc.symm
          rw [this]; exact h₃
      · obtain ⟨o, ho, hop, hon⟩ := h
        have hrest : ∃ o ∈ rest, 0 < o.count ∧ o.name = name := by
          rcases List.mem_cons.1 ho with rfl | ho'
          · exact absurd hon hname
          · exact ⟨o, ho', hop, hon⟩
        obtain ⟨rec, m, h₁, h₂, h₃⟩ := ih (k + 1)
          (trackItemUsage (some user) (clock k) itemsUsed obj.name obj.count) hrest
        refine ⟨rec, m, h₁, h₂, fun cur hc => h₃ cur ?_⟩
        rw [trackItemUsage_other user (clock k) itemsUsed obj.name name obj.count
          (fun hn => hname hn.symm), hc]
    · simp only [trackAddedObjects, if_neg hpos]
      obtain ⟨o, ho, hop, hon⟩ := h
      have hrest : ∃ o ∈ rest, 0 < o.count ∧ o.name = name := by
        rcases List.mem_cons.1 ho with rfl | ho'
        · exact absurd hop hpos
        · exact ⟨o, ho', hop, hon⟩
      exact ih (k + 1) itemsUsed hrest

theorem countOfName_of_absent (name : String) (addedObjects : List AddedObject)
    (h : ∀ obj ∈ addedObjects, obj.name ≠ name) : countOfName name addedObjects = 0 := by
  induction addedObjects with
  | nil => rfl
  | cons obj rest ih =>
    rw [countOfName_cons, if_neg (fun hn => h obj (List.mem_cons_self _ _) hn.1),
      ih (fun o ho => h o (List.mem_cons_of_mem _ ho))]
    rfl

theorem countOfName_of_nodup (addedObjects : List AddedObject)
    (hnodup : (addedObjects.map (fun obj => obj.name)).Nodup) (obj : AddedObject)
    (hobj : obj ∈ addedObjects) (hpos : 0 < obj.count) :
    countOfName obj.name addedObjects = obj.count := by
  induction addedObjects with
  | nil => simp at hobj
  | cons o rest ih =>
    rw [List.map_cons, List.nodup_cons] at hnodup
    rw [countOfName_cons]
    rcases List.mem_cons.1 hobj with rfl | hrest
    · rw [if_pos ⟨rfl, hpos⟩, countOfName_of_absent]
      · simp
      · intro o ho hn
        exact hnodup.1 (List.mem_map.2 ⟨o, ho, hn⟩)
    · have hne : o.name ≠ obj.name := fun hn =>
        hnodup.1 (List.mem_map.2 ⟨obj, hrest, hn.symm⟩)
      rw [if_neg (fun h => hne h.1), ih hnodup.2 hrest]
      simp

theorem loggedSystemType_found (originData destinationData : CountryData) :
    loggedSystemType (some originData) (some destinationData) =
      if hasPieceSystem originData destinationData then "piece" else "weight" := by
  simp [loggedSystemType, hasPieceSystem]

theorem resolveLimits_logged (numToString : ℚ → String) (pa pc po pd : Dropdown) (g : Globals)
    (airlineData : AirlineData) (originData destinationData : CountryData)
    (airline classType origin destination : String) (totalWeight : ℚ)
    (h0 : weightLimit airlineData classType (decide (g.selectedFlightType = some "domestic")) ≠
      0) :
    resolveLimits numToString (fullPage pa pc po pd) g airlineData originData destinationData
        airline classType origin destination totalWeight =
      [Effect.displayResults
         { totalWeight := totalWeight,
           weightLimit :=
             weightLimit airlineData classType (decide (g.selectedFlightType = some "domestic")),
           limitPassed := decide (totalWeight >
             weightLimit airlineData classType (decide (g.selectedFlightType = some "domestic"))),
           airline := airline, classType := classType, origin := origin,
           destination := destination,
           isDomestic := decide (g.selectedFlightType = some "domestic"),
           hasPieceSystem := hasPieceSystem originData destinationData,
           airlineData := airlineData },
       Effect.logCalculationResult
         { totalWeight := totalWeight,
           limitPassed := decide (totalWeight >
             weightLimit airlineData classType (decide (g.selectedFlightType = some "domestic"))),
           flightType := g.selectedFlightType, tripType := g.selectedTripType,
           classType := classType, airline := airline }] := by
  simp [resolveLimits, h0, displayResults_fullPage]

theorem logCalculationResult_fullPage (countryName : String → String) (pa pc po pd : Dropdown)
    (db : Db) (g : Globals) (user : String) (now : ℤ) (a : LogArgs)
    (origin destination : String)
    (hpo : po.value = some origin) (hpd : pd.value = some destination) :
    logCalculationResult countryName (fullPage pa pc po pd) db g (some user) now a =
      some { totalWeight := a.totalWeight, limitPassed := a.limitPassed,
             flightType := a.flightType, tripType := a.tripType,
             classType := a.classType, airline := a.airline,
             origin := countryName origin, destination := countryName destination,
             system := loggedSystemType (db.countries origin) (db.countries destination),
             calculatedAt := some now,
             itemsUsed := g.addedObjects.map
               (fun obj => { name := obj.name, count := obj.count, weight := obj.weight }) } := by
  simp [logCalculationResult, fullPage, hpo, hpd]

theorem recomputeViolation_weightLimit (airlineData : AirlineData) (now : ℤ) (data : LogData)
    (airline : String) (totalWeight : ℚ) (classType : String)
    (hc : data.classType = some classType) :
    (recomputeViolation airlineData now data airline totalWeight).weightLimit =
      weightLimit airlineData classType (decide (data.flightType = some "domestic")) := by
  simp [recomputeViolation, weightLimit, flightTypePrefix, hc]

theorem recomputeViolation_piece (airlineData : AirlineData) (now : ℤ) (data : LogData)
    (airline : String) (totalWeight : ℚ) (classType : String)
    (hc : data.classType = some classType) (hs : data.system = some "piece") :
    (recomputeViolation airlineData now data airline totalWeight).system = "piece" ∧
    (recomputeViolation airlineData now data airline totalWeight).fee =
      pieceSystemFee airlineData classType ∧
    (recomputeViolation airlineData now data airline totalWeight).currency =
      pieceCurrency airlineData := by
  have h₁ : "PieceSystem" ++ "Int" ++ "EconomyFee" = "PieceSystemIntEconomyFee" := by decide
  have h₂ : "PieceSystem" ++ "Int" ++ "BusinessFee" = "PieceSystemIntBusinessFee" := by decide
  have h₃ : "PieceSystem" ++ "Int" ++ "FirstFee" = "PieceSystemIntFirstFee" := by decide
  have hp : ("piece" : String) ≠ "" := by decide
  refine ⟨by simp [recomputeViolation, orText, hs, hp], ?_, by
    simp [recomputeViolation, pieceCurrency, hs]⟩
  simp only [recomputeViolation, pieceSystemFee, hc, hs, h₁, h₂, h₃]
  simp

theorem recomputeViolation_weight (airlineData : AirlineData) (now : ℤ) (data : LogData)
    (airline : String) (totalWeight : ℚ) (classType : String)
    (hc : data.classType = some classType) (hs : data.system = some "weight") :
    (recomputeViolation airlineData now data airline totalWeight).system = "weight" ∧
    (recomputeViolation airlineData now data airline totalWeight).fee =
      weightSystemFee airlineData classType (decide (data.flightType = some "domestic")) ∧
    (recomputeViolation airlineData now data airline totalWeight).currency =
      weightCurrency airlineData (decide (data.flightType = some "domestic")) := by
  have hw : ("weight" : String) ≠ "" := by decide
  have hwp : ("weight" : String) ≠ "piece" := by decide
  refine ⟨by simp [recomputeViolation, orText, hs, hw], ?_, ?_⟩
  · simp [recomputeViolation, weightSystemFee, flightTypePrefix, hc, hs, hwp]
  · simp [recomputeViolation, weightCurrency, hs, hwp]

theorem bucketKeys_nodup : bucketKeys.Nodup := by decide

theorem rangeKey_injOn (i j : ℕ) (hi : i < 50) (hj : j < 50)
    (h : rangeKey (i : ℤ) = rangeKey (j : ℤ)) : i = j := by
  have hn := bucketKeys_nodup
  rw [bucketKeys, List.nodup_append] at hn
  exact List.inj_on_of_nodup_map hn.1 (List.mem_range.2 hi) (List.mem_range.2 hj) h

theorem rangeKey_ne_overflow (i : ℕ) (hi : i < 50) : rangeKey (i : ℤ) ≠ "50+" := by
  have hn := bucketKeys_nodup
  rw [bucketKeys, List.nodup_append] at hn
  intro h
  exact hn.2.2 (List.mem_map.2 ⟨i, List.mem_range.2 hi, h⟩) (by simp)

theorem floor_toNat_lt (w : ℚ) (h0 : 0 ≤ w) (h50 : w < 50) :
    (Int.floor w).toNat < 50 ∧ ((Int.floor w).toNat : ℤ) = Int.floor w := by
  have hf0 : 0 ≤ Int.floor w := Int.floor_nonneg.2 h0
  have hf50 : Int.floor w < 50 := Int.floor_lt.2 (by exact_mod_cast h50)
  omega

theorem countLog_apply (weightRanges : String → Option ℕ) (logData : LogData) (key : String) :
    countLog weightRanges logData key =
      if bucketKeyOf logData = some key then (weightRanges key).map (fun n => n + 1)
      else weightRanges key := by
  unfold countLog bucketKeyOf
  cases logData.totalWeight with
  | none => simp
  | some w =>
    by_cases h0 : 0 ≤ w
    · by_cases h50 : 50 ≤ w
      · by_cases hk : key = "50+"
        · simp [h0, h50, incrementRange, hk]
        · simp [h0, h50, incrementRange, hk, Ne.symm hk]
      · by_cases hk : key = rangeKey (Int.floor w)
        · cases hr : weightRanges (rangeKey (Int.floor w)) <;>
            simp [h0, h50, incrementRange, hk, hr]
        · cases hr : weightRanges (rangeKey (Int.floor w)) <;>
            simp [h0, h50, incrementRange, hk, Ne.symm hk, hr]
    · simp [h0]

theorem foldl_countLog_apply (calculationLogs : List LogData)
    (weightRanges : String → Option ℕ) (key : String) :
    calculationLogs.foldl countLog weightRanges key =
      (weightRanges key).map
        (fun n => n + calculationLogs.countP (fun l => decide (bucketKeyOf l = some key))) := by
  induction calculationLogs generalizing weightRanges with
  | nil => simp
  | cons l rest ih =>
    rw [List.foldl_cons, ih, countLog_apply, List.countP_cons]
    by_cases h : bucketKeyOf l = some key
    · cases weightRanges key <;> simp [h]
      omega
    · simp [h]

theorem foldl_users_eq_join (allUsers : List (List LogData))
    (weightRanges : String → Option ℕ) :
    allUsers.foldl
        (fun weightRanges calculationLogs => calculationLogs.foldl countLog weightRanges)
        weightRanges =
      allUsers.flatten.foldl countLog weightRanges := by
  induction allUsers generalizing weightRanges with
  | nil => rfl
  | cons logs rest ih => simp [List.foldl_append, ih]

theorem foldl_setKey_apply (f : ℕ → String) (l : List ℕ) (weightRanges : String → Option ℕ)
    (key : String) :
    l.foldl (fun weightRanges i => fun key => if key = f i then some 0 else weightRanges key)
        weightRanges key =
      if key ∈ l.map f then some 0 else weightRanges key := by
  induction l generalizing weightRanges with
  | nil => simp
  | cons i rest ih =>
    rw [List.foldl_cons, ih]
    by_cases h₁ : key ∈ rest.map f
    · simp [h₁]
    · by_cases h₂ : key = f i
      · simp [h₂]
      · have h₁' : ∀ x ∈ rest, ¬ f x = key := by
          intro x hx hxk
          exact h₁ (List.mem_map.2 ⟨x, hx, hxk⟩)
        simp [h₁, h₂, h₁']

theorem initialWeightRanges_apply (key : String) :
    initialWeightRanges key = if key ∈ bucketKeys then some 0 else none := by
  simp only [initialWeightRanges, bucketKeys]
  rw [foldl_setKey_apply (fun (i : ℕ) => rangeKey (i : ℤ))]
  by_cases h : key = "50+"
  · simp [h]
  · by_cases h₂ : key ∈ (List.range 50).map (fun (i : ℕ) => rangeKey (i : ℤ))
    · simp [h, h₂]
    · simp only [h, h₂, if_false, List.mem_append, List.mem_singleton, or_self]

theorem weightRangesOf_apply (allUsers : List (List LogData)) (key : String)
    (hkey : key ∈ bucketKeys) :
    weightRangesOf allUsers key =
      some (allUsers.flatten.countP (fun l => decide (bucketKeyOf l = some key))) := by
  rw [weightRangesOf, foldl_users_eq_join, foldl_countLog_apply, initialWeightRanges_apply,
    if_pos hkey]
  simp

theorem bucketKeyOf_eq_rangeKey_iff (logData : LogData) (i : ℕ) (hi : i < 50) :
    bucketKeyOf logData = some (rangeKey (i : ℤ)) ↔ inBucket (i : ℤ) logData = true := by
  unfold bucketKeyOf inBucket
  cases logData.totalWeight with
  | none => simp
  | some w =>
    by_cases h0 : 0 ≤ w
    · by_cases h50 : 50 ≤ w
      · have hne := rangeKey_ne_overflow i hi
        simp [h0, h50, not_lt.2 h50, Ne.symm hne]
      · have hlt : w < 50 := not_le.1 h50
        obtain ⟨hn, hcast⟩ := floor_toNat_lt w h0 hlt
        simp only [h0, h50, hlt, if_true, if_false, Option.some.injEq, decide_True,
          Bool.true_and, decide_eq_true_eq]
        constructor
        · intro h
          rw [← hcast] at h
          rw [← hcast, rangeKey_injOn _ _ hn hi h]
        · intro h
          rw [h]
    · simp [h0]

theorem bucketKeyOf_eq_overflow_iff (logData : LogData) :
    bucketKeyOf logData = some "50+" ↔ inOverflow logData = true := by
  unfold bucketKeyOf inOverflow
  cases logData.totalWeight with
  | none => simp
  | some w =>
    by_cases h0 : 0 ≤ w
    · by_cases h50 : 50 ≤ w
      · simp [h0, h50]
      · have hlt : w < 50 := not_le.1 h50
        obtain ⟨hn, hcast⟩ := floor_toNat_lt w h0 hlt
        have hne := rangeKey_ne_overflow _ hn
        rw [hcast] at hne
        simp [h0, h50, hne]
    · have h50 : ¬ 50 ≤ w := fun h => h0 (le_trans (by norm_num) h)
      simp [h0, h50]

theorem countP_add_of_disjoint {α : Type} (p q r : α → Bool) (l : List α)
    (h : ∀ a, r a = (p a || q a)) (hd : ∀ a, ¬ (p a = true ∧ q a = true)) :
    l.countP r = l.countP p + l.countP q := by
  induction l with
  | nil => rfl
  | cons a rest ih =>
    simp only [List.countP_cons, ih, h a]
    have := hd a
    cases hp : p a <;> cases hq : q a <;> simp_all <;> omega

theorem countP_inBucket_sum (calculationLogs : List LogData) (n : ℕ) :
    ((List.range n).map (fun (i : ℕ) => calculationLogs.countP (inBucket (i : ℤ)))).sum =
      calculationLogs.countP (fun l =>
        match l.totalWeight with
        | some w => decide (0 ≤ w) && decide (w < 50) && decide (Int.floor w < (n : ℤ))
        | none => false) := by
  induction n with
  | zero =>
    simp only [List.range_zero, List.map_nil, List.sum_nil]
    symm
    rw [List.countP_eq_zero]
    intro l _
    cases hw : l.totalWeight with
    | none => simp
    | some w =>
      by_cases h0 : 0 ≤ w
      · have : ¬ Int.floor w < 0 := not_lt.2 (Int.floor_nonneg.2 h0)
        simp [this]
      · simp [h0]
  | succ n ih =>
    rw [List.range_succ, List.map_append, List.sum_append, ih]
    simp only [List.map_cons, List.map_nil, List.sum_cons, List.sum_nil, add_zero]
    symm
    refine countP_add_of_disjoint _ _ _ _ ?_ ?_
    · intro l
      unfold inBucket
      cases l.totalWeight with
      | none => rfl
      | some w =>
        have hiff : decide (Int.floor w < (n : ℤ) + 1) =
            (decide (Int.floor w < (n : ℤ)) || decide (Int.floor w = (n : ℤ))) := by
          rw [← Bool.decide_or]
          exact decide_eq_decide.2 (by omega)
        by_cases h0 : 0 ≤ w <;> by_cases h50 : w < 50 <;> simp [h0, h50, hiff]
    · intro l
      unfold inBucket
      cases l.totalWeight with
      | none => simp
      | some w =>
        simp only [Bool.and_eq_true, decide_eq_true_eq]
        intro h
        omega

theorem countP_buckets_total (calculationLogs : List LogData) :
    ((List.range 50).map (fun (i : ℕ) => calculationLogs.countP (inBucket (i : ℤ)))).sum +
        calculationLogs.countP inOverflow =
      calculationLogs.countP isWeighed := by
  rw [countP_inBucket_sum]
  symm
  apply countP_add_of_disjoint
  · intro l
    unfold inOverflow isWeighed
    cases l.totalWeight with
    | none => rfl
    | some w =>
      by_cases h0 : 0 ≤ w
      · by_cases h50 : w < 50
        · have hf : Int.floor w < 50 := Int.floor_lt.2 (by exact_mod_cast h50)
          simp [h0, h50, hf, not_le.2 h50]
        · simp [h0, h50, not_lt.1 h50]
      · have h50 : ¬ 50 ≤ w := fun h => h0 (le_trans (by norm_num) h)
        simp [h0, h50]
  · intro l
    unfold inOverflow
    cases l.totalWeight with
    | none => simp
    | some w =>
      simp only [Bool.and_eq_true, decide_eq_true_eq]
      intro h
      exact absurd h.2 (not_le.2 h.1.1.2)

theorem foldl_foldl_eq_flatten {α β : Type} (f : β → α → β) (ls : List (List α)) (b : β) :
    ls.foldl (fun b l => l.foldl f b) b = ls.flatten.foldl f b := by
  induction ls generalizing b with
  | nil => rfl
  | cons l rest ih => simp [List.foldl_append, ih]

theorem append_cons_inj_of_not_mem_right (c : Char) (a a' s s' : List Char)
    (hs : c ∉ s) (hs' : c ∉ s') (h : a ++ c :: s = a' ++ c :: s') : a = a' ∧ s = s' := by
  have hrev : s.reverse ++ c :: a.reverse = s'.reverse ++ c :: a'.reverse := by
    have := congrArg List.reverse h
    simpa using this
  have hr : c ∉ s.reverse := by simpa using hs
  have hr' : c ∉ s'.reverse := by simpa using hs'
  have key : ∀ (x x' y y' : List Char), c ∉ x → c ∉ x' → x ++ c :: y = x' ++ c :: y' →
      x = x' ∧ y = y' := by
    intro x
    induction x with
    | nil =>
      intro x' y y' _ hx' hxy
      cases x' with
      | nil => exact ⟨rfl, by simpa using hxy⟩
      | cons d x'' =>
        simp only [List.nil_append, List.cons_append, List.cons.injEq] at hxy
        exact absurd (hxy.1 ▸ List.mem_cons_self _ _) hx'
    | cons d x ih =>
      intro x' y y' hx hx' hxy
      cases x' with
      | nil =>
        simp only [List.nil_append, List.cons_append, List.cons.injEq] at hxy
        exact absurd (hxy.1 ▸ List.mem_cons_self _ _) hx
      | cons d' x'' =>
        simp only [List.cons_append, List.cons.injEq] at hxy
        obtain ⟨h₁, h₂⟩ := ih x'' y y' (fun hm => hx (List.mem_cons_of_mem _ hm))
          (fun hm => hx' (List.mem_cons_of_mem _ hm)) hxy.2
        exact ⟨by rw [hxy.1, h₁], h₂⟩
  obtain ⟨h₁, h₂⟩ := key _ _ _ _ hr hr' hrev
  exact ⟨List.reverse_injective h₂, List.reverse_injective h₁⟩

theorem policyKey_inj (a c f a' c' f' : String)
    (hc : '-' ∉ c.toList) (hf : '-' ∉ f.toList) (hc' : '-' ∉ c'.toList)
    (hf' : '-' ∉ f'.toList) (h : policyKey a c f = policyKey a' c' f') :
    a = a' ∧ c = c' ∧ f = f' := by
  have hd := congrArg String.data h
  simp only [policyKey, String.data_append] at hd
  simp only [List.append_assoc, List.singleton_append] at hd
  have h₁ := append_cons_inj_of_not_mem_right '-' (a.data ++ '-' :: c.data)
    (a'.data ++ '-' :: c'.data) f.data f'.data hf hf'
    (by simpa [List.append_assoc] using hd)
  have h₂ := append_cons_inj_of_not_mem_right '-' a.data a'.data c.data c'.data hc hc' h₁.1
  exact ⟨String.ext h₂.1, String.ext h₂.2, String.ext h₁.2⟩

theorem isCounted_fields (logData : LogData) (h : isCounted logData = true) :
    ∃ a c f, logData.limitPassed = some true ∧ logData.airline = some a ∧
      logData.classType = some c ∧ logData.flightType = some f ∧
      a ≠ "" ∧ c ≠ "" ∧ f ≠ "" := by
  unfold isCounted at h
  simp only [Bool.and_eq_true, decide_eq_true_eq, Bool.not_eq_true'] at h
  obtain ⟨⟨⟨hl, ha⟩, hc⟩, hf⟩ := h
  cases hA : logData.airline with
  | none => simp [hA, strFalsy] at ha
  | some a =>
    cases hC : logData.classType with
    | none => simp [hC, strFalsy] at hc
    | some c =>
      cases hF : logData.flightType with
      | none => simp [hF, strFalsy] at hf
      | some f =>
        refine ⟨a, c, f, hl, rfl, rfl, rfl, ?_, ?_, ?_⟩
        · simpa [hA, strFalsy] using ha
        · simpa [hC, strFalsy] using hc
        · simpa [hF, strFalsy] using hf

theorem recordPolicyViolation_of_not_counted (db : Db) (m : ViolationMap) (logData : LogData)
    (h : isCounted logData = false) : recordPolicyViolation db m logData = m := by
  unfold recordPolicyViolation
  cases hA : logData.airline with
  | none => rfl
  | some a =>
    cases hC : logData.classType with
    | none => rfl
    | some c =>
      cases hF : logData.flightType with
      | none => rfl
      | some f =>
        have hn : ¬ (logData.limitPassed = some true ∧ a ≠ "" ∧ c ≠ "" ∧ f ≠ "") := by
          intro hall
          have : isCounted logData = true := by
            simp [isCounted, hA, hC, hF, strFalsy, hall.1, hall.2.1, hall.2.2.1, hall.2.2.2]
          rw [h] at this
          exact Bool.false_ne_true this
        simp only [if_neg hn]

theorem recordPolicyViolation_of_counted (db : Db) (m : ViolationMap) (logData : LogData)
    (h : isCounted logData = true) :
    recordPolicyViolation db m logData =
      { keys := if (m.get (keyOfLog logData)).isSome then m.keys
          else m.keys ++ [keyOfLog logData],
        get := fun key =>
          if key = keyOfLog logData then
            some (recordedViolation db (m.get (keyOfLog logData)) logData)
          else m.get key } := by
  obtain ⟨a, c, f, hl, hA, hC, hF, ha, hc, hf⟩ := isCounted_fields logData h
  have hall : logData.limitPassed = some true ∧ a ≠ "" ∧ c ≠ "" ∧ f ≠ "" := ⟨hl, ha, hc, hf⟩
  unfold recordPolicyViolation
  simp only [hA, hC, hF, if_pos hall, keyOfLog, Option.getD_some]
  cases hget : m.get (policyKey a c f) with
  | none =>
    simp only [Option.isSome_none, Bool.false_eq_true, if_false, if_true, recordedViolation,
      hA, hC, hF, Option.getD_some, zero_add]
    congr 1
    funext key
    by_cases hk : key = policyKey a c f <;> simp [hk]
  | some v =>
    simp only [Option.isSome_some, if_true, hget, recordedViolation, hA, hC, hF,
      Option.getD_some]

theorem countOfKey_record (db : Db) (m : ViolationMap) (logData : LogData) (key : String) :
    countOfKey (recordPolicyViolation db m logData) key =
      countOfKey m key +
        (if isCounted logData = true ∧ keyOfLog logData = key then 1 else 0) := by
  cases h : isCounted logData with
  | false => simp [recordPolicyViolation_of_not_counted db m logData h]
  | true =>
    rw [recordPolicyViolation_of_counted db m logData h]
    by_cases hk : keyOfLog logData = key
    · subst hk
      cases hget : m.get (keyOfLog logData) <;>
        simp [countOfKey, recordedViolation, hget]
    · simp [countOfKey, hk, Ne.symm hk]

theorem countOfKey_foldl (db : Db) (calculationLogs : List LogData) (m : ViolationMap)
    (key : String) :
    countOfKey (calculationLogs.foldl (recordPolicyViolation db) m) key =
      countOfKey m key +
        calculationLogs.countP (fun l => isCounted l && decide (keyOfLog l = key)) := by
  induction calculationLogs generalizing m with
  | nil => simp
  | cons l rest ih =>
    rw [List.foldl_cons, ih, countOfKey_record, List.countP_cons]
    by_cases h : isCounted l = true ∧ keyOfLog l = key
    · simp [h.1, h.2]
      omega
    · have hb : (isCounted l && decide (keyOfLog l = key)) = false := by
        simpa using h
      simp [h, hb]

theorem wellFormed_record (db : Db) (m : ViolationMap) (logData : LogData)
    (hnd : m.keys.Nodup) (hmem : ∀ key, key ∈ m.keys ↔ (m.get key).isSome = true) :
    (recordPolicyViolation db m logData).keys.Nodup ∧
    ∀ key, key ∈ (recordPolicyViolation db m logData).keys ↔
      ((recordPolicyViolation db m logData).get key).isSome = true := by
  cases h : isCounted logData with
  | false =>
    rw [recordPolicyViolation_of_not_counted db m logData h]
    exact ⟨hnd, hmem⟩
  | true =>
    rw [recordPolicyViolation_of_counted db m logData h]
    by_cases hk : (m.get (keyOfLog logData)).isSome = true
    · simp only [hk, if_true]
      refine ⟨hnd, fun key => ?_⟩
      by_cases hkey : key = keyOfLog logData
      · simp [hkey, (hmem _).2 hk]
      · simp [hkey, hmem key]
    · simp only [hk, Bool.false_eq_true, if_false]
      have hnot : keyOfLog logData ∉ m.keys := fun hm => hk ((hmem _).1 hm)
      refine ⟨?_, fun key => ?_⟩
      · rw [List.nodup_append]
        refine ⟨hnd, List.nodup_singleton _, ?_⟩
        intro x hx hx'
        rw [List.mem_singleton] at hx'
        exact hnot (hx' ▸ hx)
      · by_cases hkey : key = keyOfLog logData
        · simp [hkey]
        · simp [hkey, hmem key]

theorem wellFormed_foldl (db : Db) (calculationLogs : List LogData) (m : ViolationMap)
    (hnd : m.keys.Nodup) (hmem : ∀ key, key ∈ m.keys ↔ (m.get key).isSome = true) :
    (calculationLogs.foldl (recordPolicyViolation db) m).keys.Nodup ∧
    ∀ key, key ∈ (calculationLogs.foldl (recordPolicyViolation db) m).keys ↔
      ((calculationLogs.foldl (recordPolicyViolation db) m).get key).isSome = true := by
  induction calculationLogs generalizing m with
  | nil => exact ⟨hnd, hmem⟩
  | cons l rest ih =>
    obtain ⟨h₁, h₂⟩ := wellFormed_record db m l hnd hmem
    exact ih _ h₁ h₂

theorem entryOk_record (db : Db) (m : ViolationMap) (logData : LogData)
    (S : LogData → Prop) (hS : S logData)
    (hok : ∀ key v, m.get key = some v →
      key = policyKey v.airline v.classType v.flightType ∧
      ∃ l, S l ∧ isCounted l = true ∧ tripleOf l = violationTriple v) :
    ∀ key v, (recordPolicyViolation db m logData).get key = some v →
      key = policyKey v.airline v.classType v.flightType ∧
      ∃ l, S l ∧ isCounted l = true ∧ tripleOf l = violationTriple v := by
  cases h : isCounted logData with
  | false =>
    rw [recordPolicyViolation_of_not_counted db m logData h]
    exact hok
  | true =>
    rw [recordPolicyViolation_of_counted db m logData h]
    intro key v hget
    by_cases hkey : key = keyOfLog logData
    · simp only [hkey, if_true, Option.some.injEq] at hget
      subst hget
      cases hold : m.get (keyOfLog logData) with
      | none =>
        refine ⟨by rw [hkey]; rfl, logData, hS, h, rfl⟩
      | some old =>
        obtain ⟨h₁, h₂⟩ := hok _ old hold
        exact ⟨by rw [hkey]; exact h₁, h₂⟩
    · simp only [hkey, if_false] at hget
      exact hok key v hget

theorem entryOk_foldl (db : Db) (S : LogData → Prop) (calculationLogs : List LogData)
    (hlogs : ∀ l ∈ calculationLogs, S l) (m : ViolationMap)
    (hok : ∀ key v, m.get key = some v →
      key = policyKey v.airline v.classType v.flightType ∧
      ∃ l, S l ∧ isCounted l = true ∧ tripleOf l = violationTriple v) :
    ∀ key v, (calculationLogs.foldl (recordPolicyViolation db) m).get key = some v →
      key = policyKey v.airline v.classType v.flightType ∧
      ∃ l, S l ∧ isCounted l = true ∧ tripleOf l = violationTriple v := by
  induction calculationLogs generalizing m with
  | nil => exact hok
  | cons l rest ih =>
    exact ih (fun l' hl' => hlogs l' (List.mem_cons_of_mem _ hl')) _
      (entryOk_record db m l S (hlogs l (List.mem_cons_self _ _)) hok)

theorem currentWeightLimit_eq (db : Db) (a c f : String) (old : ℚ) (ad : AirlineData)
    (hA : db.airlines a = some ad)
    (hold : old = 0 ∨ old = weightLimit ad c (decide (f = "domestic"))) :
    currentWeightLimit db a c f old = weightLimit ad c (decide (f = "domestic")) := by
  unfold currentWeightLimit weightLimit flightTypePrefix
  rw [hA]
  by_cases h₁ : c = "economy"
  · simp [h₁]
  · by_cases h₂ : c = "business"
    · simp [h₁, h₂]
    · by_cases h₃ : c = "first"
      · simp [h₁, h₂, h₃]
      · rcases hold with h0 | h0
        · simp [h₁, h₂, h₃, h0]
        · rw [h0]
          simp [weightLimit, h₁, h₂, h₃]

theorem triple_of_same_key (m : ViolationMap) (logData : LogData) (S : LogData → Prop)
    (hS : S logData) (hcounted : isCounted logData = true)
    (hfree : ∀ l, S l → isCounted l = true →
      '-' ∉ (tripleOf l).2.1.toList ∧ '-' ∉ (tripleOf l).2.2.toList)
    (hok : ∀ key v, m.get key = some v →
      key = policyKey v.airline v.classType v.flightType ∧
      ∃ l, S l ∧ isCounted l = true ∧ tripleOf l = violationTriple v)
    (v : PolicyViolation) (hget : m.get (keyOfLog logData) = some v) :
    tripleOf logData = violationTriple v := by
  obtain ⟨hkey, l', hS', hc', ht'⟩ := hok _ v hget
  obtain ⟨h₁, h₂⟩ := hfree logData hS hcounted
  obtain ⟨h₁', h₂'⟩ := hfree l' hS' hc'
  rw [ht'] at h₁' h₂'
  obtain ⟨ha, hc, hf⟩ := policyKey_inj _ _ _ _ _ _ h₁ h₂ h₁' h₂' hkey
  simp only [tripleOf, violationTriple] at *
  rw [ha, hc, hf]

theorem limitOk_record (db : Db) (m : ViolationMap) (logData : LogData)
    (S : LogData → Prop) (hS : S logData)
    (hfree : ∀ l, S l → isCounted l = true →
      '-' ∉ (tripleOf l).2.1.toList ∧ '-' ∉ (tripleOf l).2.2.toList)
    (hok : ∀ key v, m.get key = some v →
      key = policyKey v.airline v.classType v.flightType ∧
      ∃ l, S l ∧ isCounted l = true ∧ tripleOf l = violationTriple v)
    (hlim : ∀ key v, m.get key = some v → ∀ ad, db.airlines v.airline = some ad →
      v.weightLimit = weightLimit ad v.classType (decide (v.flightType = "domestic"))) :
    ∀ key v, (recordPolicyViolation db m logData).get key = some v →
      ∀ ad, db.airlines v.airline = some ad →
      v.weightLimit = weightLimit ad v.classType (decide (v.flightType = "domestic")) := by
  cases h : isCounted logData with
  | false =>
    rw [recordPolicyViolation_of_not_counted db m logData h]
    exact hlim
  | true =>
    rw [recordPolicyViolation_of_counted db m logData h]
    intro key v hget ad hA
    by_cases hkey : key = keyOfLog logData
    · simp only [hkey, if_true, Option.some.injEq] at hget
      subst hget
      cases hold : m.get (keyOfLog logData) with
      | none =>
        rw [hold] at hA
        simp only [recordedViolation, hold] at hA ⊢
        exact currentWeightLimit_eq db _ _ _ 0 ad hA (Or.inl rfl)
      | some old =>
        have ht := triple_of_same_key m logData S hS h hfree hok old hold
        simp only [tripleOf, violationTriple, Prod.mk.injEq] at ht
        obtain ⟨ha, hc, hf⟩ := ht
        rw [hold] at hA
        simp only [recordedViolation, hold, ha, hc, hf] at hA ⊢
        exact currentWeightLimit_eq db _ _ _ _ ad hA (Or.inr (hlim _ old hold ad hA))
    · simp only [hkey, if_false] at hget
      exact hlim key v hget ad hA

theorem limitOk_foldl (db : Db) (S : LogData → Prop) (calculationLogs : List LogData)
    (hlogs : ∀ l ∈ calculationLogs, S l)
    (hfree : ∀ l, S l → isCounted l = true →
      '-' ∉ (tripleOf l).2.1.toList ∧ '-' ∉ (tripleOf l).2.2.toList)
    (m : ViolationMap)
    (hok : ∀ key v, m.get key = some v →
      key = policyKey v.airline v.classType v.flightType ∧
      ∃ l, S l ∧ isCounted l = true ∧ tripleOf l = violationTriple v)
    (hlim : ∀ key v, m.get key = some v → ∀ ad, db.airlines v.airline = some ad →
      v.weightLimit = weightLimit ad v.classType (decide (v.flightType = "domestic"))) :
    ∀ key v, (calculationLogs.foldl (recordPolicyViolation db) m).get key = some v →
      ∀ ad, db.airlines v.airline = some ad →
      v.weightLimit = weightLimit ad v.classType (decide (v.flightType = "domestic")) := by
  induction calculationLogs generalizing m with
  | nil => exact hlim
  | cons l rest ih =>
    have hl := hlogs l (List.mem_cons_self _ _)
    exact ih (fun l' hl' => hlogs l' (List.mem_cons_of_mem _ hl')) _
      (entryOk_record db m l S hl hok) (limitOk_record db m l S hl hfree hok hlim)

theorem policyViolationsOf_eq (db : Db) (allUsers : List (List LogData)) :
    policyViolationsOf db allUsers =
      allUsers.flatten.foldl (recordPolicyViolation db) { keys := [], get := fun _ => none } := by
  rw [policyViolationsOf, foldl_foldl_eq_flatten]

theorem policyViolationsOf_wellFormed (db : Db) (allUsers : List (List LogData)) :
    (policyViolationsOf db allUsers).keys.Nodup ∧
    ∀ key, key ∈ (policyViolationsOf db allUsers).keys ↔
      ((policyViolationsOf db allUsers).get key).isSome = true := by
  rw [policyViolationsOf_eq]
  exact wellFormed_foldl db _ _ List.nodup_nil (fun key => by simp)

theorem policyViolationsOf_entryOk (db : Db) (allUsers : List (List LogData)) :
    ∀ key v, (policyViolationsOf db allUsers).get key = some v →
      key = policyKey v.airline v.classType v.flightType ∧
      ∃ l, l ∈ allUsers.flatten ∧ isCounted l = true ∧ tripleOf l = violationTriple v := by
  rw [policyViolationsOf_eq]
  exact entryOk_foldl db (fun l => l ∈ allUsers.flatten) _ (fun l hl => hl) _
    (fun key v h => by simp at h)

theorem policyViolationsOf_count (db : Db) (allUsers : List (List LogData)) (key : String) :
    countOfKey (policyViolationsOf db allUsers) key =
      allUsers.flatten.countP (fun l => isCounted l && decide (keyOfLog l = key)) := by
  rw [policyViolationsOf_eq, countOfKey_foldl]
  simp [countOfKey]

theorem policyViolationsOf_limitOk (db : Db) (allUsers : List (List LogData))
    (hfree : ∀ l, l ∈ allUsers.flatten → isCounted l = true →
      '-' ∉ (tripleOf l).2.1.toList ∧ '-' ∉ (tripleOf l).2.2.toList) :
    ∀ key v, (policyViolationsOf db allUsers).get key = some v →
      ∀ ad, db.airlines v.airline = some ad →
      v.weightLimit = weightLimit ad v.classType (decide (v.flightType = "domestic")) := by
  rw [policyViolationsOf_eq]
  exact limitOk_foldl db (fun l => l ∈ allUsers.flatten) _ (fun l hl => hl) hfree _
    (fun key v h => by simp at h) (fun key v h => by simp at h)

theorem filterMap_get_map_key (get : String → Option PolicyViolation) (keys : List String)
    (h : ∀ key ∈ keys, ∃ v, get key = some v ∧
      policyKey v.airline v.classType v.flightType = key) :
    (keys.filterMap get).map (fun v => policyKey v.airline v.classType v.flightType) =
      keys := by
  induction keys with
  | nil => rfl
  | cons key rest ih =>
    obtain ⟨v, hv, hk⟩ := h key (List.mem_cons_self _ _)
    rw [List.filterMap_cons, hv]
    simp only [List.map_cons, hk]
    rw [ih (fun k hk' => h k (List.mem_cons_of_mem _ hk'))]

theorem mem_values_iff (db : Db) (allUsers : List (List LogData)) (v : PolicyViolation) :
    v ∈ (policyViolationsOf db allUsers).keys.filterMap (policyViolationsOf db allUsers).get ↔
      ∃ key, (policyViolationsOf db allUsers).get key = some v := by
  rw [List.mem_filterMap]
  constructor
  · rintro ⟨key, -, h⟩
    exact ⟨key, h⟩
  · rintro ⟨key, h⟩
    exact ⟨key, ((policyViolationsOf_wellFormed db allUsers).2 key).2 (by rw [h]; rfl), h⟩

theorem values_triples_nodup (db : Db) (allUsers : List (List LogData)) :
    (((policyViolationsOf db allUsers).keys.filterMap
      (policyViolationsOf db allUsers).get).map violationTriple).Nodup := by
  have hkeys := filterMap_get_map_key (policyViolationsOf db allUsers).get
    (policyViolationsOf db allUsers).keys (by
      intro key hkey
      have hsome := ((policyViolationsOf_wellFormed db allUsers).2 key).1 hkey
      obtain ⟨v, hv⟩ := Option.isSome_iff_exists.1 hsome
      exact ⟨v, hv, ((policyViolationsOf_entryOk db allUsers) key v hv).1.symm⟩)
  have hnd : (((policyViolationsOf db allUsers).keys.filterMap
      (policyViolationsOf db allUsers).get).map
        (fun v => policyKey v.airline v.classType v.flightType)).Nodup := by
    rw [hkeys]
    exact (policyViolationsOf_wellFormed db allUsers).1
  have hcomp : (fun v : PolicyViolation => policyKey v.airline v.classType v.flightType) =
      (fun t : String × String × String => policyKey t.1 t.2.1 t.2.2) ∘ violationTriple := rfl
  rw [hcomp, ← List.map_map] at hnd
  exact List.Nodup.of_map _ hnd

theorem refreshWeightLimit_count (db : Db) (v : PolicyViolation) :
    (refreshWeightLimit db v).count = v.count := by
  unfold refreshWeightLimit
  split <;> rfl

theorem refreshWeightLimit_triple (db : Db) (v : PolicyViolation) :
    violationTriple (refreshWeightLimit db v) = violationTriple v := by
  unfold refreshWeightLimit
  split <;> rfl

theorem mem_sortedViolations_iff (db : Db) (allUsers : List (List LogData))
    (v' : PolicyViolation) :
    v' ∈ sortedViolations db allUsers ↔
      ∃ key v, (policyViolationsOf db allUsers).get key = some v ∧
        refreshWeightLimit db v = v' := by
  simp only [sortedViolations, List.mem_map]
  constructor
  · rintro ⟨v, hv, hr⟩
    rw [(List.perm_insertionSort _ _).mem_iff, mem_values_iff] at hv
    obtain ⟨key, hkey⟩ := hv
    exact ⟨key, v, hkey, hr⟩
  · rintro ⟨key, v, hkey, hr⟩
    refine ⟨v, ?_, hr⟩
    rw [(List.perm_insertionSort _ _).mem_iff, mem_values_iff]
    exact ⟨key, hkey⟩

theorem sortedViolations_triples_nodup (db : Db) (allUsers : List (List LogData)) :
    ((sortedViolations db allUsers).map violationTriple).Nodup := by
  simp only [sortedViolations, List.map_map]
  have hcomp : violationTriple ∘ refreshWeightLimit db = violationTriple := by
    funext v
    exact refreshWeightLimit_triple db v
  rw [hcomp]
  exact ((List.perm_insertionSort _ _).map violationTriple).nodup_iff.2
    (values_triples_nodup db allUsers)

theorem sortedViolations_sorted (db : Db) (allUsers : List (List LogData)) :
    (sortedViolations db allUsers).Pairwise (fun a b => b.count ≤ a.count) := by
  simp only [sortedViolations]
  rw [List.pairwise_map]
  have hs := List.sorted_insertionSort mostViolatedFirst
    ((policyViolationsOf db allUsers).keys.filterMap (policyViolationsOf db allUsers).get)
  refine List.Pairwise.imp ?_ hs
  intro a b hab
  rw [refreshWeightLimit_count, refreshWeightLimit_count]
  exact hab

theorem countP_key_eq_countP_triple (allLogs : List LogData) (t : String × String × String)
    (ht : '-' ∉ t.2.1.toList ∧ '-' ∉ t.2.2.toList)
    (hfree : ∀ l, l ∈ allLogs → isCounted l = true →
      '-' ∉ (tripleOf l).2.1.toList ∧ '-' ∉ (tripleOf l).2.2.toList) :
    allLogs.countP (fun l => isCounted l && decide (keyOfLog l = policyKey t.1 t.2.1 t.2.2)) =
      allLogs.countP (fun l => isCounted l && decide (tripleOf l = t)) := by
  apply List.countP_congr
  intro l hl
  simp only [Bool.and_eq_true, decide_eq_true_eq]
  constructor
  · rintro ⟨hc, hk⟩
    obtain ⟨h₁, h₂⟩ := hfree l hl hc
    obtain ⟨ha, hcl, hf⟩ := policyKey_inj _ _ _ _ _ _ h₁ h₂ ht.1 ht.2 hk
    exact ⟨hc, by simp only [tripleOf] at *; rw [ha, hcl, hf]⟩
  · rintro ⟨hc, hk⟩
    exact ⟨hc, by rw [← hk]; rfl⟩

theorem policyViolationsOf_present (db : Db) (allUsers : List (List LogData)) (l : LogData)
    (hl : l ∈ allUsers.flatten) (hc : isCounted l = true) :
    ∃ v, (policyViolationsOf db allUsers).get (keyOfLog l) = some v := by
  have hcount := policyViolationsOf_count db allUsers (keyOfLog l)
  have hpos : 0 < allUsers.flatten.countP
      (fun l' => isCounted l' && decide (keyOfLog l' = keyOfLog l)) :=
    List.countP_pos_iff.2 ⟨l, hl, by simp [hc]⟩
  cases hget : (policyViolationsOf db allUsers).get (keyOfLog l) with
  | some v => exact ⟨v, rfl⟩
  | none =>
    simp only [countOfKey, hget] at hcount
    omega

theorem policyViolationsOf_triple (db : Db) (allUsers : List (List LogData))
    (hfree : ∀ l, l ∈ allUsers.flatten → isCounted l = true →
      '-' ∉ (tripleOf l).2.1.toList ∧ '-' ∉ (tripleOf l).2.2.toList)
    (l : LogData) (hl : l ∈ allUsers.flatten) (hc : isCounted l = true)
    (v : PolicyViolation) (hget : (policyViolationsOf db allUsers).get (keyOfLog l) = some v) :
    tripleOf l = violationTriple v :=
  triple_of_same_key (policyViolationsOf db allUsers) l (fun l => l ∈ allUsers.flatten) hl hc
    hfree (policyViolationsOf_entryOk db allUsers) v hget

theorem hyphenFree_flatten (allUsers : List (List LogData))
    (hfree : ∀ logs ∈ allUsers, ∀ l ∈ logs, isCounted l = true →
      '-' ∉ (l.classType.getD "").toList ∧ '-' ∉ (l.flightType.getD "").toList) :
    ∀ l, l ∈ allUsers.flatten → isCounted l = true →
      '-' ∉ (tripleOf l).2.1.toList ∧ '-' ∉ (tripleOf l).2.2.toList := by
  intro l hl hc
  obtain ⟨logs, hlogs, hmem⟩ := List.mem_flatten.1 hl
  exact hfree logs hlogs l hmem hc

theorem refreshWeightLimit_limit (db : Db) (v : PolicyViolation) (ad : AirlineData)
    (hA : db.airlines v.airline = some ad)
    (hlim : v.weightLimit = weightLimit ad v.classType (decide (v.flightType = "domestic"))) :
    (refreshWeightLimit db v).weightLimit =
      weightLimit ad v.classType (decide (v.flightType = "domestic")) := by
  unfold refreshWeightLimit
  split
  · exact currentWeightLimit_eq db _ _ _ _ ad hA (Or.inr hlim)
  · exact hlim

theorem sortedViolations_limit (db : Db) (allUsers : List (List LogData))
    (hfree : ∀ logs ∈ allUsers, ∀ l ∈ logs, isCounted l = true →
      '-' ∉ (l.classType.getD "").toList ∧ '-' ∉ (l.flightType.getD "").toList)
    (v : PolicyViolation) (hv : v ∈ sortedViolations db allUsers) (ad : AirlineData)
    (hA : db.airlines v.airline = some ad) :
    v.weightLimit = weightLimit ad v.classType (decide (v.flightType = "domestic")) := by
  obtain ⟨key, v₀, hv₀, hr⟩ := (mem_sortedViolations_iff db allUsers v).1 hv
  have ht := refreshWeightLimit_triple db v₀
  rw [hr] at ht
  simp only [violationTriple, Prod.mk.injEq] at ht
  obtain ⟨ha, hc, hf⟩ := ht
  rw [ha] at hA
  have hlim := policyViolationsOf_limitOk db allUsers (hyphenFree_flatten allUsers hfree) key v₀
    hv₀ ad hA
  rw [← hr, refreshWeightLimit_limit db v₀ ad hA hlim]
  rw [← hr] at hc hf
  rw [hc, hf]

theorem resetFlightTypeOptions_fields (s : FlightForm) :
    (resetFlightTypeOptions s).airlineValue = s.airlineValue ∧
    (resetFlightTypeOptions s).originValue = s.originValue ∧
    (resetFlightTypeOptions s).destinationValue = s.destinationValue ∧
    (resetFlightTypeOptions s).radiosPresent = s.radiosPresent ∧
    (resetFlightTypeOptions s).currentAirlineDomCountry = none := by
  unfold resetFlightTypeOptions
  cases hr : s.radiosPresent <;> simp [hr]

theorem updateFlightTypeOptions_fields (db : Db) (s : FlightForm) :
    (updateFlightTypeOptions db s).airlineValue = s.airlineValue ∧
    (updateFlightTypeOptions db s).originValue = s.originValue ∧
    (updateFlightTypeOptions db s).destinationValue = s.destinationValue ∧
    (updateFlightTypeOptions db s).radiosPresent = s.radiosPresent ∧
    ((updateFlightTypeOptions db s).currentAirlineDomCountry = none ∨
      (updateFlightTypeOptions db s).currentAirlineDomCountry =
        s.currentAirlineDomCountry) := by
  have hreset := resetFlightTypeOptions_fields s
  unfold updateFlightTypeOptions
  cases hA : s.airlineValue with
  | none =>
    simp only []
    rw [hA] at hreset
    exact ⟨hreset.1, hreset.2.1, hreset.2.2.1, hreset.2.2.2.1, Or.inl hreset.2.2.2.2⟩
  | some a =>
    simp only []
    rw [hA] at hreset
    by_cases ha : a = ""
    · rw [if_pos ha]
      exact ⟨hreset.1, hreset.2.1, hreset.2.2.1, hreset.2.2.2.1, Or.inl hreset.2.2.2.2⟩
    · rw [if_neg ha]
      cases db.airlines a with
      | none => simp [hA]
      | some ad =>
        simp only []
        cases hr : s.radiosPresent
        · simp [hA, hr]
        · simp only [if_true]
          split <;> simp [hA, hr]

theorem updateFlightTypeOptions_active (db : Db) (s : FlightForm)
    (hradios : s.radiosPresent = true) (hactive : pieceSystemActive db s) :
    (updateFlightTypeOptions db s).domesticDisabled = true ∧
    (updateFlightTypeOptions db s).internationalDisabled = false ∧
    (updateFlightTypeOptions db s).domesticChecked = false ∧
    (updateFlightTypeOptions db s).internationalChecked = false ∧
    (updateFlightTypeOptions db s).selectedFlightType = none := by
  obtain ⟨a, ad, o, d, od, dd, ha, hane, hA, ho, hone, hO, hd, hdne, hD, hp⟩ := hactive
  have hp' : (boolFalsy od.WeightSystem || boolFalsy dd.WeightSystem) = true := hp
  simp [updateFlightTypeOptions, ha, hane, hA, ho, hone, hO, hd, hdne, hD, hradios, hp']

theorem pieceSystemActive_congr (db : Db) (s s' : FlightForm)
    (ha : s'.airlineValue = s.airlineValue) (ho : s'.originValue = s.originValue)
    (hd : s'.destinationValue = s.destinationValue) :
    pieceSystemActive db s' ↔ pieceSystemActive db s := by
  unfold pieceSystemActive
  rw [ha, ho, hd]

theorem resetFlightTypeOptions_not_active (db : Db) (s : FlightForm)
    (h : s.airlineValue = some "") : ¬ pieceSystemActive db (resetFlightTypeOptions s) := by
  rintro ⟨a, ad, o, d, od, dd, ha, hane, -⟩
  rw [(resetFlightTypeOptions_fields s).1, h] at ha
  exact hane (Option.some.inj ha).symm

theorem setCountryDropdown_cases (menuItems : List String) (selected : Option String)
    (countryId : String) :
    (setCountryDropdown menuItems selected countryId = selected ∧
      ∀ item ∈ menuItems,
        item ∉ [countryId, countryId.toLower, countryId.toUpper,
          countryId.toLower.capitalize]) ∨
    ∃ item ∈ menuItems,
      item ∈ [countryId, countryId.toLower, countryId.toUpper,
        countryId.toLower.capitalize] ∧
      setCountryDropdown menuItems selected countryId = some item := by
  unfold setCountryDropdown
  by_cases hlen : menuItems.length = 0
  · left
    have hnil : menuItems = [] := List.length_eq_zero.mp hlen
    subst hnil
    simp
  · rw [if_neg hlen]
    simp only []
    cases hfind : menuItems.find?
        (fun item => [countryId, countryId.toLower, countryId.toUpper,
          countryId.toLower.capitalize].contains item) with
    | none =>
      left
      refine ⟨rfl, fun item hitem hmem => ?_⟩
      have h := List.find?_eq_none.1 hfind item hitem
      exact h (by simpa using hmem)
    | some item =>
      right
      refine ⟨item, List.mem_of_find?_eq_some hfind, ?_, rfl⟩
      have h := List.find?_some hfind
      simpa using h

theorem resetFlightTypeOptions_menus (s : FlightForm) :
    (resetFlightTypeOptions s).originMenu = s.originMenu ∧
    (resetFlightTypeOptions s).destinationMenu = s.destinationMenu := by
  unfold resetFlightTypeOptions
  cases hr : s.radiosPresent <;> simp [hr]

theorem updateFlightTypeOptions_menus (db : Db) (s : FlightForm) :
    (updateFlightTypeOptions db s).originMenu = s.originMenu ∧
    (updateFlightTypeOptions db s).destinationMenu = s.destinationMenu := by
  have hreset := resetFlightTypeOptions_menus s
  unfold updateFlightTypeOptions
  cases hA : s.airlineValue with
  | none => exact hreset
  | some a =>
    simp only []
    by_cases ha : a = ""
    · rw [if_pos ha]
      exact hreset
    · rw [if_neg ha]
      cases db.airlines a with
      | none => exact ⟨rfl, rfl⟩
      | some ad =>
        simp only []
        cases hr : s.radiosPresent
        · simp
        · simp only [if_true]
          split <;> simp

theorem handleAirlineSelection_home (db : Db) (airlineId : String) (s : FlightForm) :
    (handleAirlineSelection db airlineId s).airlineValue = s.airlineValue ∧
    (handleAirlineSelection db airlineId s).originValue = s.originValue ∧
    (handleAirlineSelection db airlineId s).destinationValue = s.destinationValue ∧
    (handleAirlineSelection db airlineId s).radiosPresent = s.radiosPresent ∧
    (handleAirlineSelection db airlineId s).originMenu = s.originMenu ∧
    (handleAirlineSelection db airlineId s).destinationMenu = s.destinationMenu ∧
    ((handleAirlineSelection db airlineId s).currentAirlineDomCountry =
        s.currentAirlineDomCountry ∨
      ∃ airlineData, db.airlines airlineId = some airlineData ∧
        (handleAirlineSelection db airlineId s).currentAirlineDomCountry =
          orNull airlineData.DomCountry) := by
  unfold handleAirlineSelection
  cases hA : db.airlines airlineId with
  | none => exact ⟨rfl, rfl, rfl, rfl, rfl, rfl, Or.inl rfl⟩
  | some ad =>
    simp only []
    cases hr : s.radiosPresent
    · simp [hr]
    · simp only [if_true]
      split <;> simp [hr]

theorem handleDomesticFlightSelection_of_not_domestic (s : FlightForm)
    (h : s.selectedFlightType ≠ some "domestic") :
    handleDomesticFlightSelection s =
      { s with originLocked := false, destinationLocked := false } := by
  obtain ⟨a, o, d, oM, dM, r, dd, id, dc, ic, ol, dl, ft, cur⟩ := s
  unfold handleDomesticFlightSelection
  cases cur with
  | none => rfl
  | some country =>
    simp only []
    rw [if_neg (fun hc => h hc.2.2)]

theorem handleDomesticFlightSelection_home (s : FlightForm) :
    (handleDomesticFlightSelection s).airlineValue = s.airlineValue ∧
    (handleDomesticFlightSelection s).radiosPresent = s.radiosPresent ∧
    (handleDomesticFlightSelection s).originMenu = s.originMenu ∧
    (handleDomesticFlightSelection s).destinationMenu = s.destinationMenu ∧
    (handleDomesticFlightSelection s).domesticDisabled = s.domesticDisabled ∧
    (handleDomesticFlightSelection s).selectedFlightType = s.selectedFlightType ∧
    (handleDomesticFlightSelection s).currentAirlineDomCountry = s.currentAirlineDomCountry ∧
    (((handleDomesticFlightSelection s).originValue = s.originValue ∧
        (handleDomesticFlightSelection s).destinationValue = s.destinationValue) ∨
      ∃ country, s.currentAirlineDomCountry = some country ∧ country ≠ "" ∧
        country ≠ "none" ∧
        (handleDomesticFlightSelection s).originValue =
          setCountryDropdown s.originMenu s.originValue country ∧
        (handleDomesticFlightSelection s).destinationValue =
          setCountryDropdown s.destinationMenu s.destinationValue country) := by
  obtain ⟨a, o, d, oM, dM, r, dd, id, dc, ic, ol, dl, ft, cur⟩ := s
  unfold handleDomesticFlightSelection
  cases cur with
  | none => exact ⟨rfl, rfl, rfl, rfl, rfl, rfl, rfl, Or.inl ⟨rfl, rfl⟩⟩
  | some country =>
    simp only []
    by_cases hcond : country ≠ "" ∧ country ≠ "none" ∧ ft = some "domestic"
    · rw [if_pos hcond]
      exact ⟨rfl, rfl, rfl, rfl, rfl, rfl, rfl,
        Or.inr ⟨country, rfl, hcond.1, hcond.2.1, rfl, rfl⟩⟩
    · rw [if_neg hcond]
      exact ⟨rfl, rfl, rfl, rfl, rfl, rfl, rfl, Or.inl ⟨rfl, rfl⟩⟩

theorem not_active_of_weight_countries (db : Db) (s : FlightForm) (o d : String)
    (ho : s.originValue = some o) (hd : s.destinationValue = some d)
    (hwo : ∀ data, db.countries o = some data → data.WeightSystem = some true)
    (hwd : ∀ data, db.countries d = some data → data.WeightSystem = some true) :
    ¬ pieceSystemActive db s := by
  rintro ⟨a, ad, o', d', od, dd, -, -, -, ho', -, hO, hd', -, hD, hp⟩
  rw [ho] at ho'
  rw [hd] at hd'
  obtain rfl := Option.some.inj ho'
  obtain rfl := Option.some.inj hd'
  have h := (hasPieceSystem_eq_false_iff od dd).2 ⟨hwo od hO, hwd dd hD⟩
  rw [h] at hp
  exact Bool.false_ne_true hp

theorem handleDomesticFlightSelection_not_active (db : Db) (s : FlightForm)
    (hmenus : ∀ item, item ∈ s.originMenu ↔ item ∈ s.destinationMenu)
    (hhome : ∀ country, s.currentAirlineDomCountry = some country → country ≠ "none" →
      assignsWeightSystem db s.originMenu country)
    (hnot : ¬ pieceSystemActive db s) :
    ¬ pieceSystemActive db (handleDomesticFlightSelection s) := by
  obtain ⟨ha, -, -, -, -, -, -, hcases⟩ := handleDomesticFlightSelection_home s
  rcases hcases with ⟨ho, hd⟩ | ⟨country, hc, -, hnone, ho, hd⟩
  · exact fun h => hnot ((pieceSystemActive_congr db s _ ha ho hd).1 h)
  · have hsafe := hhome country hc hnone
    rcases setCountryDropdown_cases s.originMenu s.originValue country with
      ⟨hoeq, hoall⟩ | ⟨x, hx, hxid, hox⟩
    · rcases setCountryDropdown_cases s.destinationMenu s.destinationValue country with
        ⟨hdeq, -⟩ | ⟨y, hy, hyid, -⟩
      · rw [hoeq] at ho
        rw [hdeq] at hd
        exact fun h => hnot ((pieceSystemActive_congr db s _ ha ho hd).1 h)
      · exact absurd hyid (hoall y ((hmenus y).2 hy))
    · rcases setCountryDropdown_cases s.destinationMenu s.destinationValue country with
        ⟨-, hdall⟩ | ⟨y, hy, hyid, hdy⟩
      · exact absurd hxid (hdall x ((hmenus x).1 hx))
      · rw [hox] at ho
        rw [hdy] at hd
        exact not_active_of_weight_countries db _ x y ho hd (hsafe x hx hxid)
          (hsafe y ((hmenus y).2 hy) hyid)

theorem updateFlightTypeOptions_formInvariant (db : Db) (originMenu destinationMenu : List String)
    (s : FlightForm) (hr : s.radiosPresent = true) (hoM : s.originMenu = originMenu)
    (hdM : s.destinationMenu = destinationMenu)
    (hhome : ∀ country, s.currentAirlineDomCountry = some country → country ≠ "none" →
      assignsWeightSystem db originMenu country) :
    formInvariant db originMenu destinationMenu (updateFlightTypeOptions db s) := by
  obtain ⟨h₁, h₂, h₃, h₄, h₅⟩ := updateFlightTypeOptions_fields db s
  obtain ⟨m₁, m₂⟩ := updateFlightTypeOptions_menus db s
  refine ⟨by rw [h₄, hr], by rw [m₁, hoM], by rw [m₂, hdM], ?_, ?_⟩
  · intro country hc hnone
    rcases h₅ with h | h
    · rw [h] at hc
      exact absurd hc (by simp)
    · rw [h] at hc
      exact hhome country hc hnone
  · intro hactive
    have hactive' := (pieceSystemActive_congr db s _ h₁ h₂ h₃).1 hactive
    obtain ⟨hd, -, -, -, hf⟩ := updateFlightTypeOptions_active db s hr hactive'
    exact ⟨hd, by rw [hf]; simp⟩

theorem clickFlightTypeRadio_formInvariant (db : Db) (originMenu destinationMenu : List String)
    (hmenus : ∀ item, item ∈ originMenu ↔ item ∈ destinationMenu)
    (s : FlightForm) (radio : FlightRadio)
    (h : formInvariant db originMenu destinationMenu s) :
    formInvariant db originMenu destinationMenu (clickFlightTypeRadio radio s) := by
  obtain ⟨hr, hoM, hdM, hhome, hinv⟩ := h
  have hid : ("international" : String) ≠ "domestic" := by decide
  cases radio with
  | domestic =>
    by_cases hdis : s.domesticDisabled = true
    · have hsame : clickFlightTypeRadio .domestic s = s := by
        simp [clickFlightTypeRadio, hr, hdis]
      rw [hsame]
      exact ⟨hr, hoM, hdM, hhome, hinv⟩
    · have hnot : ¬ pieceSystemActive db s := fun h => hdis (hinv h).1
      by_cases hsel : s.selectedFlightType = some "domestic"
      · have hclick : clickFlightTypeRadio .domestic s =
            { s with domesticChecked := false, internationalChecked := false,
                     selectedFlightType := none, originLocked := false,
                     destinationLocked := false } := by
          simp only [clickFlightTypeRadio, hr, hdis, hsel, FlightRadio.id]
          simp only [Bool.not_true, Bool.false_eq_true, if_false, if_true]
          exact handleDomesticFlightSelection_of_not_domestic _ (by simp)
        rw [hclick]
        exact ⟨hr, hoM, hdM, hhome,
          fun h => absurd ((pieceSystemActive_congr db s _ rfl rfl rfl).1 h) hnot⟩
      · have hclick : clickFlightTypeRadio .domestic s =
            handleDomesticFlightSelection
              { s with domesticChecked := true, internationalChecked := false,
                       selectedFlightType := some "domestic" } := by
          simp only [clickFlightTypeRadio, hr, hdis, hsel, FlightRadio.id]
          simp only [Bool.not_true, Bool.false_eq_true, if_false]
        rw [hclick]
        obtain ⟨-, h₂, h₃, h₄, -, -, h₇, -⟩ := handleDomesticFlightSelection_home
          { s with domesticChecked := true, internationalChecked := false,
                   selectedFlightType := some "domestic" }
        have hnot' := handleDomesticFlightSelection_not_active db
          { s with domesticChecked := true, internationalChecked := false,
                   selectedFlightType := some "domestic" }
          (by intro item; show item ∈ s.originMenu ↔ item ∈ s.destinationMenu
              rw [hoM, hdM]; exact hmenus item)
          (by intro country hc hnone
              show assignsWeightSystem db s.originMenu country
              rw [hoM]; exact hhome country hc hnone)
          (fun h => hnot ((pieceSystemActive_congr db s _ rfl rfl rfl).1 h))
        refine ⟨by rw [h₂]; exact hr, by rw [h₃]; exact hoM, by rw [h₄]; exact hdM, ?_,
          fun h => absurd h hnot'⟩
        intro country hc hnone
        rw [h₇] at hc
        exact hhome country hc hnone
  | international =>
    by_cases hdis : s.internationalDisabled = true
    · have hsame : clickFlightTypeRadio .international s = s := by
        simp [clickFlightTypeRadio, hr, hdis]
      rw [hsame]
      exact ⟨hr, hoM, hdM, hhome, hinv⟩
    · by_cases hsel : s.selectedFlightType = some "international"
      · have hclick : clickFlightTypeRadio .international s =
            { s with domesticChecked := false, internationalChecked := false,
                     selectedFlightType := none, originLocked := false,
                     destinationLocked := false } := by
          simp only [clickFlightTypeRadio, hr, hdis, hsel, FlightRadio.id]
          simp only [Bool.not_true, Bool.false_eq_true, if_false, if_true]
          exact handleDomesticFlightSelection_of_not_domestic _ (by simp)
        rw [hclick]
        refine ⟨hr, hoM, hdM, hhome, fun h => ?_⟩
        have h' := (pieceSystemActive_congr db s _ rfl rfl rfl).1 h
        exact ⟨(hinv h').1, by simp⟩
      · have hclick : clickFlightTypeRadio .international s =
            { s with domesticChecked := false, internationalChecked := true,
                     selectedFlightType := some "international", originLocked := false,
                     destinationLocked := false } := by
          simp only [clickFlightTypeRadio, hr, hdis, hsel, FlightRadio.id]
          simp only [Bool.not_true, Bool.false_eq_true, if_false]
          exact handleDomesticFlightSelection_of_not_domestic _ (by simp [hid])
        rw [hclick]
        refine ⟨hr, hoM, hdM, hhome, fun h => ?_⟩
        have h' := (pieceSystemActive_congr db s _ rfl rfl rfl).1 h
        exact ⟨(hinv h').1, by simp [hid]⟩

theorem handleEvent_formInvariant (db : Db) (originMenu destinationMenu : List String)
    (hmenus : ∀ item, item ∈ originMenu ↔ item ∈ destinationMenu)
    (s : FlightForm) (event : FormEvent)
    (hevent : ∀ value, event = .selectAirline value →
      ∀ airlineData, db.airlines value = some airlineData →
      ∀ country, orNull airlineData.DomCountry = some country → country ≠ "none" →
        assignsWeightSystem db originMenu country)
    (h : formInvariant db originMenu destinationMenu s) :
    formInvariant db originMenu destinationMenu (handleEvent db s event) := by
  obtain ⟨hr, hoM, hdM, hhome, hinv⟩ := h
  cases event with
  | selectAirline value =>
    by_cases hv : value = ""
    · have hstep : handleEvent db s (.selectAirline value) =
          resetFlightTypeOptions { s with airlineValue := some value } := by
        simp [handleEvent, hv]
      rw [hstep]
      obtain ⟨-, -, -, h₄, h₅⟩ :=
        resetFlightTypeOptions_fields { s with airlineValue := some value }
      obtain ⟨m₁, m₂⟩ := resetFlightTypeOptions_menus { s with airlineValue := some value }
      refine ⟨by rw [h₄]; exact hr, by rw [m₁]; exact hoM, by rw [m₂]; exact hdM, ?_,
        fun h => absurd h (resetFlightTypeOptions_not_active db _ (by rw [hv]))⟩
      intro country hc
      rw [h₅] at hc
      exact absurd hc (by simp)
    · have hstep : handleEvent db s (.selectAirline value) =
          updateFlightTypeOptions db
            (handleAirlineSelection db value { s with airlineValue := some value }) := by
        simp [handleEvent, hv]
      rw [hstep]
      obtain ⟨-, -, -, h₄, h₅, h₆, h₇⟩ := handleAirlineSelection_home db value
        { s with airlineValue := some value }
      refine updateFlightTypeOptions_formInvariant db originMenu destinationMenu _
        (by rw [h₄]; exact hr) (by rw [h₅]; exact hoM) (by rw [h₆]; exact hdM) ?_
      intro country hc hnone
      rcases h₇ with h | ⟨airlineData, hA, h⟩
      · rw [h] at hc
        exact hhome country hc hnone
      · rw [h] at hc
        exact hevent value rfl airlineData hA country hc hnone
  | selectOrigin value =>
    by_cases hl : s.originLocked = true
    · have hstep : handleEvent db s (.selectOrigin value) = s := by simp [handleEvent, hl]
      rw [hstep]
      exact ⟨hr, hoM, hdM, hhome, hinv⟩
    · have hstep : handleEvent db s (.selectOrigin value) =
          updateFlightTypeOptions db { s with originValue := some value } := by
        simp [handleEvent, hl]
      rw [hstep]
      exact updateFlightTypeOptions_formInvariant db originMenu destinationMenu _ hr hoM hdM
        hhome
  | selectDestination value =>
    by_cases hl : s.destinationLocked = true
    · have hstep : handleEvent db s (.selectDestination value) = s := by
        simp [handleEvent, hl]
      rw [hstep]
      exact ⟨hr, hoM, hdM, hhome, hinv⟩
    · have hstep : handleEvent db s (.selectDestination value) =
          updateFlightTypeOptions db { s with destinationValue := some value } := by
        simp [handleEvent, hl]
      rw [hstep]
      exact updateFlightTypeOptions_formInvariant db originMenu destinationMenu _ hr hoM hdM
        hhome
  | clickRadio radio =>
    exact clickFlightTypeRadio_formInvariant db originMenu destinationMenu hmenus s radio
      ⟨hr, hoM, hdM, hhome, hinv⟩

theorem runEvents_formInvariant (db : Db) (originMenu destinationMenu : List String)
    (hmenus : ∀ item, item ∈ originMenu ↔ item ∈ destinationMenu)
    (events : List FormEvent) (s : FlightForm)
    (hevents : ∀ value, FormEvent.selectAirline value ∈ events →
      ∀ airlineData, db.airlines value = some airlineData →
      ∀ country, orNull airlineData.DomCountry = some country → country ≠ "none" →
        assignsWeightSystem db originMenu country)
    (h : formInvariant db originMenu destinationMenu s) :
    formInvariant db originMenu destinationMenu (runEvents db events s) := by
  induction events generalizing s with
  | nil => exact h
  | cons event rest ih =>
    have hstep := handleEvent_formInvariant db originMenu destinationMenu hmenus s event
      (fun value hv => hevents value (by rw [← hv]; exact List.mem_cons_self _ _)) h
    exact ih (handleEvent db s event)
      (fun value hv => hevents value (List.mem_cons_of_mem _ hv)) hstep

theorem assignment_of_piece_home_country :
    (runEvents (homeDb "us") [.selectAirline "thy", .clickRadio .domestic]
      (initialForm ["us", "vn"] ["us", "vn"])).selectedFlightType = some "domestic" ∧
    (runEvents (homeDb "us") [.selectAirline "thy", .clickRadio .domestic]
      (initialForm ["us", "vn"] ["us", "vn"])).originValue = some "us" ∧
    (runEvents (homeDb "us") [.selectAirline "thy", .clickRadio .domestic]
      (initialForm ["us", "vn"] ["us", "vn"])).destinationValue = some "us" ∧
    (runEvents (homeDb "us") [.selectAirline "thy", .clickRadio .domestic]
      (initialForm ["us", "vn"] ["us", "vn"])).domesticDisabled = false ∧
    (updateFlightTypeOptions (homeDb "us")
      (runEvents (homeDb "us") [.selectAirline "thy", .clickRadio .domestic]
        (initialForm ["us", "vn"] ["us", "vn"]))).selectedFlightType = none := by
  decide

theorem recentAverage_of_short (window : List CalculationLog) (hlen : window.length ≤ 10) :
    recentAverage window =
      binary64
        (window.foldl (fun sum flight => binary64 (sum + flight.totalWeight)) 0 /
          (window.length : ℚ)) := by
  have hmin : min window.length 10 = window.length := min_eq_left hlen
  have htake : List.take window.length window = window := List.take_length window
  simp only [recentAverage, hmin, htake]

theorem recentAverage_single (a : ℚ) (d : String) (t : ℤ) :
    recentAverage [sampleLog (binary64 a) d t] = binary64 a := by
  have h1 : ((min [sampleLog (binary64 a) d t].length 10 : ℕ) : ℚ) = 1 := by norm_num
  simp only [recentAverage, h1]
  simp only [List.length, Nat.reduceAdd, Nat.min_def, Nat.reduceLeDiff, if_true, List.take,
    List.foldl, sampleLog, zero_add, div_one, binary64_idem]

theorem foldl_binary64_filter_pos (counterGroups : List CounterGroup) (sum : ℚ)
    (hsum : binary64 sum = sum) (h : ∀ c ∈ counterGroups, 0 ≤ c.count) :
    (counterGroups.filter (fun c => decide (0 < c.count))).foldl
        (fun sum c => binary64 (sum + binary64 (c.weight * c.count))) sum =
      counterGroups.foldl (fun sum c => binary64 (sum + binary64 (c.weight * c.count))) sum := by
  induction counterGroups generalizing sum with
  | nil => rfl
  | cons c cs ih =>
    have hcs : ∀ x ∈ cs, 0 ≤ x.count := fun x hx => h x (List.mem_cons_of_mem _ hx)
    by_cases hpos : 0 < c.count
    · rw [List.filter_cons_of_pos (by simpa using hpos), List.foldl_cons, List.foldl_cons]
      exact ih _ (binary64_idem _) hcs
    · have hzero : c.count = 0 := by
        have := h c (List.mem_cons_self _ _)
        omega
      rw [List.filter_cons_of_neg (by simpa using hpos), List.foldl_cons, hzero]
      have hstep : binary64 (sum + binary64 (c.weight * ((0 : ℤ) : ℚ))) = sum := by
        rw [Int.cast_zero, mul_zero, binary64_zero, add_zero, hsum]
      rw [hstep]
      exact ih sum hsum hcs

/-! ### Values of `binary64` at the inputs of the scenarios -/

theorem binary64_30_3 :
    binary64 (303 / 10) =
      8528691794332877 / 281474976710656 := by
  rw [binary64_eval_lt (303 / 10) 4 8528691794332877
    (by norm_num) (by norm_num) (by norm_num) (by norm_num) (by norm_num) (by norm_num)]
  norm_num

theorem binary64_7_3 :
    binary64 (73 / 10) =
      8219069319951155 / 1125899906842624 := by
  rw [binary64_eval_lt (73 / 10) 2 8219069319951155
    (by norm_num) (by norm_num) (by norm_num) (by norm_num) (by norm_num) (by norm_num)]
  norm_num

theorem binary64_30_3_sub_7_3 :
    binary64 (8528691794332877 / 281474976710656 - 8219069319951155 / 1125899906842624) =
      23 := by
  rw [binary64_eval_lt (8528691794332877 / 281474976710656 - 8219069319951155 / 1125899906842624) 4 6473924464345088
    (by norm_num) (by norm_num) (by norm_num) (by norm_num) (by norm_num) (by norm_num)]
  norm_num

theorem binary64_cases_w0 :
    binary64 (38 / 5) =
      4278419646001971 / 562949953421312 := by
  rw [binary64_eval_lt (38 / 5) 2 8556839292003942
    (by norm_num) (by norm_num) (by norm_num) (by norm_num) (by norm_num) (by norm_num)]
  norm_num

theorem binary64_cases_p0 :
    binary64 (4278419646001971 / 562949953421312) =
      4278419646001971 / 562949953421312 := by
  rw [binary64_eval_lt (4278419646001971 / 562949953421312) 2 8556839292003942
    (by norm_num) (by norm_num) (by norm_num) (by norm_num) (by norm_num) (by norm_num)]
  norm_num

theorem binary64_cases_w1 :
    binary64 (21 / 10) =
      4728779608739021 / 2251799813685248 := by
  rw [binary64_eval_lt (21 / 10) 1 4728779608739021
    (by norm_num) (by norm_num) (by norm_num) (by norm_num) (by norm_num) (by norm_num)]
  norm_num

theorem binary64_cases_p1 :
    binary64 (4728779608739021 / 2251799813685248 * 6) =
      1773292353277133 / 140737488355328 := by
  rw [binary64_eval_tie (4728779608739021 / 2251799813685248 * 6) 3 7093169413108532
    (by norm_num) (by norm_num) (by norm_num) (by norm_num) (by norm_num)
    (Or.inr (by norm_num))]
  norm_num

theorem binary64_cases_s1 :
    binary64 (4278419646001971 / 562949953421312 + 1773292353277133 / 140737488355328) =
      1421448632388813 / 70368744177664 := by
  rw [binary64_eval_tie (4278419646001971 / 562949953421312 + 1773292353277133 / 140737488355328) 4 5685794529555252
    (by norm_num) (by norm_num) (by norm_num) (by norm_num) (by norm_num)
    (Or.inr (by norm_num))]
  norm_num

theorem binary64_cases_w2 :
    binary64 (7 / 5) =
      3152519739159347 / 2251799813685248 := by
  rw [binary64_eval_lt (7 / 5) 0 6305039478318694
    (by norm_num) (by norm_num) (by norm_num) (by norm_num) (by norm_num) (by norm_num)]
  norm_num

theorem binary64_cases_p2 :
    binary64 (3152519739159347 / 2251799813685248 * 2) =
      3152519739159347 / 1125899906842624 := by
  rw [binary64_eval_lt (3152519739159347 / 2251799813685248 * 2) 1 6305039478318694
    (by norm_num) (by norm_num) (by norm_num) (by norm_num) (by norm_num) (by norm_num)]
  norm_num

theorem binary64_cases_s2 :
    binary64 (1421448632388813 / 70368744177664 + 3152519739159347 / 1125899906842624) =
      6473924464345089 / 281474976710656 := by
  rw [binary64_eval_lt (1421448632388813 / 70368744177664 + 3152519739159347 / 1125899906842624) 4 6473924464345089
    (by norm_num) (by norm_num) (by norm_num) (by norm_num) (by norm_num) (by norm_num)]
  norm_num

theorem binary64_scenario_p0 :
    binary64 (1 / 2 * 2) =
      1 := by
  rw [binary64_eval_lt (1 / 2 * 2) 0 4503599627370496
    (by norm_num) (by norm_num) (by norm_num) (by norm_num) (by norm_num) (by norm_num)]
  norm_num

theorem binary64_scenario_s0 :
    binary64 (1) =
      1 := by
  rw [binary64_eval_lt (1) 0 4503599627370496
    (by norm_num) (by norm_num) (by norm_num) (by norm_num) (by norm_num) (by norm_num)]
  norm_num

theorem binary64_scenario_w1 :
    binary64 (6 / 5) =
      5404319552844595 / 4503599627370496 := by
  rw [binary64_eval_lt (6 / 5) 0 5404319552844595
    (by norm_num) (by norm_num) (by norm_num) (by norm_num) (by norm_num) (by norm_num)]
  norm_num

theorem binary64_scenario_p1 :
    binary64 (5404319552844595 / 4503599627370496) =
      5404319552844595 / 4503599627370496 := by
  rw [binary64_eval_lt (5404319552844595 / 4503599627370496) 0 5404319552844595
    (by norm_num) (by norm_num) (by norm_num) (by norm_num) (by norm_num) (by norm_num)]
  norm_num

theorem binary64_scenario_s1 :
    binary64 (1 + 5404319552844595 / 4503599627370496) =
      2476979795053773 / 1125899906842624 := by
  rw [binary64_eval_tie (1 + 5404319552844595 / 4503599627370496) 1 4953959590107546
    (by norm_num) (by norm_num) (by norm_num) (by norm_num) (by norm_num)
    (Or.inr (by norm_num))]
  norm_num

theorem binary64_2_2 :
    binary64 (11 / 5) =
      2476979795053773 / 1125899906842624 := by
  rw [binary64_eval_lt (11 / 5) 1 4953959590107546
    (by norm_num) (by norm_num) (by norm_num) (by norm_num) (by norm_num) (by norm_num)]
  norm_num

theorem binary64_1_1 :
    binary64 (11 / 10) =
      2476979795053773 / 2251799813685248 := by
  rw [binary64_eval_lt (11 / 10) 0 4953959590107546
    (by norm_num) (by norm_num) (by norm_num) (by norm_num) (by norm_num) (by norm_num)]
  norm_num

theorem binary64_0_1 :
    binary64 (1 / 10) =
      3602879701896397 / 36028797018963968 := by
  rw [binary64_eval_lt (1 / 10) (-4) 7205759403792794
    (by norm_num) (by norm_num) (by norm_num) (by norm_num) (by norm_num) (by norm_num)]
  norm_num

theorem binary64_1_1_sub_0_1 :
    binary64 (2476979795053773 / 2251799813685248 - 3602879701896397 / 36028797018963968) =
      1 := by
  rw [binary64_eval_lt (2476979795053773 / 2251799813685248 - 3602879701896397 / 36028797018963968) 0 4503599627370496
    (by norm_num) (by norm_num) (by norm_num) (by norm_num) (by norm_num) (by norm_num)]
  norm_num

theorem binary64_23_1 :
    binary64 (231 / 10) =
      3251035981008077 / 140737488355328 := by
  rw [binary64_eval_lt (231 / 10) 4 6502071962016154
    (by norm_num) (by norm_num) (by norm_num) (by norm_num) (by norm_num) (by norm_num)]
  norm_num

theorem binary64_23_1_sub_23 :
    binary64 (3251035981008077 / 140737488355328 - 23) =
      14073748835533 / 140737488355328 := by
  rw [binary64_eval_lt (3251035981008077 / 140737488355328 - 23) (-4) 7205759403792896
    (by norm_num) (by norm_num) (by norm_num) (by norm_num) (by norm_num) (by norm_num)]
  norm_num

theorem binary64_25_3 :
    binary64 (253 / 10) =
      7121316910779597 / 281474976710656 := by
  rw [binary64_eval_lt (253 / 10) 4 7121316910779597
    (by norm_num) (by norm_num) (by norm_num) (by norm_num) (by norm_num) (by norm_num)]
  norm_num

theorem binary64_25_3_sub_23 :
    binary64 (7121316910779597 / 281474976710656 - 23) =
      647392446434509 / 281474976710656 := by
  rw [binary64_eval_lt (7121316910779597 / 281474976710656 - 23) 1 5179139571476072
    (by norm_num) (by norm_num) (by norm_num) (by norm_num) (by norm_num) (by norm_num)]
  norm_num

theorem binary64_pens_w0 :
    binary64 (1 / 20) =
      3602879701896397 / 72057594037927936 := by
  rw [binary64_eval_lt (1 / 20) (-5) 7205759403792794
    (by norm_num) (by norm_num) (by norm_num) (by norm_num) (by norm_num) (by norm_num)]
  norm_num

theorem binary64_pens_p0 :
    binary64 (3602879701896397 / 72057594037927936 * 3) =
      1351079888211149 / 9007199254740992 := by
  rw [binary64_eval_tie (3602879701896397 / 72057594037927936 * 3) (-3) 5404319552844596
    (by norm_num) (by norm_num) (by norm_num) (by norm_num) (by norm_num)
    (Or.inr (by norm_num))]
  norm_num

theorem binary64_pens_s0 :
    binary64 (1351079888211149 / 9007199254740992) =
      1351079888211149 / 9007199254740992 := by
  rw [binary64_eval_lt (1351079888211149 / 9007199254740992) (-3) 5404319552844596
    (by norm_num) (by norm_num) (by norm_num) (by norm_num) (by norm_num) (by norm_num)]
  norm_num

theorem binary64_pens_diff :
    binary64 (1351079888211149 / 9007199254740992 - 23) =
      -(3215851608919245 / 140737488355328) := by
  have h : (1351079888211149 / 9007199254740992 - 23 : ℚ) = -(205814502970831667 / 9007199254740992) := by norm_num
  rw [h, binary64_neg]
  congr 1
  rw [binary64_eval_lt (205814502970831667 / 9007199254740992) 4 6431703217838490
    (by norm_num) (by norm_num) (by norm_num) (by norm_num) (by norm_num) (by norm_num)]
  norm_num

theorem binary64_scenario_diff :
    binary64 (2476979795053773 / 1125899906842624 - 23) =
      -(5854679515581645 / 281474976710656) := by
  have h : (2476979795053773 / 1125899906842624 - 23 : ℚ) = -(23418718062326579 / 1125899906842624) := by norm_num
  rw [h, binary64_neg]
  congr 1
  rw [binary64_eval_lt (23418718062326579 / 1125899906842624) 4 5854679515581645
    (by norm_num) (by norm_num) (by norm_num) (by norm_num) (by norm_num) (by norm_num)]
  norm_num

theorem binary64_outbound_s0 :
    binary64 (24) =
      24 := by
  rw [binary64_eval_lt (24) 4 6755399441055744
    (by norm_num) (by norm_num) (by norm_num) (by norm_num) (by norm_num) (by norm_num)]
  norm_num

theorem binary64_outbound_w1 :
    binary64 (129 / 10) =
      7262054399134925 / 562949953421312 := by
  rw [binary64_eval_lt (129 / 10) 3 7262054399134925
    (by norm_num) (by norm_num) (by norm_num) (by norm_num) (by norm_num) (by norm_num)]
  norm_num

theorem binary64_outbound_s1 :
    binary64 (24 + 7262054399134925 / 562949953421312) =
      5193213320311603 / 140737488355328 := by
  rw [binary64_eval_lt (24 + 7262054399134925 / 562949953421312) 5 5193213320311603
    (by norm_num) (by norm_num) (by norm_num) (by norm_num) (by norm_num) (by norm_num)]
  norm_num

theorem binary64_outbound_w2 :
    binary64 (137 / 10) =
      3856207180935987 / 281474976710656 := by
  rw [binary64_eval_lt (137 / 10) 3 7712414361871974
    (by norm_num) (by norm_num) (by norm_num) (by norm_num) (by norm_num) (by norm_num)]
  norm_num

theorem binary64_outbound_s2 :
    binary64 (5193213320311603 / 140737488355328 + 3856207180935987 / 281474976710656) =
      1780329227694899 / 35184372088832 := by
  rw [binary64_eval_tie (5193213320311603 / 140737488355328 + 3856207180935987 / 281474976710656) 5 7121316910779596
    (by norm_num) (by norm_num) (by norm_num) (by norm_num) (by norm_num)
    (Or.inl (by norm_num))]
  norm_num

theorem binary64_outbound_w3 :
    binary64 (54 / 5) =
      3039929748475085 / 281474976710656 := by
  rw [binary64_eval_lt (54 / 5) 3 6079859496950170
    (by norm_num) (by norm_num) (by norm_num) (by norm_num) (by norm_num) (by norm_num)]
  norm_num

theorem binary64_outbound_s3 :
    binary64 (1780329227694899 / 35184372088832 + 3039929748475085 / 281474976710656) =
      4320640892508569 / 70368744177664 := by
  rw [binary64_eval_tie (1780329227694899 / 35184372088832 + 3039929748475085 / 281474976710656) 5 8641281785017138
    (by norm_num) (by norm_num) (by norm_num) (by norm_num) (by norm_num)
    (Or.inl (by norm_num))]
  norm_num

theorem binary64_outbound_div :
    binary64 (4320640892508569 / 70368744177664 / 4) =
      4320640892508569 / 281474976710656 := by
  rw [binary64_eval_lt (4320640892508569 / 70368744177664 / 4) 3 8641281785017138
    (by norm_num) (by norm_num) (by norm_num) (by norm_num) (by norm_num) (by norm_num)]
  norm_num

theorem binary64_near_2001 :
    binary64 (2001 / 100) =
      5632314283980227 / 281474976710656 := by
  rw [binary64_eval_lt (2001 / 100) 4 5632314283980227
    (by norm_num) (by norm_num) (by norm_num) (by norm_num) (by norm_num) (by norm_num)]
  norm_num

theorem binary64_near_2004 :
    binary64 (501 / 25) =
      2820379266640773 / 140737488355328 := by
  rw [binary64_eval_lt (501 / 25) 4 5640758533281546
    (by norm_num) (by norm_num) (by norm_num) (by norm_num) (by norm_num) (by norm_num)]
  norm_num

theorem binary64_near_1994 :
    binary64 (997 / 50) =
      5612611035610481 / 281474976710656 := by
  rw [binary64_eval_lt (997 / 50) 4 5612611035610481
    (by norm_num) (by norm_num) (by norm_num) (by norm_num) (by norm_num) (by norm_num)]
  norm_num

theorem binary64_near_2006 :
    binary64 (1003 / 50) =
      5646388032815759 / 281474976710656 := by
  rw [binary64_eval_lt (1003 / 50) 4 5646388032815759
    (by norm_num) (by norm_num) (by norm_num) (by norm_num) (by norm_num) (by norm_num)]
  norm_num

theorem binary64_near_199 :
    binary64 (199 / 10) =
      2800676018271027 / 140737488355328 := by
  rw [binary64_eval_lt (199 / 10) 4 5601352036542054
    (by norm_num) (by norm_num) (by norm_num) (by norm_num) (by norm_num) (by norm_num)]
  norm_num

theorem binary64_near_201 :
    binary64 (201 / 10) =
      2828823515942093 / 140737488355328 := by
  rw [binary64_eval_lt (201 / 10) 4 5657647031884186
    (by norm_num) (by norm_num) (by norm_num) (by norm_num) (by norm_num) (by norm_num)]
  norm_num

theorem binary64_near_diff :
    binary64 (2828823515942093 / 140737488355328 - 2800676018271027 / 140737488355328) =
      14073748835533 / 70368744177664 := by
  rw [binary64_eval_lt (2828823515942093 / 140737488355328 - 2800676018271027 / 140737488355328) (-3) 7205759403792896
    (by norm_num) (by norm_num) (by norm_num) (by norm_num) (by norm_num) (by norm_num)]
  norm_num

theorem binary64_return_w0 :
    binary64 (159 / 10) =
      8950904259398861 / 562949953421312 := by
  rw [binary64_eval_lt (159 / 10) 3 8950904259398861
    (by norm_num) (by norm_num) (by norm_num) (by norm_num) (by norm_num) (by norm_num)]
  norm_num

theorem binary64_return_s0 :
    binary64 (8950904259398861 / 562949953421312) =
      8950904259398861 / 562949953421312 := by
  rw [binary64_eval_lt (8950904259398861 / 562949953421312) 3 8950904259398861
    (by norm_num) (by norm_num) (by norm_num) (by norm_num) (by norm_num) (by norm_num)]
  norm_num

theorem binary64_return_s1 :
    binary64 (8950904259398861 / 562949953421312 + 15) =
      4348788390179635 / 140737488355328 := by
  rw [binary64_eval_tie (8950904259398861 / 562949953421312 + 15) 4 8697576780359270
    (by norm_num) (by norm_num) (by norm_num) (by norm_num) (by norm_num)
    (Or.inl (by norm_num))]
  norm_num

theorem binary64_return_div :
    binary64 (4348788390179635 / 140737488355328 / 2) =
      4348788390179635 / 281474976710656 := by
  rw [binary64_eval_lt (4348788390179635 / 140737488355328 / 2) 3 8697576780359270
    (by norm_num) (by norm_num) (by norm_num) (by norm_num) (by norm_num) (by norm_num)]
  norm_num

theorem binary64_return_154 :
    binary64 (77 / 5) =
      8669429282688205 / 562949953421312 := by
  rw [binary64_eval_lt (77 / 5) 3 8669429282688205
    (by norm_num) (by norm_num) (by norm_num) (by norm_num) (by norm_num) (by norm_num)]
  norm_num

theorem binary64_return_diff :
    binary64 (31 / 2 - 8669429282688205 / 562949953421312) =
      56294995342131 / 562949953421312 := by
  rw [binary64_eval_lt (31 / 2 - 8669429282688205 / 562949953421312) (-4) 7205759403792768
    (by norm_num) (by norm_num) (by norm_num) (by norm_num) (by norm_num) (by norm_num)]
  norm_num

/-! ## Properties -/

/-- C1, as stated, fails: for a total of 30.3 and a limit of 7.3 (the binary64 values nearest
to them) and a fee of 5 on a domestic economy flight, the subtraction rounds to 23, so the fee
text shows 23 billable units and a total of 115, while `ceil(totalWeight - weightLimit)` of the
exact difference is 24 and its product with the fee 120. -/
theorem total_fee_uses_rounded_difference :
    binary64 (303 / 10) > binary64 (73 / 10) ∧
    displayResults sampleNumToString (fullPage ⟨some "thy", "THY"⟩ ⟨some "economy", "Economy"⟩
        ⟨some "tr", "Turkey"⟩ ⟨some "tr", "Turkey"⟩)
      { totalWeight := binary64 (303 / 10), weightLimit := binary64 (73 / 10),
        limitPassed := decide (binary64 (303 / 10) > binary64 (73 / 10)),
        airline := "thy", classType := "economy", origin := "tr", destination := "tr",
        isDomestic := true, hasPieceSystem := hasPieceSystem ⟨some true⟩ ⟨some true⟩,
        airlineData :=
          { num := fun k => if k = "WeightSystemDomEconomyFee" then some 5 else none,
            currency := some "TL", InternationalCurrency := some "EUR" } } =
      .ok { message := some (weightMessage sampleNumToString (binary64 (303 / 10))
              (binary64 (73 / 10)) true)
            feeMessage := some
              "According to the airline policy, you have to pay 5TL per kilogram. Which amounts to a total of 115TL."
            display := some "flex" } ∧
    roundedExceededWeight (binary64 (303 / 10)) (binary64 (73 / 10)) = 23 ∧
    Int.ceil (binary64 (303 / 10) - binary64 (73 / 10)) = 24 ∧
    (Int.ceil (binary64 (303 / 10) - binary64 (73 / 10)) : ℚ) * 5 = 120 := by
  have hgt : binary64 (303 / 10) > binary64 (73 / 10) := by
    rw [binary64_30_3, binary64_7_3]; norm_num
  have hunits : roundedExceededWeight (binary64 (303 / 10)) (binary64 (73 / 10)) = 23 := by
    rw [roundedExceededWeight, exceededWeight, binary64_30_3, binary64_7_3,
      binary64_30_3_sub_7_3]
    norm_num
  have hceil : Int.ceil (binary64 (303 / 10) - binary64 (73 / 10)) = 24 := by
    rw [binary64_30_3, binary64_7_3, Int.ceil_eq_iff]
    norm_num
  have hfee : totalFee (binary64 (303 / 10)) (binary64 (73 / 10)) 5 = 115 := by
    rw [totalFee_eq_units_mul, hunits]
    have h : (((23 : ℤ) : ℚ)) * 5 = 115 := by norm_num
    rw [h]
    exact binary64_ofNat 115 (by norm_num)
  refine ⟨hgt, ?_, hunits, hceil, ?_⟩
  · rw [displayResults_fullPage]
    simp [feeMessage, hgt, hasPieceSystem, boolFalsy, weightSystemFee, flightTypePrefix, orZero,
      weightCurrency, orDollar, hfee]
    decide
  · rw [hceil]; norm_num

/-- C1, amended. Weight-system violation: when neither country uses the piece system and the
total weight exceeds the limit, the fee text written by `displayResults` shows the
per-kilogram fee of the field `WeightSystem<Dom|Int><Class>Fee` and the total
`ceil(d)` times that fee, rounded to binary64, where `d` is the difference
`totalWeight - weightLimit` rounded to binary64. -/
theorem weight_system_total_fee (numToString : ℚ → String) (pa pc po pd : Dropdown)
    (airlineData : AirlineData) (originData destinationData : CountryData)
    (totalWeight weightLimit : ℚ) (airline classType origin destination : String)
    (isDomestic : Bool)
    (hclass : classType = "economy" ∨ classType = "business" ∨ classType = "first")
    (ho : originData.WeightSystem = some true) (hd : destinationData.WeightSystem = some true)
    (hviol : totalWeight > weightLimit) :
    displayResults numToString (fullPage pa pc po pd)
      { totalWeight := totalWeight, weightLimit := weightLimit,
        limitPassed := decide (totalWeight > weightLimit), airline := airline,
        classType := classType, origin := origin, destination := destination,
        isDomestic := isDomestic, hasPieceSystem := hasPieceSystem originData destinationData,
        airlineData := airlineData } =
      .ok { message := some (weightMessage numToString totalWeight weightLimit true)
            feeMessage := some
              ("According to the airline policy, you have to pay " ++
                numToString (orZero (airlineData.num
                  ("WeightSystem" ++ flightTypePrefix isDomestic ++ classType.capitalize ++
                    "Fee"))) ++
                weightCurrency airlineData isDomestic ++
                " per kilogram. Which amounts to a total of " ++
                numToString (binary64
                  ((Int.ceil (binary64 (totalWeight - weightLimit)) : ℚ) *
                    orZero (airlineData.num
                      ("WeightSystem" ++ flightTypePrefix isDomestic ++
                        classType.capitalize ++ "Fee")))) ++
                weightCurrency airlineData isDomestic ++ ".")
            display := some "flex" } := by
  have hw : hasPieceSystem originData destinationData = false :=
    (hasPieceSystem_eq_false_iff _ _).2 ⟨ho, hd⟩
  rw [displayResults_fullPage]
  rcases hclass with rfl | rfl | rfl <;>
    simp [feeMessage, hw, hviol, weightSystemFee, totalFee, capitalize_economy,
      capitalize_business, capitalize_first, economy_fee_field, business_fee_field,
      first_fee_field]

/-- C1, amended, at the scenario of the specification: total 25.0, limit 23, per-kilogram fee
5 on a domestic economy flight gives 2 billable units and a total fee of 10. -/
theorem weight_system_total_fee_witness :
    (25 : ℚ) > 23 ∧
    displayResults sampleNumToString (fullPage ⟨some "thy", "THY"⟩ ⟨some "economy", "Economy"⟩
        ⟨some "tr", "Turkey"⟩ ⟨some "tr", "Turkey"⟩)
      { totalWeight := 25, weightLimit := 23, limitPassed := decide ((25 : ℚ) > 23),
        airline := "thy", classType := "economy", origin := "tr", destination := "tr",
        isDomestic := true, hasPieceSystem := hasPieceSystem ⟨some true⟩ ⟨some true⟩,
        airlineData :=
          { num := fun k => if k = "WeightSystemDomEconomyFee" then some 5 else none,
            currency := some "TL", InternationalCurrency := some "EUR" } } =
      .ok { message := some (weightMessage sampleNumToString 25 23 true)
            feeMessage := some
              "According to the airline policy, you have to pay 5TL per kilogram. Which amounts to a total of 10TL."
            display := some "flex" } := by
  refine ⟨by norm_num, ?_⟩
  have h := weight_system_total_fee sampleNumToString ⟨some "thy", "THY"⟩
    ⟨some "economy", "Economy"⟩ ⟨some "tr", "Turkey"⟩ ⟨some "tr", "Turkey"⟩
    { num := fun k => if k = "WeightSystemDomEconomyFee" then some 5 else none,
      currency := some "TL", InternationalCurrency := some "EUR" }
    ⟨some true⟩ ⟨some true⟩ 25 23 "thy" "economy" "tr" "tr" true (Or.inl rfl) rfl rfl
    (by norm_num)
  have hd : binary64 ((25 : ℚ) - 23) = 2 := by
    rw [show (25 : ℚ) - 23 = 2 by norm_num]
    exact binary64_ofNat 2 (by norm_num)
  have hc : Int.ceil (2 : ℚ) = 2 := by norm_num
  have hp : binary64 ((2 : ℚ) * 5) = 10 := by
    rw [show (2 : ℚ) * 5 = 10 by norm_num]
    exact binary64_ofNat 10 (by norm_num)
  rw [h]
  simp [capitalize_economy, flightTypePrefix, orZero, weightCurrency, orDollar, hd, hc, hp]
  decide

/-- C2. The accounting system derived in `getWeightLimits` is the piece system exactly when
at least one of the two countries has a false or absent `WeightSystem` flag, and the weight
system exactly when both flags are true. -/
theorem piece_system_iff_either_country (originData destinationData : CountryData) :
    (hasPieceSystem originData destinationData = true ↔
      (originData.WeightSystem = some false ∨ originData.WeightSystem = none) ∨
      (destinationData.WeightSystem = some false ∨ destinationData.WeightSystem = none)) ∧
    (hasPieceSystem originData destinationData = false ↔
      originData.WeightSystem = some true ∧ destinationData.WeightSystem = some true) := by
  rcases originData with ⟨_ | _ | _⟩ <;> rcases destinationData with ⟨_ | _ | _⟩ <;>
    simp [hasPieceSystem, boolFalsy]

/-- C3. With the three records found and a non-zero limit, resolution displays and logs
with `limitPassed` true exactly when `totalWeight > weightLimit` and false exactly when
`totalWeight ≤ weightLimit`; in the latter case the fee text is the fixed no-fine sentence,
whatever the airline record and the countries are. -/
theorem violation_iff_exceeds (numToString : ℚ → String) (pa pc po pd : Dropdown) (db : Db)
    (g : Globals) (airline classType origin destination : String) (totalWeight : ℚ)
    (airlineData : AirlineData) (originData destinationData : CountryData)
    (hA : db.airlines airline = some airlineData)
    (hO : db.countries origin = some originData)
    (hD : db.countries destination = some destinationData)
    (hoff : weightLimit airlineData classType
      (decide (g.selectedFlightType = some "domestic")) ≠ 0) :
    ∃ args logArgs,
      getWeightLimits numToString (fullPage pa pc po pd) db g airline classType origin
          destination totalWeight =
        [Effect.getDoc "airlines" airline, Effect.getDoc "countries" origin,
         Effect.getDoc "countries" destination, Effect.displayResults args,
         Effect.logCalculationResult logArgs] ∧
      args.totalWeight = totalWeight ∧
      args.weightLimit =
        weightLimit airlineData classType (decide (g.selectedFlightType = some "domestic")) ∧
      logArgs.limitPassed = args.limitPassed ∧
      (args.limitPassed = true ↔ totalWeight > args.weightLimit) ∧
      (args.limitPassed = false ↔ totalWeight ≤ args.weightLimit) ∧
      (totalWeight ≤ args.weightLimit →
        displayResults numToString (fullPage pa pc po pd) args =
          .ok { message := some (weightMessage numToString totalWeight args.weightLimit false)
                feeMessage := some
                  "You do not pay a fine since you did not exceed any policies. Good job!"
                display := some "flex" }) := by
  rw [getWeightLimits_found numToString _ db g airline classType origin destination totalWeight
    airlineData originData destinationData hA hO hD]
  simp only [resolveLimits, if_neg hoff, displayResults_fullPage]
  refine ⟨_, _, rfl, rfl, rfl, rfl, ?_, ?_, ?_⟩
  · simp
  · simp
  · intro hle
    have hnot : ¬ (weightLimit airlineData classType
        (decide (g.selectedFlightType = some "domestic")) < totalWeight) := not_lt.mpr hle
    simp [feeMessage, hnot]

/-- C3 at a concrete input: an economy domestic limit of 23 and a total of exactly 23. -/
theorem violation_iff_exceeds_witness :
    ∃ args logArgs,
      getWeightLimits sampleNumToString
          (fullPage ⟨some "thy", "THY"⟩ ⟨some "economy", "Economy"⟩ ⟨some "tr", "Turkey"⟩
            ⟨some "tr", "Turkey"⟩)
          { airlines := fun _ =>
              some { num := fun k => if k = "DomEconomyLimit" then some 23 else none,
                     currency := some "TL", InternationalCurrency := some "EUR" },
            countries := fun _ => some ⟨some true⟩ }
          { addedObjects := [], selectedAirline := some "thy", selectedClass := some "economy",
            selectedFlightType := some "domestic", selectedTripType := some "outbound" }
          "thy" "economy" "tr" "tr" 23 =
        [Effect.getDoc "airlines" "thy", Effect.getDoc "countries" "tr",
         Effect.getDoc "countries" "tr", Effect.displayResults args,
         Effect.logCalculationResult logArgs] ∧
      args.weightLimit = 23 ∧ args.limitPassed = false ∧ logArgs.limitPassed = false := by
  have hlim : weightLimit
      { num := fun k => if k = "DomEconomyLimit" then some 23 else none,
        currency := some "TL", InternationalCurrency := some "EUR" } "economy"
      (decide ((some "domestic" : Option String) = some "domestic")) = 23 := by
    simp [weightLimit, flightTypePrefix, orZero]
  obtain ⟨args, logArgs, htrace, -, hlimit, hlog, -, hfalse, -⟩ :=
    violation_iff_exceeds sampleNumToString ⟨some "thy", "THY"⟩ ⟨some "economy", "Economy"⟩
      ⟨some "tr", "Turkey"⟩ ⟨some "tr", "Turkey"⟩
      { airlines := fun _ =>
          some { num := fun k => if k = "DomEconomyLimit" then some 23 else none,
                 currency := some "TL", InternationalCurrency := some "EUR" },
        countries := fun _ => some ⟨some true⟩ }
      { addedObjects := [], selectedAirline := some "thy", selectedClass := some "economy",
        selectedFlightType := some "domestic", selectedTripType := some "outbound" }
      "thy" "economy" "tr" "tr" 23 _ ⟨some true⟩ ⟨some true⟩ rfl rfl rfl
      (by rw [hlim]; norm_num)
  rw [hlim] at hlimit
  have hp : args.limitPassed = false := hfalse.2 (by rw [hlimit])
  exact ⟨args, logArgs, htrace, hlimit, hp, by rw [hlog, hp]⟩

/-- C4. With the three records found, `getWeightLimits` on a class among economy, business
and first stops with the "does not offer" error box (naming airline, class and flight type,
and with no display and no log) exactly when the field `<Dom|Int><Class>Limit` is absent or
`0`, and otherwise passes on the value of that field as the limit; a class string outside
the three has no limit field and always gets the error box. -/
theorem not_offered_iff_no_limit (numToString : ℚ → String) (pa pc po pd : Dropdown) (db : Db)
    (g : Globals) (airline classType origin destination : String) (totalWeight : ℚ)
    (airlineData : AirlineData) (originData destinationData : CountryData)
    (hA : db.airlines airline = some airlineData)
    (hO : db.countries origin = some originData)
    (hD : db.countries destination = some destinationData) :
    ((classType = "economy" ∨ classType = "business" ∨ classType = "first") →
      (((airlineData.num (flightTypePrefix (decide (g.selectedFlightType = some "domestic")) ++
            classType.capitalize ++ "Limit") = none ∨
        airlineData.num (flightTypePrefix (decide (g.selectedFlightType = some "domestic")) ++
            classType.capitalize ++ "Limit") = some 0) ↔
        getWeightLimits numToString (fullPage pa pc po pd) db g airline classType origin
            destination totalWeight =
          [Effect.getDoc "airlines" airline, Effect.getDoc "countries" origin,
           Effect.getDoc "countries" destination,
           Effect.showErrorBox (pa.textContent ++ " does not offer " ++ classType ++
             " class for " ++
             (if g.selectedFlightType = some "domestic" then "domestic"
              else "international") ++
             " flights. Please select a different class or flight type.")]) ∧
      (∀ q : ℚ,
        airlineData.num (flightTypePrefix (decide (g.selectedFlightType = some "domestic")) ++
            classType.capitalize ++ "Limit") = some q → q ≠ 0 →
        ∃ args logArgs,
          getWeightLimits numToString (fullPage pa pc po pd) db g airline classType origin
              destination totalWeight =
            [Effect.getDoc "airlines" airline, Effect.getDoc "countries" origin,
             Effect.getDoc "countries" destination, Effect.displayResults args,
             Effect.logCalculationResult logArgs] ∧
          args.weightLimit = q))) ∧
    (¬ (classType = "economy" ∨ classType = "business" ∨ classType = "first") →
      getWeightLimits numToString (fullPage pa pc po pd) db g airline classType origin
          destination totalWeight =
        [Effect.getDoc "airlines" airline, Effect.getDoc "countries" origin,
         Effect.getDoc "countries" destination,
         Effect.showErrorBox (pa.textContent ++ " does not offer " ++ classType ++
           " class for " ++
           (if g.selectedFlightType = some "domestic" then "domestic" else "international") ++
           " flights. Please select a different class or flight type.")]) := by
  rw [getWeightLimits_found numToString _ db g airline classType origin destination totalWeight
    airlineData originData destinationData hA hO hD]
  refine ⟨fun hclass => ?_, fun hclass => ?_⟩
  · have hlim : weightLimit airlineData classType
        (decide (g.selectedFlightType = some "domestic")) =
        orZero (airlineData.num
          (flightTypePrefix (decide (g.selectedFlightType = some "domestic")) ++
            classType.capitalize ++ "Limit")) := by
      rcases hclass with rfl | rfl | rfl <;>
        simp [weightLimit, capitalize_economy, capitalize_business, capitalize_first,
          economy_limit_field, business_limit_field, first_limit_field]
    constructor
    · constructor
      · intro h
        have h0 := (orZero_eq_zero_iff _).2 h
        rw [← hlim] at h0
        simp [resolveLimits, h0, fullPage, notOfferedMessage]
      · intro h
        by_contra hne
        have h0 : weightLimit airlineData classType
            (decide (g.selectedFlightType = some "domestic")) ≠ 0 := by
          rw [hlim]; exact fun hz => hne ((orZero_eq_zero_iff _).1 hz)
        simp [resolveLimits, h0, displayResults_fullPage] at h
    · intro q hq hq0
      have h0 : weightLimit airlineData classType
          (decide (g.selectedFlightType = some "domestic")) = q := by
        rw [hlim, hq, orZero_some_of_ne q hq0]
      have hne : weightLimit airlineData classType
          (decide (g.selectedFlightType = some "domestic")) ≠ 0 := by rw [h0]; exact hq0
      simp only [resolveLimits, if_neg hne, displayResults_fullPage]
      exact ⟨_, _, rfl, h0⟩
  · have h0 : weightLimit airlineData classType
        (decide (g.selectedFlightType = some "domestic")) = 0 := by
      simp only [not_or] at hclass
      simp [weightLimit, hclass.1, hclass.2.1, hclass.2.2]
    simp [resolveLimits, h0, fullPage, notOfferedMessage]

/-- C4, the scenario of the specification: first class on an international flight with an
airline that has no `IntFirstLimit` is reported as not offered. -/
theorem not_offered_iff_no_limit_witness :
    getWeightLimits sampleNumToString
        (fullPage ⟨some "thy", "THY"⟩ ⟨some "first", "First"⟩ ⟨some "tr", "Turkey"⟩
          ⟨some "de", "Germany"⟩)
        { airlines := fun _ =>
            some { num := fun k => if k = "IntEconomyLimit" then some 23 else none,
                   currency := some "TL", InternationalCurrency := some "EUR" },
          countries := fun _ => some ⟨some true⟩ }
        { addedObjects := [], selectedAirline := some "thy", selectedClass := some "first",
          selectedFlightType := some "international", selectedTripType := some "outbound" }
        "thy" "first" "tr" "de" 30 =
      [Effect.getDoc "airlines" "thy", Effect.getDoc "countries" "tr",
       Effect.getDoc "countries" "de",
       Effect.showErrorBox
         "THY does not offer first class for international flights. Please select a different class or flight type."] := by
  have h := ((not_offered_iff_no_limit sampleNumToString ⟨some "thy", "THY"⟩
    ⟨some "first", "First"⟩ ⟨some "tr", "Turkey"⟩ ⟨some "de", "Germany"⟩
    { airlines := fun _ =>
        some { num := fun k => if k = "IntEconomyLimit" then some 23 else none,
               currency := some "TL", InternationalCurrency := some "EUR" },
      countries := fun _ => some ⟨some true⟩ }
    { addedObjects := [], selectedAirline := some "thy", selectedClass := some "first",
      selectedFlightType := some "international", selectedTripType := some "outbound" }
    "thy" "first" "tr" "de" 30 _ ⟨some true⟩ ⟨some true⟩
    rfl rfl rfl).1 (Or.inr (Or.inr rfl))).1.1
      (Or.inl (by simp [flightTypePrefix, capitalize_first]))
  rw [h]
  simp

/-- C5. Piece-system violation: for a fixed airline record, class and limit, two total
weights that both exceed the limit get the same fee text from `displayResults`, namely the
one built from `pieceSystemFee airlineData classType`, in which no weight occurs. -/
theorem piece_fee_independent_of_weight (numToString : ℚ → String) (pa pc po pd : Dropdown)
    (airlineData : AirlineData) (originData destinationData : CountryData)
    (w₁ w₂ weightLimit : ℚ) (airline classType origin destination : String)
    (isDomestic : Bool)
    (hpiece : hasPieceSystem originData destinationData = true)
    (h₁ : w₁ > weightLimit) (h₂ : w₂ > weightLimit) :
    (displayResults numToString (fullPage pa pc po pd)
      { totalWeight := w₁, weightLimit := weightLimit,
        limitPassed := decide (w₁ > weightLimit), airline := airline,
        classType := classType, origin := origin, destination := destination,
        isDomestic := isDomestic, hasPieceSystem := hasPieceSystem originData destinationData,
        airlineData := airlineData }).map Rendered.feeMessage =
      .ok (some ("According to the airline policy, you have to pay " ++
        numToString (pieceSystemFee airlineData classType) ++ pieceCurrency airlineData ++
        " for a piece of extra luggage for your excess weight.")) ∧
    (displayResults numToString (fullPage pa pc po pd)
      { totalWeight := w₂, weightLimit := weightLimit,
        limitPassed := decide (w₂ > weightLimit), airline := airline,
        classType := classType, origin := origin, destination := destination,
        isDomestic := isDomestic, hasPieceSystem := hasPieceSystem originData destinationData,
        airlineData := airlineData }).map Rendered.feeMessage =
      (displayResults numToString (fullPage pa pc po pd)
      { totalWeight := w₁, weightLimit := weightLimit,
        limitPassed := decide (w₁ > weightLimit), airline := airline,
        classType := classType, origin := origin, destination := destination,
        isDomestic := isDomestic, hasPieceSystem := hasPieceSystem originData destinationData,
        airlineData := airlineData }).map Rendered.feeMessage := by
  simp [displayResults_fullPage, Except.map, feeMessage, hpiece, h₁, h₂]

/-- C5, the scenario of the specification: totals 40 and 25 over a limit of 23 with a
piece-system origin give the same fee text. -/
theorem piece_fee_independent_of_weight_witness :
    hasPieceSystem ⟨some false⟩ ⟨some true⟩ = true ∧ (40 : ℚ) > 23 ∧ (25 : ℚ) > 23 ∧
    (displayResults sampleNumToString (fullPage ⟨some "thy", "THY"⟩
        ⟨some "economy", "Economy"⟩ ⟨some "us", "USA"⟩ ⟨some "tr", "Turkey"⟩)
      { totalWeight := 25, weightLimit := 23, limitPassed := decide ((25 : ℚ) > 23),
        airline := "thy", classType := "economy", origin := "us", destination := "tr",
        isDomestic := false, hasPieceSystem := hasPieceSystem ⟨some false⟩ ⟨some true⟩,
        airlineData :=
          { num := fun k => if k = "PieceSystemIntEconomyFee" then some 50 else none,
            currency := some "TL", InternationalCurrency := some "EUR" } }).map
        Rendered.feeMessage =
      (displayResults sampleNumToString (fullPage ⟨some "thy", "THY"⟩
        ⟨some "economy", "Economy"⟩ ⟨some "us", "USA"⟩ ⟨some "tr", "Turkey"⟩)
      { totalWeight := 40, weightLimit := 23, limitPassed := decide ((40 : ℚ) > 23),
        airline := "thy", classType := "economy", origin := "us", destination := "tr",
        isDomestic := false, hasPieceSystem := hasPieceSystem ⟨some false⟩ ⟨some true⟩,
        airlineData :=
          { num := fun k => if k = "PieceSystemIntEconomyFee" then some 50 else none,
            currency := some "TL", InternationalCurrency := some "EUR" } }).map
        Rendered.feeMessage :=
  ⟨by decide, by norm_num, by norm_num,
    (piece_fee_independent_of_weight sampleNumToString ⟨some "thy", "THY"⟩
      ⟨some "economy", "Economy"⟩ ⟨some "us", "USA"⟩ ⟨some "tr", "Turkey"⟩
      { num := fun k => if k = "PieceSystemIntEconomyFee" then some 50 else none,
        currency := some "TL", InternationalCurrency := some "EUR" }
      ⟨some false⟩ ⟨some true⟩ 40 25 23 "thy" "economy" "us" "tr" false (by decide)
      (by norm_num) (by norm_num)).2⟩

/-- C6. Piece-system violation: when the origin or the destination country uses the piece
system and the total weight exceeds the limit, the fee text written by `displayResults`
shows the field `PieceSystemInt<Class>Fee` itself, not multiplied by anything, for a
domestic as well as for an international flight type. -/
theorem piece_fee_is_international_flat_fee (numToString : ℚ → String)
    (pa pc po pd : Dropdown) (airlineData : AirlineData)
    (originData destinationData : CountryData) (totalWeight weightLimit : ℚ)
    (airline classType origin destination : String) (isDomestic : Bool)
    (hclass : classType = "economy" ∨ classType = "business" ∨ classType = "first")
    (hpiece : (originData.WeightSystem = some false ∨ originData.WeightSystem = none) ∨
      (destinationData.WeightSystem = some false ∨ destinationData.WeightSystem = none))
    (hviol : totalWeight > weightLimit) :
    displayResults numToString (fullPage pa pc po pd)
      { totalWeight := totalWeight, weightLimit := weightLimit,
        limitPassed := decide (totalWeight > weightLimit), airline := airline,
        classType := classType, origin := origin, destination := destination,
        isDomestic := isDomestic, hasPieceSystem := hasPieceSystem originData destinationData,
        airlineData := airlineData } =
      .ok { message := some (weightMessage numToString totalWeight weightLimit true)
            feeMessage := some
              ("According to the airline policy, you have to pay " ++
                numToString (orZero (airlineData.num
                  ("PieceSystemInt" ++ classType.capitalize ++ "Fee"))) ++
                orDollar airlineData.InternationalCurrency ++
                " for a piece of extra luggage for your excess weight.")
            display := some "flex" } := by
  have hp : hasPieceSystem originData destinationData = true :=
    (hasPieceSystem_eq_true_iff _ _).2 hpiece
  rw [displayResults_fullPage]
  rcases hclass with rfl | rfl | rfl <;>
    simp [feeMessage, hp, hviol, pieceSystemFee, pieceCurrency, capitalize_economy,
      capitalize_business, capitalize_first, economy_fee_field, business_fee_field,
      first_fee_field]

/-- C6, the scenario of the specification: origin on the piece system, destination on the
weight system, a piece fee of 50 and a declared domestic flight give the fee 50. -/
theorem piece_fee_is_international_flat_fee_witness :
    (35 : ℚ) > 23 ∧
    displayResults sampleNumToString (fullPage ⟨some "thy", "THY"⟩
        ⟨some "economy", "Economy"⟩ ⟨some "us", "USA"⟩ ⟨some "tr", "Turkey"⟩)
      { totalWeight := 35, weightLimit := 23, limitPassed := decide ((35 : ℚ) > 23),
        airline := "thy", classType := "economy", origin := "us", destination := "tr",
        isDomestic := true, hasPieceSystem := hasPieceSystem ⟨some false⟩ ⟨some true⟩,
        airlineData :=
          { num := fun k =>
              if k = "PieceSystemIntEconomyFee" then some 50
              else if k = "WeightSystemDomEconomyFee" then some 5 else none,
            currency := some "TL", InternationalCurrency := some "EUR" } } =
      .ok { message := some (weightMessage sampleNumToString 35 23 true)
            feeMessage := some
              "According to the airline policy, you have to pay 50EUR for a piece of extra luggage for your excess weight."
            display := some "flex" } := by
  refine ⟨by norm_num, ?_⟩
  have h := piece_fee_is_international_flat_fee sampleNumToString ⟨some "thy", "THY"⟩
    ⟨some "economy", "Economy"⟩ ⟨some "us", "USA"⟩ ⟨some "tr", "Turkey"⟩
    { num := fun k =>
        if k = "PieceSystemIntEconomyFee" then some 50
        else if k = "WeightSystemDomEconomyFee" then some 5 else none,
      currency := some "TL", InternationalCurrency := some "EUR" }
    ⟨some false⟩ ⟨some true⟩ 35 23 "thy" "economy" "us" "tr" true (Or.inl rfl)
    (Or.inl (Or.inl rfl)) (by norm_num)
  rw [h]
  simp [capitalize_economy, orZero, orDollar]
  decide

/-- C7. For a violation and an airline whose `currency` and `InternationalCurrency` fields
are set, the currency written after the fee is `currency` under the weight system on a
domestic flight, `InternationalCurrency` under the weight system on an international
flight, and `InternationalCurrency` under the piece system for either flight type. -/
theorem fee_currency_by_system_and_flight_type (numToString : ℚ → String)
    (pa pc po pd : Dropdown) (airlineData : AirlineData) (totalWeight weightLimit : ℚ)
    (airline classType origin destination dom intl : String) (isDomestic : Bool)
    (hviol : totalWeight > weightLimit)
    (hdom : airlineData.currency = some dom) (hdomSet : dom ≠ "")
    (hintl : airlineData.InternationalCurrency = some intl) (hintlSet : intl ≠ "") :
    (displayResults numToString (fullPage pa pc po pd)
      { totalWeight := totalWeight, weightLimit := weightLimit,
        limitPassed := decide (totalWeight > weightLimit), airline := airline,
        classType := classType, origin := origin, destination := destination,
        isDomestic := true, hasPieceSystem := false,
        airlineData := airlineData }).map Rendered.feeMessage =
      .ok (some ("According to the airline policy, you have to pay " ++
        numToString (weightSystemFee airlineData classType true) ++ dom ++
        " per kilogram. Which amounts to a total of " ++
        numToString (totalFee totalWeight weightLimit
          (weightSystemFee airlineData classType true)) ++ dom ++ ".")) ∧
    (displayResults numToString (fullPage pa pc po pd)
      { totalWeight := totalWeight, weightLimit := weightLimit,
        limitPassed := decide (totalWeight > weightLimit), airline := airline,
        classType := classType, origin := origin, destination := destination,
        isDomestic := false, hasPieceSystem := false,
        airlineData := airlineData }).map Rendered.feeMessage =
      .ok (some ("According to the airline policy, you have to pay " ++
        numToString (weightSystemFee airlineData classType false) ++ intl ++
        " per kilogram. Which amounts to a total of " ++
        numToString (totalFee totalWeight weightLimit
          (weightSystemFee airlineData classType false)) ++ intl ++ ".")) ∧
    (displayResults numToString (fullPage pa pc po pd)
      { totalWeight := totalWeight, weightLimit := weightLimit,
        limitPassed := decide (totalWeight > weightLimit), airline := airline,
        classType := classType, origin := origin, destination := destination,
        isDomestic := isDomestic, hasPieceSystem := true,
        airlineData := airlineData }).map Rendered.feeMessage =
      .ok (some ("According to the airline policy, you have to pay " ++
        numToString (pieceSystemFee airlineData classType) ++ intl ++
        " for a piece of extra luggage for your excess weight.")) := by
  simp [displayResults_fullPage, Except.map, feeMessage, hviol, weightCurrency, pieceCurrency,
    orDollar, hdom, hdomSet, hintl, hintlSet]

/-- C7 at a concrete input: an airline with domestic currency TL and international currency
EUR, economy class, total 25 over a limit of 23. -/
theorem fee_currency_by_system_and_flight_type_witness :
    (25 : ℚ) > 23 ∧
    (displayResults sampleNumToString (fullPage ⟨some "thy", "THY"⟩
        ⟨some "economy", "Economy"⟩ ⟨some "tr", "Turkey"⟩ ⟨some "tr", "Turkey"⟩)
      { totalWeight := 25, weightLimit := 23, limitPassed := decide ((25 : ℚ) > 23),
        airline := "thy", classType := "economy", origin := "tr", destination := "tr",
        isDomestic := true, hasPieceSystem := true,
        airlineData :=
          { num := fun k => if k = "PieceSystemIntEconomyFee" then some 50 else none,
            currency := some "TL", InternationalCurrency := some "EUR" } }).map
        Rendered.feeMessage =
      .ok (some
        "According to the airline policy, you have to pay 50EUR for a piece of extra luggage for your excess weight.") := by
  refine ⟨by norm_num, ?_⟩
  have h := (fee_currency_by_system_and_flight_type sampleNumToString ⟨some "thy", "THY"⟩
    ⟨some "economy", "Economy"⟩ ⟨some "tr", "Turkey"⟩ ⟨some "tr", "Turkey"⟩
    { num := fun k => if k = "PieceSystemIntEconomyFee" then some 50 else none,
      currency := some "TL", InternationalCurrency := some "EUR" }
    25 23 "thy" "economy" "tr" "tr" "TL" "EUR" true (by norm_num) rfl (by decide) rfl
    (by decide)).2.2
  rw [h]
  simp [pieceSystemFee, orZero]
  decide

/-- C8, as stated, fails: one item of 7.6, six of 2.1 and two of 1.4 (the binary64 values
nearest to these weights) have the exact sum 23, and `calculateTotalWeight` computes
23.000000000000004, since the products and the partial sums are rounded. -/
theorem total_weight_differs_from_exact_sum :
    (updateAddedObjects
      [⟨"case", "Case", binary64 (38 / 5), 1⟩, ⟨"book", "Book", binary64 (21 / 10), 6⟩,
        ⟨"lamp", "Lamp", binary64 (7 / 5), 2⟩]
      ⟨[], none, none, none, none⟩).addedObjects =
      [⟨"case", "Case", binary64 (38 / 5), 1⟩, ⟨"book", "Book", binary64 (21 / 10), 6⟩,
        ⟨"lamp", "Lamp", binary64 (7 / 5), 2⟩] ∧
    totalWeight
      [⟨"case", "Case", binary64 (38 / 5), 1⟩, ⟨"book", "Book", binary64 (21 / 10), 6⟩,
        ⟨"lamp", "Lamp", binary64 (7 / 5), 2⟩] = 6473924464345089 / 281474976710656 ∧
    exactTotal
      [⟨"case", "Case", binary64 (38 / 5), 1⟩, ⟨"book", "Book", binary64 (21 / 10), 6⟩,
        ⟨"lamp", "Lamp", binary64 (7 / 5), 2⟩] = 23 ∧
    totalWeight
      [⟨"case", "Case", binary64 (38 / 5), 1⟩, ⟨"book", "Book", binary64 (21 / 10), 6⟩,
        ⟨"lamp", "Lamp", binary64 (7 / 5), 2⟩] ≠
    exactTotal
      [⟨"case", "Case", binary64 (38 / 5), 1⟩, ⟨"book", "Book", binary64 (21 / 10), 6⟩,
        ⟨"lamp", "Lamp", binary64 (7 / 5), 2⟩] := by
  have h₁ : totalWeight
      [⟨"case", "Case", binary64 (38 / 5), 1⟩, ⟨"book", "Book", binary64 (21 / 10), 6⟩,
        ⟨"lamp", "Lamp", binary64 (7 / 5), 2⟩] = 6473924464345089 / 281474976710656 := by
    simp only [totalWeight, List.foldl, Int.cast_ofNat, Int.cast_one, mul_one, zero_add,
      binary64_cases_w0, binary64_cases_p0, binary64_cases_w1, binary64_cases_p1, binary64_cases_s1, binary64_cases_w2, binary64_cases_p2, binary64_cases_s2]
  have h₂ : exactTotal
      [⟨"case", "Case", binary64 (38 / 5), 1⟩, ⟨"book", "Book", binary64 (21 / 10), 6⟩,
        ⟨"lamp", "Lamp", binary64 (7 / 5), 2⟩] = 23 := by
    simp only [exactTotal, List.map, List.sum_cons, List.sum_nil, binary64_cases_w0, binary64_cases_w1, binary64_cases_w2]
    norm_num
  refine ⟨?_, h₁, h₂, ?_⟩
  · rw [updateAddedObjects_addedObjects]
    simp [List.filter, toAddedObject]
  · rw [h₁, h₂]
    norm_num

/-- C8, amended. The list that `updateAddedObjects` builds holds exactly the counter groups
whose count is positive, in page order; the total weight computed from it is the sum of
`weight * count` over these groups taken from the left, every product and every partial sum
rounded to binary64; it is the exact sum over these groups whenever no step rounds, and it is
non-negative when every unit weight is non-negative. -/
theorem total_weight_eq_sum_of_positive_counts (counterGroups : List CounterGroup)
    (g : Globals) :
    (updateAddedObjects counterGroups g).addedObjects =
      (counterGroups.filter (fun c => decide (0 < c.count))).map toAddedObject ∧
    totalWeight (updateAddedObjects counterGroups g).addedObjects =
      (counterGroups.filter (fun c => decide (0 < c.count))).foldl
        (fun sum c => binary64 (sum + binary64 (c.weight * c.count))) 0 ∧
    (exactSteps 0 (updateAddedObjects counterGroups g).addedObjects = true →
      totalWeight (updateAddedObjects counterGroups g).addedObjects =
        ((counterGroups.filter (fun c => decide (0 < c.count))).map
          (fun c => c.weight * (c.count : ℚ))).sum) ∧
    ((∀ c ∈ counterGroups, 0 ≤ c.weight) →
      0 ≤ totalWeight (updateAddedObjects counterGroups g).addedObjects) := by
  have hlist := updateAddedObjects_addedObjects counterGroups g
  refine ⟨hlist, ?_, ?_, ?_⟩
  · rw [hlist, totalWeight, List.foldl_map]
    rfl
  · intro hexact
    rw [totalWeight_of_exactSteps _ hexact, hlist, exactTotal, List.map_map]
    rfl
  · intro hw
    apply totalWeight_nonneg
    intro obj hobj
    rw [hlist] at hobj
    obtain ⟨c, hc, rfl⟩ := List.mem_map.1 hobj
    obtain ⟨hmem, hpos⟩ := List.mem_filter.1 hc
    have hcount : (0 : ℚ) ≤ (c.count : ℚ) := by
      have : 0 < c.count := by simpa using hpos
      exact_mod_cast this.le
    exact mul_nonneg (hw c hmem) hcount

/-- C8, amended, at the scenario of the specification: two items of 0.5, one of 1.2 and an
item with count 0 give the binary64 value nearest to 2.2 as the total. -/
theorem total_weight_eq_sum_of_positive_counts_witness :
    (∀ c ∈ [(⟨"ipad", "iPad", 1 / 2, 2⟩ : CounterGroup),
        ⟨"boot", "Snow Boots", binary64 (6 / 5), 1⟩, ⟨"tent", "Tent", 2, 0⟩], 0 ≤ c.weight) ∧
    totalWeight (updateAddedObjects
      [⟨"ipad", "iPad", 1 / 2, 2⟩, ⟨"boot", "Snow Boots", binary64 (6 / 5), 1⟩,
        ⟨"tent", "Tent", 2, 0⟩]
      ⟨[], none, none, none, none⟩).addedObjects = binary64 (11 / 5) ∧
    0 ≤ totalWeight (updateAddedObjects
      [⟨"ipad", "iPad", 1 / 2, 2⟩, ⟨"boot", "Snow Boots", binary64 (6 / 5), 1⟩,
        ⟨"tent", "Tent", 2, 0⟩]
      ⟨[], none, none, none, none⟩).addedObjects := by
  have hw : ∀ c ∈ [(⟨"ipad", "iPad", 1 / 2, 2⟩ : CounterGroup),
      ⟨"boot", "Snow Boots", binary64 (6 / 5), 1⟩, ⟨"tent", "Tent", 2, 0⟩], 0 ≤ c.weight := by
    intro c hc
    simp only [List.mem_cons, List.mem_singleton, List.not_mem_nil, or_false] at hc
    rcases hc with rfl | rfl | rfl
    · norm_num
    · exact binary64_nonneg (by norm_num)
    · norm_num
  have h := total_weight_eq_sum_of_positive_counts
    [⟨"ipad", "iPad", 1 / 2, 2⟩, ⟨"boot", "Snow Boots", binary64 (6 / 5), 1⟩,
      ⟨"tent", "Tent", 2, 0⟩]
    ⟨[], none, none, none, none⟩
  refine ⟨hw, ?_, h.2.2.2 hw⟩
  rw [h.2.1]
  simp only [List.filter, Int.cast_ofNat, Int.cast_one, mul_one, zero_add, List.foldl,
    binary64_scenario_p0, binary64_scenario_s0, binary64_scenario_w1, binary64_scenario_p1, binary64_scenario_s1, binary64_2_2]

/-- C9, as stated, fails: one item of unit weight 0 with count 1 and a complete selection is
not blocked; the calculation runs and the page reports a total weight of 0.0 kilograms. -/
theorem zero_total_weight_is_reported :
    ∃ args logArgs,
      (calculateTotalWeight sampleNumToString samplePage sampleDb
          (updateAddedObjects [⟨"feather", "Feather", 0, 1⟩] sampleGlobals)).2 =
        [Effect.hideErrorBox, Effect.getDoc "airlines" "thy", Effect.getDoc "countries" "tr",
         Effect.getDoc "countries" "tr", Effect.displayResults args,
         Effect.logCalculationResult logArgs] ∧
      args.totalWeight = 0 ∧ logArgs.totalWeight = 0 ∧
      displayResults sampleNumToString samplePage args =
        .ok { message := some
                "Your total weight is 0.0 kilograms. You are 23.0 kilograms away from passing the airline policy."
              feeMessage := some
                "You do not pay a fine since you did not exceed any policies. Good job!"
              display := some "flex" } := by
  have hadd : (updateAddedObjects [⟨"feather", "Feather", 0, 1⟩] sampleGlobals) =
      { sampleGlobals with addedObjects := [⟨"feather", "Feather", 0, 1⟩] } := by
    simp [updateAddedObjects, pushGroup]
  have hlim : weightLimit
      { num := fun k =>
          if k = "DomEconomyLimit" then some 23
          else if k = "WeightSystemDomEconomyFee" then some 5 else none,
        currency := some "TL", InternationalCurrency := some "EUR" } "economy" true = 23 := by
    simp [weightLimit, flightTypePrefix, orZero]
  refine ⟨{ totalWeight := 0, weightLimit := 23, limitPassed := false, airline := "thy",
            classType := "economy", origin := "tr", destination := "tr", isDomestic := true,
            hasPieceSystem := false,
            airlineData :=
              { num := fun k =>
                  if k = "DomEconomyLimit" then some 23
                  else if k = "WeightSystemDomEconomyFee" then some 5 else none,
                currency := some "TL", InternationalCurrency := some "EUR" } },
          { totalWeight := 0, limitPassed := false, flightType := some "domestic",
            tripType := some "outbound", classType := "economy", airline := "thy" },
          ?_, rfl, rfl, ?_⟩
  · rw [hadd]
    simp [calculateTotalWeight, samplePage, fullPage, sampleGlobals, strFalsy, totalWeight,
      getWeightLimits, sampleDb, resolveLimits, hlim, displayResults, hasPieceSystem,
      boolFalsy, binary64_zero]
  · have habs : |binary64 (-23 : ℚ)| = 23 := by
      rw [binary64_neg, binary64_ofNat 23 (by norm_num)]
      norm_num
    rw [samplePage, displayResults_fullPage]
    simp [weightMessage, feeMessage, toFixed1_zero, toFixed1_twenty_three, habs]

/-- C9, amended. `calculateTotalWeight` stops with the empty-selection error box as its only
effect (no lookup, no display, no log) exactly when no counter is positive, that is when
the list built by `updateAddedObjects` is empty; whenever it displays a result, some counter
is positive. -/
theorem empty_selection_error_iff (numToString : ℚ → String) (document : Document) (db : Db)
    (counterGroups : List CounterGroup) (g : Globals) :
    ((calculateTotalWeight numToString document db (updateAddedObjects counterGroups g)).2 =
        [Effect.showErrorBox "Please add at least one item before calculating."] ↔
      ∀ c ∈ counterGroups, ¬ 0 < c.count) ∧
    ((∀ c ∈ counterGroups, ¬ 0 < c.count) ↔
      (updateAddedObjects counterGroups g).addedObjects = []) ∧
    (∀ args,
      Effect.displayResults args ∈
        (calculateTotalWeight numToString document db
          (updateAddedObjects counterGroups g)).2 →
      ∃ c ∈ counterGroups, 0 < c.count) := by
  have hempty : (∀ c ∈ counterGroups, ¬ 0 < c.count) ↔
      (updateAddedObjects counterGroups g).addedObjects = [] := by
    rw [updateAddedObjects_addedObjects]
    simp [List.filter_eq_nil_iff]
  have hblock : (updateAddedObjects counterGroups g).addedObjects = [] →
      (calculateTotalWeight numToString document db (updateAddedObjects counterGroups g)).2 =
        [Effect.showErrorBox "Please add at least one item before calculating."] := by
    intro h
    simp [calculateTotalWeight, h]
  have hrun : (updateAddedObjects counterGroups g).addedObjects ≠ [] →
      (calculateTotalWeight numToString document db (updateAddedObjects counterGroups g)).2 ≠
        [Effect.showErrorBox "Please add at least one item before calculating."] := by
    intro h
    unfold calculateTotalWeight
    rw [if_neg (by simpa using h)]
    dsimp only
    split
    · split <;> simp
    · simp
  refine ⟨⟨fun h => ?_, fun h => hblock (hempty.1 h)⟩, hempty, fun args hmem => ?_⟩
  · by_contra hne
    exact hrun (fun he => hne (hempty.2 he)) h
  · by_contra hne
    have hall : ∀ c ∈ counterGroups, ¬ 0 < c.count := fun c hc hpos => hne ⟨c, hc, hpos⟩
    rw [hblock (hempty.1 hall)] at hmem
    simp at hmem

/-- C9, amended, at a concrete input: counters that are all 0 give the error box only. -/
theorem empty_selection_error_iff_witness :
    (calculateTotalWeight sampleNumToString samplePage sampleDb
        (updateAddedObjects [⟨"ipad", "iPad", 1 / 2, 0⟩, ⟨"tent", "Tent", 2, 0⟩]
          sampleGlobals)).2 =
      [Effect.showErrorBox "Please add at least one item before calculating."] :=
  (empty_selection_error_iff sampleNumToString samplePage sampleDb
    [⟨"ipad", "iPad", 1 / 2, 0⟩, ⟨"tent", "Tent", 2, 0⟩] sampleGlobals).1.2 (by
      intro c hc
      simp only [List.mem_cons, List.mem_singleton, List.not_mem_nil, or_false] at hc
      rcases hc with rfl | rfl <;> decide)

/-- C10. With a non-empty item list, `calculateTotalWeight` stops with the
incomplete-selection error box as its only effect (no lookup) exactly when one of airline,
class, origin, destination, flight type and trip direction is null or empty; when all six
are set its effects are `hideErrorBox` followed by those of `getWeightLimits` on the
selected ids and the computed total. -/
theorem incomplete_selection_error_iff (numToString : ℚ → String) (document : Document)
    (db : Db) (g : Globals) (pa pc po pd : Dropdown)
    (hne : g.addedObjects ≠ [])
    (ha : document.airlineDropdown = some pa) (hc : document.classDropdown = some pc)
    (ho : document.originDropdown = some po) (hd : document.destinationDropdown = some pd) :
    ((calculateTotalWeight numToString document db g).2 =
        [Effect.showErrorBox
          "Please fill in information regarding flight and luggage before attempting to calculate."] ↔
      ((pa.value = none ∨ pa.value = some "") ∨ (pc.value = none ∨ pc.value = some "") ∨
        (po.value = none ∨ po.value = some "") ∨ (pd.value = none ∨ pd.value = some "") ∨
        (g.selectedFlightType = none ∨ g.selectedFlightType = some "") ∨
        (g.selectedTripType = none ∨ g.selectedTripType = some ""))) ∧
    (∀ airline classType origin destination flightType tripType : String,
      pa.value = some airline → airline ≠ "" → pc.value = some classType → classType ≠ "" →
      po.value = some origin → origin ≠ "" → pd.value = some destination → destination ≠ "" →
      g.selectedFlightType = some flightType → flightType ≠ "" →
      g.selectedTripType = some tripType → tripType ≠ "" →
      (calculateTotalWeight numToString document db g).2 =
        Effect.hideErrorBox ::
          getWeightLimits numToString document db
            { g with selectedAirline := some airline, selectedClass := some classType }
            airline classType origin destination (totalWeight g.addedObjects)) := by
  have hlen : ¬ g.addedObjects.length = 0 := by simpa using hne
  constructor
  · simp only [← strFalsy_eq_true_iff]
    unfold calculateTotalWeight
    rw [if_neg hlen]
    simp only [ha, hc, ho, hd]
    by_cases hf : (strFalsy pa.value || strFalsy pc.value || strFalsy po.value ||
        strFalsy pd.value || strFalsy g.selectedFlightType ||
        strFalsy g.selectedTripType) = true
    · rw [if_pos hf]
      simp only [Bool.or_eq_true] at hf
      simp only [true_iff]
      tauto
    · rw [if_neg hf]
      simp only [Bool.or_eq_true] at hf
      constructor
      · intro h
        simp at h
      · intro h
        exact absurd (by tauto) hf
  · intro airline classType origin destination flightType tripType h1 h1' h2 h2' h3 h3' h4 h4'
      h5 h5' h6 h6'
    unfold calculateTotalWeight
    rw [if_neg hlen]
    simp [ha, hc, ho, hd, h1, h2, h3, h4, h5, h6, strFalsy, h1', h2', h3', h4', h5', h6']

/-- C10 at a concrete input: a complete selection proceeds to the lookup, with the total
of the items, the binary64 value nearest to 2.2; these inputs satisfy every hypothesis of the statement. -/
theorem incomplete_selection_error_iff_witness :
    (calculateTotalWeight sampleNumToString samplePage sampleDb
        { sampleGlobals with
          addedObjects := [⟨"ipad", "iPad", 1 / 2, 2⟩, ⟨"boot", "Snow Boots", binary64 (6 / 5), 1⟩] }).2 =
      Effect.hideErrorBox ::
        getWeightLimits sampleNumToString samplePage sampleDb
          { sampleGlobals with
            addedObjects := [⟨"ipad", "iPad", 1 / 2, 2⟩, ⟨"boot", "Snow Boots", binary64 (6 / 5), 1⟩],
            selectedAirline := some "thy", selectedClass := some "economy" }
          "thy" "economy" "tr" "tr"
          (totalWeight [⟨"ipad", "iPad", 1 / 2, 2⟩, ⟨"boot", "Snow Boots", binary64 (6 / 5), 1⟩]) ∧
    totalWeight [⟨"ipad", "iPad", 1 / 2, 2⟩, ⟨"boot", "Snow Boots", binary64 (6 / 5), 1⟩] =
      binary64 (11 / 5) :=
  ⟨(incomplete_selection_error_iff sampleNumToString samplePage sampleDb
      { sampleGlobals with
        addedObjects := [⟨"ipad", "iPad", 1 / 2, 2⟩, ⟨"boot", "Snow Boots", binary64 (6 / 5), 1⟩] }
      ⟨some "thy", "THY"⟩ ⟨some "economy", "Economy"⟩ ⟨some "tr", "Turkey"⟩
      ⟨some "tr", "Turkey"⟩ (by simp) rfl rfl rfl rfl).2
      "thy" "economy" "tr" "tr" "domestic" "outbound" rfl (by decide) rfl (by decide) rfl
      (by decide) rfl (by decide) rfl (by decide) rfl (by decide),
    by
      simp only [totalWeight, List.foldl, Int.cast_ofNat, Int.cast_one, mul_one, zero_add,
        binary64_scenario_p0, binary64_scenario_s0, binary64_scenario_w1, binary64_scenario_p1, binary64_scenario_s1, binary64_2_2]⟩

/-- C11. When the airline id, the origin id or the destination id has no record,
`getWeightLimits` only reads and writes one `console.error`: it shows no error box, displays
no result and logs nothing, so no limit, fee or accounting system is made up for the missing
record. The effects are exactly the reads up to the missing record and its error line. -/
theorem missing_record_aborts (numToString : ℚ → String) (document : Document) (db : Db)
    (g : Globals) (airline classType origin destination : String) (totalWeight : ℚ)
    (hmiss : db.airlines airline = none ∨ db.countries origin = none ∨
      db.countries destination = none) :
    (∀ e ∈ getWeightLimits numToString document db g airline classType origin destination
        totalWeight,
      (∃ c i, e = Effect.getDoc c i) ∨ (∃ m, e = Effect.consoleError m)) ∧
    (db.airlines airline = none →
      getWeightLimits numToString document db g airline classType origin destination
          totalWeight =
        [Effect.getDoc "airlines" airline,
         Effect.consoleError "Airline document not found"]) ∧
    (db.airlines airline ≠ none → db.countries origin = none →
      getWeightLimits numToString document db g airline classType origin destination
          totalWeight =
        [Effect.getDoc "airlines" airline, Effect.getDoc "countries" origin,
         Effect.consoleError "Origin country document not found"]) ∧
    (db.airlines airline ≠ none → db.countries origin ≠ none →
      db.countries destination = none →
      getWeightLimits numToString document db g airline classType origin destination
          totalWeight =
        [Effect.getDoc "airlines" airline, Effect.getDoc "countries" origin,
         Effect.getDoc "countries" destination,
         Effect.consoleError "Destination country document not found"]) := by
  cases hA : db.airlines airline with
  | none => simp [getWeightLimits, hA]
  | some airlineData =>
    cases hO : db.countries origin with
    | none => simp [getWeightLimits, hA, hO]
    | some originData =>
      cases hD : db.countries destination with
      | none => simp [getWeightLimits, hA, hO, hD]
      | some destinationData =>
        rw [hA, hO, hD] at hmiss
        simp at hmiss

/-- C11 at a concrete input: the destination id `xx` has no record. -/
theorem missing_record_aborts_witness :
    getWeightLimits sampleNumToString samplePage
        { sampleDb with countries := fun id => if id = "xx" then none else some ⟨some true⟩ }
        sampleGlobals "thy" "economy" "tr" "xx" 30 =
      [Effect.getDoc "airlines" "thy", Effect.getDoc "countries" "tr",
       Effect.getDoc "countries" "xx",
       Effect.consoleError "Destination country document not found"] :=
  (missing_record_aborts sampleNumToString samplePage
    { sampleDb with countries := fun id => if id = "xx" then none else some ⟨some true⟩ }
    sampleGlobals "thy" "economy" "tr" "xx" 30 (Or.inr (Or.inr (by simp)))).2.2.2
    (by simp [sampleDb]) (by simp) (by simp)

/-- C12, as stated, fails: for a total of 1.1 and a limit of 0.1 (the binary64 values nearest
to them) the total exceeds the limit by a little more than 1, the subtraction rounds to 1 and
the billable units are 1, less than the exact excess. -/
theorem billable_units_below_exact_excess :
    binary64 (11 / 10) > binary64 (1 / 10) ∧
    roundedExceededWeight (binary64 (11 / 10)) (binary64 (1 / 10)) = 1 ∧
    binary64 (11 / 10) - binary64 (1 / 10) = 36028797018963971 / 36028797018963968 ∧
    ¬ (binary64 (11 / 10) - binary64 (1 / 10) ≤
      (roundedExceededWeight (binary64 (11 / 10)) (binary64 (1 / 10)) : ℚ)) := by
  have hu : roundedExceededWeight (binary64 (11 / 10)) (binary64 (1 / 10)) = 1 := by
    rw [roundedExceededWeight, exceededWeight, binary64_1_1, binary64_0_1,
      binary64_1_1_sub_0_1]
    norm_num
  have hd : binary64 (11 / 10) - binary64 (1 / 10) =
      36028797018963971 / 36028797018963968 := by
    rw [binary64_1_1, binary64_0_1]; norm_num
  refine ⟨?_, hu, hd, ?_⟩
  · rw [binary64_1_1, binary64_0_1]; norm_num
  · rw [hu, hd]; norm_num

/-- C12, amended. On a weight-system violation (`totalWeight > weightLimit`, both binary64
values) the billable units `Math.ceil(totalWeight - weightLimit)`, by which the per-kilogram
fee is multiplied, are an integer that is at least 1 and the least integer that is at least
the excess as the subtraction computes it, that is the difference rounded to binary64. -/
theorem billable_units_at_least_one (totalWeight weightLimit fee : ℚ)
    (htotal : binary64 totalWeight = totalWeight) (hlimit : binary64 weightLimit = weightLimit)
    (hviol : totalWeight > weightLimit) :
    1 ≤ roundedExceededWeight totalWeight weightLimit ∧
    binary64 (totalWeight - weightLimit) ≤
      (roundedExceededWeight totalWeight weightLimit : ℚ) ∧
    (roundedExceededWeight totalWeight weightLimit : ℚ) - 1 <
      binary64 (totalWeight - weightLimit) ∧
    totalFee totalWeight weightLimit fee =
      binary64 ((roundedExceededWeight totalWeight weightLimit : ℚ) * fee) := by
  refine ⟨?_, Int.le_ceil _, ?_, rfl⟩
  · have hpos : 0 < roundedExceededWeight totalWeight weightLimit := by
      rw [roundedExceededWeight, exceededWeight, Int.ceil_pos]
      exact binary64_sub_pos htotal hlimit hviol
    omega
  · have h := Int.ceil_lt_add_one (binary64 (totalWeight - weightLimit))
    rw [roundedExceededWeight, exceededWeight]
    linarith

/-- C12, amended, at the scenario of the specification: limit 23 and total 23.1 give 1
billable unit. -/
theorem billable_units_at_least_one_witness :
    binary64 (binary64 (231 / 10)) = binary64 (231 / 10) ∧ binary64 23 = 23 ∧
    binary64 (231 / 10) > 23 ∧ roundedExceededWeight (binary64 (231 / 10)) 23 = 1 := by
  have h23 : binary64 (23 : ℚ) = 23 := binary64_ofNat 23 (by norm_num)
  have hgt : binary64 (231 / 10) > 23 := by rw [binary64_23_1]; norm_num
  have h := billable_units_at_least_one (binary64 (231 / 10)) 23 5 (binary64_idem _) h23 hgt
  refine ⟨binary64_idem _, h23, hgt, le_antisymm ?_ h.1⟩
  rw [roundedExceededWeight, exceededWeight, binary64_23_1, binary64_23_1_sub_23, Int.ceil_le]
  norm_num

/-- C13, as stated, fails: for total 25.3, limit 23 and fee 5 the code arrives at none of
excess 1.3, 2 billable units and a fee of 10. -/
theorem scenario_25_3_is_not_fee_10 :
    exceededWeight (binary64 (253 / 10)) 23 ≠ 13 / 10 ∧
    exceededWeight (binary64 (253 / 10)) 23 ≠ binary64 (13 / 10) ∧
    roundedExceededWeight (binary64 (253 / 10)) 23 ≠ 2 ∧
    totalFee (binary64 (253 / 10)) 23 5 ≠ 10 := by
  have he : exceededWeight (binary64 (253 / 10)) 23 = 647392446434509 / 281474976710656 := by
    rw [exceededWeight, binary64_25_3, binary64_25_3_sub_23]
  have hu : roundedExceededWeight (binary64 (253 / 10)) 23 = 3 := by
    rw [roundedExceededWeight, he, Int.ceil_eq_iff]; norm_num
  have h15 : binary64 (((3 : ℤ) : ℚ) * 5) = 15 := by
    rw [show (((3 : ℤ) : ℚ)) * 5 = 15 by norm_num]
    exact binary64_ofNat 15 (by norm_num)
  refine ⟨by rw [he]; norm_num, ?_, by rw [hu]; decide, ?_⟩
  · rw [he]
    intro h
    have hle : binary64 (13 / 10) ≤ binary64 2 := binary64_mono (by norm_num)
    rw [binary64_ofNat 2 (by norm_num), ← h] at hle
    norm_num at hle
  · rw [totalFee_eq_units_mul, hu, h15]
    norm_num

/-- C13, amended. For total 25.3, limit 23 and a per-kilogram fee of 5 under the weight
system the excess is 2.3000000000000007 (the difference of the binary64 value nearest to 25.3
and 23), the billable units are 3 and the total fee is 15, which is what the fee text
shows. -/
theorem scenario_25_3_is_fee_15 :
    exceededWeight (binary64 (253 / 10)) 23 = 647392446434509 / 281474976710656 ∧
    roundedExceededWeight (binary64 (253 / 10)) 23 = 3 ∧
    totalFee (binary64 (253 / 10)) 23 5 = 15 ∧
    (displayResults sampleNumToString samplePage
      { totalWeight := binary64 (253 / 10), weightLimit := 23,
        limitPassed := decide (binary64 (253 / 10) > 23), airline := "thy",
        classType := "economy", origin := "tr", destination := "tr", isDomestic := true,
        hasPieceSystem := hasPieceSystem ⟨some true⟩ ⟨some true⟩,
        airlineData :=
          { num := fun k => if k = "WeightSystemDomEconomyFee" then some 5 else none,
            currency := some "TL", InternationalCurrency := some "EUR" } }).map
        Rendered.feeMessage =
      .ok (some
        "According to the airline policy, you have to pay 5TL per kilogram. Which amounts to a total of 15TL.") := by
  have he : exceededWeight (binary64 (253 / 10)) 23 = 647392446434509 / 281474976710656 := by
    rw [exceededWeight, binary64_25_3, binary64_25_3_sub_23]
  have hu : roundedExceededWeight (binary64 (253 / 10)) 23 = 3 := by
    rw [roundedExceededWeight, he, Int.ceil_eq_iff]; norm_num
  have h15 : binary64 (((3 : ℤ) : ℚ) * 5) = 15 := by
    rw [show (((3 : ℤ) : ℚ)) * 5 = 15 by norm_num]
    exact binary64_ofNat 15 (by norm_num)
  have hf : totalFee (binary64 (253 / 10)) 23 5 = 15 := by
    rw [totalFee_eq_units_mul, hu, h15]
  refine ⟨he, hu, hf, ?_⟩
  rw [samplePage, displayResults_fullPage]
  have hv : (23 : ℚ) < binary64 (253 / 10) := by rw [binary64_25_3]; norm_num
  simp [Except.map, feeMessage, hasPieceSystem, boolFalsy, hv, weightSystemFee,
    flightTypePrefix, orZero, weightCurrency, orDollar, hf]
  decide

/-- C14. Under the weight system with a non-negative per-kilogram fee, the total fee does not
decrease when the total weight grows: for `weightLimit < w₁ ≤ w₂` the fee for `w₁` is at most
the fee for `w₂`. -/
theorem total_fee_monotone (airlineData : AirlineData) (classType : String)
    (isDomestic : Bool) (weightLimit w₁ w₂ : ℚ)
    (hfee : 0 ≤ weightSystemFee airlineData classType isDomestic)
    (_hviol : weightLimit < w₁) (hle : w₁ ≤ w₂) :
    totalFee w₁ weightLimit (weightSystemFee airlineData classType isDomestic) ≤
      totalFee w₂ weightLimit (weightSystemFee airlineData classType isDomestic) := by
  rw [totalFee_eq_units_mul, totalFee_eq_units_mul]
  apply binary64_mono
  apply mul_le_mul_of_nonneg_right _ hfee
  have hceil : roundedExceededWeight w₁ weightLimit ≤ roundedExceededWeight w₂ weightLimit := by
    apply Int.ceil_mono
    simp only [exceededWeight]
    exact binary64_mono (by linarith)
  exact_mod_cast hceil

/-- C14 at a concrete input: limit 23, fee 5, totals 23.1 and 25. -/
theorem total_fee_monotone_witness :
    totalFee (binary64 (231 / 10)) 23
        (weightSystemFee
          { num := fun k => if k = "WeightSystemDomEconomyFee" then some 5 else none,
            currency := some "TL", InternationalCurrency := some "EUR" } "economy" true) ≤
      totalFee 25 23
        (weightSystemFee
          { num := fun k => if k = "WeightSystemDomEconomyFee" then some 5 else none,
            currency := some "TL", InternationalCurrency := some "EUR" } "economy" true) :=
  total_fee_monotone
    { num := fun k => if k = "WeightSystemDomEconomyFee" then some 5 else none,
      currency := some "TL", InternationalCurrency := some "EUR" } "economy" true 23
    (binary64 (231 / 10)) 25 (by simp [weightSystemFee, flightTypePrefix, orZero])
    (by rw [binary64_23_1]; norm_num) (by rw [binary64_23_1]; norm_num)

/-- C15, as stated, fails in double precision: a charger (0.1), an iPhone (0.2) and an
umbrella (0.3), one of each, total 0.6000000000000001 in this order and 0.6 in the reverse
order. -/
theorem reordering_changes_double_total :
    List.Perm
      [(⟨"charger", "Charger", binary64 (1 / 10), 1⟩ : AddedObject),
        ⟨"iphone", "iPhone", binary64 (1 / 5), 1⟩,
        ⟨"umbrella", "Umbrella", binary64 (3 / 10), 1⟩]
      [⟨"umbrella", "Umbrella", binary64 (3 / 10), 1⟩,
        ⟨"iphone", "iPhone", binary64 (1 / 5), 1⟩,
        ⟨"charger", "Charger", binary64 (1 / 10), 1⟩] ∧
    totalWeight
      [⟨"charger", "Charger", binary64 (1 / 10), 1⟩,
        ⟨"iphone", "iPhone", binary64 (1 / 5), 1⟩,
        ⟨"umbrella", "Umbrella", binary64 (3 / 10), 1⟩] =
      1351079888211149 / 2251799813685248 ∧
    totalWeight
      [⟨"umbrella", "Umbrella", binary64 (3 / 10), 1⟩,
        ⟨"iphone", "iPhone", binary64 (1 / 5), 1⟩,
        ⟨"charger", "Charger", binary64 (1 / 10), 1⟩] =
      5404319552844595 / 9007199254740992 ∧
    totalWeight
      [⟨"charger", "Charger", binary64 (1 / 10), 1⟩,
        ⟨"iphone", "iPhone", binary64 (1 / 5), 1⟩,
        ⟨"umbrella", "Umbrella", binary64 (3 / 10), 1⟩] ≠
    totalWeight
      [⟨"umbrella", "Umbrella", binary64 (3 / 10), 1⟩,
        ⟨"iphone", "iPhone", binary64 (1 / 5), 1⟩,
        ⟨"charger", "Charger", binary64 (1 / 10), 1⟩] := by
  have h₁ : totalWeight
      [⟨"charger", "Charger", binary64 (1 / 10), 1⟩,
        ⟨"iphone", "iPhone", binary64 (1 / 5), 1⟩,
        ⟨"umbrella", "Umbrella", binary64 (3 / 10), 1⟩] =
      1351079888211149 / 2251799813685248 := by
    simp only [totalWeight, List.foldl, Int.cast_one, mul_one, zero_add,
      binary64_tenth, binary64_fifth, binary64_three_tenths, binary64_tenth_exact,
      binary64_fifth_exact, binary64_three_tenths_exact, binary64_tenth_add_fifth,
      binary64_sum_add_three_tenths]
  have h₂ : totalWeight
      [⟨"umbrella", "Umbrella", binary64 (3 / 10), 1⟩,
        ⟨"iphone", "iPhone", binary64 (1 / 5), 1⟩,
        ⟨"charger", "Charger", binary64 (1 / 10), 1⟩] =
      5404319552844595 / 9007199254740992 := by
    simp only [totalWeight, List.foldl, Int.cast_one, mul_one, zero_add,
      binary64_tenth, binary64_fifth, binary64_three_tenths, binary64_tenth_exact,
      binary64_fifth_exact, binary64_three_tenths_exact, binary64_three_tenths_add_fifth,
      binary64_half_add_tenth]
  refine ⟨?_, h₁, h₂, ?_⟩
  · exact (List.reverse_perm _).symm
  · rw [h₁, h₂]
    norm_num

/-- C15, amended. For every item list and every permutation of it, the exact sum of
`weight * count` is the same, and the totals computed in double precision are the same
whenever no product and no partial sum of either order is rounded. -/
theorem total_weight_perm_invariant_when_exact (l₁ l₂ : List AddedObject)
    (hperm : l₁.Perm l₂) :
    exactTotal l₁ = exactTotal l₂ ∧
    (exactSteps 0 l₁ = true → exactSteps 0 l₂ = true →
      totalWeight l₁ = totalWeight l₂) := by
  refine ⟨exactTotal_perm l₁ l₂ hperm, fun h₁ h₂ => ?_⟩
  rw [totalWeight_of_exactSteps l₁ h₁, totalWeight_of_exactSteps l₂ h₂]
  exact exactTotal_perm l₁ l₂ hperm

/-- C15, amended, at a concrete input: two items of 0.5 and one of 1.25, in both orders;
no step rounds and both totals are 2.25. -/
theorem total_weight_perm_invariant_when_exact_witness :
    List.Perm [(⟨"ipad", "iPad", 1 / 2, 2⟩ : AddedObject), ⟨"kit", "Kit", 5 / 4, 1⟩]
      [⟨"kit", "Kit", 5 / 4, 1⟩, ⟨"ipad", "iPad", 1 / 2, 2⟩] ∧
    exactSteps 0 [⟨"ipad", "iPad", 1 / 2, 2⟩, ⟨"kit", "Kit", 5 / 4, 1⟩] = true ∧
    exactSteps 0 [⟨"kit", "Kit", 5 / 4, 1⟩, ⟨"ipad", "iPad", 1 / 2, 2⟩] = true ∧
    totalWeight [⟨"ipad", "iPad", 1 / 2, 2⟩, ⟨"kit", "Kit", 5 / 4, 1⟩] =
      totalWeight [⟨"kit", "Kit", 5 / 4, 1⟩, ⟨"ipad", "iPad", 1 / 2, 2⟩] := by
  have h₁ : exactSteps 0 [⟨"ipad", "iPad", 1 / 2, 2⟩, ⟨"kit", "Kit", 5 / 4, 1⟩] = true := by
    have e₁ : (1 / 2 : ℚ) * ((2 : ℤ) : ℚ) = 1 := by norm_num
    have e₂ : (1 : ℚ) + 5 / 4 = 9 / 4 := by norm_num
    simp only [exactSteps, e₁, e₂, Int.cast_one, mul_one, zero_add, binary64_one,
      binary64_five_quarters, binary64_nine_quarters, decide_True, Bool.and_self]
  have h₂ : exactSteps 0 [⟨"kit", "Kit", 5 / 4, 1⟩, ⟨"ipad", "iPad", 1 / 2, 2⟩] = true := by
    have e₁ : (1 / 2 : ℚ) * ((2 : ℤ) : ℚ) = 1 := by norm_num
    have e₂ : (5 / 4 : ℚ) + 1 = 9 / 4 := by norm_num
    simp only [exactSteps, e₁, e₂, Int.cast_one, mul_one, zero_add, binary64_one,
      binary64_five_quarters, binary64_nine_quarters, decide_True, Bool.and_self]
  exact ⟨List.Perm.swap _ _ _, h₁, h₂,
    (total_weight_perm_invariant_when_exact _ _ (List.Perm.swap _ _ _)).2 h₁ h₂⟩

/-- C16, as stated, fails in double precision: six chargers of 0.1 as one entry total
0.6000000000000001, the same six as an entry of 1 and an entry of 5 total 0.6. -/
theorem splitting_changes_double_total :
    (6 : ℤ) = 1 + 5 ∧
    totalWeight [⟨"charger", "Charger", binary64 (1 / 10), 6⟩] =
      1351079888211149 / 2251799813685248 ∧
    totalWeight
      [⟨"charger", "Charger", binary64 (1 / 10), 1⟩,
        ⟨"charger", "Charger", binary64 (1 / 10), 5⟩] =
      5404319552844595 / 9007199254740992 ∧
    totalWeight [⟨"charger", "Charger", binary64 (1 / 10), 6⟩] ≠
    totalWeight
      [⟨"charger", "Charger", binary64 (1 / 10), 1⟩,
        ⟨"charger", "Charger", binary64 (1 / 10), 5⟩] := by
  have c₆ : (((6 : ℤ) : ℚ)) = 6 := by norm_num
  have c₅ : (((5 : ℤ) : ℚ)) = 5 := by norm_num
  have hcomm : (3602879701896397 / 36028797018963968 : ℚ) + 1 / 2 =
      1 / 2 + 3602879701896397 / 36028797018963968 := add_comm _ _
  have h₁ : totalWeight [⟨"charger", "Charger", binary64 (1 / 10), 6⟩] =
      1351079888211149 / 2251799813685248 := by
    simp only [totalWeight, List.foldl, c₆, zero_add, binary64_tenth,
      binary64_tenth_mul_six, binary64_six_tenths_up_exact]
  have h₂ : totalWeight
      [⟨"charger", "Charger", binary64 (1 / 10), 1⟩,
        ⟨"charger", "Charger", binary64 (1 / 10), 5⟩] =
      5404319552844595 / 9007199254740992 := by
    simp only [totalWeight, List.foldl, c₅, Int.cast_one, mul_one, zero_add,
      binary64_tenth, binary64_tenth_exact, binary64_tenth_mul_five, hcomm,
      binary64_half_add_tenth]
  refine ⟨by norm_num, h₁, h₂, ?_⟩
  rw [h₁, h₂]
  norm_num

/-- C16, amended. Replacing an entry of count `c₁ + c₂` by two entries with the same id,
name and unit weight and the counts `c₁` and `c₂` leaves the exact sum of `weight * count`
unchanged, and leaves the total computed in double precision unchanged whenever no product
and no partial sum of either list is rounded. -/
theorem total_weight_split_invariant_when_exact (before after : List AddedObject)
    (obj : AddedObject) (c₁ c₂ : ℤ) (_h₁ : 0 ≤ c₁) (_h₂ : 0 ≤ c₂)
    (hcount : obj.count = c₁ + c₂) :
    exactTotal (before ++ obj :: after) =
      exactTotal
        (before ++ { obj with count := c₁ } :: { obj with count := c₂ } :: after) ∧
    (exactSteps 0 (before ++ obj :: after) = true →
      exactSteps 0
        (before ++ { obj with count := c₁ } :: { obj with count := c₂ } :: after) = true →
      totalWeight (before ++ obj :: after) =
        totalWeight
          (before ++ { obj with count := c₁ } :: { obj with count := c₂ } :: after)) := by
  have hexact : exactTotal (before ++ obj :: after) =
      exactTotal
        (before ++ { obj with count := c₁ } :: { obj with count := c₂ } :: after) := by
    simp only [exactTotal, List.map_append, List.map_cons, List.sum_append,
      List.sum_cons, hcount]
    push_cast
    ring
  refine ⟨hexact, fun h₁ h₂ => ?_⟩
  rw [totalWeight_of_exactSteps _ h₁, totalWeight_of_exactSteps _ h₂]
  exact hexact

/-- C16, amended, at a concrete input: two items of 0.5 split into one and one, next to an
item of 1.25; no step of either list rounds and both totals are the same. -/
theorem total_weight_split_invariant_when_exact_witness :
    (0 : ℤ) ≤ 1 ∧ (2 : ℤ) = 1 + 1 ∧
    exactTotal [⟨"ipad", "iPad", 1 / 2, 2⟩, ⟨"kit", "Kit", 5 / 4, 1⟩] =
      exactTotal
        [⟨"ipad", "iPad", 1 / 2, 1⟩, ⟨"ipad", "iPad", 1 / 2, 1⟩, ⟨"kit", "Kit", 5 / 4, 1⟩] ∧
    exactSteps 0 [⟨"ipad", "iPad", 1 / 2, 2⟩, ⟨"kit", "Kit", 5 / 4, 1⟩] = true ∧
    exactSteps 0
      [⟨"ipad", "iPad", 1 / 2, 1⟩, ⟨"ipad", "iPad", 1 / 2, 1⟩, ⟨"kit", "Kit", 5 / 4, 1⟩] =
      true ∧
    totalWeight [⟨"ipad", "iPad", 1 / 2, 2⟩, ⟨"kit", "Kit", 5 / 4, 1⟩] =
      totalWeight
        [⟨"ipad", "iPad", 1 / 2, 1⟩, ⟨"ipad", "iPad", 1 / 2, 1⟩, ⟨"kit", "Kit", 5 / 4, 1⟩] := by
  have h₁ : exactSteps 0 [⟨"ipad", "iPad", 1 / 2, 2⟩, ⟨"kit", "Kit", 5 / 4, 1⟩] = true := by
    have e₁ : (1 / 2 : ℚ) * ((2 : ℤ) : ℚ) = 1 := by norm_num
    have e₂ : (1 : ℚ) + 5 / 4 = 9 / 4 := by norm_num
    simp only [exactSteps, e₁, e₂, Int.cast_one, mul_one, zero_add, binary64_one,
      binary64_five_quarters, binary64_nine_quarters, decide_True, Bool.and_self]
  have h₂ : exactSteps 0
      [⟨"ipad", "iPad", 1 / 2, 1⟩, ⟨"ipad", "iPad", 1 / 2, 1⟩, ⟨"kit", "Kit", 5 / 4, 1⟩] =
      true := by
    have e₁ : (1 / 2 : ℚ) + 1 / 2 = 1 := by norm_num
    have e₂ : (1 : ℚ) + 5 / 4 = 9 / 4 := by norm_num
    simp only [exactSteps, e₁, e₂, Int.cast_one, mul_one, zero_add, binary64_one,
      binary64_half_exact, binary64_five_quarters, binary64_nine_quarters, decide_True,
      Bool.and_self]
  have h := total_weight_split_invariant_when_exact [] [⟨"kit", "Kit", 5 / 4, 1⟩]
    ⟨"ipad", "iPad", 1 / 2, 2⟩ 1 1 (by decide) (by decide) (by decide)
  exact ⟨by decide, by decide, h.1, h₁, h₂, h.2 h₁ h₂⟩

/-- C17. With the airline and both country records found and the dropdowns of the selection
on the page, `getWeightLimits` ends in exactly one terminal state: not offered when the
resolved limit is 0 (which is the case for every class string outside economy, business and
first), otherwise violation when the total exceeds the limit and no violation when it does
not. Nothing is thrown: `displayResults` returns normally on every call and the `catch` of
`getWeightLimits` reports nothing. The only message written by `console.error` is
`Results container not found`, written by `displayResults` exactly when the limit is not 0
and the page has no `#calculate-results`; the verdict is logged all the same. The home
country of the airline plays no part. -/
theorem resolution_reaches_one_terminal_state (numToString : ℚ → String)
    (document : Document) (db : Db) (g : Globals) (pa po pd : Dropdown)
    (airline classType origin destination : String) (totalWeight : ℚ)
    (airlineData : AirlineData) (originData destinationData : CountryData)
    (ha : document.airlineDropdown = some pa) (ho : document.originDropdown = some po)
    (hd : document.destinationDropdown = some pd)
    (hA : db.airlines airline = some airlineData)
    (hO : db.countries origin = some originData)
    (hD : db.countries destination = some destinationData) :
    terminalState (getWeightLimits numToString document db g airline classType origin
        destination totalWeight) =
      some (if weightLimit airlineData classType
              (decide (g.selectedFlightType = some "domestic")) = 0 then
          TerminalState.notOffered
        else if totalWeight > weightLimit airlineData classType
              (decide (g.selectedFlightType = some "domestic")) then
          TerminalState.violation
        else TerminalState.noViolation) ∧
    (∀ m, Effect.consoleError m ∈ getWeightLimits numToString document db g airline classType
        origin destination totalWeight ↔
      m = "Results container not found" ∧ document.resultsContainer = false ∧
        weightLimit airlineData classType
          (decide (g.selectedFlightType = some "domestic")) ≠ 0) ∧
    Effect.consoleError "Error getting weight limits:" ∉
      getWeightLimits numToString document db g airline classType origin destination
        totalWeight ∧
    (∀ args, Effect.displayResults args ∈ getWeightLimits numToString document db g airline
        classType origin destination totalWeight →
      ∃ r, displayResults numToString document args = .ok r) ∧
    (¬ (classType = "economy" ∨ classType = "business" ∨ classType = "first") →
      terminalState (getWeightLimits numToString document db g airline classType origin
        destination totalWeight) = some TerminalState.notOffered) := by
  have hdisp : ∀ args, ∃ r, displayResults numToString document args = .ok r ∧
      r.consoleErrors =
        if document.resultsContainer then [] else ["Results container not found"] := by
    intro args
    unfold displayResults
    cases hc : document.resultsContainer
    · exact ⟨_, rfl, rfl⟩
    · simp only [ha, ho, hd]
      exact ⟨_, rfl, rfl⟩
  have hunknown : ¬ (classType = "economy" ∨ classType = "business" ∨ classType = "first") →
      weightLimit airlineData classType (decide (g.selectedFlightType = some "domestic")) =
        0 := by
    intro hclass
    simp only [not_or] at hclass
    simp [weightLimit, hclass.1, hclass.2.1, hclass.2.2]
  rw [getWeightLimits_found numToString _ db g airline classType origin destination totalWeight
    airlineData originData destinationData hA hO hD]
  by_cases h0 : weightLimit airlineData classType
      (decide (g.selectedFlightType = some "domestic")) = 0
  · simp [resolveLimits, h0, ha, terminalState]
  · have hcls : classType = "economy" ∨ classType = "business" ∨ classType = "first" := by
      by_contra hc
      exact h0 (hunknown hc)
    simp only [resolveLimits, if_neg h0]
    obtain ⟨r, hr, hrc⟩ := hdisp
      { totalWeight := totalWeight,
        weightLimit := weightLimit airlineData classType
          (decide (g.selectedFlightType = some "domestic")),
        limitPassed := decide (totalWeight > weightLimit airlineData classType
          (decide (g.selectedFlightType = some "domestic"))),
        airline := airline, classType := classType, origin := origin,
        destination := destination,
        isDomestic := decide (g.selectedFlightType = some "domestic"),
        hasPieceSystem := hasPieceSystem originData destinationData,
        airlineData := airlineData }
    rw [hr]
    simp only [hrc]
    refine ⟨?_, ?_, ?_, ?_, fun hc => absurd hcls hc⟩
    · by_cases hv : totalWeight > weightLimit airlineData classType
          (decide (g.selectedFlightType = some "domestic"))
      · cases hc : document.resultsContainer <;> simp [terminalState, hv]
      · cases hc : document.resultsContainer <;> simp [terminalState, hv]
    · intro m
      cases hc : document.resultsContainer <;> simp [h0]
    · cases hc : document.resultsContainer <;> simp
    · intro args _
      obtain ⟨r', hr', _⟩ := hdisp args
      exact ⟨r', hr'⟩

/-- C17 at a concrete input: an airline whose home country is `tr`, a domestic flight
declared from `de` to `fr` and a total of 30 over the economy limit of 23 end in the
violation state; the class string `premium` ends in the not-offered state; on the same page
without `#calculate-results` the violation is reached as well and the missing container is
reported on the console. -/
theorem resolution_reaches_one_terminal_state_witness :
    terminalState (getWeightLimits sampleNumToString samplePage
        { airlines := fun _ =>
            some { num := fun k => if k = "DomEconomyLimit" then some 23 else none,
                   currency := some "TL", InternationalCurrency := some "EUR",
                   DomCountry := some "tr" },
          countries := fun _ => some ⟨some true⟩ }
        sampleGlobals "thy" "economy" "de" "fr" 30) = some TerminalState.violation ∧
    terminalState (getWeightLimits sampleNumToString samplePage
        { airlines := fun _ =>
            some { num := fun k => if k = "DomEconomyLimit" then some 23 else none,
                   currency := some "TL", InternationalCurrency := some "EUR",
                   DomCountry := some "tr" },
          countries := fun _ => some ⟨some true⟩ }
        sampleGlobals "thy" "premium" "de" "fr" 30) = some TerminalState.notOffered ∧
    terminalState (getWeightLimits sampleNumToString
        { samplePage with resultsContainer := false }
        { airlines := fun _ =>
            some { num := fun k => if k = "DomEconomyLimit" then some 23 else none,
                   currency := some "TL", InternationalCurrency := some "EUR",
                   DomCountry := some "tr" },
          countries := fun _ => some ⟨some true⟩ }
        sampleGlobals "thy" "economy" "de" "fr" 30) = some TerminalState.violation ∧
    Effect.consoleError "Results container not found" ∈
      getWeightLimits sampleNumToString { samplePage with resultsContainer := false }
        { airlines := fun _ =>
            some { num := fun k => if k = "DomEconomyLimit" then some 23 else none,
                   currency := some "TL", InternationalCurrency := some "EUR",
                   DomCountry := some "tr" },
          countries := fun _ => some ⟨some true⟩ }
        sampleGlobals "thy" "economy" "de" "fr" 30 := by
  have hlim : weightLimit
      { num := fun k => if k = "DomEconomyLimit" then some 23 else none,
        currency := some "TL", InternationalCurrency := some "EUR",
        DomCountry := some "tr" } "economy"
      (decide (sampleGlobals.selectedFlightType = some "domestic")) = 23 := by
    simp [weightLimit, flightTypePrefix, orZero, sampleGlobals]
  have h₁ := (resolution_reaches_one_terminal_state sampleNumToString samplePage
    { airlines := fun _ =>
        some { num := fun k => if k = "DomEconomyLimit" then some 23 else none,
               currency := some "TL", InternationalCurrency := some "EUR",
               DomCountry := some "tr" },
      countries := fun _ => some ⟨some true⟩ }
    sampleGlobals ⟨some "thy", "THY"⟩ ⟨some "tr", "Turkey"⟩ ⟨some "tr", "Turkey"⟩
    "thy" "economy" "de" "fr" 30 _ ⟨some true⟩ ⟨some true⟩ rfl rfl rfl rfl rfl rfl).1
  have h₂ := (resolution_reaches_one_terminal_state sampleNumToString samplePage
    { airlines := fun _ =>
        some { num := fun k => if k = "DomEconomyLimit" then some 23 else none,
               currency := some "TL", InternationalCurrency := some "EUR",
               DomCountry := some "tr" },
      countries := fun _ => some ⟨some true⟩ }
    sampleGlobals ⟨some "thy", "THY"⟩ ⟨some "tr", "Turkey"⟩ ⟨some "tr", "Turkey"⟩
    "thy" "premium" "de" "fr" 30 _ ⟨some true⟩ ⟨some true⟩ rfl rfl rfl rfl rfl rfl).2.2.2.2
    (by decide)
  have h₃ := resolution_reaches_one_terminal_state sampleNumToString
    { samplePage with resultsContainer := false }
    { airlines := fun _ =>
        some { num := fun k => if k = "DomEconomyLimit" then some 23 else none,
               currency := some "TL", InternationalCurrency := some "EUR",
               DomCountry := some "tr" },
      countries := fun _ => some ⟨some true⟩ }
    sampleGlobals ⟨some "thy", "THY"⟩ ⟨some "tr", "Turkey"⟩ ⟨some "tr", "Turkey"⟩
    "thy" "economy" "de" "fr" 30 _ ⟨some true⟩ ⟨some true⟩ rfl rfl rfl rfl rfl rfl
  refine ⟨?_, h₂, ?_, ?_⟩
  · rw [h₁, hlim]
    norm_num
  · rw [h₃.1, hlim]
    norm_num
  · refine (h₃.2.1 _).2 ⟨rfl, rfl, ?_⟩
    rw [hlim]
    norm_num

/-- C18, as stated, fails: three items of 0.05 (the binary64 value nearest to it) total
0.15000000000000002; against a limit of 23 the subtraction rounds to -22.85, so the message
reports 22.9 kilograms, while the absolute difference `|totalWeight - weightLimit|` rounded to
one decimal is 22.8. -/
theorem weight_message_rounds_difference_twice :
    totalWeight [⟨"pen", "Pen", binary64 (1 / 20), 3⟩] =
      1351079888211149 / 9007199254740992 ∧
    weightMessage sampleNumToString (totalWeight [⟨"pen", "Pen", binary64 (1 / 20), 3⟩]) 23
        (decide (totalWeight [⟨"pen", "Pen", binary64 (1 / 20), 3⟩] > 23)) =
      "Your total weight is 0.2 kilograms. You are 22.9 kilograms away from passing the airline policy." ∧
    toFixed1 sampleNumToString |totalWeight [⟨"pen", "Pen", binary64 (1 / 20), 3⟩] - 23| =
      "22.8" := by
  have ht : totalWeight [⟨"pen", "Pen", binary64 (1 / 20), 3⟩] =
      1351079888211149 / 9007199254740992 := by
    simp only [totalWeight, List.foldl, Int.cast_ofNat, Int.cast_one, mul_one, zero_add,
      binary64_pens_w0, binary64_pens_p0, binary64_pens_s0]
  have h1 : toFixed1 sampleNumToString (1351079888211149 / 9007199254740992) = "0.2" := by
    rw [toFixed1_of_floor sampleNumToString _ 2 (by norm_num) (by norm_num)
      (by rw [Int.floor_eq_iff]; norm_num)]
    decide
  have h2 : toFixed1 sampleNumToString (3215851608919245 / 140737488355328) = "22.9" := by
    rw [toFixed1_of_floor sampleNumToString _ 229 (by norm_num) (by norm_num)
      (by rw [Int.floor_eq_iff]; norm_num)]
    decide
  have h3 : toFixed1 sampleNumToString |(1351079888211149 / 9007199254740992 : ℚ) - 23| =
      "22.8" := by
    rw [abs_of_nonpos (by norm_num),
      toFixed1_of_floor sampleNumToString _ 228 (by norm_num) (by norm_num)
        (by rw [Int.floor_eq_iff]; norm_num)]
    decide
  have habs : |binary64 ((1351079888211149 / 9007199254740992 : ℚ) - 23)| =
      3215851608919245 / 140737488355328 := by
    rw [binary64_pens_diff, abs_neg, abs_of_nonneg (by norm_num)]
  have hv : ¬ ((1351079888211149 / 9007199254740992 : ℚ) > 23) := by norm_num
  refine ⟨ht, ?_, ?_⟩
  · rw [ht]
    simp only [weightMessage, habs, h1, h2, hv, decide_False]
    decide
  · rw [ht]
    exact h3

/-- C18, amended. For a resolved outcome (`limitPassed` is `totalWeight > weightLimit`) the
first result box reports `totalWeight.toFixed(1)` and `|d|.toFixed(1)`, where `d` is the
difference `totalWeight - weightLimit` rounded to binary64, worded as an excess exactly when
the limit is exceeded and as remaining allowance otherwise; `toFixed(1)` writes the digits of
a nearest tenth; and two items of 0.5 plus one of 1.2 against a limit of 23 are reported as
2.2 kilograms, 20.8 kilograms away. -/
theorem weight_message_wording (numToString : ℚ → String) (pa pc po pd : Dropdown)
    (totalWeight weightLimit : ℚ) (airline classType origin destination : String)
    (isDomestic hasPieceSystem : Bool) (airlineData : AirlineData) :
    (displayResults numToString (fullPage pa pc po pd)
      { totalWeight := totalWeight, weightLimit := weightLimit,
        limitPassed := decide (totalWeight > weightLimit), airline := airline,
        classType := classType, origin := origin, destination := destination,
        isDomestic := isDomestic, hasPieceSystem := hasPieceSystem,
        airlineData := airlineData }).map Rendered.message =
      .ok (some
        (if totalWeight > weightLimit then
          "Your total weight is " ++ toFixed1 numToString totalWeight ++
            " kilograms. You exceed the airline policy by " ++
            toFixed1 numToString |binary64 (totalWeight - weightLimit)| ++ " kilograms."
        else
          "Your total weight is " ++ toFixed1 numToString totalWeight ++
            " kilograms. You are " ++
            toFixed1 numToString |binary64 (totalWeight - weightLimit)| ++
            " kilograms away from passing the airline policy.")) ∧
    (∀ x : ℚ, 0 ≤ x → x < 10 ^ 21 →
      ∃ n : ℕ, toFixed1 numToString x = fixedDigits n ∧ |(n : ℚ) / 10 - x| ≤ 1 / 20) ∧
    weightMessage numToString
        (Luggage.totalWeight
          [⟨"ipad", "iPad", 1 / 2, 2⟩, ⟨"boot", "Snow Boots", binary64 (6 / 5), 1⟩])
        23
        (decide (Luggage.totalWeight
          [⟨"ipad", "iPad", 1 / 2, 2⟩, ⟨"boot", "Snow Boots", binary64 (6 / 5), 1⟩] > 23)) =
      "Your total weight is 2.2 kilograms. You are 20.8 kilograms away from passing the airline policy." := by
  refine ⟨?_, toFixed1_nearest_tenth numToString, ?_⟩
  · rw [displayResults_fullPage]
    by_cases hv : totalWeight > weightLimit <;> simp [Except.map, weightMessage, hv]
  · have ht : Luggage.totalWeight
        [⟨"ipad", "iPad", 1 / 2, 2⟩, ⟨"boot", "Snow Boots", binary64 (6 / 5), 1⟩] =
        2476979795053773 / 1125899906842624 := by
      simp only [Luggage.totalWeight, List.foldl, Int.cast_ofNat, Int.cast_one, mul_one,
        zero_add, binary64_scenario_p0, binary64_scenario_s0, binary64_scenario_w1, binary64_scenario_p1, binary64_scenario_s1]
    have h1 : toFixed1 numToString (2476979795053773 / 1125899906842624) = "2.2" := by
      rw [toFixed1_of_floor numToString _ 22 (by norm_num) (by norm_num)
        (by rw [Int.floor_eq_iff]; norm_num)]
      decide
    have h2 : toFixed1 numToString (5854679515581645 / 281474976710656) = "20.8" := by
      rw [toFixed1_of_floor numToString _ 208 (by norm_num) (by norm_num)
        (by rw [Int.floor_eq_iff]; norm_num)]
      decide
    have habs : |binary64 ((2476979795053773 / 1125899906842624 : ℚ) - 23)| =
        5854679515581645 / 281474976710656 := by
      rw [binary64_scenario_diff, abs_neg, abs_of_nonneg (by norm_num)]
    have hv : ¬ ((2476979795053773 / 1125899906842624 : ℚ) > 23) := by norm_num
    rw [ht]
    simp only [weightMessage, habs, h1, h2, hv, decide_False]
    decide

/-- C18, amended, at a concrete input: a total of 30.3 against a limit of 7.3 on the sample
page is reported as an excess of 23.0 kilograms, the difference as the subtraction computes
it; and 2.25 is written with the digits of 23 tenths, a nearest tenth (the larger one on the
tie). -/
theorem weight_message_wording_witness :
    (displayResults sampleNumToString samplePage
      { totalWeight := binary64 (303 / 10), weightLimit := binary64 (73 / 10),
        limitPassed := decide (binary64 (303 / 10) > binary64 (73 / 10)), airline := "thy",
        classType := "economy", origin := "tr", destination := "tr", isDomestic := true,
        hasPieceSystem := false,
        airlineData :=
          { num := fun k => if k = "WeightSystemDomEconomyFee" then some 5 else none,
            currency := some "TL", InternationalCurrency := some "EUR" } }).map
        Rendered.message =
      .ok (some
        "Your total weight is 30.3 kilograms. You exceed the airline policy by 23.0 kilograms.") ∧
    (0 : ℚ) ≤ 9 / 4 ∧ (9 / 4 : ℚ) < 10 ^ 21 ∧
    ∃ n : ℕ, toFixed1 sampleNumToString (9 / 4) = fixedDigits n ∧
      |(n : ℚ) / 10 - 9 / 4| ≤ 1 / 20 := by
  have h := weight_message_wording sampleNumToString ⟨some "thy", "THY"⟩
    ⟨some "economy", "Economy"⟩ ⟨some "tr", "Turkey"⟩ ⟨some "tr", "Turkey"⟩
    (binary64 (303 / 10)) (binary64 (73 / 10)) "thy" "economy" "tr" "tr" true false
    { num := fun k => if k = "WeightSystemDomEconomyFee" then some 5 else none,
      currency := some "TL", InternationalCurrency := some "EUR" }
  refine ⟨?_, by norm_num, by norm_num, h.2.1 (9 / 4) (by norm_num) (by norm_num)⟩
  have hgt : binary64 (303 / 10) > binary64 (73 / 10) := by
    rw [binary64_30_3, binary64_7_3]; norm_num
  have h1 : toFixed1 sampleNumToString (binary64 (303 / 10)) = "30.3" := by
    rw [binary64_30_3, toFixed1_of_floor sampleNumToString _ 303 (by norm_num) (by norm_num)
      (by rw [Int.floor_eq_iff]; norm_num)]
    decide
  have h2 : toFixed1 sampleNumToString |binary64 (binary64 (303 / 10) - binary64 (73 / 10))| =
      "23.0" := by
    rw [binary64_30_3, binary64_7_3, binary64_30_3_sub_7_3, abs_of_nonneg (by norm_num)]
    exact toFixed1_twenty_three _
  rw [samplePage, h.1, if_pos hgt, h1, h2]
  rfl

/-- C19, as stated, fails: four outbound logs of 24.0, 12.9, 13.7 and 10.8 kilograms (the
binary64 values nearest to them), newest first, have a mean just above 15.35, which is 15.4 to
one decimal; the sum and the quotient as `updateAnalytics` computes them give
15.349999999999998 and the average box reads 15.3. -/
theorem average_box_rounds_sum_and_quotient :
    (updateAnalytics sampleNumToString true
        [sampleLog 24 "outbound" 4, sampleLog (binary64 (129 / 10)) "outbound" 3,
          sampleLog (binary64 (137 / 10)) "outbound" 2,
          sampleLog (binary64 (54 / 5)) "outbound" 1] (some "outbound") (some sampleView)).map
        (fun v => v.averageWeightBoxText) =
      some "According to your last 4 outbound flights, your average luggage weight is 15.3 kilograms." ∧
    directionLogs "outbound"
        [sampleLog 24 "outbound" 4, sampleLog (binary64 (129 / 10)) "outbound" 3,
          sampleLog (binary64 (137 / 10)) "outbound" 2,
          sampleLog (binary64 (54 / 5)) "outbound" 1] =
      [sampleLog 24 "outbound" 4, sampleLog (binary64 (129 / 10)) "outbound" 3,
        sampleLog (binary64 (137 / 10)) "outbound" 2,
        sampleLog (binary64 (54 / 5)) "outbound" 1] ∧
    toFixed1 sampleNumToString (meanTotalWeight
        [sampleLog 24 "outbound" 4, sampleLog (binary64 (129 / 10)) "outbound" 3,
          sampleLog (binary64 (137 / 10)) "outbound" 2,
          sampleLog (binary64 (54 / 5)) "outbound" 1]) = "15.4" := by
  have havg : recentAverage
      [sampleLog 24 "outbound" 4, sampleLog (binary64 (129 / 10)) "outbound" 3,
        sampleLog (binary64 (137 / 10)) "outbound" 2,
        sampleLog (binary64 (54 / 5)) "outbound" 1] =
      4320640892508569 / 281474976710656 := by
    have hcount : ((min
        [sampleLog 24 "outbound" 4, sampleLog (binary64 (129 / 10)) "outbound" 3,
          sampleLog (binary64 (137 / 10)) "outbound" 2,
          sampleLog (binary64 (54 / 5)) "outbound" 1].length 10 : ℕ) : ℚ) = 4 := by
      norm_num
    simp only [recentAverage, hcount]
    simp only [List.length, Nat.reduceAdd, Nat.min_def, Nat.reduceLeDiff, if_true, List.take,
      List.foldl, sampleLog, zero_add, binary64_outbound_s0, binary64_outbound_w1, binary64_outbound_s1, binary64_outbound_w2, binary64_outbound_s2, binary64_outbound_w3,
      binary64_outbound_s3, binary64_outbound_div]
  have hmean : meanTotalWeight
      [sampleLog 24 "outbound" 4, sampleLog (binary64 (129 / 10)) "outbound" 3,
        sampleLog (binary64 (137 / 10)) "outbound" 2,
        sampleLog (binary64 (54 / 5)) "outbound" 1] =
      34565127140068557 / 2251799813685248 := by
    simp only [meanTotalWeight, List.map, List.sum_cons, List.sum_nil, sampleLog, binary64_outbound_w1,
      binary64_outbound_w2, binary64_outbound_w3, List.length]
    norm_num
  have h153 : toFixed1 sampleNumToString (4320640892508569 / 281474976710656) = "15.3" := by
    rw [toFixed1_of_floor sampleNumToString _ 153 (by norm_num) (by norm_num)
      (by rw [Int.floor_eq_iff]; norm_num)]
    decide
  have h154 : toFixed1 sampleNumToString (34565127140068557 / 2251799813685248) = "15.4" := by
    rw [toFixed1_of_floor sampleNumToString _ 154 (by norm_num) (by norm_num)
      (by rw [Int.floor_eq_iff]; norm_num)]
    decide
  have hsort : sortedCalculations
      [sampleLog 24 "outbound" 4, sampleLog (binary64 (129 / 10)) "outbound" 3,
        sampleLog (binary64 (137 / 10)) "outbound" 2,
        sampleLog (binary64 (54 / 5)) "outbound" 1] =
      [sampleLog 24 "outbound" 4, sampleLog (binary64 (129 / 10)) "outbound" 3,
        sampleLog (binary64 (137 / 10)) "outbound" 2,
        sampleLog (binary64 (54 / 5)) "outbound" 1] := by
    simp [sortedCalculations, sampleLog, List.insertionSort, List.orderedInsert, newestFirst,
      timeOf]
  have hO : List.filter (fun c => decide (c.tripType = some "outbound"))
      [sampleLog 24 "outbound" 4, sampleLog (binary64 (129 / 10)) "outbound" 3,
        sampleLog (binary64 (137 / 10)) "outbound" 2,
        sampleLog (binary64 (54 / 5)) "outbound" 1] =
      [sampleLog 24 "outbound" 4, sampleLog (binary64 (129 / 10)) "outbound" 3,
        sampleLog (binary64 (137 / 10)) "outbound" 2,
        sampleLog (binary64 (54 / 5)) "outbound" 1] := by
    simp [List.filter, sampleLog]
  have hI : List.filter (fun c => decide (c.tripType = some "inbound"))
      [sampleLog 24 "outbound" 4, sampleLog (binary64 (129 / 10)) "outbound" 3,
        sampleLog (binary64 (137 / 10)) "outbound" 2,
        sampleLog (binary64 (54 / 5)) "outbound" 1] = [] := by
    simp [List.filter, sampleLog]
  refine ⟨?_, ?_, ?_⟩
  · rw [updateAnalytics_shown _ _ _ _ (by simp), hsort, hO, hI]
    have ht := showAnalytics_average_text sampleNumToString (some "outbound")
      [sampleLog 24 "outbound" 4, sampleLog (binary64 (129 / 10)) "outbound" 3,
        sampleLog (binary64 (137 / 10)) "outbound" 2,
        sampleLog (binary64 (54 / 5)) "outbound" 1]
      [] sampleView (by simp)
    rw [if_pos rfl] at ht
    rw [Option.map_some', ht]
    simp only [averageWeightText, havg, h153, strOrNull]
    have hcount : sampleNumToString ((min
        [sampleLog 24 "outbound" 4, sampleLog (binary64 (129 / 10)) "outbound" 3,
          sampleLog (binary64 (137 / 10)) "outbound" 2,
          sampleLog (binary64 (54 / 5)) "outbound" 1].length 10 : ℕ) : ℚ) = "4" := by
      norm_num
      decide
    rw [hcount]
    decide
  · simp [directionLogs, List.filter, sampleLog]
  · rw [hmean, h154]

/-- C19, amended. After `updateAnalytics` has run for a logged-in user with a non-empty log
collection, the analytics elements on the page and the current trip direction `d`
(outbound or inbound): the average box is shown exactly when the number `n` of logs of
direction `d` is at least 3, and its text then names the count `min(n, 10)` and, written by
`toFixed(1)`, the average of a window of that many logs of direction `d`, none of which is
older than a log of direction `d` left out of the window; the average is the sum of the total
weights of the window taken from the left, divided by the count, every addition and the
division rounded to binary64; it is the mean of the window whenever no addition and not the
division rounds. -/
theorem average_box_shown_iff_three (numToString : ℚ → String)
    (calculationSnapshot : List CalculationLog) (d : String) (v : AnalyticsView)
    (hd : d = "outbound" ∨ d = "inbound") (hne : calculationSnapshot ≠ []) :
    ∃ v' window rest,
      updateAnalytics numToString true calculationSnapshot (some d) (some v) = some v' ∧
      ((v'.analyticsResultsDisplay = "flex" ∧ v'.averageWeightBoxDisplay = "flex") ↔
        3 ≤ (directionLogs d calculationSnapshot).length) ∧
      (window ++ rest).Perm (directionLogs d calculationSnapshot) ∧
      window.length = min (directionLogs d calculationSnapshot).length 10 ∧
      (∀ x ∈ window, ∀ y ∈ rest, timeOf y ≤ timeOf x) ∧
      (3 ≤ (directionLogs d calculationSnapshot).length →
        v'.averageWeightBoxText =
          "According to your last " ++ numToString (window.length : ℚ) ++ " " ++ d ++
            " flights, your average luggage weight is " ++
            toFixed1 numToString
              (binary64
                (window.foldl (fun sum flight => binary64 (sum + flight.totalWeight)) 0 /
                  (window.length : ℚ))) ++ " kilograms.") ∧
      (exactSums 0 window = true →
        binary64 (meanTotalWeight window) = meanTotalWeight window →
        binary64
            (window.foldl (fun sum flight => binary64 (sum + flight.totalWeight)) 0 /
              (window.length : ℚ)) = meanTotalWeight window) := by
  have hrel : (if (some d : Option String) = some "outbound" then
        (sortedCalculations calculationSnapshot).filter
          (fun c => decide (c.tripType = some "outbound"))
      else (sortedCalculations calculationSnapshot).filter
          (fun c => decide (c.tripType = some "inbound"))) =
      (sortedCalculations calculationSnapshot).filter
        (fun c => decide (c.tripType = some d)) := by
    rcases hd with rfl | rfl
    · simp
    · have : ¬ ((some "inbound" : Option String) = some "outbound") := by decide
      rw [if_neg this]
  have hperm := directionFlights_perm d calculationSnapshot
  have hlen := hperm.length_eq
  have hwin := recent_window _ (directionFlights_sorted d calculationSnapshot)
  have hshown := showAnalytics_average_shown numToString (some d)
    ((sortedCalculations calculationSnapshot).filter
      (fun c => decide (c.tripType = some "outbound")))
    ((sortedCalculations calculationSnapshot).filter
      (fun c => decide (c.tripType = some "inbound"))) v
  have htext := showAnalytics_average_text numToString (some d)
    ((sortedCalculations calculationSnapshot).filter
      (fun c => decide (c.tripType = some "outbound")))
    ((sortedCalculations calculationSnapshot).filter
      (fun c => decide (c.tripType = some "inbound"))) v
  rw [hrel, hlen] at hshown htext
  refine ⟨_, ((sortedCalculations calculationSnapshot).filter
      (fun c => decide (c.tripType = some d))).take
        (min ((sortedCalculations calculationSnapshot).filter
          (fun c => decide (c.tripType = some d))).length 10),
    ((sortedCalculations calculationSnapshot).filter
      (fun c => decide (c.tripType = some d))).drop
        (min ((sortedCalculations calculationSnapshot).filter
          (fun c => decide (c.tripType = some d))).length 10),
    updateAnalytics_shown numToString calculationSnapshot (some d) v hne, hshown, ?_, ?_,
    hwin.2, ?_, ?_⟩
  · rw [List.take_append_drop]
    exact hperm
  · rw [hwin.1, hlen]
  · intro h3
    rw [htext h3, hwin.1]
    simp [averageWeightText, recentAverage, strOrNull]
  · intro hexact hdiv
    rw [← hdiv, foldl_flight_weight_of_exactSums _ 0 hexact, zero_add, meanTotalWeight]

/-- C19, amended, at a concrete input: outbound logs of 20, 21 and 22 kilograms and one inbound log;
with outbound selected the average box reads 3 flights and 21.0 kilograms. -/
theorem average_box_shown_iff_three_witness :
    ("outbound" = "outbound" ∨ "outbound" = "inbound") ∧
    [sampleLog 21 "outbound" 2, sampleLog 25 "inbound" 4, sampleLog 20 "outbound" 1,
      sampleLog 22 "outbound" 3] ≠ [] ∧
    (∃ v' window rest,
      updateAnalytics sampleNumToString true
          [sampleLog 21 "outbound" 2, sampleLog 25 "inbound" 4, sampleLog 20 "outbound" 1,
            sampleLog 22 "outbound" 3] (some "outbound") (some sampleView) = some v' ∧
      ((v'.analyticsResultsDisplay = "flex" ∧ v'.averageWeightBoxDisplay = "flex") ↔
        3 ≤ (directionLogs "outbound"
          [sampleLog 21 "outbound" 2, sampleLog 25 "inbound" 4, sampleLog 20 "outbound" 1,
            sampleLog 22 "outbound" 3]).length) ∧
      (window ++ rest).Perm (directionLogs "outbound"
        [sampleLog 21 "outbound" 2, sampleLog 25 "inbound" 4, sampleLog 20 "outbound" 1,
          sampleLog 22 "outbound" 3]) ∧
      window.length = min (directionLogs "outbound"
        [sampleLog 21 "outbound" 2, sampleLog 25 "inbound" 4, sampleLog 20 "outbound" 1,
          sampleLog 22 "outbound" 3]).length 10 ∧
      (∀ x ∈ window, ∀ y ∈ rest, timeOf y ≤ timeOf x) ∧
      (3 ≤ (directionLogs "outbound"
          [sampleLog 21 "outbound" 2, sampleLog 25 "inbound" 4, sampleLog 20 "outbound" 1,
            sampleLog 22 "outbound" 3]).length →
        v'.averageWeightBoxText =
          "According to your last " ++ sampleNumToString (window.length : ℚ) ++ " " ++
            "outbound" ++ " flights, your average luggage weight is " ++
            toFixed1 sampleNumToString
              (binary64
                (window.foldl (fun sum flight => binary64 (sum + flight.totalWeight)) 0 /
                  (window.length : ℚ))) ++ " kilograms.") ∧
      (exactSums 0 window = true →
        binary64 (meanTotalWeight window) = meanTotalWeight window →
        binary64
            (window.foldl (fun sum flight => binary64 (sum + flight.totalWeight)) 0 /
              (window.length : ℚ)) = meanTotalWeight window)) ∧
    (updateAnalytics sampleNumToString true
        [sampleLog 21 "outbound" 2, sampleLog 25 "inbound" 4, sampleLog 20 "outbound" 1,
          sampleLog 22 "outbound" 3] (some "outbound") (some sampleView)).map
        (fun v => v.averageWeightBoxText) =
      some "According to your last 3 outbound flights, your average luggage weight is 21.0 kilograms." := by
  refine ⟨Or.inl rfl, by simp,
    average_box_shown_iff_three sampleNumToString _ "outbound" sampleView (Or.inl rfl)
      (by simp), ?_⟩
  have h21 : toFixed1 sampleNumToString 21 = "21.0" := by
    rw [toFixed1_of_floor sampleNumToString 21 210 (by norm_num) (by norm_num)
      (by rw [Int.floor_eq_iff]; norm_num)]
    decide
  have hout : ¬ ((some "inbound" : Option String) = some "outbound") := by decide
  have hin : ¬ ((some "outbound" : Option String) = some "inbound") := by decide
  have havg : recentAverage
      [sampleLog 22 "outbound" 3, sampleLog 21 "outbound" 2, sampleLog 20 "outbound" 1] =
      21 := by
    have h22 : binary64 (22 : ℚ) = 22 := binary64_ofNat 22 (by norm_num)
    have h43 : binary64 ((22 : ℚ) + 21) = 43 := by
      rw [show (22 : ℚ) + 21 = 43 by norm_num]
      exact binary64_ofNat 43 (by norm_num)
    have h63 : binary64 ((43 : ℚ) + 20) = 63 := by
      rw [show (43 : ℚ) + 20 = 63 by norm_num]
      exact binary64_ofNat 63 (by norm_num)
    have h21 : binary64 ((63 : ℚ) / 3) = 21 := by
      rw [show (63 : ℚ) / 3 = 21 by norm_num]
      exact binary64_ofNat 21 (by norm_num)
    have hcount : ((min
        [sampleLog 22 "outbound" 3, sampleLog 21 "outbound" 2,
          sampleLog 20 "outbound" 1].length 10 : ℕ) : ℚ) = 3 := by
      norm_num
    simp only [recentAverage, hcount]
    simp only [List.length, Nat.reduceAdd, Nat.min_def, Nat.reduceLeDiff, if_true, List.take,
      List.foldl, sampleLog, zero_add, h22, h43, h63, h21]
  have hsort : sortedCalculations
      [sampleLog 21 "outbound" 2, sampleLog 25 "inbound" 4, sampleLog 20 "outbound" 1,
        sampleLog 22 "outbound" 3] =
      [sampleLog 25 "inbound" 4, sampleLog 22 "outbound" 3, sampleLog 21 "outbound" 2,
        sampleLog 20 "outbound" 1] := by
    simp [sortedCalculations, sampleLog, List.insertionSort, List.orderedInsert, newestFirst,
      timeOf]
  rw [updateAnalytics_shown _ _ _ _ (by simp), hsort]
  have hO : List.filter (fun c => decide (c.tripType = some "outbound"))
      [sampleLog 25 "inbound" 4, sampleLog 22 "outbound" 3, sampleLog 21 "outbound" 2,
        sampleLog 20 "outbound" 1] =
      [sampleLog 22 "outbound" 3, sampleLog 21 "outbound" 2, sampleLog 20 "outbound" 1] := by
    simp [List.filter, sampleLog]
  have hI : List.filter (fun c => decide (c.tripType = some "inbound"))
      [sampleLog 25 "inbound" 4, sampleLog 22 "outbound" 3, sampleLog 21 "outbound" 2,
        sampleLog 20 "outbound" 1] = [sampleLog 25 "inbound" 4] := by
    simp [List.filter, sampleLog]
  rw [hO, hI]
  have ht := showAnalytics_average_text sampleNumToString (some "outbound")
    [sampleLog 22 "outbound" 3, sampleLog 21 "outbound" 2, sampleLog 20 "outbound" 1]
    [sampleLog 25 "inbound" 4] sampleView (by simp)
  rw [if_pos rfl] at ht
  rw [Option.map_some', ht]
  simp only [averageWeightText, havg, h21, strOrNull]
  have hcount : sampleNumToString ((min
      [sampleLog 22 "outbound" 3, sampleLog 21 "outbound" 2,
        sampleLog 20 "outbound" 1].length 10 : ℕ) : ℚ) = "3" := by
    norm_num
    decide
  rw [hcount]
  decide

/-- C20, as stated, fails: with one outbound log of 20.01 and one inbound log of 20.04 (the
binary64 values nearest to them) the inbound average is the larger one, yet the message says
the weights are equal; with 19.94 and 20.06 the difference of the averages is 0.12, written
0.1 by `toFixed(1)`, yet the message reports 0.2. -/
theorem rounded_averages_hide_difference :
    meanTotalWeight (directionLogs "inbound"
        [sampleLog (binary64 (2001 / 100)) "outbound" 1,
          sampleLog (binary64 (501 / 25)) "inbound" 2]) >
      meanTotalWeight (directionLogs "outbound"
        [sampleLog (binary64 (2001 / 100)) "outbound" 1,
          sampleLog (binary64 (501 / 25)) "inbound" 2]) ∧
    (updateAnalytics sampleNumToString true
        [sampleLog (binary64 (2001 / 100)) "outbound" 1,
          sampleLog (binary64 (501 / 25)) "inbound" 2]
        (some "inbound") (some sampleView)).map (fun v => v.returnWeightBoxText) =
      some "On average, your outbound and inbound luggage weights are equal." ∧
    toFixed1 sampleNumToString
      |meanTotalWeight (directionLogs "inbound"
          [sampleLog (binary64 (997 / 50)) "outbound" 1,
            sampleLog (binary64 (1003 / 50)) "inbound" 2]) -
        meanTotalWeight (directionLogs "outbound"
          [sampleLog (binary64 (997 / 50)) "outbound" 1,
            sampleLog (binary64 (1003 / 50)) "inbound" 2])| = "0.1" ∧
    (updateAnalytics sampleNumToString true
        [sampleLog (binary64 (997 / 50)) "outbound" 1,
          sampleLog (binary64 (1003 / 50)) "inbound" 2]
        (some "inbound") (some sampleView)).map (fun v => v.returnWeightBoxText) =
      some "On average, you return with 0.2 kilograms of extra weight from trips." := by
  have hdO : ∀ a b : ℚ, directionLogs "outbound"
      [sampleLog a "outbound" 1, sampleLog b "inbound" 2] = [sampleLog a "outbound" 1] := by
    intro a b
    simp [directionLogs, sampleLog, List.filter]
  have hdI : ∀ a b : ℚ, directionLogs "inbound"
      [sampleLog a "outbound" 1, sampleLog b "inbound" 2] = [sampleLog b "inbound" 2] := by
    intro a b
    simp [directionLogs, sampleLog, List.filter]
  have hsort : ∀ a b : ℚ, sortedCalculations
      [sampleLog a "outbound" 1, sampleLog b "inbound" 2] =
      [sampleLog b "inbound" 2, sampleLog a "outbound" 1] := by
    intro a b
    simp [sortedCalculations, sampleLog, List.insertionSort, List.orderedInsert, newestFirst,
      timeOf]
  have hO : ∀ a b : ℚ, List.filter (fun c => decide (c.tripType = some "outbound"))
      [sampleLog b "inbound" 2, sampleLog a "outbound" 1] = [sampleLog a "outbound" 1] := by
    intro a b
    simp [List.filter, sampleLog]
  have hI : ∀ a b : ℚ, List.filter (fun c => decide (c.tripType = some "inbound"))
      [sampleLog b "inbound" 2, sampleLog a "outbound" 1] = [sampleLog b "inbound" 2] := by
    intro a b
    simp [List.filter, sampleLog]
  have hmean : ∀ (a : ℚ) (d : String) (t : ℤ), meanTotalWeight [sampleLog a d t] = a := by
    intro a d t
    simp [meanTotalWeight, sampleLog]
  have hres : ∀ a b : ℚ,
      (updateAnalytics sampleNumToString true
        [sampleLog a "outbound" 1, sampleLog b "inbound" 2]
        (some "inbound") (some sampleView)).map (fun v => v.returnWeightBoxText) =
      some (returnWeightText sampleNumToString [sampleLog a "outbound" 1]
        [sampleLog b "inbound" 2]) := by
    intro a b
    rw [updateAnalytics_shown _ _ _ _ (by simp), hsort, hO, hI, Option.map_some',
      (showAnalytics_return_shown sampleNumToString (some "inbound")
        [sampleLog a "outbound" 1] [sampleLog b "inbound" 2] sampleView (by simp)
        (by simp)).2.2]
  have h20 : binary64 (((200 : ℕ) : ℚ) / 10) = 20 := by
    rw [show (((200 : ℕ) : ℚ)) / 10 = 20 by norm_num]
    exact binary64_ofNat 20 (by norm_num)
  have p1 : parseFixed1 (binary64 (2001 / 100)) = 20 := by
    rw [parseFixed1, binary64_near_2001, fixed1Value_of_floor _ 200 (by norm_num) (by norm_num)
      (by rw [Int.floor_eq_iff]; norm_num), h20]
  have p2 : parseFixed1 (binary64 (501 / 25)) = 20 := by
    rw [parseFixed1, binary64_near_2004, fixed1Value_of_floor _ 200 (by norm_num) (by norm_num)
      (by rw [Int.floor_eq_iff]; norm_num), h20]
  have p3 : parseFixed1 (binary64 (997 / 50)) = 2800676018271027 / 140737488355328 := by
    rw [parseFixed1, binary64_near_1994, fixed1Value_of_floor _ 199 (by norm_num) (by norm_num)
      (by rw [Int.floor_eq_iff]; norm_num),
      show (((199 : ℕ) : ℚ)) / 10 = 199 / 10 by norm_num, binary64_near_199]
  have p4 : parseFixed1 (binary64 (1003 / 50)) = 2828823515942093 / 140737488355328 := by
    rw [parseFixed1, binary64_near_2006, fixed1Value_of_floor _ 201 (by norm_num) (by norm_num)
      (by rw [Int.floor_eq_iff]; norm_num),
      show (((201 : ℕ) : ℚ)) / 10 = 201 / 10 by norm_num, binary64_near_201]
  have t1 : toFixed1 sampleNumToString (16888498602639 / 140737488355328) = "0.1" := by
    rw [toFixed1_of_floor sampleNumToString _ 1 (by norm_num) (by norm_num)
      (by rw [Int.floor_eq_iff]; norm_num)]
    decide
  have t2 : toFixed1 sampleNumToString (14073748835533 / 70368744177664) = "0.2" := by
    rw [toFixed1_of_floor sampleNumToString _ 2 (by norm_num) (by norm_num)
      (by rw [Int.floor_eq_iff]; norm_num)]
    decide
  refine ⟨?_, ?_, ?_, ?_⟩
  · rw [hdO, hdI, hmean, hmean, binary64_near_2001, binary64_near_2004]
    norm_num
  · rw [hres]
    simp [returnWeightText, recentAverage_single, p1, p2]
  · rw [hdO, hdI, hmean, hmean, binary64_near_1994, binary64_near_2006]
    have : |(5646388032815759 / 281474976710656 : ℚ) - 5612611035610481 / 281474976710656| =
        16888498602639 / 140737488355328 := by
      rw [abs_of_nonneg (by norm_num)]; norm_num
    rw [this, t1]
  · rw [hres]
    have hlt : (2800676018271027 / 140737488355328 : ℚ) <
        2828823515942093 / 140737488355328 := by norm_num
    have habs : |binary64 ((2828823515942093 / 140737488355328 : ℚ) -
        2800676018271027 / 140737488355328)| = 14073748835533 / 70368744177664 := by
      rw [binary64_near_diff, abs_of_nonneg (by norm_num)]
    simp only [returnWeightText, recentAverage_single, p3, p4, gt_iff_lt, hlt, if_true, habs,
      t2]
    decide

/-- C20, amended. With at least one outbound and one inbound log, `updateAnalytics` shows
the return box. Each of the two averages is taken over the `min(n, 10)` most recent logs of
its direction: the sum of their total weights taken from the left, divided by their number,
every addition and the division rounded to binary64 (it is the mean whenever no addition and
not the division rounds). The message compares the two averages after each was rounded to
one decimal (`parseFloat` of `toFixed(1)`): heavier when the rounded inbound average is the
larger one, lighter when the rounded outbound average is, with the difference of the rounded
averages, as the subtraction computes it, written by `toFixed(1)`, and equal when the rounded
averages coincide. Heavier is therefore said only when the computed inbound average is
larger, lighter only when it is smaller, and equal computed averages always give the equal
message. -/
theorem return_message_uses_rounded_averages (numToString : ℚ → String)
    (calculationSnapshot : List CalculationLog) (selectedTripType : Option String)
    (v : AnalyticsView)
    (hout : 1 ≤ (directionLogs "outbound" calculationSnapshot).length)
    (hin : 1 ≤ (directionLogs "inbound" calculationSnapshot).length) :
    ∃ v' outWindow outRest inWindow inRest,
      updateAnalytics numToString true calculationSnapshot selectedTripType (some v) =
        some v' ∧
      v'.analyticsResultsDisplay = "flex" ∧ v'.returnWeightBoxDisplay = "flex" ∧
      (outWindow ++ outRest).Perm (directionLogs "outbound" calculationSnapshot) ∧
      outWindow.length = min (directionLogs "outbound" calculationSnapshot).length 10 ∧
      (∀ x ∈ outWindow, ∀ y ∈ outRest, timeOf y ≤ timeOf x) ∧
      (inWindow ++ inRest).Perm (directionLogs "inbound" calculationSnapshot) ∧
      inWindow.length = min (directionLogs "inbound" calculationSnapshot).length 10 ∧
      (∀ x ∈ inWindow, ∀ y ∈ inRest, timeOf y ≤ timeOf x) ∧
      recentAverage outWindow =
        binary64
          (outWindow.foldl (fun sum flight => binary64 (sum + flight.totalWeight)) 0 /
            (outWindow.length : ℚ)) ∧
      recentAverage inWindow =
        binary64
          (inWindow.foldl (fun sum flight => binary64 (sum + flight.totalWeight)) 0 /
            (inWindow.length : ℚ)) ∧
      (exactSums 0 outWindow = true →
        binary64 (meanTotalWeight outWindow) = meanTotalWeight outWindow →
        recentAverage outWindow = meanTotalWeight outWindow) ∧
      (exactSums 0 inWindow = true →
        binary64 (meanTotalWeight inWindow) = meanTotalWeight inWindow →
        recentAverage inWindow = meanTotalWeight inWindow) ∧
      v'.returnWeightBoxText =
        (if parseFixed1 (recentAverage inWindow) >
            parseFixed1 (recentAverage outWindow) then
          "On average, you return with " ++
            toFixed1 numToString
              |binary64 (parseFixed1 (recentAverage inWindow) -
                parseFixed1 (recentAverage outWindow))| ++
            " kilograms of extra weight from trips."
        else if parseFixed1 (recentAverage outWindow) >
            parseFixed1 (recentAverage inWindow) then
          "On average, you return with " ++
            toFixed1 numToString
              |binary64 (parseFixed1 (recentAverage inWindow) -
                parseFixed1 (recentAverage outWindow))| ++
            " less kilograms from trips."
        else "On average, your outbound and inbound luggage weights are equal.") ∧
      (parseFixed1 (recentAverage inWindow) > parseFixed1 (recentAverage outWindow) →
        recentAverage inWindow > recentAverage outWindow) ∧
      (parseFixed1 (recentAverage outWindow) > parseFixed1 (recentAverage inWindow) →
        recentAverage outWindow > recentAverage inWindow) ∧
      (recentAverage inWindow = recentAverage outWindow →
        parseFixed1 (recentAverage inWindow) = parseFixed1 (recentAverage outWindow)) := by
  have hne : calculationSnapshot ≠ [] := by
    rintro rfl
    simp [directionLogs] at hout
  have hpO := directionFlights_perm "outbound" calculationSnapshot
  have hpI := directionFlights_perm "inbound" calculationSnapshot
  have hwO := recent_window _ (directionFlights_sorted "outbound" calculationSnapshot)
  have hwI := recent_window _ (directionFlights_sorted "inbound" calculationSnapshot)
  have hO : 1 ≤ ((sortedCalculations calculationSnapshot).filter
      (fun c => decide (c.tripType = some "outbound"))).length := by
    rw [hpO.length_eq]; exact hout
  have hI : 1 ≤ ((sortedCalculations calculationSnapshot).filter
      (fun c => decide (c.tripType = some "inbound"))).length := by
    rw [hpI.length_eq]; exact hin
  obtain ⟨h1, h2, h3⟩ := showAnalytics_return_shown numToString selectedTripType _ _ v hO hI
  have hmono : ∀ x y : ℚ, parseFixed1 x > parseFixed1 y → x > y := by
    intro x y hgt
    by_contra hle
    exact absurd (parseFixed1_mono x y (not_lt.mp hle)) (not_le.mpr hgt)
  have hlenO : (((sortedCalculations calculationSnapshot).filter
      (fun c => decide (c.tripType = some "outbound"))).take
        (min ((sortedCalculations calculationSnapshot).filter
          (fun c => decide (c.tripType = some "outbound"))).length 10)).length ≤ 10 := by
    rw [hwO.1]; exact min_le_right _ _
  have hlenI : (((sortedCalculations calculationSnapshot).filter
      (fun c => decide (c.tripType = some "inbound"))).take
        (min ((sortedCalculations calculationSnapshot).filter
          (fun c => decide (c.tripType = some "inbound"))).length 10)).length ≤ 10 := by
    rw [hwI.1]; exact min_le_right _ _
  refine ⟨_, _, _, _, _, updateAnalytics_shown numToString calculationSnapshot
      selectedTripType v hne, h1, h2, ?_, ?_, hwO.2, ?_, ?_, hwI.2,
      recentAverage_of_short _ hlenO, recentAverage_of_short _ hlenI,
      recentAverage_of_exact _ hlenO, recentAverage_of_exact _ hlenI, ?_, hmono _ _,
      hmono _ _, fun h => by rw [h]⟩
  · rw [List.take_append_drop]; exact hpO
  · rw [hwO.1, hpO.length_eq]
  · rw [List.take_append_drop]; exact hpI
  · rw [hwI.1, hpI.length_eq]
  · rw [h3, ← recentAverage_take, ← recentAverage_take]
    simp only [returnWeightText]

/-- C20, amended, at a concrete input: outbound logs of 15.0 and 15.9 kilograms and a newer
inbound log of 15.5 kilograms; both directions are present, the return box is shown, and as
the computed outbound average 15.45 is written 15.4 the message reports 0.1 kilograms of
extra weight. -/
theorem return_message_uses_rounded_averages_witness :
    1 ≤ (directionLogs "outbound"
      [sampleLog 15 "outbound" 1, sampleLog (binary64 (159 / 10)) "outbound" 2,
        sampleLog (31 / 2) "inbound" 3]).length ∧
    1 ≤ (directionLogs "inbound"
      [sampleLog 15 "outbound" 1, sampleLog (binary64 (159 / 10)) "outbound" 2,
        sampleLog (31 / 2) "inbound" 3]).length ∧
    (∃ v', updateAnalytics sampleNumToString true
        [sampleLog 15 "outbound" 1, sampleLog (binary64 (159 / 10)) "outbound" 2,
          sampleLog (31 / 2) "inbound" 3] (some "inbound")
        (some sampleView) = some v' ∧
      v'.analyticsResultsDisplay = "flex" ∧ v'.returnWeightBoxDisplay = "flex") ∧
    (updateAnalytics sampleNumToString true
        [sampleLog 15 "outbound" 1, sampleLog (binary64 (159 / 10)) "outbound" 2,
          sampleLog (31 / 2) "inbound" 3]
        (some "inbound") (some sampleView)).map (fun v => v.returnWeightBoxText) =
      some "On average, you return with 0.1 kilograms of extra weight from trips." := by
  have hout : 1 ≤ (directionLogs "outbound"
      [sampleLog 15 "outbound" 1, sampleLog (binary64 (159 / 10)) "outbound" 2,
        sampleLog (31 / 2) "inbound" 3]).length := by
    simp [directionLogs, sampleLog, List.filter]
  have hin : 1 ≤ (directionLogs "inbound"
      [sampleLog 15 "outbound" 1, sampleLog (binary64 (159 / 10)) "outbound" 2,
        sampleLog (31 / 2) "inbound" 3]).length := by
    simp [directionLogs, sampleLog, List.filter]
  obtain ⟨v', _, _, _, _, h, h1, h2, -⟩ :=
    return_message_uses_rounded_averages sampleNumToString
      [sampleLog 15 "outbound" 1, sampleLog (binary64 (159 / 10)) "outbound" 2,
        sampleLog (31 / 2) "inbound" 3] (some "inbound")
      sampleView hout hin
  refine ⟨hout, hin, ⟨v', h, h1, h2⟩, ?_⟩
  have hsort : sortedCalculations
      [sampleLog 15 "outbound" 1, sampleLog (binary64 (159 / 10)) "outbound" 2,
        sampleLog (31 / 2) "inbound" 3] =
      [sampleLog (31 / 2) "inbound" 3, sampleLog (binary64 (159 / 10)) "outbound" 2,
        sampleLog 15 "outbound" 1] := by
    simp [sortedCalculations, sampleLog, List.insertionSort, List.orderedInsert, newestFirst,
      timeOf]
  have hO : List.filter (fun c => decide (c.tripType = some "outbound"))
      [sampleLog (31 / 2) "inbound" 3, sampleLog (binary64 (159 / 10)) "outbound" 2,
        sampleLog 15 "outbound" 1] =
      [sampleLog (binary64 (159 / 10)) "outbound" 2, sampleLog 15 "outbound" 1] := by
    simp [List.filter, sampleLog]
  have hI : List.filter (fun c => decide (c.tripType = some "inbound"))
      [sampleLog (31 / 2) "inbound" 3, sampleLog (binary64 (159 / 10)) "outbound" 2,
        sampleLog 15 "outbound" 1] = [sampleLog (31 / 2) "inbound" 3] := by
    simp [List.filter, sampleLog]
  have havgO : recentAverage
      [sampleLog (binary64 (159 / 10)) "outbound" 2, sampleLog 15 "outbound" 1] =
      4348788390179635 / 281474976710656 := by
    have hcount : ((min
        [sampleLog (binary64 (159 / 10)) "outbound" 2, sampleLog 15 "outbound" 1].length
        10 : ℕ) : ℚ) = 2 := by
      norm_num
    simp only [recentAverage, hcount]
    simp only [List.length, Nat.reduceAdd, Nat.min_def, Nat.reduceLeDiff, if_true, List.take,
      List.foldl, sampleLog, zero_add, binary64_return_w0, binary64_return_s0, binary64_return_s1, binary64_return_div]
  have h312 : binary64 (31 / 2 : ℚ) = 31 / 2 := by
    rw [binary64_eval_lt (31 / 2) 3 8725724278030336 (by norm_num) (by norm_num)
      (by norm_num) (by norm_num) (by norm_num) (by norm_num)]
    norm_num
  have havgI : recentAverage [sampleLog (31 / 2) "inbound" 3] = 31 / 2 := by
    have h := recentAverage_single (31 / 2) "inbound" 3
    rw [h312] at h
    exact h
  have pO : parseFixed1 (4348788390179635 / 281474976710656) =
      8669429282688205 / 562949953421312 := by
    rw [parseFixed1, fixed1Value_of_floor _ 154 (by norm_num) (by norm_num)
      (by rw [Int.floor_eq_iff]; norm_num),
      show (((154 : ℕ) : ℚ)) / 10 = 77 / 5 by norm_num, binary64_return_154]
  have pI : parseFixed1 (31 / 2) = 31 / 2 := by
    rw [parseFixed1, fixed1Value_of_floor _ 155 (by norm_num) (by norm_num)
      (by rw [Int.floor_eq_iff]; norm_num),
      show (((155 : ℕ) : ℚ)) / 10 = 31 / 2 by norm_num, h312]
  have t1 : toFixed1 sampleNumToString (56294995342131 / 562949953421312) = "0.1" := by
    rw [toFixed1_of_floor sampleNumToString _ 1 (by norm_num) (by norm_num)
      (by rw [Int.floor_eq_iff]; norm_num)]
    decide
  have hlt : (8669429282688205 / 562949953421312 : ℚ) < 31 / 2 := by norm_num
  have habs : |binary64 ((31 / 2 : ℚ) - 8669429282688205 / 562949953421312)| =
      56294995342131 / 562949953421312 := by
    rw [binary64_return_diff, abs_of_nonneg (by norm_num)]
  rw [updateAnalytics_shown _ _ _ _ (by simp), hsort, hO, hI, Option.map_some',
    (showAnalytics_return_shown sampleNumToString (some "inbound") _ _ sampleView (by simp)
      (by simp)).2.2]
  simp only [returnWeightText, havgO, havgI, pO, pI, gt_iff_lt, hlt, if_true, habs, t1]
  decide

/-- C30. On a violation `displayResults` returns normally also when the applicable fee field
or a currency field is absent: an absent `WeightSystem<Dom|Int><Class>Fee` is reported as a
per-kilogram fee of 0 with a total of 0, an absent `PieceSystemInt<Class>Fee` as a fee of 0,
and an absent currency field as `$`. -/
theorem absent_fee_and_currency_defaults (numToString : ℚ → String) (pa pc po pd : Dropdown)
    (airlineData : AirlineData) (totalWeight weightLimit : ℚ)
    (airline classType origin destination : String) (isDomestic : Bool)
    (hviol : totalWeight > weightLimit) :
    (airlineData.num ("WeightSystem" ++ flightTypePrefix isDomestic ++
        classType.capitalize ++ "Fee") = none →
      displayResults numToString (fullPage pa pc po pd)
        { totalWeight := totalWeight, weightLimit := weightLimit,
          limitPassed := decide (totalWeight > weightLimit), airline := airline,
          classType := classType, origin := origin, destination := destination,
          isDomestic := isDomestic, hasPieceSystem := false, airlineData := airlineData } =
        .ok { message := some (weightMessage numToString totalWeight weightLimit true)
              feeMessage := some
                ("According to the airline policy, you have to pay " ++ numToString 0 ++
                  weightCurrency airlineData isDomestic ++
                  " per kilogram. Which amounts to a total of " ++ numToString 0 ++
                  weightCurrency airlineData isDomestic ++ ".")
              display := some "flex" }) ∧
    (airlineData.num ("PieceSystemInt" ++ classType.capitalize ++ "Fee") = none →
      displayResults numToString (fullPage pa pc po pd)
        { totalWeight := totalWeight, weightLimit := weightLimit,
          limitPassed := decide (totalWeight > weightLimit), airline := airline,
          classType := classType, origin := origin, destination := destination,
          isDomestic := isDomestic, hasPieceSystem := true, airlineData := airlineData } =
        .ok { message := some (weightMessage numToString totalWeight weightLimit true)
              feeMessage := some
                ("According to the airline policy, you have to pay " ++ numToString 0 ++
                  pieceCurrency airlineData ++
                  " for a piece of extra luggage for your excess weight.")
              display := some "flex" }) ∧
    (airlineData.currency = none → weightCurrency airlineData true = "$") ∧
    (airlineData.InternationalCurrency = none →
      weightCurrency airlineData false = "$" ∧ pieceCurrency airlineData = "$") := by
  refine ⟨fun h => ?_, fun h => ?_, fun h => ?_, fun h => ?_⟩
  · rw [displayResults_fullPage]
    simp [feeMessage, hviol, weightSystemFee_of_absent airlineData classType isDomestic h,
      totalFee, binary64_zero]
  · rw [displayResults_fullPage]
    simp [feeMessage, hviol, pieceSystemFee_of_absent airlineData classType h]
  · simp [weightCurrency, orDollar, h]
  · simp [weightCurrency, pieceCurrency, orDollar, h]

/-- C30 at a concrete input: an airline record without any fee or currency field, economy
class, a total of 25 over a limit of 23 on an international weight-system flight. -/
theorem absent_fee_and_currency_defaults_witness :
    (25 : ℚ) > 23 ∧
    displayResults sampleNumToString samplePage
      { totalWeight := 25, weightLimit := 23, limitPassed := decide ((25 : ℚ) > 23),
        airline := "thy", classType := "economy", origin := "tr", destination := "de",
        isDomestic := false, hasPieceSystem := false,
        airlineData :=
          { num := fun _ => none, currency := none, InternationalCurrency := none } } =
      .ok { message := some (weightMessage sampleNumToString 25 23 true)
            feeMessage := some
              "According to the airline policy, you have to pay 0$ per kilogram. Which amounts to a total of 0$."
            display := some "flex" } := by
  refine ⟨by norm_num, ?_⟩
  have h := (absent_fee_and_currency_defaults sampleNumToString ⟨some "thy", "THY"⟩
    ⟨some "economy", "Economy"⟩ ⟨some "tr", "Turkey"⟩ ⟨some "tr", "Turkey"⟩
    { num := fun _ => none, currency := none, InternationalCurrency := none }
    25 23 "thy" "economy" "tr" "de" false (by norm_num)).1 rfl
  rw [samplePage, h]
  simp [weightCurrency, orDollar]
  decide

/-- C25. Two runs of the resolution with the same selection (airline, class, origin,
destination, flight type), the same three records and the same total weight, but otherwise
arbitrary databases, globals and dropdown contents, agree on the outcome: they end in the
same terminal state, pass the same arguments to `displayResults` (weight limit,
`limitPassed`, accounting system, airline record) and render the same weight and fee
messages. -/
theorem resolution_is_deterministic (numToString : ℚ → String)
    (pa₁ pc₁ po₁ pd₁ pa₂ pc₂ po₂ pd₂ : Dropdown) (db₁ db₂ : Db) (g₁ g₂ : Globals)
    (airline classType origin destination : String) (totalWeight : ℚ)
    (airlineData : AirlineData) (originData destinationData : CountryData)
    (hA₁ : db₁.airlines airline = some airlineData)
    (hA₂ : db₂.airlines airline = some airlineData)
    (hO₁ : db₁.countries origin = some originData)
    (hO₂ : db₂.countries origin = some originData)
    (hD₁ : db₁.countries destination = some destinationData)
    (hD₂ : db₂.countries destination = some destinationData)
    (hflight : g₁.selectedFlightType = g₂.selectedFlightType) :
    terminalState (getWeightLimits numToString (fullPage pa₁ pc₁ po₁ pd₁) db₁ g₁ airline
        classType origin destination totalWeight) =
      terminalState (getWeightLimits numToString (fullPage pa₂ pc₂ po₂ pd₂) db₂ g₂ airline
        classType origin destination totalWeight) ∧
    displayCall (getWeightLimits numToString (fullPage pa₁ pc₁ po₁ pd₁) db₁ g₁ airline
        classType origin destination totalWeight) =
      displayCall (getWeightLimits numToString (fullPage pa₂ pc₂ po₂ pd₂) db₂ g₂ airline
        classType origin destination totalWeight) ∧
    (∀ args, displayResults numToString (fullPage pa₁ pc₁ po₁ pd₁) args =
      displayResults numToString (fullPage pa₂ pc₂ po₂ pd₂) args) := by
  rw [getWeightLimits_found numToString _ db₁ g₁ airline classType origin destination
      totalWeight airlineData originData destinationData hA₁ hO₁ hD₁,
    getWeightLimits_found numToString _ db₂ g₂ airline classType origin destination
      totalWeight airlineData originData destinationData hA₂ hO₂ hD₂]
  refine ⟨?_, ?_, fun args => by rw [displayResults_fullPage, displayResults_fullPage]⟩
  · by_cases h0 : weightLimit airlineData classType
        (decide (g₂.selectedFlightType = some "domestic")) = 0
    · simp [resolveLimits, hflight, h0, fullPage, terminalState]
    · simp [resolveLimits, hflight, h0, displayResults_fullPage, terminalState]
  · by_cases h0 : weightLimit airlineData classType
        (decide (g₂.selectedFlightType = some "domestic")) = 0
    · simp [resolveLimits, hflight, h0, fullPage, displayCall]
    · simp [resolveLimits, hflight, h0, displayResults_fullPage, displayCall]

/-- C25 at a concrete input: the same economy domestic selection with a total of 30, run on
the sample page with different globals apart from the flight type. -/
theorem resolution_is_deterministic_witness :
    displayCall (getWeightLimits sampleNumToString samplePage sampleDb sampleGlobals "thy"
        "economy" "tr" "tr" 30) =
      displayCall (getWeightLimits sampleNumToString samplePage sampleDb
        { sampleGlobals with selectedTripType := some "inbound", selectedAirline := some "x" }
        "thy" "economy" "tr" "tr" 30) :=
  (resolution_is_deterministic sampleNumToString ⟨some "thy", "THY"⟩
    ⟨some "economy", "Economy"⟩ ⟨some "tr", "Turkey"⟩ ⟨some "tr", "Turkey"⟩
    ⟨some "thy", "THY"⟩ ⟨some "economy", "Economy"⟩ ⟨some "tr", "Turkey"⟩
    ⟨some "tr", "Turkey"⟩ sampleDb sampleDb sampleGlobals
    { sampleGlobals with selectedTripType := some "inbound", selectedAirline := some "x" }
    "thy" "economy" "tr" "tr" 30 _ _ _ rfl rfl rfl rfl rfl rfl rfl).2.1

/-- C28. When a calculation is logged for a selection whose two country records exist, the
`system` field written by `logCalculationResult` is `piece` exactly when `getWeightLimits`
computed `hasPieceSystem = true` for these records, which is the flag its `displayResults`
call carries, and `weight` exactly when it computed `false`. -/
theorem logged_system_matches_fee_system (numToString : ℚ → String)
    (countryName : String → String) (pa pc po pd : Dropdown) (db : Db) (g : Globals)
    (user : String) (now : ℤ) (airline classType origin destination : String)
    (totalWeight : ℚ) (la : LogArgs) (originData destinationData : CountryData)
    (hpo : po.value = some origin) (hpd : pd.value = some destination)
    (hO : db.countries origin = some originData)
    (hD : db.countries destination = some destinationData) :
    ∃ log,
      logCalculationResult countryName (fullPage pa pc po pd) db g (some user) now la =
        some log ∧
      (log.system = "piece" ↔ hasPieceSystem originData destinationData = true) ∧
      (log.system = "weight" ↔ hasPieceSystem originData destinationData = false) ∧
      (∀ args, Effect.displayResults args ∈
          getWeightLimits numToString (fullPage pa pc po pd) db g airline classType origin
            destination totalWeight →
        (log.system = "piece" ↔ args.hasPieceSystem = true)) := by
  have hpw : ("piece" : String) ≠ "weight" := by decide
  have hsys : loggedSystemType (some originData) (some destinationData) =
      if hasPieceSystem originData destinationData then "piece" else "weight" := by
    simp [loggedSystemType, hasPieceSystem]
  refine ⟨_, by simp [logCalculationResult, fullPage, hpo, hpd, hO, hD]; rfl, ?_, ?_, ?_⟩
  · simp only [hsys]
    cases hasPieceSystem originData destinationData <;> simp [hpw.symm]
  · simp only [hsys]
    cases hasPieceSystem originData destinationData <;> simp [hpw]
  · intro args hmem
    have hargs : args.hasPieceSystem = hasPieceSystem originData destinationData := by
      cases hA : db.airlines airline with
      | none => simp [getWeightLimits, hA] at hmem
      | some airlineData =>
        rw [getWeightLimits_found numToString _ db g airline classType origin destination
          totalWeight airlineData originData destinationData hA hO hD] at hmem
        by_cases h0 : weightLimit airlineData classType
            (decide (g.selectedFlightType = some "domestic")) = 0
        · simp [resolveLimits, h0, fullPage] at hmem
        · simp [resolveLimits, h0, displayResults_fullPage] at hmem
          rw [hmem]
    simp only [hsys, hargs]
    cases hasPieceSystem originData destinationData <;> simp [hpw.symm]

/-- C28 at a concrete input: origin `us` on the piece system, destination `tr` on the weight
system; the log says `piece`. -/
theorem logged_system_matches_fee_system_witness :
    ∃ log,
      logCalculationResult id
          (fullPage ⟨some "thy", "THY"⟩ ⟨some "economy", "Economy"⟩ ⟨some "us", "USA"⟩
            ⟨some "tr", "Turkey"⟩)
          { sampleDb with
            countries := fun c => if c = "us" then some ⟨some false⟩ else some ⟨some true⟩ }
          sampleGlobals (some "user-1") 1000
          { totalWeight := 30, limitPassed := true, flightType := some "international",
            tripType := some "outbound", classType := "economy", airline := "thy" } =
        some log ∧
      log.system = "piece" := by
  obtain ⟨log, hlog, hpiece, -, -⟩ :=
    logged_system_matches_fee_system sampleNumToString id ⟨some "thy", "THY"⟩
      ⟨some "economy", "Economy"⟩ ⟨some "us", "USA"⟩ ⟨some "tr", "Turkey"⟩
      { sampleDb with
        countries := fun c => if c = "us" then some ⟨some false⟩ else some ⟨some true⟩ }
      sampleGlobals "user-1" 1000 "thy" "economy" "us" "tr" 30
      { totalWeight := 30, limitPassed := true, flightType := some "international",
        tripType := some "outbound", classType := "economy", airline := "thy" }
      ⟨some false⟩ ⟨some true⟩ rfl rfl (by simp) (by simp)
  exact ⟨log, hlog, hpiece.2 (by decide)⟩

/-- C24. Starting from counters that are all 0, after every sequence of up and down clicks
no counter is negative; a down click on a counter at 0 leaves it at 0; after each click
`addedObjects` holds exactly the groups whose counter is positive, each with its counter as
count; and the total weight is the sum of `weight * count` over all groups, taken from the
left with every product and every partial sum rounded to binary64 as over the added objects,
so that groups at 0 contribute nothing; whenever no step rounds it is the exact sum over all
groups. -/
theorem counters_never_negative (clicks : List (Arrow × ℕ))
    (counterGroups : List CounterGroup) (g : Globals)
    (hzero : ∀ c ∈ counterGroups, c.count = 0) :
    (∀ c ∈ (clickAll clicks (counterGroups, g)).1, 0 ≤ c.count) ∧
    (∀ group : CounterGroup, group.count = 0 → (clickArrow Arrow.down group).count = 0) ∧
    (clicks ≠ [] →
      (clickAll clicks (counterGroups, g)).2.addedObjects =
        ((clickAll clicks (counterGroups, g)).1.filter
          (fun c => decide (0 < c.count))).map toAddedObject ∧
      totalWeight (clickAll clicks (counterGroups, g)).2.addedObjects =
        (clickAll clicks (counterGroups, g)).1.foldl
          (fun sum c => binary64 (sum + binary64 (c.weight * c.count))) 0 ∧
      (exactSteps 0 (clickAll clicks (counterGroups, g)).2.addedObjects = true →
        totalWeight (clickAll clicks (counterGroups, g)).2.addedObjects =
          ((clickAll clicks (counterGroups, g)).1.map
            (fun c => c.weight * (c.count : ℚ))).sum)) := by
  have hnonneg : ∀ c ∈ (clickAll clicks (counterGroups, g)).1, 0 ≤ c.count :=
    clickAll_nonneg clicks (counterGroups, g) (fun c hc => by rw [hzero c hc])
  refine ⟨hnonneg, ?_, ?_⟩
  · intro group h0
    simp [clickArrow, h0]
  · intro hne
    have hadded : (clickAll clicks (counterGroups, g)).2.addedObjects =
        ((clickAll clicks (counterGroups, g)).1.filter
          (fun c => decide (0 < c.count))).map toAddedObject := by
      cases clicks with
      | nil => exact absurd rfl hne
      | cons click rest =>
        simp only [clickAll, List.foldl_cons]
        exact clickAll_addedObjects rest _ (updateAddedObjects_addedObjects _ _)
    refine ⟨hadded, ?_, ?_⟩
    · rw [hadded, totalWeight, List.foldl_map,
        ← foldl_binary64_filter_pos _ 0 binary64_zero hnonneg]
      rfl
    · intro hexact
      rw [totalWeight_of_exactSteps _ hexact, hadded, exactTotal, List.map_map,
        ← sum_positive_counts _ hnonneg]
      rfl

/-- C24 at a concrete input: two counters at 0; down on the first, up twice on the second,
down once on the second. The counters end at 0 and 1 and the total is one item of 1.2, the
binary64 value nearest to it. -/
theorem counters_never_negative_witness :
    (∀ c ∈ [(⟨"ipad", "iPad", 1 / 2, 0⟩ : CounterGroup), ⟨"boot", "Snow Boots", binary64 (6 / 5), 0⟩],
      c.count = 0) ∧
    ((clickAll [(Arrow.down, 0), (Arrow.up, 1), (Arrow.up, 1), (Arrow.down, 1)]
      ([⟨"ipad", "iPad", 1 / 2, 0⟩, ⟨"boot", "Snow Boots", binary64 (6 / 5), 0⟩], sampleGlobals)).1.map
        (fun c => c.count)) = [0, 1] ∧
    totalWeight (clickAll [(Arrow.down, 0), (Arrow.up, 1), (Arrow.up, 1), (Arrow.down, 1)]
      ([⟨"ipad", "iPad", 1 / 2, 0⟩, ⟨"boot", "Snow Boots", binary64 (6 / 5), 0⟩],
        sampleGlobals)).2.addedObjects = binary64 (6 / 5) := by
  have hz : ∀ c ∈ [(⟨"ipad", "iPad", 1 / 2, 0⟩ : CounterGroup),
      ⟨"boot", "Snow Boots", binary64 (6 / 5), 0⟩], c.count = 0 := by
    intro c hc
    simp only [List.mem_cons, List.mem_singleton, List.not_mem_nil, or_false] at hc
    rcases hc with rfl | rfl <;> rfl
  have h := (counters_never_negative
    [(Arrow.down, 0), (Arrow.up, 1), (Arrow.up, 1), (Arrow.down, 1)]
    [⟨"ipad", "iPad", 1 / 2, 0⟩, ⟨"boot", "Snow Boots", binary64 (6 / 5), 0⟩] sampleGlobals hz).2.2
    (by simp)
  have hgroups : (clickAll [(Arrow.down, 0), (Arrow.up, 1), (Arrow.up, 1), (Arrow.down, 1)]
      ([⟨"ipad", "iPad", 1 / 2, 0⟩, ⟨"boot", "Snow Boots", binary64 (6 / 5), 0⟩], sampleGlobals)).1 =
      [⟨"ipad", "iPad", 1 / 2, 0⟩, ⟨"boot", "Snow Boots", binary64 (6 / 5), 1⟩] := by
    simp [clickAll, clickCounterArrow, clickAt, clickArrow]
  refine ⟨hz, by rw [hgroups]; rfl, ?_⟩
  rw [h.2.1, hgroups]
  simp only [List.foldl, Int.cast_zero, Int.cast_one, mul_zero, mul_one, zero_add,
    binary64_zero, binary64_idem]

/-- C27: with a user logged in, one call of `trackItemUsage` for an item with count `c` turns
an existing record into one whose `Times Used` is the previous value (0 when the field is
missing) plus `c`, with the first-time-used stamp unchanged, creates a record with
`Times Used` equal to `c` when there is none, and leaves the record of every other name as it
was; over the whole loop of `logCalculationResult`, a name that no added object with a positive
count bears keeps its record, every added object with a positive count ends with a record
whose `Times Used` is the previous value plus the positive counts of the added objects with
that name and whose first-time-used stamp is the one of the previous record, and that sum of
counts is the count of the object itself when the added objects bear distinct names. -/
theorem usage_counter_incremented (user : String) (clock : ℕ → String)
    (addedObjects : List AddedObject) (itemsUsed : String → Option ItemUsage) :
    (∀ (now itemName : String) (c : ℤ) (currentData : ItemUsage),
      itemsUsed itemName = some currentData →
      trackItemUsage (some user) now itemsUsed itemName c itemName =
        some { timesUsed := some (intOrZero currentData.timesUsed + c),
               firstTimeUsed := currentData.firstTimeUsed, lastTimeUsed := some now }) ∧
    (∀ (now itemName : String) (c : ℤ), itemsUsed itemName = none →
      trackItemUsage (some user) now itemsUsed itemName c itemName =
        some { timesUsed := some c, firstTimeUsed := some now, lastTimeUsed := some now }) ∧
    (∀ (now itemName other : String) (c : ℤ), other ≠ itemName →
      trackItemUsage (some user) now itemsUsed itemName c other = itemsUsed other) ∧
    (∀ name : String, (∀ obj ∈ addedObjects, 0 < obj.count → obj.name ≠ name) →
      trackAddedObjects (some user) clock 0 addedObjects itemsUsed name = itemsUsed name) ∧
    (∀ obj ∈ addedObjects, 0 < obj.count →
      ∃ rec, trackAddedObjects (some user) clock 0 addedObjects itemsUsed obj.name = some rec ∧
        rec.timesUsed =
          some (timesOf itemsUsed obj.name + countOfName obj.name addedObjects) ∧
        ∀ cur, itemsUsed obj.name = some cur → rec.firstTimeUsed = cur.firstTimeUsed) ∧
    ((addedObjects.map (fun obj => obj.name)).Nodup →
      ∀ obj ∈ addedObjects, 0 < obj.count → countOfName obj.name addedObjects = obj.count) := by
  refine ⟨fun now itemName c cur h => trackItemUsage_existing user now itemsUsed itemName c cur h,
    fun now itemName c h => trackItemUsage_new user now itemsUsed itemName c h,
    fun now itemName other c h => trackItemUsage_other user now itemsUsed itemName other c h,
    fun name h => trackAddedObjects_unchanged user clock name addedObjects 0 itemsUsed h,
    ?_, fun hnodup obj hobj hpos => countOfName_of_nodup addedObjects hnodup obj hobj hpos⟩
  intro obj hobj hpos
  obtain ⟨rec, m, h₁, h₂, h₃⟩ := trackAddedObjects_has_record user clock obj.name addedObjects 0
    itemsUsed ⟨obj, hobj, hpos, rfl⟩
  refine ⟨rec, h₁, ?_, h₃⟩
  have ht := timesOf_trackAddedObjects user clock obj.name addedObjects 0 itemsUsed
  simp only [timesOf, h₁, h₂, intOrZero_some] at ht
  rw [h₂, ht]
  rfl

/-- Witness for C27: a user who has used the laptop 4 times since a first use stamped `t0`
logs a calculation with 2 laptops and 3 books; the laptop record then counts 6 uses and keeps
the stamp `t0`, and a record counting 3 uses is created for the book. -/
theorem usage_counter_incremented_witness :
    (∃ rec, trackAddedObjects (some "u1") (fun k => "t" ++ toString (k + 1)) 0
        [⟨"1", "Laptop", 2, 2⟩, ⟨"2", "Book", 1 / 2, 3⟩]
        (fun name => if name = "Laptop" then some ⟨some 4, some "t0", some "t0"⟩ else none)
        "Laptop" = some rec ∧ rec.timesUsed = some 6 ∧ rec.firstTimeUsed = some "t0") ∧
    trackItemUsage (some "u1") "t2"
        (fun name => if name = "Laptop" then some ⟨some 4, some "t0", some "t0"⟩ else none)
        "Book" 3 "Book" = some ⟨some 3, some "t2", some "t2"⟩ := by
  have h := usage_counter_incremented "u1" (fun k => "t" ++ toString (k + 1))
    [⟨"1", "Laptop", 2, 2⟩, ⟨"2", "Book", 1 / 2, 3⟩]
    (fun name => if name = "Laptop" then some ⟨some 4, some "t0", some "t0"⟩ else none)
  refine ⟨?_, h.2.1 "t2" "Book" 3 (by decide)⟩
  obtain ⟨rec, h₁, h₂, h₃⟩ := h.2.2.2.2.1 ⟨"1", "Laptop", 2, 2⟩ (by simp) (by decide)
  refine ⟨rec, h₁, ?_, h₃ ⟨some 4, some "t0", some "t0"⟩ (by simp)⟩
  rw [h₂]
  simp [timesOf, intOrZero, countOfName, List.filter]

/-- C29. A violation with a non-zero total weight is calculated and logged for a selection
whose airline and country records exist, and the history view is built later from the log
with the airline record unchanged. The violation that `updatePolicyViolations` recomputes then carries the total
weight and the limit of the `displayResults` call; under the piece system its fee and currency
are the international piece fee and the international currency that `displayResults`
reported, and no total fee line is written; under the weight system its fee and currency are
those of the weight-system branch of `displayResults`, and its total fee is the same
`ceil(totalWeight - limit) * fee`, the difference and the product rounded to binary64 in the
one as in the other. -/
theorem history_recomputes_calculation_values (numToString : ℚ → String)
    (countryName : String → String) (pa pc po pd : Dropdown) (db : Db) (g : Globals)
    (user : String) (now later : ℤ) (airline classType origin destination : String)
    (totalWeight : ℚ) (airlineData : AirlineData) (originData destinationData : CountryData)
    (hpo : po.value = some origin) (hpd : pd.value = some destination)
    (hA : db.airlines airline = some airlineData)
    (hO : db.countries origin = some originData)
    (hD : db.countries destination = some destinationData)
    (hairline : airline ≠ "") (hweight : totalWeight ≠ 0)
    (hoffered :
      weightLimit airlineData classType (decide (g.selectedFlightType = some "domestic")) ≠ 0)
    (hexceeds : totalWeight >
      weightLimit airlineData classType (decide (g.selectedFlightType = some "domestic"))) :
    ∃ args la log v,
      getWeightLimits numToString (fullPage pa pc po pd) db g airline classType origin
          destination totalWeight =
        [Effect.getDoc "airlines" airline, Effect.getDoc "countries" origin,
         Effect.getDoc "countries" destination, Effect.displayResults args,
         Effect.logCalculationResult la] ∧
      args.limitPassed = true ∧
      logCalculationResult countryName (fullPage pa pc po pd) db g (some user) now la =
        some log ∧
      violationEntry db later (loggedData log) = some v ∧
      recentViolations db later [loggedData log] = [v] ∧
      v.totalWeight = args.totalWeight ∧
      v.weightLimit = args.weightLimit ∧
      (args.hasPieceSystem = true →
        v.system = "piece" ∧
        v.fee = pieceSystemFee args.airlineData args.classType ∧
        v.currency = pieceCurrency args.airlineData ∧
        feeMessage numToString args =
          "According to the airline policy, you have to pay " ++ numToString v.fee ++
            v.currency ++ " for a piece of extra luggage for your excess weight." ∧
        violationFeeDisplay numToString v =
          ("Fee: " ++ numToString v.fee ++ v.currency ++ " per piece", none)) ∧
      (args.hasPieceSystem = false →
        v.system = "weight" ∧
        v.fee = weightSystemFee args.airlineData args.classType args.isDomestic ∧
        v.currency = weightCurrency args.airlineData args.isDomestic ∧
        violationTotalFee v =
          totalFee args.totalWeight args.weightLimit
            (weightSystemFee args.airlineData args.classType args.isDomestic) ∧
        violationTotalFee v =
          binary64 ((Int.ceil (binary64 (totalWeight - v.weightLimit)) : ℚ) * v.fee) ∧
        feeMessage numToString args =
          "According to the airline policy, you have to pay " ++ numToString v.fee ++
            v.currency ++ " per kilogram. Which amounts to a total of " ++
            numToString (violationTotalFee v) ++ v.currency ++ "." ∧
        violationFeeDisplay numToString v =
          ("Fee: " ++ numToString v.fee ++ v.currency ++ " per kilogram",
           some ("Total Fee: " ++ numToString (violationTotalFee v) ++ v.currency))) := by
  have hrun := getWeightLimits_found numToString (fullPage pa pc po pd) db g airline classType
    origin destination totalWeight airlineData originData destinationData hA hO hD
  rw [resolveLimits_logged numToString pa pc po pd g airlineData originData destinationData
    airline classType origin destination totalWeight hoffered] at hrun
  have hpassed : decide (totalWeight >
      weightLimit airlineData classType (decide (g.selectedFlightType = some "domestic"))) =
      true := by simpa using hexceeds
  rw [hpassed] at hrun
  have hlog := logCalculationResult_fullPage countryName pa pc po pd db g user now
    { totalWeight := totalWeight, limitPassed := true,
      flightType := g.selectedFlightType, tripType := g.selectedTripType,
      classType := classType, airline := airline } origin destination hpo hpd
  rw [hO, hD, loggedSystemType_found] at hlog
  dsimp only at hlog
  obtain ⟨log, hlogeq⟩ : ∃ log : CalculationLog, log =
      { totalWeight := totalWeight, limitPassed := true,
        flightType := g.selectedFlightType, tripType := g.selectedTripType,
        classType := classType, airline := airline, origin := countryName origin,
        destination := countryName destination,
        system := if hasPieceSystem originData destinationData then "piece" else "weight",
        calculatedAt := some now,
        itemsUsed := g.addedObjects.map
          (fun obj => { name := obj.name, count := obj.count, weight := obj.weight }) } :=
    ⟨_, rfl⟩
  rw [← hlogeq] at hlog
  have hclass : (loggedData log).classType = some classType := by rw [hlogeq]; rfl
  have hflight : (loggedData log).flightType = g.selectedFlightType := by rw [hlogeq]; rfl
  have hsystem : (loggedData log).system =
      some (if hasPieceSystem originData destinationData then "piece" else "weight") := by
    rw [hlogeq]; rfl
  have hentry : violationEntry db later (loggedData log) =
      some (recomputeViolation airlineData later (loggedData log) airline totalWeight) := by
    rw [hlogeq]
    simp [violationEntry, loggedData, hA, hweight, hairline]
  have hl := recomputeViolation_weightLimit airlineData later (loggedData log) airline
    totalWeight classType hclass
  rw [hflight] at hl
  refine ⟨_, _, log, recomputeViolation airlineData later (loggedData log) airline totalWeight,
    hrun, rfl, hlog, hentry, ?_, rfl, hl, ?_, ?_⟩
  · simp [recentViolations, hentry]
  · intro hp
    dsimp only at hp ⊢
    rw [hp] at hsystem
    obtain ⟨h₁, h₂, h₃⟩ := recomputeViolation_piece airlineData later (loggedData log)
      airline totalWeight classType hclass hsystem
    refine ⟨h₁, h₂, h₃, ?_, ?_⟩
    · rw [h₂, h₃]
      simp [feeMessage, hp]
    · simp [violationFeeDisplay, h₁]
  · intro hp
    dsimp only at hp ⊢
    rw [hp] at hsystem
    have hwp : ("weight" : String) ≠ "piece" := by decide
    obtain ⟨h₁, h₂, h₃⟩ := recomputeViolation_weight airlineData later (loggedData log)
      airline totalWeight classType hclass hsystem
    rw [hflight] at h₂ h₃
    have ht : violationTotalFee
        (recomputeViolation airlineData later (loggedData log) airline totalWeight) =
        totalFee totalWeight
          (weightLimit airlineData classType (decide (g.selectedFlightType = some "domestic")))
          (weightSystemFee airlineData classType
            (decide (g.selectedFlightType = some "domestic"))) := by
      simp only [violationTotalFee, totalFee, h₂, hl]
      rfl
    refine ⟨h₁, h₂, h₃, ht, rfl, ?_, ?_⟩
    · rw [ht, h₂, h₃]
      simp [feeMessage, hp]
    · simp [violationFeeDisplay, h₁, hwp]

/-- C29 at a concrete input: 25 kg on a domestic economy flight with a limit of 23 kg and a
fee of 5 per kilogram, both countries on the weight system; the history view recomputes the
limit 23, the fee 5 and the total fee 10 that the calculation reported. -/
theorem history_recomputes_calculation_values_witness :
    ∃ args la log v,
      getWeightLimits sampleNumToString samplePage sampleDb sampleGlobals "thy" "economy" "tr"
          "tr" 25 =
        [Effect.getDoc "airlines" "thy", Effect.getDoc "countries" "tr",
         Effect.getDoc "countries" "tr", Effect.displayResults args,
         Effect.logCalculationResult la] ∧
      logCalculationResult id samplePage sampleDb sampleGlobals (some "user-1") 1000 la =
        some log ∧
      violationEntry sampleDb 2000 (loggedData log) = some v ∧
      v.weightLimit = args.weightLimit ∧ v.weightLimit = 23 ∧ v.fee = 5 ∧
      violationTotalFee v = 10 := by
  have hW : weightLimit
      { num := fun k =>
          if k = "DomEconomyLimit" then some 23
          else if k = "WeightSystemDomEconomyFee" then some 5 else none,
        currency := some "TL", InternationalCurrency := some "EUR" } "economy"
      (decide (sampleGlobals.selectedFlightType = some "domestic")) = 23 := by
    have hk : "Dom" ++ "EconomyLimit" = "DomEconomyLimit" := by decide
    simp [weightLimit, sampleGlobals, flightTypePrefix, orZero, hk]
  obtain ⟨args, la, log, v, h₁, -, h₃, h₄, -, h₆, h₇, -, hweight⟩ :=
    history_recomputes_calculation_values sampleNumToString id ⟨some "thy", "THY"⟩
      ⟨some "economy", "Economy"⟩ ⟨some "tr", "Turkey"⟩ ⟨some "tr", "Turkey"⟩ sampleDb
      sampleGlobals "user-1" 1000 2000 "thy" "economy" "tr" "tr" 25
      { num := fun k =>
          if k = "DomEconomyLimit" then some 23
          else if k = "WeightSystemDomEconomyFee" then some 5 else none,
        currency := some "TL", InternationalCurrency := some "EUR" }
      ⟨some true⟩ ⟨some true⟩ rfl rfl rfl rfl rfl (by decide) (by norm_num)
      (by rw [hW]; norm_num) (by rw [hW]; norm_num)
  have hrun := h₁
  rw [getWeightLimits_found sampleNumToString _ sampleDb sampleGlobals "thy" "economy" "tr" "tr"
    25 _ ⟨some true⟩ ⟨some true⟩ rfl rfl rfl,
    resolveLimits_logged sampleNumToString _ _ _ _ sampleGlobals _ ⟨some true⟩ ⟨some true⟩
      "thy" "economy" "tr" "tr" 25 (by rw [hW]; norm_num)] at hrun
  simp only [List.cons.injEq, Effect.displayResults.injEq, true_and, and_true] at hrun
  have hargs := hrun.1
  have hpiece : args.hasPieceSystem = false := by rw [← hargs]; rfl
  have hlimit : args.weightLimit = 23 := by rw [← hargs]; exact hW
  have hweightTotal : args.totalWeight = 25 := by rw [← hargs]
  obtain ⟨-, hfee, -, htotal, -, -, -⟩ := hweight hpiece
  have hfee5 : weightSystemFee args.airlineData args.classType args.isDomestic = 5 := by
    rw [← hargs]
    have hk : "WeightSystem" ++ "Dom" ++ "EconomyFee" = "WeightSystemDomEconomyFee" := by decide
    have hn : ("WeightSystemDomEconomyFee" : String) ≠ "DomEconomyLimit" := by decide
    simp [weightSystemFee, sampleGlobals, flightTypePrefix, orZero, hk, hn]
  refine ⟨args, la, log, v, h₁, h₃, h₄, h₇, h₇.trans hlimit, hfee.trans hfee5, ?_⟩
  rw [htotal, hfee5, hlimit, hweightTotal, totalFee]
  have hd : binary64 ((25 : ℚ) - 23) = 2 := by
    rw [show (25 : ℚ) - 23 = 2 by norm_num]
    exact binary64_ofNat 2 (by norm_num)
  have hc : Int.ceil (2 : ℚ) = 2 := by norm_num
  have hp : binary64 ((((2 : ℤ) : ℚ)) * 5) = 10 := by
    rw [show (((2 : ℤ) : ℚ)) * 5 = 10 by norm_num]
    exact binary64_ofNat 10 (by norm_num)
  simp only [hd, hc, hp]

/-- C21. The object `weightRanges` of `updateWeightRangesAnalytics` has 51 distinct keys. A
log whose `totalWeight` is a number `w ≥ 0` increments exactly one of them, the key of
`floor w` when `w < 50` and `50+` otherwise, and leaves every other key as it was; any other
log changes nothing. After the loop over all users the range `i-(i+1)` counts the logs with
`0 ≤ w < 50` and `floor w = i`, the range `50+` counts the logs with `w ≥ 50`, these are the
counts of the 51 rows, and they sum to the number of logs with a number `w ≥ 0`. An integer
weight `k < 50` is counted under the key `k-(k+1)`. -/
theorem weight_histogram_counts (allUsers : List (List LogData)) :
    bucketKeys.length = 51 ∧ bucketKeys.Nodup ∧
    (∀ (weightRanges : String → Option ℕ) (logData : LogData) (w : ℚ),
      (∀ key ∈ bucketKeys, (weightRanges key).isSome = true) →
      logData.totalWeight = some w → 0 ≤ w →
      ∃ key ∈ bucketKeys,
        key = (if w < 50 then rangeKey (Int.floor w) else "50+") ∧
        countLog weightRanges logData key = (weightRanges key).map (fun n => n + 1) ∧
        ∀ other, other ≠ key → countLog weightRanges logData other = weightRanges other) ∧
    (∀ (weightRanges : String → Option ℕ) (logData : LogData),
      isWeighed logData = false → countLog weightRanges logData = weightRanges) ∧
    (∀ i : ℕ, i < 50 →
      weightRangesOf allUsers (rangeKey (i : ℤ)) =
        some (allUsers.flatten.countP (inBucket (i : ℤ)))) ∧
    weightRangesOf allUsers "50+" = some (allUsers.flatten.countP inOverflow) ∧
    weightRangeRows (weightRangesOf allUsers) =
      (List.range 50).map
          (fun (i : ℕ) =>
            (toString i ++ "-" ++ toString (i + 1) ++ " kg",
             some (allUsers.flatten.countP (inBucket (i : ℤ))))) ++
        [("50+ kg", some (allUsers.flatten.countP inOverflow))] ∧
    ((weightRangeRows (weightRangesOf allUsers)).map (fun row => row.2.getD 0)).sum =
      allUsers.flatten.countP isWeighed ∧
    (∀ k : ℕ, k < 50 →
      rangeKey (Int.floor (k : ℚ)) = toString k ++ "-" ++ toString (k + 1)) := by
  have hbucket : ∀ i : ℕ, i < 50 →
      weightRangesOf allUsers (rangeKey (i : ℤ)) =
        some (allUsers.flatten.countP (inBucket (i : ℤ))) := by
    intro i hi
    rw [weightRangesOf_apply allUsers _ (by
      rw [bucketKeys]
      exact List.mem_append_left _ (List.mem_map.2 ⟨i, List.mem_range.2 hi, rfl⟩))]
    congr 1
    apply List.countP_congr
    intro l _
    simp only [decide_eq_true_eq]
    exact bucketKeyOf_eq_rangeKey_iff l i hi
  have hoverflow : weightRangesOf allUsers "50+" =
      some (allUsers.flatten.countP inOverflow) := by
    rw [weightRangesOf_apply allUsers _ (by rw [bucketKeys]; simp)]
    congr 1
    apply List.countP_congr
    intro l _
    simp only [decide_eq_true_eq]
    exact bucketKeyOf_eq_overflow_iff l
  have hrows : weightRangeRows (weightRangesOf allUsers) =
      (List.range 50).map
          (fun (i : ℕ) =>
            (toString i ++ "-" ++ toString (i + 1) ++ " kg",
             some (allUsers.flatten.countP (inBucket (i : ℤ))))) ++
        [("50+ kg", some (allUsers.flatten.countP inOverflow))] := by
    rw [weightRangeRows, hoverflow]
    congr 1
    apply List.map_congr_left
    intro i hi
    rw [hbucket i (List.mem_range.1 hi)]
  refine ⟨by simp [bucketKeys], bucketKeys_nodup, ?_, ?_, hbucket, hoverflow, hrows, ?_, ?_⟩
  · intro weightRanges logData w _ hw h0
    have hkey : bucketKeyOf logData =
        some (if w < 50 then rangeKey (Int.floor w) else "50+") := by
      by_cases h50 : w < 50
      · simp [bucketKeyOf, hw, h0, h50, not_le.2 h50]
      · simp [bucketKeyOf, hw, h0, h50, not_lt.1 h50]
    refine ⟨_, ?_, rfl, ?_, ?_⟩
    · by_cases h50 : w < 50
      · obtain ⟨hn, hcast⟩ := floor_toNat_lt w h0 h50
        rw [if_pos h50, ← hcast, bucketKeys]
        exact List.mem_append_left _ (List.mem_map.2 ⟨_, List.mem_range.2 hn, rfl⟩)
      · rw [if_neg h50, bucketKeys]
        simp
    · rw [countLog_apply, if_pos hkey]
    · intro other hother
      rw [countLog_apply, hkey, if_neg]
      intro h
      exact hother (Option.some.inj h).symm
  · intro weightRanges logData hw
    funext key
    rw [countLog_apply, if_neg]
    unfold isWeighed at hw
    unfold bucketKeyOf
    cases hq : logData.totalWeight with
    | none => simp
    | some w =>
      rw [hq] at hw
      have h0 : ¬ 0 ≤ w := by simpa using hw
      simp [h0]
  · rw [hrows, List.map_append, List.sum_append, List.map_map]
    simp only [List.map_cons, List.map_nil, List.sum_cons, List.sum_nil, add_zero,
      Option.getD_some]
    rw [← countP_buckets_total]
    rfl
  · intro k _
    rw [Int.floor_natCast, rangeKey, ← Nat.cast_succ]
    rfl

/-- C21 at a concrete input: two users, the first with logs of 12 kg and 50 kg, the second
with a log of -1 kg and a log without a weight; the range `12-13` and the range `50+` count
one log each and the 51 rows sum to 2. -/
theorem weight_histogram_counts_witness :
    weightRangesOf
        [[weightLog (some 12), weightLog (some 50)], [weightLog (some (-1)), weightLog none]]
        (rangeKey 12) = some 1 ∧
    weightRangesOf
        [[weightLog (some 12), weightLog (some 50)], [weightLog (some (-1)), weightLog none]]
        "50+" = some 1 ∧
    ((weightRangeRows (weightRangesOf
        [[weightLog (some 12), weightLog (some 50)],
         [weightLog (some (-1)), weightLog none]])).map (fun row => row.2.getD 0)).sum = 2 := by
  have h := weight_histogram_counts
    [[weightLog (some 12), weightLog (some 50)], [weightLog (some (-1)), weightLog none]]
  have hf : Int.floor (12 : ℚ) = 12 := by
    rw [Int.floor_eq_iff]
    norm_num
  refine ⟨(h.2.2.2.2.1 12 (by norm_num)).trans ?_, h.2.2.2.2.2.1.trans ?_,
    h.2.2.2.2.2.2.2.1.trans ?_⟩
  · simp [inBucket, weightLog, List.countP_cons, hf]
    norm_num
  · simp [inOverflow, weightLog, List.countP_cons]
    norm_num
  · simp [isWeighed, weightLog, List.countP_cons]

/-- C22. The logs counted by `updatePolicyViolationsAnalytics` are those with
`limitPassed = true` and the three fields `airline`, `classType` and `flightType` present and
non-empty; they are grouped under the key `airline-classType-flightType`. The class of a log
is the value of an option of the class dropdown (`economy`, `business` or `first`) and its
flight type the id of a radio (`domestic` or `international`): `logCalculationResult` writes
no other, so that no class and no flight type of a log contains a hyphen, whatever the id of
the airline. For such logs the ranking has one entry per triple occurring among the counted
logs: no two entries share a triple, every
counted log has an entry with its triple, every entry bears the triple of a counted log, two
counted logs are held under the same entry of the map exactly when their triples are equal,
the count of an entry is the number of counted logs with its triple, and the entries stand
in non-increasing order of count. -/
theorem violation_ranking_groups_by_triple (db : Db) (allUsers : List (List LogData))
    (hfree : ∀ logs ∈ allUsers, ∀ l ∈ logs, isCounted l = true →
      '-' ∉ (l.classType.getD "").toList ∧ '-' ∉ (l.flightType.getD "").toList) :
    ((sortedViolations db allUsers).map violationTriple).Nodup ∧
    (∀ l ∈ allUsers.flatten, isCounted l = true →
      ∃ v ∈ sortedViolations db allUsers, violationTriple v = tripleOf l) ∧
    (∀ v ∈ sortedViolations db allUsers,
      ∃ l ∈ allUsers.flatten, isCounted l = true ∧ tripleOf l = violationTriple v) ∧
    (∀ l₁ ∈ allUsers.flatten, ∀ l₂ ∈ allUsers.flatten,
      isCounted l₁ = true → isCounted l₂ = true →
      ((policyViolationsOf db allUsers).get (keyOfLog l₁) =
          (policyViolationsOf db allUsers).get (keyOfLog l₂) ↔
        tripleOf l₁ = tripleOf l₂)) ∧
    (∀ v ∈ sortedViolations db allUsers,
      v.count =
        allUsers.flatten.countP
          (fun l => isCounted l && decide (tripleOf l = violationTriple v))) ∧
    (sortedViolations db allUsers).Pairwise (fun a b => b.count ≤ a.count) := by
  have hfree' := hyphenFree_flatten allUsers hfree
  refine ⟨sortedViolations_triples_nodup db allUsers, ?_, ?_, ?_, ?_,
    sortedViolations_sorted db allUsers⟩
  · intro l hl hc
    obtain ⟨v, hv⟩ := policyViolationsOf_present db allUsers l hl hc
    refine ⟨refreshWeightLimit db v,
      (mem_sortedViolations_iff db allUsers _).2 ⟨_, v, hv, rfl⟩, ?_⟩
    rw [refreshWeightLimit_triple]
    exact (policyViolationsOf_triple db allUsers hfree' l hl hc v hv).symm
  · intro v' hv'
    obtain ⟨key, v, hv, hr⟩ := (mem_sortedViolations_iff db allUsers v').1 hv'
    obtain ⟨-, l, hl, hc, ht⟩ := policyViolationsOf_entryOk db allUsers key v hv
    refine ⟨l, hl, hc, ?_⟩
    rw [← hr, refreshWeightLimit_triple]
    exact ht
  · intro l₁ hl₁ l₂ hl₂ hc₁ hc₂
    obtain ⟨v₁, hv₁⟩ := policyViolationsOf_present db allUsers l₁ hl₁ hc₁
    constructor
    · intro h
      have hv₂ : (policyViolationsOf db allUsers).get (keyOfLog l₂) = some v₁ := by
        rw [← h, hv₁]
      rw [policyViolationsOf_triple db allUsers hfree' l₁ hl₁ hc₁ v₁ hv₁,
        policyViolationsOf_triple db allUsers hfree' l₂ hl₂ hc₂ v₁ hv₂]
    · intro h
      have hk : keyOfLog l₁ = keyOfLog l₂ := by
        simp only [tripleOf, Prod.mk.injEq] at h
        simp only [keyOfLog, h.1, h.2.1, h.2.2]
      rw [hk]
  · intro v' hv'
    obtain ⟨key, v, hv, hr⟩ := (mem_sortedViolations_iff db allUsers v').1 hv'
    obtain ⟨hkey, l, hl, hc, ht⟩ := policyViolationsOf_entryOk db allUsers key v hv
    have hcount := policyViolationsOf_count db allUsers key
    simp only [countOfKey, hv] at hcount
    have hfv : '-' ∉ (violationTriple v).2.1.toList ∧ '-' ∉ (violationTriple v).2.2.toList := by
      rw [← ht]
      exact hfree' l hl hc
    rw [← hr, refreshWeightLimit_count, refreshWeightLimit_triple, hcount, hkey]
    exact countP_key_eq_countP_triple allUsers.flatten (violationTriple v) hfv hfree'

/-- C22 at a concrete input: two users with three violations of the domestic economy limit
of `thy` and one of the international business limit of `air-france`, and a log that is no
violation; the ranking lists `thy` with count 3 before `air-france` with count 1. -/
theorem violation_ranking_groups_by_triple_witness :
    (sortedViolations sampleDb
      [[violationLog "thy" "economy" "domestic" 30,
        violationLog "air-france" "business" "international" 40, weightLog (some 12)],
       [violationLog "thy" "economy" "domestic" 25,
        violationLog "thy" "economy" "domestic" 24]]).map
      (fun v => (violationTriple v, v.count)) =
      [(("thy", "economy", "domestic"), 3),
       (("air-france", "business", "international"), 1)] ∧
    ((sortedViolations sampleDb
      [[violationLog "thy" "economy" "domestic" 30,
        violationLog "air-france" "business" "international" 40, weightLog (some 12)],
       [violationLog "thy" "economy" "domestic" 25,
        violationLog "thy" "economy" "domestic" 24]]).map violationTriple).Nodup := by
  have h := violation_ranking_groups_by_triple sampleDb
    [[violationLog "thy" "economy" "domestic" 30,
      violationLog "air-france" "business" "international" 40, weightLog (some 12)],
     [violationLog "thy" "economy" "domestic" 25,
      violationLog "thy" "economy" "domestic" 24]]
    (by
      intro logs hlogs l hl _
      simp only [List.mem_cons, List.mem_singleton, List.not_mem_nil, or_false] at hlogs
      rcases hlogs with rfl | rfl
      · simp only [List.mem_cons, List.mem_singleton, List.not_mem_nil, or_false] at hl
        rcases hl with rfl | rfl | rfl <;> decide
      · simp only [List.mem_cons, List.mem_singleton, List.not_mem_nil, or_false] at hl
        rcases hl with rfl | rfl <;> decide)
  refine ⟨?_, h.1⟩
  decide

/-- C23. For logs as `logCalculationResult` writes them, where the class is the value of an
option of the class dropdown and the flight type the id of a radio, so that neither contains
a hyphen, every entry of the ranking whose airline record exists carries,
and shows as `Weight Limit: ... kg`, the limit that the airline record holds now for the class
and flight type of the entry, the value that `getWeightLimits` reads for them; the limit is
a function of the record and of the triple alone, so that any other collection of logs gives
an entry of the same triple the same limit. -/
theorem ranking_limit_is_current_limit (numToString : ℚ → String) (db : Db)
    (allUsers : List (List LogData))
    (hfree : ∀ logs ∈ allUsers, ∀ l ∈ logs, isCounted l = true →
      '-' ∉ (l.classType.getD "").toList ∧ '-' ∉ (l.flightType.getD "").toList) :
    (∀ v ∈ sortedViolations db allUsers, ∀ ad, db.airlines v.airline = some ad →
      v.weightLimit = weightLimit ad v.classType (decide (v.flightType = "domestic")) ∧
      (violationRowTexts numToString v).1 =
        "Weight Limit: " ++
          numToString (weightLimit ad v.classType (decide (v.flightType = "domestic"))) ++
          " kg") ∧
    (∀ otherUsers : List (List LogData),
      (∀ logs ∈ otherUsers, ∀ l ∈ logs, isCounted l = true →
        '-' ∉ (l.classType.getD "").toList ∧ '-' ∉ (l.flightType.getD "").toList) →
      ∀ v ∈ sortedViolations db allUsers, ∀ v' ∈ sortedViolations db otherUsers,
        violationTriple v = violationTriple v' →
        ∀ ad, db.airlines v.airline = some ad → v.weightLimit = v'.weightLimit) := by
  refine ⟨fun v hv ad hA => ?_, fun otherUsers hother v hv v' hv' ht ad hA => ?_⟩
  · have h := sortedViolations_limit db allUsers hfree v hv ad hA
    exact ⟨h, by rw [violationRowTexts, h]⟩
  · simp only [violationTriple, Prod.mk.injEq] at ht
    obtain ⟨ha, hc, hf⟩ := ht
    rw [sortedViolations_limit db allUsers hfree v hv ad hA,
      sortedViolations_limit db otherUsers hother v' hv' ad (by rw [← ha]; exact hA), hc, hf]

/-- C23 at a concrete input: the logs hold violations of the domestic economy limit of `thy`
with 30 kg and 25 kg; the only entry of the ranking shows the limit 23 of the airline record. -/
theorem ranking_limit_is_current_limit_witness :
    (sortedViolations sampleDb
      [[violationLog "thy" "economy" "domestic" 30],
       [violationLog "thy" "economy" "domestic" 25]]).map (fun v => v.weightLimit) = [23] := by
  have ht : (sortedViolations sampleDb
      [[violationLog "thy" "economy" "domestic" 30],
       [violationLog "thy" "economy" "domestic" 25]]).map violationTriple =
      [("thy", "economy", "domestic")] := by decide
  have h := (ranking_limit_is_current_limit sampleNumToString sampleDb
    [[violationLog "thy" "economy" "domestic" 30],
     [violationLog "thy" "economy" "domestic" 25]]
    (by
      intro logs hlogs l hl _
      simp only [List.mem_cons, List.mem_singleton, List.not_mem_nil, or_false] at hlogs
      rcases hlogs with rfl | rfl
      · simp only [List.mem_singleton] at hl
        subst hl
        decide
      · simp only [List.mem_singleton] at hl
        subst hl
        decide)).1
  cases hl : sortedViolations sampleDb
      [[violationLog "thy" "economy" "domestic" 30],
       [violationLog "thy" "economy" "domestic" 25]] with
  | nil =>
    rw [hl] at ht
    simp at ht
  | cons v rest =>
    rw [hl] at ht h
    simp only [List.map_cons, List.cons.injEq, List.map_eq_nil_iff] at ht
    obtain ⟨hv, hrest⟩ := ht
    simp only [violationTriple, Prod.mk.injEq] at hv
    have hlimit := (h v (List.mem_cons_self _ _) _ rfl).1
    rw [hrest, List.map_cons, List.map_nil, hlimit, hv.2.1, hv.2.2]
    have hk : "Dom" ++ "EconomyLimit" = "DomEconomyLimit" := by decide
    simp [weightLimit, flightTypePrefix, orZero, hk]

/-- C26, as stated, fails: with the airline `thy` selected, which flies domestic routes, and
the origin `us`, a country on the piece system, selected while no destination is chosen yet,
`updateFlightTypeOptions` leaves the domestic radio enabled, and a click on it makes the
selected flight type `domestic`; and with no airline selected, `updateFlightTypeOptions`
enables the domestic radio although both selected countries are on the piece system, and a
click on it makes the selected flight type `domestic`. -/
theorem domestic_selected_with_piece_country :
    (runEvents formDb [.selectAirline "thy", .selectOrigin "us", .clickRadio .domestic]
      (initialForm ["tr", "us"] ["tr", "us"])).selectedFlightType = some "domestic" ∧
    (runEvents formDb [.selectAirline "thy", .selectOrigin "us", .clickRadio .domestic]
      (initialForm ["tr", "us"] ["tr", "us"])).originValue = some "us" ∧
    (∃ data, formDb.countries "us" = some data ∧ boolFalsy data.WeightSystem = true) ∧
    (updateFlightTypeOptions formDb
      { initialForm ["tr", "us"] ["tr", "us"] with
        originValue := some "us", destinationValue := some "us",
        domesticDisabled := true }).domesticDisabled = false ∧
    (runEvents formDb [.selectOrigin "us", .selectDestination "us", .clickRadio .domestic]
      (initialForm ["tr", "us"] ["tr", "us"])).selectedFlightType = some "domestic" ∧
    (runEvents formDb [.selectOrigin "us", .selectDestination "us", .clickRadio .domestic]
      (initialForm ["tr", "us"] ["tr", "us"])).destinationValue = some "us" := by
  refine ⟨by decide, by decide, ⟨_, rfl, rfl⟩, by decide, by decide, by decide⟩

/-- C26, amended. Both country menus hold the same items, and the automatic assignment of the
home country of an airline that is selected puts no country on the piece system into a
dropdown. Then in every state that the form reaches from its initial state through selections
in the airline, origin and destination dropdowns and clicks on the flight-type radios,
handlers run one after the other: if an airline with a record and two countries with records
are selected and one of the countries is on the piece system, the domestic radio is disabled
and the selected flight type is not `domestic`. For any state with both radios present and
such a selection, `updateFlightTypeOptions` disables the domestic radio, unchecks both radios
and resets the selected flight type, and a click on the domestic radio then changes
nothing. -/
theorem piece_system_disables_domestic (db : Db) (originMenu destinationMenu : List String)
    (events : List FormEvent)
    (hmenus : ∀ item, item ∈ originMenu ↔ item ∈ destinationMenu)
    (hhome : ∀ value, FormEvent.selectAirline value ∈ events →
      ∀ airlineData, db.airlines value = some airlineData →
      ∀ country, orNull airlineData.DomCountry = some country → country ≠ "none" →
        assignsWeightSystem db originMenu country) :
    (pieceSystemActive db (runEvents db events (initialForm originMenu destinationMenu)) →
      (runEvents db events (initialForm originMenu destinationMenu)).domesticDisabled = true ∧
      (runEvents db events (initialForm originMenu destinationMenu)).selectedFlightType ≠
        some "domestic") ∧
    (∀ s : FlightForm, s.radiosPresent = true → pieceSystemActive db s →
      (updateFlightTypeOptions db s).domesticDisabled = true ∧
      (updateFlightTypeOptions db s).domesticChecked = false ∧
      (updateFlightTypeOptions db s).internationalChecked = false ∧
      (updateFlightTypeOptions db s).selectedFlightType = none ∧
      (updateFlightTypeOptions db s).selectedFlightType ≠ some "domestic" ∧
      clickFlightTypeRadio .domestic (updateFlightTypeOptions db s) =
        updateFlightTypeOptions db s) := by
  refine ⟨?_, fun s hr hactive => ?_⟩
  · refine (runEvents_formInvariant db originMenu destinationMenu hmenus events _ hhome
      ⟨rfl, rfl, rfl, ?_, ?_⟩).2.2.2.2
    · intro country hc
      simp [initialForm] at hc
    · rintro ⟨a, ad, o, d, od, dd, ha, -⟩
      simp [initialForm] at ha
  · obtain ⟨h₁, -, h₃, h₄, h₅⟩ := updateFlightTypeOptions_active db s hr hactive
    refine ⟨h₁, h₃, h₄, h₅, by rw [h₅]; simp, ?_⟩
    have hr' := (updateFlightTypeOptions_fields db s).2.2.2.1
    rw [hr] at hr'
    simp [clickFlightTypeRadio, hr', h₁]

/-- C26, amended, at a concrete input: the airline `thy` with the home country `tr`, on the
weight system, is selected; a click on the domestic radio assigns `tr` to both dropdowns and
a second click releases them; then the origin `us`, on the piece system, and the destination
`tr` are selected; the domestic radio ends disabled and the selected flight type is not
`domestic`. -/
theorem piece_system_disables_domestic_witness :
    (∀ item, item ∈ ["tr", "us"] ↔ item ∈ ["tr", "us"]) ∧
    assignsWeightSystem (homeDb "tr") ["tr", "us"] "tr" ∧
    (runEvents (homeDb "tr") [.selectAirline "thy", .clickRadio .domestic]
      (initialForm ["tr", "us"] ["tr", "us"])).originValue = some "tr" ∧
    (runEvents (homeDb "tr") [.selectAirline "thy", .clickRadio .domestic]
      (initialForm ["tr", "us"] ["tr", "us"])).destinationValue = some "tr" ∧
    (runEvents (homeDb "tr") [.selectAirline "thy", .clickRadio .domestic]
      (initialForm ["tr", "us"] ["tr", "us"])).selectedFlightType = some "domestic" ∧
    (runEvents (homeDb "tr")
      [.selectAirline "thy", .clickRadio .domestic, .clickRadio .domestic, .selectOrigin "us",
        .selectDestination "tr"]
      (initialForm ["tr", "us"] ["tr", "us"])).domesticDisabled = true ∧
    (runEvents (homeDb "tr")
      [.selectAirline "thy", .clickRadio .domestic, .clickRadio .domestic, .selectOrigin "us",
        .selectDestination "tr"]
      (initialForm ["tr", "us"] ["tr", "us"])).selectedFlightType ≠ some "domestic" := by
  have hsafe : assignsWeightSystem (homeDb "tr") ["tr", "us"] "tr" := by
    intro item hitem hid data hdata
    simp only [List.mem_cons, List.mem_singleton, List.not_mem_nil, or_false] at hitem
    rcases hitem with rfl | rfl
    · simp only [homeDb] at hdata
      rw [if_neg (by decide)] at hdata
      rw [← Option.some.inj hdata]
    · have hnot : "us" ∉ ["tr", "tr".toLower, "tr".toUpper, "tr".toLower.capitalize] := by
        simp only [String.toLower, String.toUpper, String.map_eq]
        decide
      exact absurd hid hnot
  have h := (piece_system_disables_domestic (homeDb "tr") ["tr", "us"] ["tr", "us"]
    [.selectAirline "thy", .clickRadio .domestic, .clickRadio .domestic, .selectOrigin "us",
      .selectDestination "tr"]
    (fun _ => Iff.rfl)
    (by
      intro value hvalue airlineData hA country hc _
      simp only [List.mem_cons, FormEvent.selectAirline.injEq, List.mem_singleton,
        List.not_mem_nil, or_false, reduceCtorEq, false_or] at hvalue
      subst hvalue
      simp only [homeDb, if_true, Option.some.injEq] at hA
      rw [← hA] at hc
      have hcountry : country = "tr" := by
        simp only [orNull] at hc
        rw [if_neg (by decide)] at hc
        exact (Option.some.inj hc).symm
      rw [hcountry]
      exact hsafe)).1
    ⟨"thy", _, "us", "tr", _, _, by decide, by decide, rfl, by decide, by decide, rfl,
      by decide, by decide, rfl, rfl⟩
  exact ⟨fun _ => Iff.rfl, hsafe, by decide, by decide, by decide, h.1, h.2⟩

end Luggage
